import Mathlib

/-!
# WEAVER++/ARC simulations of primary progressive aphasia

A shallow embedding of the three simulation programs

* `wpparc PPA 1 - group studies Large animals.c`   (namespace `Roelofs.GroupStudies`),
* `wpparc PPA 2 - clusters log Leyton.c`           (namespace `Roelofs.Clusters`),
* `wpparc PPA 5c - individual cases log Janssen.c` (namespace `Roelofs.Cases`),

followed by theorems about them.

Modelling conventions.

* A C `double` is an exact rational number (`ℚ`): the development is about the
  arithmetic the programs denote, not about IEEE rounding.  Division is the
  division of `ℚ`; a division by zero, which yields an infinity or a NaN in C, is
  outside what these definitions describe.  The one division of the programs by
  a computed value, the quotient by the control contrast in the fit stage, is
  therefore embedded a second time on the values of a C double (`Dbl`,
  `fit_body_double`, `fit_loop_double`, `best_fit_scan_double`), with the
  infinities and the NaN of C.
* A C array of doubles is a `List ℚ`, read with `rd` (an entry that the list does
  not hold reads as `0.0`, the initial value of a C global).  Every loop
  `for (i = 0; i < n; i++) a[i] = ...` produces the `n` entries `0 .. n-1`.
* The global variables of the programs are passed explicitly: the scaled
  connection matrices (`Conn`), the lesion switches and severity grids
  (`Settings`), the lesion factors (`Lesion`), the activations and input buffers
  (`Net`), the loop variables (`group`, `task`, `lesion_value`, `T`, `step`) and
  the recorded series (`Recorded`).
-/

namespace Roelofs

/-! ## Arrays -/

/-- Read `a[i]` of a C array of doubles. -/
def rd (a : List ℚ) (i : Nat) : ℚ := a.getD i 0

/-- Read `m[j][i]` of a C matrix of doubles. -/
def rd2 (m : List (List ℚ)) (j i : Nat) : ℚ := rd (m.getD j []) i

/-- The array written by `for (i = 0; i < n; i++) a[i] = f i;`. -/
def tabulate (n : Nat) (f : Nat → ℚ) : List ℚ := (List.range n).map f

/-- The array after `a[k] += v;` for an array `a` of `n` entries. -/
def add_at (n : Nat) (a : List ℚ) (k : Nat) (v : ℚ) : List ℚ :=
  tabulate n fun i => if i = k then rd a i + v else rd a i

/-- The array after the double loop
`for (i = 0; i < n; i++) for (j = 0; j < m; j++) inp[i] += term i j;`:
entry `i` starts from `inp[i]` and receives the terms `j = 0, 1, ..., m-1` in this order. -/
def accumulate (n m : Nat) (inp : List ℚ) (term : Nat → Nat → ℚ) : List ℚ :=
  tabulate n fun i => (List.range m).foldl (fun acc j => acc + term i j) (rd inp i)

/-- The matrix after `for (i < n) for (j < m) con[i][j] *= rate;`. -/
def scale (n m : Nat) (con : List (List ℚ)) (rate : ℚ) : List (List ℚ) :=
  (List.range n).map fun i => tabulate m fun j => rd2 con i j * rate

/-- A four-dimensional array `A[lesion_value][step][group][task]` of doubles. -/
abbrev Arr4 := Nat → Nat → Nat → Nat → ℚ

/-- A three-dimensional array `A[lesion_value][group][task]` of doubles. -/
abbrev Arr3 := Nat → Nat → Nat → ℚ

/-- The array after `A[a][b][c][d] = v;`. -/
def Arr4.set (A : Arr4) (a b c d : Nat) (v : ℚ) : Arr4 :=
  fun a1 b1 c1 d1 => if a1 = a ∧ b1 = b ∧ c1 = c ∧ d1 = d then v else A a1 b1 c1 d1

/-! ## Constants shared by the three programs -/

/-- Duration of a time step in ms (`#define STEP_SIZE 25`). -/
def STEP_SIZE : Nat := 25
/-- Number of time steps, 2000 ms in total (`#define N_STEPs 80`). -/
def N_STEPs : Nat := 80
/-- Number of severity values (`#define N_lesion_values 100`). -/
def N_lesion_values : Nat := 100

/-- Index of the control group (of the control in the single-case program). -/
def NORMAL : Nat := 0

/-- Number of tasks. -/
def N_TASKs : Nat := 3
/-- Picture naming. -/
def NAMING : Nat := 0
/-- Word comprehension. -/
def COMPREHENSION : Nat := 1
/-- Word repetition. -/
def REPETITION : Nat := 2

/-- The global `CYCLE_TIME`, ms per link. -/
def CYCLE_TIME : Int := 25
/-- The global `LEM_rate = 0.0074 * STEP_SIZE`. -/
def LEM_rate : ℚ := 0.0074 * 25
/-- The global `LEX_rate = 0.0120 * STEP_SIZE`. -/
def LEX_rate : ℚ := 0.0120 * 25
/-- The global `DECAY_rate = 0.0240 * STEP_SIZE`. -/
def DECAY_rate : ℚ := 0.0240 * 25
/-- The global `EXTIN = 0.1965 * STEP_SIZE`, the external input per step. -/
def EXTIN : ℚ := 0.1965 * 25
/-- The global `LEMLEXFRAC`, fraction of `LEX_rate` spread between lemmas and output morphemes. -/
def LEMLEXFRAC : ℚ := 0.3
/-- The global `FR`, fraction of connection weight for input phoneme to input morpheme. -/
def FR : ℚ := 0.10
/-- The global `SEGMENT_DURATION` in ms. -/
def SEGMENT_DURATION : Int := 125
/-- The global `PICTURE_DURATION` in ms. -/
def PICTURE_DURATION : Int := 125

/-! ## Global state -/

/-- The nine connection matrices `CC_con`, ..., `iML_con`. -/
structure Conn where
  CC_con : List (List ℚ)
  CL_con : List (List ℚ)
  LM_con : List (List ℚ)
  MP_con : List (List ℚ)
  PS_con : List (List ℚ)
  PP_con : List (List ℚ)
  PiM_con : List (List ℚ)
  iMM_con : List (List ℚ)
  iML_con : List (List ℚ)
deriving DecidableEq

/-- The lesion switches `WEIGHT_LESION`, `DECAY_LESION` (C ints used as truth values)
and the severity grids `WEIGHT_value`, `DECAY_value`. -/
structure Settings where
  WEIGHT_LESION : Bool
  DECAY_LESION : Bool
  WEIGHT_value : List ℚ
  DECAY_value : List ℚ
deriving DecidableEq

/-- The node activations `C_node_act`, ..., `iP_node_act` and the input buffers
`input_C`, ..., `input_S`. -/
structure Net where
  C_node_act : List ℚ
  L_node_act : List ℚ
  M_node_act : List ℚ
  oP_node_act : List ℚ
  S_node_act : List ℚ
  iM_node_act : List ℚ
  iP_node_act : List ℚ
  input_C : List ℚ
  input_L : List ℚ
  input_M : List ℚ
  input_iM : List ℚ
  input_iP : List ℚ
  input_oP : List ℚ
  input_S : List ℚ
deriving DecidableEq

/-- The recorded series `ACT_C`, `ACT_S`, `ACT_CT`, `ACT_CR`, `ACT_LT`, `ACT_LR`, `ACT_ST`,
`ACT_SR`, each indexed `[lesion_value][step][group][task]` (the third index is the
assessment in the single-case program). -/
structure Recorded where
  ACT_C : Arr4
  ACT_S : Arr4
  ACT_CT : Arr4
  ACT_CR : Arr4
  ACT_LT : Arr4
  ACT_LR : Arr4
  ACT_ST : Arr4
  ACT_SR : Arr4

/-- The means `MEAN_ACT_C`, ..., `MEAN_ACT_SR`, each indexed `[lesion_value][group][task]`. -/
structure Means where
  MEAN_ACT_C : Arr3
  MEAN_ACT_S : Arr3
  MEAN_ACT_CT : Arr3
  MEAN_ACT_CR : Arr3
  MEAN_ACT_LT : Arr3
  MEAN_ACT_LR : Arr3
  MEAN_ACT_ST : Arr3
  MEAN_ACT_SR : Arr3

/-- The global variables a simulation cell writes: activations and input buffers, the
lesion factors (of type `L`, one record per program), the clock `T`, the step counter
`step`, and the recorded series. -/
structure Machine (L : Type) where
  net : Net
  les : L
  T : Int
  step : Nat
  acts : Recorded

/-! ## The group-studies program (12 concepts, 22 phonemes, 28 syllables) -/

namespace GroupStudies

/-- Number of concept nodes. -/
def N_CONCEPTs : Nat := 12
/-- Number of lemma nodes. -/
def N_LEMMAs : Nat := 12
/-- Number of morpheme nodes (output and input). -/
def N_MORPHEMEs : Nat := 12
/-- Number of phoneme nodes (output and input). -/
def N_PHONEMEs : Nat := 22
/-- Number of syllable program nodes. -/
def N_SYLLABLEs : Nat := 28

/-- Number of groups: Normal, Nonfluent_agrammatic, Semantic_dementia, Logopenic. -/
def N_GROUPs : Nat := 4
/-- Group index of the nonfluent/agrammatic variant. -/
def NONFLUENT_AGRAMMATIC : Nat := 1
/-- Group index of the semantic variant. -/
def SEMANTIC_DEMENTIA : Nat := 2
/-- Group index of the logopenic variant. -/
def LOGOPENIC : Nat := 3

/-- Number of assessments (reference data sets). -/
def N_ASSESSMENTs : Nat := 6

/-- Target concept, lemma and morpheme (`#define CAT 7`). -/
def CAT : Nat := 7
/-- Semantic relative (`#define DOG 8`). -/
def DOG : Nat := 8
/-- First segment of the spoken word. -/
def pK : Nat := 5
/-- Second segment of the spoken word. -/
def pA : Nat := 15
/-- Third segment of the spoken word. -/
def pT : Nat := 14
/-- Target syllable. -/
def sKAT : Nat := 11
/-- Syllabic relative. -/
def sMAT : Nat := 14

/-- The global `SEM_rate = 0.2 * 0.0101 * STEP_SIZE` (adjusted for the larger network). -/
def SEM_rate : ℚ := 0.2 * 0.0101 * 25

/-- The aphasia parameters of the group-studies program. -/
structure Lesion where
  CONNECTION_DECREASE_NONFLUENT_AGRAMMATIC : ℚ
  CONNECTION_DECREASE_SEMANTIC_DEMENTIA : ℚ
  CONNECTION_DECREASE_LOGOPENIC : ℚ
  DECAY_INCREASE_NONFLUENT_AGRAMMATIC : ℚ
  DECAY_INCREASE_SEMANTIC_DEMENTIA : ℚ
  DECAY_INCREASE_LOGOPENIC : ℚ
deriving DecidableEq

/-- The function `reset_network`: all activations become `0.0`; the input buffers are untouched. -/
def reset_network (st : Net) : Net :=
  { st with
    C_node_act := tabulate N_CONCEPTs fun _ => 0
    L_node_act := tabulate N_LEMMAs fun _ => 0
    M_node_act := tabulate N_MORPHEMEs fun _ => 0
    iM_node_act := tabulate N_MORPHEMEs fun _ => 0
    iP_node_act := tabulate N_PHONEMEs fun _ => 0
    oP_node_act := tabulate N_PHONEMEs fun _ => 0
    S_node_act := tabulate N_SYLLABLEs fun _ => 0 }

/-- The function `set_aphasic_parameters`, reading the globals `group` and `lesion_value`. -/
def set_aphasic_parameters (cfg : Settings) (group lesion_value : Nat) : Lesion :=
  let WEIGHT_FACTOR : ℚ := if cfg.WEIGHT_LESION then rd cfg.WEIGHT_value lesion_value else 1
  let DECAY_FACTOR : ℚ := if cfg.DECAY_LESION then rd cfg.DECAY_value lesion_value else 1
  { CONNECTION_DECREASE_NONFLUENT_AGRAMMATIC :=
      if group = NONFLUENT_AGRAMMATIC then WEIGHT_FACTOR else 1
    CONNECTION_DECREASE_SEMANTIC_DEMENTIA :=
      if group = SEMANTIC_DEMENTIA then WEIGHT_FACTOR else 1
    CONNECTION_DECREASE_LOGOPENIC :=
      if group = LOGOPENIC then WEIGHT_FACTOR else 1
    DECAY_INCREASE_NONFLUENT_AGRAMMATIC :=
      if group = NONFLUENT_AGRAMMATIC then DECAY_FACTOR else 1
    DECAY_INCREASE_SEMANTIC_DEMENTIA :=
      if group = SEMANTIC_DEMENTIA then DECAY_FACTOR else 1
    DECAY_INCREASE_LOGOPENIC :=
      if group = LOGOPENIC then DECAY_FACTOR else 1 }

/-- The function `set_input_to_zero`. -/
def set_input_to_zero (st : Net) : Net :=
  { st with
    input_C := tabulate N_CONCEPTs fun _ => 0
    input_L := tabulate N_LEMMAs fun _ => 0
    input_M := tabulate N_MORPHEMEs fun _ => 0
    input_iM := tabulate N_MORPHEMEs fun _ => 0
    input_iP := tabulate N_PHONEMEs fun _ => 0
    input_oP := tabulate N_PHONEMEs fun _ => 0
    input_S := tabulate N_SYLLABLEs fun _ => 0 }

/-- The function `get_external_input`, reading the globals `task` and `T`.  In this program
the picture input is multiplied by `CONNECTION_DECREASE_SEMANTIC_DEMENTIA`. -/
def get_external_input (les : Lesion) (task : Nat) (T : Int) (st : Net) : Net :=
  let st1 : Net :=
    if task = NAMING then
      let c1 := if T ≥ 0 ∧ T < PICTURE_DURATION then
          add_at N_CONCEPTs st.input_C CAT (les.CONNECTION_DECREASE_SEMANTIC_DEMENTIA * EXTIN)
        else st.input_C
      let c2 := if T ≥ 0 + 1 * CYCLE_TIME ∧ T < 1 * CYCLE_TIME + PICTURE_DURATION then
          add_at N_CONCEPTs c1 CAT EXTIN
        else c1
      { st with input_C := c2 }
    else st
  if task = COMPREHENSION ∨ task = REPETITION then
    let p1 := if 0 ≤ T ∧ T < SEGMENT_DURATION then
        add_at N_PHONEMEs st1.input_iP pK EXTIN
      else st1.input_iP
    let p2 := if SEGMENT_DURATION ≤ T ∧ T < 2 * SEGMENT_DURATION then
        add_at N_PHONEMEs p1 pA EXTIN
      else p1
    let p3 := if 2 * SEGMENT_DURATION ≤ T ∧ T < 3 * SEGMENT_DURATION then
        add_at N_PHONEMEs p2 pT EXTIN
      else p2
    { st1 with input_iP := p3 }
  else st1

/-- The function `get_internal_input`: nine double loops over destination `i` and source `j`,
in the order of the source text.  The matrices are indexed `[j][i]` as in the source. -/
def get_internal_input (con : Conn) (les : Lesion) (st : Net) : Net :=
  let cC := accumulate N_CONCEPTs N_CONCEPTs st.input_C fun i j =>
    rd st.C_node_act j * (rd2 con.CC_con j i * les.CONNECTION_DECREASE_SEMANTIC_DEMENTIA)
  let cC := accumulate N_CONCEPTs N_LEMMAs cC fun i j =>
    rd st.L_node_act j * rd2 con.CL_con j i * les.CONNECTION_DECREASE_SEMANTIC_DEMENTIA
  let cL := accumulate N_LEMMAs N_CONCEPTs st.input_L fun i j =>
    rd st.C_node_act j * rd2 con.CL_con j i * les.CONNECTION_DECREASE_SEMANTIC_DEMENTIA
  let cL := accumulate N_LEMMAs N_MORPHEMEs cL fun i j =>
    rd st.iM_node_act j * rd2 con.iML_con j i
  let cM := accumulate N_MORPHEMEs N_LEMMAs st.input_M fun i j =>
    rd st.L_node_act j * LEMLEXFRAC * rd2 con.LM_con j i * les.CONNECTION_DECREASE_LOGOPENIC
  let cM := accumulate N_MORPHEMEs N_MORPHEMEs cM fun i j =>
    rd st.iM_node_act j * rd2 con.iMM_con j i * les.CONNECTION_DECREASE_LOGOPENIC
  let coP := accumulate N_PHONEMEs N_MORPHEMEs st.input_oP fun i j =>
    rd st.M_node_act j * rd2 con.MP_con j i
      * les.CONNECTION_DECREASE_NONFLUENT_AGRAMMATIC * les.CONNECTION_DECREASE_LOGOPENIC
  let coP := accumulate N_PHONEMEs N_PHONEMEs coP fun i j =>
    rd st.iP_node_act j * rd2 con.PP_con j i
      * les.CONNECTION_DECREASE_NONFLUENT_AGRAMMATIC * les.CONNECTION_DECREASE_LOGOPENIC
  let cS := accumulate N_SYLLABLEs N_PHONEMEs st.input_S fun i j =>
    rd st.oP_node_act j * rd2 con.PS_con j i * les.CONNECTION_DECREASE_NONFLUENT_AGRAMMATIC
  let ciP := accumulate N_PHONEMEs N_PHONEMEs st.input_iP fun i j =>
    rd st.oP_node_act j * rd2 con.PP_con j i
      * les.CONNECTION_DECREASE_NONFLUENT_AGRAMMATIC * les.CONNECTION_DECREASE_LOGOPENIC
  let ciM := accumulate N_MORPHEMEs N_PHONEMEs st.input_iM fun i j =>
    rd st.iP_node_act j * rd2 con.PiM_con j i
  { st with
    input_C := cC, input_L := cL, input_M := cM, input_oP := coP,
    input_S := cS, input_iP := ciP, input_iM := ciM }

/-- The function `update_activation_of_nodes`. -/
def update_activation_of_nodes (les : Lesion) (st : Net) : Net :=
  { st with
    C_node_act := tabulate N_CONCEPTs fun i =>
      (rd st.C_node_act i * (1 - (DECAY_rate * les.DECAY_INCREASE_SEMANTIC_DEMENTIA)))
        + rd st.input_C i
    L_node_act := tabulate N_LEMMAs fun i =>
      (rd st.L_node_act i * (1 - DECAY_rate)) + rd st.input_L i
    M_node_act := tabulate N_MORPHEMEs fun i =>
      (rd st.M_node_act i * (1 - (DECAY_rate * les.DECAY_INCREASE_LOGOPENIC)))
        + rd st.input_M i
    oP_node_act := tabulate N_PHONEMEs fun i =>
      (rd st.oP_node_act i * (1 - (DECAY_rate * les.DECAY_INCREASE_NONFLUENT_AGRAMMATIC)))
        + rd st.input_oP i
    iP_node_act := tabulate N_PHONEMEs fun i =>
      (rd st.iP_node_act i * (1 - DECAY_rate)) + rd st.input_iP i
    iM_node_act := tabulate N_MORPHEMEs fun i =>
      (rd st.iM_node_act i * (1 - DECAY_rate)) + rd st.input_iM i
    S_node_act := tabulate N_SYLLABLEs fun i =>
      (rd st.S_node_act i * (1 - DECAY_rate)) + rd st.input_S i }

/-- The function `update_network`. -/
def update_network (con : Conn) (les : Lesion) (task : Nat) (T : Int) (st : Net) : Net :=
  update_activation_of_nodes les
    (get_internal_input con les (get_external_input les task T (set_input_to_zero st)))

/-- The function `determine_activation_critical_nodes`, reading the globals `lesion_value`,
`step`, `group` and `task`. -/
def determine_activation_critical_nodes (lesion_value step group task : Nat) (st : Net)
    (r : Recorded) : Recorded :=
  { ACT_C := r.ACT_C.set lesion_value step group task (rd st.C_node_act CAT)
    ACT_S := r.ACT_S.set lesion_value step group task (rd st.S_node_act CAT)
    ACT_CT := r.ACT_CT.set lesion_value step group task (rd st.C_node_act CAT)
    ACT_CR := r.ACT_CR.set lesion_value step group task (rd st.C_node_act DOG)
    ACT_LT := r.ACT_LT.set lesion_value step group task (rd st.L_node_act CAT)
    ACT_LR := r.ACT_LR.set lesion_value step group task (rd st.L_node_act DOG)
    ACT_ST := r.ACT_ST.set lesion_value step group task (rd st.S_node_act sKAT)
    ACT_SR := r.ACT_SR.set lesion_value step group task (rd st.S_node_act sMAT) }

end GroupStudies

/-! ## The two programs on the five-word network

The cluster program and the single-case program declare the same network sizes and node
labels, and the text of `reset_network`, `set_input_to_zero`, `get_external_input` and
`determine_activation_critical_nodes` is the same in both (up to white space); these are
embedded once, in `Roelofs.FiveWord`. -/

namespace FiveWord

/-- Number of concept nodes. -/
def N_CONCEPTs : Nat := 5
/-- Number of lemma nodes. -/
def N_LEMMAs : Nat := 5
/-- Number of morpheme nodes (output and input). -/
def N_MORPHEMEs : Nat := 5
/-- Number of phoneme nodes (output and input). -/
def N_PHONEMEs : Nat := 10
/-- Number of syllable program nodes. -/
def N_SYLLABLEs : Nat := 5

/-- Target word (`#define CAT 0`). -/
def CAT : Nat := 0
/-- Semantic relative (`#define DOG 1`). -/
def DOG : Nat := 1
/-- Phonological relative (`#define MAT 2`). -/
def MAT : Nat := 2
/-- First segment of the spoken word. -/
def pK : Nat := 0
/-- Second segment of the spoken word. -/
def pE : Nat := 1
/-- Third segment of the spoken word. -/
def pT : Nat := 2

/-- The global `SEM_rate = 0.0101 * STEP_SIZE`. -/
def SEM_rate : ℚ := 0.0101 * 25

/-- The function `reset_network`: all activations become `0.0`; the input buffers are untouched. -/
def reset_network (st : Net) : Net :=
  { st with
    C_node_act := tabulate N_CONCEPTs fun _ => 0
    L_node_act := tabulate N_LEMMAs fun _ => 0
    M_node_act := tabulate N_MORPHEMEs fun _ => 0
    iM_node_act := tabulate N_MORPHEMEs fun _ => 0
    iP_node_act := tabulate N_PHONEMEs fun _ => 0
    oP_node_act := tabulate N_PHONEMEs fun _ => 0
    S_node_act := tabulate N_SYLLABLEs fun _ => 0 }

/-- The function `set_input_to_zero`. -/
def set_input_to_zero (st : Net) : Net :=
  { st with
    input_C := tabulate N_CONCEPTs fun _ => 0
    input_L := tabulate N_LEMMAs fun _ => 0
    input_M := tabulate N_MORPHEMEs fun _ => 0
    input_iM := tabulate N_MORPHEMEs fun _ => 0
    input_iP := tabulate N_PHONEMEs fun _ => 0
    input_oP := tabulate N_PHONEMEs fun _ => 0
    input_S := tabulate N_SYLLABLEs fun _ => 0 }

/-- The function `get_external_input`, reading the globals `task` and `T`. -/
def get_external_input (task : Nat) (T : Int) (st : Net) : Net :=
  let st1 : Net :=
    if task = NAMING then
      let c1 := if T ≥ 0 ∧ T < PICTURE_DURATION then
          add_at N_CONCEPTs st.input_C CAT EXTIN
        else st.input_C
      let c2 := if T ≥ 0 + 1 * CYCLE_TIME ∧ T < 1 * CYCLE_TIME + PICTURE_DURATION then
          add_at N_CONCEPTs c1 CAT EXTIN
        else c1
      { st with input_C := c2 }
    else st
  if task = COMPREHENSION ∨ task = REPETITION then
    let p1 := if 0 ≤ T ∧ T < SEGMENT_DURATION then
        add_at N_PHONEMEs st1.input_iP pK EXTIN
      else st1.input_iP
    let p2 := if SEGMENT_DURATION ≤ T ∧ T < 2 * SEGMENT_DURATION then
        add_at N_PHONEMEs p1 pE EXTIN
      else p1
    let p3 := if 2 * SEGMENT_DURATION ≤ T ∧ T < 3 * SEGMENT_DURATION then
        add_at N_PHONEMEs p2 pT EXTIN
      else p2
    { st1 with input_iP := p3 }
  else st1

/-- The function `determine_activation_critical_nodes`, reading the globals `lesion_value`,
`step`, `group` (`assessment` in the single-case program) and `task`. -/
def determine_activation_critical_nodes (lesion_value step group task : Nat) (st : Net)
    (r : Recorded) : Recorded :=
  { ACT_C := r.ACT_C.set lesion_value step group task (rd st.C_node_act CAT)
    ACT_S := r.ACT_S.set lesion_value step group task (rd st.S_node_act CAT)
    ACT_CT := r.ACT_CT.set lesion_value step group task (rd st.C_node_act CAT)
    ACT_CR := r.ACT_CR.set lesion_value step group task (rd st.C_node_act DOG)
    ACT_LT := r.ACT_LT.set lesion_value step group task (rd st.L_node_act CAT)
    ACT_LR := r.ACT_LR.set lesion_value step group task (rd st.L_node_act DOG)
    ACT_ST := r.ACT_ST.set lesion_value step group task (rd st.S_node_act CAT)
    ACT_SR := r.ACT_SR.set lesion_value step group task (rd st.S_node_act MAT) }

end FiveWord

/-! ## The cluster program -/

namespace Clusters

open FiveWord

/-- Number of groups: Normal, logopenic clusters 1 to 3. -/
def N_GROUPs : Nat := 4
/-- Group index of cluster 1. -/
def CLUSTER_1 : Nat := 1
/-- Group index of cluster 2. -/
def CLUSTER_2 : Nat := 2
/-- Group index of cluster 3. -/
def CLUSTER_3 : Nat := 3

/-- Number of assessments (reference data sets). -/
def N_ASSESSMENTs : Nat := 1

/-- The aphasia parameters of the cluster program. -/
structure Lesion where
  CONNECTION_DECREASE_CLUSTER_1 : ℚ
  CONNECTION_DECREASE_CLUSTER_2 : ℚ
  CONNECTION_DECREASE_CLUSTER_3 : ℚ
  DECAY_INCREASE_CLUSTER_1 : ℚ
  DECAY_INCREASE_CLUSTER_2 : ℚ
  DECAY_INCREASE_CLUSTER_3 : ℚ
deriving DecidableEq

/-- The function `set_aphasic_parameters`, reading the globals `group` and `lesion_value`. -/
def set_aphasic_parameters (cfg : Settings) (group lesion_value : Nat) : Lesion :=
  let WEIGHT_FACTOR : ℚ := if cfg.WEIGHT_LESION then rd cfg.WEIGHT_value lesion_value else 1
  let DECAY_FACTOR : ℚ := if cfg.DECAY_LESION then rd cfg.DECAY_value lesion_value else 1
  { CONNECTION_DECREASE_CLUSTER_1 := if group = CLUSTER_1 then WEIGHT_FACTOR else 1
    CONNECTION_DECREASE_CLUSTER_2 := if group = CLUSTER_2 then WEIGHT_FACTOR else 1
    CONNECTION_DECREASE_CLUSTER_3 := if group = CLUSTER_3 then WEIGHT_FACTOR else 1
    DECAY_INCREASE_CLUSTER_1 := if group = CLUSTER_1 then DECAY_FACTOR else 1
    DECAY_INCREASE_CLUSTER_2 := if group = CLUSTER_2 then DECAY_FACTOR else 1
    DECAY_INCREASE_CLUSTER_3 := if group = CLUSTER_3 then DECAY_FACTOR else 1 }

/-- The function `get_internal_input`: nine double loops over destination `i` and source `j`,
in the order of the source text.  The matrices are indexed `[j][i]` as in the source. -/
def get_internal_input (con : Conn) (les : Lesion) (st : Net) : Net :=
  let cC := accumulate N_CONCEPTs N_CONCEPTs st.input_C fun i j =>
    rd st.C_node_act j * rd2 con.CC_con j i
  let cC := accumulate N_CONCEPTs N_LEMMAs cC fun i j =>
    rd st.L_node_act j * rd2 con.CL_con j i * les.CONNECTION_DECREASE_CLUSTER_2
  let cL := accumulate N_LEMMAs N_CONCEPTs st.input_L fun i j =>
    rd st.C_node_act j * rd2 con.CL_con j i * les.CONNECTION_DECREASE_CLUSTER_2
  let cL := accumulate N_LEMMAs N_MORPHEMEs cL fun i j =>
    rd st.iM_node_act j * rd2 con.iML_con j i
  let cM := accumulate N_MORPHEMEs N_LEMMAs st.input_M fun i j =>
    rd st.L_node_act j * LEMLEXFRAC * rd2 con.LM_con j i
      * les.CONNECTION_DECREASE_CLUSTER_1 * les.CONNECTION_DECREASE_CLUSTER_2
      * les.CONNECTION_DECREASE_CLUSTER_3
  let cM := accumulate N_MORPHEMEs N_MORPHEMEs cM fun i j =>
    rd st.iM_node_act j * rd2 con.iMM_con j i
      * les.CONNECTION_DECREASE_CLUSTER_1 * les.CONNECTION_DECREASE_CLUSTER_2
      * les.CONNECTION_DECREASE_CLUSTER_3
  let coP := accumulate N_PHONEMEs N_MORPHEMEs st.input_oP fun i j =>
    rd st.M_node_act j * rd2 con.MP_con j i
      * les.CONNECTION_DECREASE_CLUSTER_1 * les.CONNECTION_DECREASE_CLUSTER_2
      * les.CONNECTION_DECREASE_CLUSTER_3
  let coP := accumulate N_PHONEMEs N_PHONEMEs coP fun i j =>
    rd st.iP_node_act j * rd2 con.PP_con j i
      * les.CONNECTION_DECREASE_CLUSTER_1 * les.CONNECTION_DECREASE_CLUSTER_3
  let cS := accumulate N_SYLLABLEs N_PHONEMEs st.input_S fun i j =>
    rd st.oP_node_act j * rd2 con.PS_con j i
  let ciP := accumulate N_PHONEMEs N_PHONEMEs st.input_iP fun i j =>
    rd st.oP_node_act j * rd2 con.PP_con j i
      * les.CONNECTION_DECREASE_CLUSTER_1 * les.CONNECTION_DECREASE_CLUSTER_3
  let ciM := accumulate N_MORPHEMEs N_PHONEMEs st.input_iM fun i j =>
    rd st.iP_node_act j * rd2 con.PiM_con j i
  { st with
    input_C := cC, input_L := cL, input_M := cM, input_oP := coP,
    input_S := cS, input_iP := ciP, input_iM := ciM }

/-- The function `update_activation_of_nodes`. -/
def update_activation_of_nodes (les : Lesion) (st : Net) : Net :=
  { st with
    C_node_act := tabulate N_CONCEPTs fun i =>
      (rd st.C_node_act i * (1 - DECAY_rate)) + rd st.input_C i
    L_node_act := tabulate N_LEMMAs fun i =>
      (rd st.L_node_act i * (1 - (DECAY_rate * les.DECAY_INCREASE_CLUSTER_2)))
        + rd st.input_L i
    M_node_act := tabulate N_MORPHEMEs fun i =>
      (rd st.M_node_act i * (1 - (DECAY_rate * les.DECAY_INCREASE_CLUSTER_1
        * les.DECAY_INCREASE_CLUSTER_2 * les.DECAY_INCREASE_CLUSTER_3)))
        + rd st.input_M i
    oP_node_act := tabulate N_PHONEMEs fun i =>
      (rd st.oP_node_act i * (1 - (DECAY_rate * les.DECAY_INCREASE_CLUSTER_1
        * les.DECAY_INCREASE_CLUSTER_3)))
        + rd st.input_oP i
    iP_node_act := tabulate N_PHONEMEs fun i =>
      (rd st.iP_node_act i * (1 - DECAY_rate)) + rd st.input_iP i
    iM_node_act := tabulate N_MORPHEMEs fun i =>
      (rd st.iM_node_act i * (1 - DECAY_rate)) + rd st.input_iM i
    S_node_act := tabulate N_SYLLABLEs fun i =>
      (rd st.S_node_act i * (1 - DECAY_rate)) + rd st.input_S i }

/-- The function `update_network`. -/
def update_network (con : Conn) (les : Lesion) (task : Nat) (T : Int) (st : Net) : Net :=
  update_activation_of_nodes les
    (get_internal_input con les (get_external_input task T (set_input_to_zero st)))

end Clusters

/-! ## The single-case program -/

namespace Cases

open FiveWord

/-- Number of assessments: 20 patients, one control (index `NORMAL`). -/
def N_ASSESSMENTs : Nat := 21

/-- The aphasia parameters of the single-case program. -/
structure Lesion where
  CONNECTION_DECREASE_LOGOPENIC : ℚ
  DECAY_INCREASE_LOGOPENIC : ℚ
deriving DecidableEq

/-- The function `set_aphasic_parameters`, reading the globals `assessment` and
`lesion_value`. -/
def set_aphasic_parameters (cfg : Settings) (assessment lesion_value : Nat) : Lesion :=
  let WEIGHT_FACTOR : ℚ := if cfg.WEIGHT_LESION then rd cfg.WEIGHT_value lesion_value else 1
  let DECAY_FACTOR : ℚ := if cfg.DECAY_LESION then rd cfg.DECAY_value lesion_value else 1
  { CONNECTION_DECREASE_LOGOPENIC := if assessment = NORMAL then 1 else WEIGHT_FACTOR
    DECAY_INCREASE_LOGOPENIC := if assessment = NORMAL then 1 else DECAY_FACTOR }

/-- The function `get_internal_input`: nine double loops over destination `i` and source `j`,
in the order of the source text.  The matrices are indexed `[j][i]` as in the source. -/
def get_internal_input (con : Conn) (les : Lesion) (st : Net) : Net :=
  let cC := accumulate N_CONCEPTs N_CONCEPTs st.input_C fun i j =>
    rd st.C_node_act j * rd2 con.CC_con j i
  let cC := accumulate N_CONCEPTs N_LEMMAs cC fun i j =>
    rd st.L_node_act j * rd2 con.CL_con j i
  let cL := accumulate N_LEMMAs N_CONCEPTs st.input_L fun i j =>
    rd st.C_node_act j * rd2 con.CL_con j i
  let cL := accumulate N_LEMMAs N_MORPHEMEs cL fun i j =>
    rd st.iM_node_act j * rd2 con.iML_con j i
  let cM := accumulate N_MORPHEMEs N_LEMMAs st.input_M fun i j =>
    rd st.L_node_act j * LEMLEXFRAC * rd2 con.LM_con j i * les.CONNECTION_DECREASE_LOGOPENIC
  let cM := accumulate N_MORPHEMEs N_MORPHEMEs cM fun i j =>
    rd st.iM_node_act j * rd2 con.iMM_con j i * les.CONNECTION_DECREASE_LOGOPENIC
  let coP := accumulate N_PHONEMEs N_MORPHEMEs st.input_oP fun i j =>
    rd st.M_node_act j * rd2 con.MP_con j i * les.CONNECTION_DECREASE_LOGOPENIC
  let coP := accumulate N_PHONEMEs N_PHONEMEs coP fun i j =>
    rd st.iP_node_act j * rd2 con.PP_con j i * les.CONNECTION_DECREASE_LOGOPENIC
  let cS := accumulate N_SYLLABLEs N_PHONEMEs st.input_S fun i j =>
    rd st.oP_node_act j * rd2 con.PS_con j i
  let ciP := accumulate N_PHONEMEs N_PHONEMEs st.input_iP fun i j =>
    rd st.oP_node_act j * rd2 con.PP_con j i * les.CONNECTION_DECREASE_LOGOPENIC
  let ciM := accumulate N_MORPHEMEs N_PHONEMEs st.input_iM fun i j =>
    rd st.iP_node_act j * rd2 con.PiM_con j i
  { st with
    input_C := cC, input_L := cL, input_M := cM, input_oP := coP,
    input_S := cS, input_iP := ciP, input_iM := ciM }

/-- The function `update_activation_of_nodes`. -/
def update_activation_of_nodes (les : Lesion) (st : Net) : Net :=
  { st with
    C_node_act := tabulate N_CONCEPTs fun i =>
      (rd st.C_node_act i * (1 - DECAY_rate)) + rd st.input_C i
    L_node_act := tabulate N_LEMMAs fun i =>
      (rd st.L_node_act i * (1 - DECAY_rate)) + rd st.input_L i
    M_node_act := tabulate N_MORPHEMEs fun i =>
      (rd st.M_node_act i * (1 - (DECAY_rate * les.DECAY_INCREASE_LOGOPENIC)))
        + rd st.input_M i
    oP_node_act := tabulate N_PHONEMEs fun i =>
      (rd st.oP_node_act i * (1 - DECAY_rate)) + rd st.input_oP i
    iP_node_act := tabulate N_PHONEMEs fun i =>
      (rd st.iP_node_act i * (1 - DECAY_rate)) + rd st.input_iP i
    iM_node_act := tabulate N_MORPHEMEs fun i =>
      (rd st.iM_node_act i * (1 - DECAY_rate)) + rd st.input_iM i
    S_node_act := tabulate N_SYLLABLEs fun i =>
      (rd st.S_node_act i * (1 - DECAY_rate)) + rd st.input_S i }

/-- The function `update_network`. -/
def update_network (con : Conn) (les : Lesion) (task : Nat) (T : Int) (st : Net) : Net :=
  update_activation_of_nodes les
    (get_internal_input con les (get_external_input task T (set_input_to_zero st)))

end Cases

/-! ## The experiment driver and the fit search

The text of the time loop of `main`, of `compute_activation_results` and of the body of
`compute_fits_and_print_results_on_screen` is the same in the three programs (the group
index is called `assessment` in the single-case program); these are embedded once. -/

/-- The time loop of `main`,
`for (T = 0, step = 0; T < (N_STEPs * STEP_SIZE); T += STEP_SIZE, step++)
   { update_network(); determine_activation_critical_nodes(); }`,
entered after `T = 0, step = 0`.  The first argument bounds the number of iterations. -/
def time_loop {L : Type} (update_network : L → Int → Net → Net)
    (determine : Nat → Net → Recorded → Recorded) : Nat → Machine L → Machine L
  | 0, m => m
  | fuel + 1, m =>
    if m.T < ((N_STEPs * STEP_SIZE : Nat) : Int) then
      let net := update_network m.les m.T m.net
      let acts := determine m.step net m.acts
      time_loop update_network determine fuel
        { m with net := net, acts := acts, T := m.T + (STEP_SIZE : Int), step := m.step + 1 }
    else m

/-- The three nested loops of `main` over `group` (`assessment` in the single-case program),
`task` and `lesion_value`, around the simulation of one cell. -/
def sweep_cells {L : Type} (cell : Nat → Nat → Nat → Machine L → Machine L) (n_groups : Nat)
    (m : Machine L) : Machine L :=
  (List.range n_groups).foldl (fun m group =>
    (List.range N_TASKs).foldl (fun m task =>
      (List.range N_lesion_values).foldl (fun m lesion_value =>
        cell group task lesion_value m) m) m) m

/-- The array after `a[k] = v;` for an array `a` of `n` entries. -/
def set_at (n : Nat) (a : List ℚ) (k : Nat) (v : ℚ) : List ℚ :=
  tabulate n fun i => if i = k then v else rd a i

/-- The grid loop of `main`,
`for (lesion_value = 0, ls = start; lesion_value < N_lesion_values; lesion_value++, ls += 0.01)
   value[lesion_value] = ls;`. -/
def fill_grid (start : ℚ) (value : List ℚ) : List ℚ :=
  ((List.range N_lesion_values).foldl
    (fun (p : List ℚ × ℚ) lesion_value =>
      (set_at N_lesion_values p.1 lesion_value p.2, p.2 + 0.01)) (value, start)).1

/-- The globals `WEIGHT_value` and `DECAY_value` as `main` leaves them: a grid is filled only
when its lesion switch is set, and is all `0.0` otherwise. -/
def main_settings (WEIGHT_LESION DECAY_LESION : Bool) : Settings :=
  { WEIGHT_LESION := WEIGHT_LESION
    DECAY_LESION := DECAY_LESION
    WEIGHT_value :=
      if WEIGHT_LESION then fill_grid 0.0 (tabulate N_lesion_values fun _ => 0)
      else tabulate N_lesion_values fun _ => 0
    DECAY_value :=
      if DECAY_LESION then fill_grid 1.01 (tabulate N_lesion_values fun _ => 0)
      else tabulate N_lesion_values fun _ => 0 }

/-- The series arrays as `set_spreading_rates` initialises them: all `0.0`. -/
def zero_recorded : Recorded :=
  { ACT_C := fun _ _ _ _ => 0, ACT_S := fun _ _ _ _ => 0
    ACT_CT := fun _ _ _ _ => 0, ACT_CR := fun _ _ _ _ => 0
    ACT_LT := fun _ _ _ _ => 0, ACT_LR := fun _ _ _ _ => 0
    ACT_ST := fun _ _ _ _ => 0, ACT_SR := fun _ _ _ _ => 0 }

/-- The entry `TOTAL_ACT_x[lesion_value][group][task]` of `compute_activation_results`:
set to `0.0`, then `+= ACT_x[lesion_value][i][group][task]` for `i = 0, ..., N_STEPs - 1`. -/
def total_act (A : Arr4) : Arr3 := fun lesion_value group task =>
  (List.range N_STEPs).foldl (fun acc i => acc + A lesion_value i group task) 0

/-- The function `compute_activation_results`:
`MEAN_ACT_x[lesion_value][group][task] = TOTAL_ACT_x[lesion_value][group][task] / N_STEPs`. -/
def compute_activation_results (r : Recorded) : Means :=
  { MEAN_ACT_C := fun lv g t => total_act r.ACT_C lv g t / (N_STEPs : ℚ)
    MEAN_ACT_S := fun lv g t => total_act r.ACT_S lv g t / (N_STEPs : ℚ)
    MEAN_ACT_CT := fun lv g t => total_act r.ACT_CT lv g t / (N_STEPs : ℚ)
    MEAN_ACT_CR := fun lv g t => total_act r.ACT_CR lv g t / (N_STEPs : ℚ)
    MEAN_ACT_LT := fun lv g t => total_act r.ACT_LT lv g t / (N_STEPs : ℚ)
    MEAN_ACT_LR := fun lv g t => total_act r.ACT_LR lv g t / (N_STEPs : ℚ)
    MEAN_ACT_ST := fun lv g t => total_act r.ACT_ST lv g t / (N_STEPs : ℚ)
    MEAN_ACT_SR := fun lv g t => total_act r.ACT_SR lv g t / (N_STEPs : ℚ) }

/-- The variables `compute_fits_and_print_results_on_screen` writes: the globals `SIM_DATA`
and `GOODNESS_OF_FIT` and the local `LV` (`none` while it holds no assigned value). -/
structure FitState where
  SIM_DATA : Nat → Nat → ℚ
  GOODNESS_OF_FIT : List ℚ
  LV : Option ℚ

/-- The array after `SIM_DATA[g][t] = v;`. -/
def set_sim (S : Nat → Nat → ℚ) (g t : Nat) (v : ℚ) : Nat → Nat → ℚ :=
  fun g1 t1 => if g1 = g ∧ t1 = t then v else S g1 t1

/-- The body of the loop over `lesion_value` in `compute_fits_and_print_results_on_screen`
(without the optional printing). -/
def fit_body (cfg : Settings) (mn : Means) (REAL_DATA : List (List ℚ))
    (group lesion_value : Nat) (f : FitState) : FitState :=
  let S := set_sim f.SIM_DATA group NAMING
    ((mn.MEAN_ACT_ST lesion_value group NAMING - mn.MEAN_ACT_SR lesion_value group NAMING)
      / (mn.MEAN_ACT_ST lesion_value NORMAL NAMING - mn.MEAN_ACT_SR lesion_value NORMAL NAMING)
      * 100)
  let S := set_sim S group COMPREHENSION
    ((mn.MEAN_ACT_CT lesion_value group COMPREHENSION
        - mn.MEAN_ACT_CR lesion_value group COMPREHENSION)
      / (mn.MEAN_ACT_CT lesion_value NORMAL COMPREHENSION
        - mn.MEAN_ACT_CR lesion_value NORMAL COMPREHENSION)
      * 100)
  let S := set_sim S group REPETITION
    ((mn.MEAN_ACT_ST lesion_value group REPETITION
        - mn.MEAN_ACT_SR lesion_value group REPETITION)
      / (mn.MEAN_ACT_ST lesion_value NORMAL REPETITION
        - mn.MEAN_ACT_SR lesion_value NORMAL REPETITION)
      * 100)
  let LV : Option ℚ :=
    if group = NORMAL then some 1
    else if cfg.WEIGHT_LESION then some (rd cfg.WEIGHT_value lesion_value)
    else if cfg.DECAY_LESION then some (rd cfg.DECAY_value lesion_value)
    else f.LV
  let G := set_at N_lesion_values f.GOODNESS_OF_FIT lesion_value
    ((|rd2 REAL_DATA group NAMING - S group NAMING|
      + |rd2 REAL_DATA group COMPREHENSION - S group COMPREHENSION|
      + |rd2 REAL_DATA group REPETITION - S group REPETITION|) / 3)
  { SIM_DATA := S, GOODNESS_OF_FIT := G, LV := LV }

/-- The loop over `lesion_value` in `compute_fits_and_print_results_on_screen`. -/
def fit_loop (cfg : Settings) (mn : Means) (REAL_DATA : List (List ℚ)) (group : Nat)
    (f : FitState) : FitState :=
  (List.range N_lesion_values).foldl
    (fun f lesion_value => fit_body cfg mn REAL_DATA group lesion_value f) f

/-- The best-fit scan
`for (a = 0, i = 0; i < N_lesion_values; i++) if (GOODNESS_OF_FIT[a] > GOODNESS_OF_FIT[i]) a = i;`
returning the final `a`. -/
def best_fit_scan (GOODNESS_OF_FIT : List ℚ) : Nat :=
  (List.range N_lesion_values).foldl
    (fun a i => if rd GOODNESS_OF_FIT a > rd GOODNESS_OF_FIT i then i else a) 0

/-- What `compute_fits_and_print_results_on_screen` prints for one group after the loop over
`lesion_value`: the best-fit lines (each printed only when its lesion switch is set), and
the three simulated scores at the best-fit index. -/
structure Report where
  best_fit_weight_value : Option ℚ
  best_fit_decay_value : Option ℚ
  MAE : ℚ
  sim_naming : ℚ
  sim_comprehension : ℚ
  sim_repetition : ℚ
deriving DecidableEq

/-- The lines printed after the best-fit scan, for the scanned index `a`. -/
def report (cfg : Settings) (mn : Means) (group : Nat) (f : FitState) (a : Nat) : Report :=
  { best_fit_weight_value := if cfg.WEIGHT_LESION then some (rd cfg.WEIGHT_value a) else none
    best_fit_decay_value := if cfg.DECAY_LESION then some (rd cfg.DECAY_value a) else none
    MAE := rd f.GOODNESS_OF_FIT a
    sim_naming :=
      (mn.MEAN_ACT_ST a group NAMING - mn.MEAN_ACT_SR a group NAMING)
        / (mn.MEAN_ACT_ST a NORMAL NAMING - mn.MEAN_ACT_SR a NORMAL NAMING) * 100
    sim_comprehension :=
      (mn.MEAN_ACT_CT a group COMPREHENSION - mn.MEAN_ACT_CR a group COMPREHENSION)
        / (mn.MEAN_ACT_CT a NORMAL COMPREHENSION - mn.MEAN_ACT_CR a NORMAL COMPREHENSION) * 100
    sim_repetition :=
      (mn.MEAN_ACT_ST a group REPETITION - mn.MEAN_ACT_SR a group REPETITION)
        / (mn.MEAN_ACT_ST a NORMAL REPETITION - mn.MEAN_ACT_SR a NORMAL REPETITION) * 100 }

/-- One round of the loop over `group` in `compute_fits_and_print_results_on_screen`:
the loop over `lesion_value`, the best-fit scan, and the printed lines. -/
def fit_group (cfg : Settings) (mn : Means) (REAL_DATA : List (List ℚ)) (group : Nat)
    (f : FitState) : FitState × Report :=
  let f1 := fit_loop cfg mn REAL_DATA group f
  (f1, report cfg mn group f1 (best_fit_scan f1.GOODNESS_OF_FIT))

/-- The function `compute_fits_and_print_results_on_screen` for `n_groups` groups: `SIM_DATA`
and `GOODNESS_OF_FIT` are set to `0.0`, then the groups are treated in turn. -/
def compute_fits_and_print_results_on_screen (cfg : Settings) (mn : Means)
    (REAL_DATA : List (List ℚ)) (n_groups : Nat) : FitState × List Report :=
  (List.range n_groups).foldl
    (fun (p : FitState × List Report) group =>
      let q := fit_group cfg mn REAL_DATA group p.1
      (q.1, p.2 ++ [q.2]))
    ({ SIM_DATA := fun _ _ => 0
       GOODNESS_OF_FIT := tabulate N_lesion_values fun _ => 0
       LV := none }, [])

/-! ## The group-studies program: data, set-up and `main` -/

namespace GroupStudies

/-- The initialiser of `CC_con[N_CONCEPTs][N_CONCEPTs]`: connections conceptual stratum
(`Y` is `1.0`, `N` is `0.0`). -/
def CC_con : List (List ℚ) :=
  [[0, 1, 1, 1, 1, 1, 1, 1, 1, 0, 0, 1],
   [1, 0, 1, 1, 1, 1, 1, 1, 1, 0, 0, 1],
   [1, 1, 0, 1, 1, 1, 1, 1, 1, 0, 0, 1],
   [1, 1, 1, 0, 1, 1, 1, 1, 1, 0, 0, 1],
   [1, 1, 1, 1, 0, 1, 1, 1, 1, 0, 0, 1],
   [1, 1, 1, 1, 1, 0, 1, 1, 1, 0, 0, 1],
   [1, 1, 1, 1, 1, 1, 0, 1, 1, 0, 0, 1],
   [1, 1, 1, 1, 1, 1, 1, 0, 1, 0, 0, 1],
   [1, 1, 1, 1, 1, 1, 1, 1, 1, 0, 0, 1],
   [0, 0, 0, 0, 0, 0, 0, 0, 0, 0, 0, 0],
   [0, 0, 0, 0, 0, 0, 0, 0, 0, 0, 0, 0],
   [1, 1, 1, 1, 1, 1, 1, 1, 1, 0, 0, 0]]

/-- The initialiser of `CL_con[N_CONCEPTs][N_LEMMAs]`: connections between concept and lemma nodes
(`Y` is `1.0`, `N` is `0.0`). -/
def CL_con : List (List ℚ) :=
  [[1, 0, 0, 0, 0, 0, 0, 0, 0, 0, 0, 0],
   [0, 1, 0, 0, 0, 0, 0, 0, 0, 0, 0, 0],
   [0, 0, 1, 0, 0, 0, 0, 0, 0, 0, 0, 0],
   [0, 0, 0, 1, 0, 0, 0, 0, 0, 0, 0, 0],
   [0, 0, 0, 0, 1, 0, 0, 0, 0, 0, 0, 0],
   [0, 0, 0, 0, 0, 1, 0, 0, 0, 0, 0, 0],
   [0, 0, 0, 0, 0, 0, 1, 0, 0, 0, 0, 0],
   [0, 0, 0, 0, 0, 0, 0, 1, 0, 0, 0, 0],
   [0, 0, 0, 0, 0, 0, 0, 0, 1, 0, 0, 0],
   [0, 0, 0, 0, 0, 0, 0, 0, 0, 1, 0, 0],
   [0, 0, 0, 0, 0, 0, 0, 0, 0, 0, 1, 0],
   [0, 0, 0, 0, 0, 0, 0, 0, 0, 0, 0, 1]]

/-- The initialiser of `LM_con[N_LEMMAs][N_MORPHEMEs]`: connections between lemma nodes and morpheme nodes
(`Y` is `1.0`, `N` is `0.0`). -/
def LM_con : List (List ℚ) :=
  [[1, 0, 0, 0, 0, 0, 0, 0, 0, 0, 0, 0],
   [0, 1, 0, 0, 0, 0, 0, 0, 0, 0, 0, 0],
   [0, 0, 1, 0, 0, 0, 0, 0, 0, 0, 0, 0],
   [0, 0, 0, 1, 0, 0, 0, 0, 0, 0, 0, 0],
   [0, 0, 0, 0, 1, 0, 0, 0, 0, 0, 0, 0],
   [0, 0, 0, 0, 0, 1, 0, 0, 0, 0, 0, 0],
   [0, 0, 0, 0, 0, 0, 1, 0, 0, 0, 0, 0],
   [0, 0, 0, 0, 0, 0, 0, 1, 0, 0, 0, 0],
   [0, 0, 0, 0, 0, 0, 0, 0, 1, 0, 0, 0],
   [0, 0, 0, 0, 0, 0, 0, 0, 0, 1, 0, 0],
   [0, 0, 0, 0, 0, 0, 0, 0, 0, 0, 1, 0],
   [0, 0, 0, 0, 0, 0, 0, 0, 0, 0, 0, 1]]

/-- The initialiser of `MP_con[N_MORPHEMEs][N_PHONEMEs]`: connections between morpheme nodes and output phoneme nodes
(`Y` is `1.0`, `N` is `0.0`).  The initialiser of row 0 holds 21 values in the source; the
22nd entry of that row is `0.0`, as C leaves it. -/
def MP_con : List (List ℚ) :=
  [[1, 0, 1, 0, 0, 1, 0, 0, 0, 0, 1, 0, 0, 1, 0, 0, 1, 0, 1, 0, 0],
   [0, 0, 1, 0, 0, 0, 1, 0, 1, 0, 0, 0, 0, 0, 1, 0, 0, 1, 1, 0, 0, 0],
   [0, 0, 0, 0, 0, 1, 1, 0, 0, 0, 1, 1, 0, 0, 1, 1, 0, 1, 0, 0, 1, 0],
   [0, 1, 0, 0, 0, 0, 0, 0, 1, 0, 0, 1, 1, 0, 0, 0, 0, 1, 0, 0, 1, 1],
   [0, 0, 0, 0, 0, 0, 0, 0, 1, 0, 0, 1, 1, 0, 0, 0, 1, 1, 0, 1, 0, 0],
   [0, 0, 0, 0, 1, 0, 0, 1, 0, 0, 1, 0, 1, 0, 1, 0, 1, 1, 0, 0, 1, 0],
   [0, 0, 0, 0, 0, 0, 0, 0, 0, 1, 0, 1, 0, 0, 1, 1, 0, 1, 0, 0, 0, 0],
   [0, 0, 0, 0, 0, 1, 0, 0, 0, 0, 0, 0, 0, 0, 1, 1, 0, 0, 0, 0, 0, 0],
   [0, 1, 0, 1, 0, 0, 0, 0, 0, 0, 0, 0, 0, 0, 0, 0, 0, 0, 0, 0, 0, 1],
   [0, 0, 0, 0, 0, 0, 0, 1, 0, 0, 0, 0, 0, 0, 1, 1, 0, 0, 0, 0, 0, 0],
   [0, 0, 1, 1, 0, 0, 0, 0, 0, 0, 0, 0, 0, 0, 0, 0, 0, 0, 0, 0, 0, 1],
   [0, 0, 1, 0, 0, 0, 0, 0, 0, 0, 0, 0, 0, 1, 0, 0, 0, 0, 0, 0, 1, 0]]

/-- The initialiser of `PS_con[N_PHONEMEs][N_SYLLABLEs]`: connections between output phoneme nodes and syllable program nodes
(`Y` is `1.0`, `N` is `0.0`). -/
def PS_con : List (List ℚ) :=
  [[1, 0, 0, 0, 0, 0, 0, 0, 0, 0, 0, 0, 0, 0, 0, 0, 0, 0, 0, 0, 0, 0, 0, 0, 0, 0, 0, 0],
   [0, 1, 1, 0, 0, 0, 0, 0, 0, 0, 0, 0, 0, 0, 0, 0, 0, 0, 0, 0, 0, 0, 0, 0, 0, 0, 0, 0],
   [0, 0, 0, 0, 0, 1, 1, 1, 1, 0, 0, 0, 0, 0, 0, 0, 0, 0, 0, 0, 0, 0, 0, 0, 0, 0, 0, 0],
   [0, 0, 1, 0, 0, 0, 0, 1, 0, 0, 0, 0, 0, 0, 0, 0, 0, 0, 0, 0, 0, 0, 0, 0, 0, 0, 0, 0],
   [0, 0, 0, 0, 0, 0, 0, 0, 0, 1, 0, 0, 0, 0, 0, 0, 0, 0, 0, 0, 0, 0, 0, 0, 0, 0, 0, 0],
   [0, 0, 0, 0, 0, 0, 0, 0, 0, 0, 1, 1, 0, 0, 0, 0, 0, 0, 0, 0, 0, 0, 0, 0, 0, 0, 0, 0],
   [0, 0, 0, 0, 0, 0, 1, 0, 0, 0, 0, 0, 1, 1, 0, 0, 0, 0, 0, 0, 0, 0, 0, 0, 0, 0, 0, 0],
   [0, 0, 0, 0, 0, 0, 0, 0, 0, 0, 0, 0, 0, 0, 1, 1, 0, 0, 0, 0, 0, 0, 0, 0, 0, 0, 0, 0],
   [0, 0, 0, 0, 0, 1, 0, 0, 0, 0, 0, 0, 0, 0, 0, 0, 1, 1, 0, 0, 0, 0, 0, 0, 0, 0, 0, 0],
   [0, 0, 0, 0, 0, 0, 0, 0, 0, 0, 0, 0, 0, 0, 0, 0, 0, 0, 0, 0, 0, 1, 0, 0, 0, 1, 0, 0],
   [0, 0, 0, 0, 0, 0, 0, 0, 0, 0, 0, 0, 0, 0, 0, 0, 0, 0, 1, 1, 1, 0, 0, 0, 0, 0, 0, 0],
   [0, 0, 0, 0, 0, 0, 0, 0, 0, 0, 0, 0, 0, 1, 0, 0, 0, 0, 0, 0, 0, 1, 1, 1, 1, 0, 0, 1],
   [0, 0, 0, 0, 0, 0, 0, 0, 0, 0, 0, 0, 0, 0, 0, 1, 1, 0, 0, 0, 0, 0, 1, 0, 1, 0, 0, 0],
   [0, 0, 0, 0, 0, 0, 0, 0, 1, 0, 0, 0, 0, 0, 0, 0, 0, 0, 0, 0, 0, 0, 0, 0, 0, 0, 0, 0],
   [0, 0, 0, 0, 0, 1, 0, 0, 0, 0, 0, 1, 0, 0, 1, 0, 0, 0, 0, 0, 0, 0, 0, 0, 0, 1, 1, 1],
   [0, 0, 0, 0, 0, 0, 0, 0, 0, 0, 1, 1, 0, 0, 1, 0, 0, 0, 0, 0, 0, 1, 0, 0, 0, 1, 0, 0],
   [0, 0, 0, 0, 0, 0, 0, 0, 0, 0, 0, 0, 0, 0, 0, 0, 1, 0, 1, 0, 0, 0, 0, 0, 0, 0, 0, 0],
   [0, 0, 0, 1, 0, 1, 0, 0, 0, 0, 0, 0, 1, 1, 0, 1, 0, 1, 0, 1, 0, 0, 1, 0, 0, 0, 1, 1],
   [1, 0, 0, 0, 1, 0, 0, 0, 0, 0, 0, 0, 0, 0, 0, 0, 0, 0, 0, 0, 0, 0, 0, 0, 0, 0, 0, 0],
   [0, 1, 0, 0, 0, 0, 1, 0, 0, 0, 0, 0, 0, 0, 0, 0, 0, 0, 0, 0, 0, 0, 0, 1, 0, 0, 0, 0],
   [0, 0, 0, 0, 0, 0, 0, 0, 1, 1, 0, 0, 0, 0, 0, 0, 0, 0, 0, 0, 1, 0, 0, 0, 0, 0, 0, 0],
   [0, 0, 1, 0, 0, 0, 0, 1, 0, 0, 0, 0, 0, 0, 0, 0, 0, 0, 0, 0, 0, 0, 0, 0, 1, 0, 0, 0]]

/-- The initialiser of `PP_con[N_PHONEMEs][N_PHONEMEs]`: connections between input and output phoneme nodes
(`Y` is `1.0`, `N` is `0.0`). -/
def PP_con : List (List ℚ) :=
  [[1, 0, 0, 0, 0, 0, 0, 0, 0, 0, 0, 0, 0, 0, 0, 0, 0, 0, 0, 0, 0, 0],
   [0, 1, 0, 0, 0, 0, 0, 0, 0, 0, 0, 0, 0, 0, 0, 0, 0, 0, 0, 0, 0, 0],
   [0, 0, 1, 0, 0, 0, 0, 0, 0, 0, 0, 0, 0, 0, 0, 0, 0, 0, 0, 0, 0, 0],
   [0, 0, 0, 1, 0, 0, 0, 0, 0, 0, 0, 0, 0, 0, 0, 0, 0, 0, 0, 0, 0, 0],
   [0, 0, 0, 0, 1, 0, 0, 0, 0, 0, 0, 0, 0, 0, 0, 0, 0, 0, 0, 0, 0, 0],
   [0, 0, 0, 0, 0, 1, 0, 0, 0, 0, 0, 0, 0, 0, 0, 0, 0, 0, 0, 0, 0, 0],
   [0, 0, 0, 0, 0, 0, 1, 0, 0, 0, 0, 0, 0, 0, 0, 0, 0, 0, 0, 0, 0, 0],
   [0, 0, 0, 0, 0, 0, 0, 1, 0, 0, 0, 0, 0, 0, 0, 0, 0, 0, 0, 0, 0, 0],
   [0, 0, 0, 0, 0, 0, 0, 0, 1, 0, 0, 0, 0, 0, 0, 0, 0, 0, 0, 0, 0, 0],
   [0, 0, 0, 0, 0, 0, 0, 0, 0, 1, 0, 0, 0, 0, 0, 0, 0, 0, 0, 0, 0, 0],
   [0, 0, 0, 0, 0, 0, 0, 0, 0, 0, 1, 0, 0, 0, 0, 0, 0, 0, 0, 0, 0, 0],
   [0, 0, 0, 0, 0, 0, 0, 0, 0, 0, 0, 1, 0, 0, 0, 0, 0, 0, 0, 0, 0, 0],
   [0, 0, 0, 0, 0, 0, 0, 0, 0, 0, 0, 0, 1, 0, 0, 0, 0, 0, 0, 0, 0, 0],
   [0, 0, 0, 0, 0, 0, 0, 0, 0, 0, 0, 0, 0, 1, 0, 0, 0, 0, 0, 0, 0, 0],
   [0, 0, 0, 0, 0, 0, 0, 0, 0, 0, 0, 0, 0, 0, 1, 0, 0, 0, 0, 0, 0, 0],
   [0, 0, 0, 0, 0, 0, 0, 0, 0, 0, 0, 0, 0, 0, 0, 1, 0, 0, 0, 0, 0, 0],
   [0, 0, 0, 0, 0, 0, 0, 0, 0, 0, 0, 0, 0, 0, 0, 0, 1, 0, 0, 0, 0, 0],
   [0, 0, 0, 0, 0, 0, 0, 0, 0, 0, 0, 0, 0, 0, 0, 0, 0, 1, 0, 0, 0, 0],
   [0, 0, 0, 0, 0, 0, 0, 0, 0, 0, 0, 0, 0, 0, 0, 0, 0, 0, 1, 0, 0, 0],
   [0, 0, 0, 0, 0, 0, 0, 0, 0, 0, 0, 0, 0, 0, 0, 0, 0, 0, 0, 1, 0, 0],
   [0, 0, 0, 0, 0, 0, 0, 0, 0, 0, 0, 0, 0, 0, 0, 0, 0, 0, 0, 0, 1, 0],
   [0, 0, 0, 0, 0, 0, 0, 0, 0, 0, 0, 0, 0, 0, 0, 0, 0, 0, 0, 0, 0, 1]]

/-- The initialiser of `PiM_con[N_PHONEMEs][N_MORPHEMEs]`: connections between input phoneme nodes and input morpheme nodes
(`Y` is `1.0`, `N` is `0.0`). -/
def PiM_con : List (List ℚ) :=
  [[1, 0, 0, 0, 0, 0, 0, 0, 0, 0, 0, 0],
   [0, 0, 0, 1, 0, 0, 0, 0, 1, 0, 0, 0],
   [1, 1, 0, 0, 0, 0, 0, 0, 0, 0, 1, 1],
   [0, 0, 0, 0, 0, 0, 0, 0, 1, 0, 1, 0],
   [0, 0, 0, 0, 0, 1, 0, 0, 0, 0, 0, 0],
   [0, 0, 1, 0, 0, 0, 0, 1, 0, 0, 0, 0],
   [1, 1, 1, 0, 0, 0, 0, 0, 0, 0, 0, 0],
   [0, 0, 0, 0, 0, 1, 0, 0, 0, 1, 0, 0],
   [0, 1, 0, 1, 1, 0, 0, 0, 0, 0, 0, 0],
   [0, 0, 0, 0, 0, 0, 1, 0, 0, 0, 0, 0],
   [0, 0, 1, 0, 0, 1, 0, 0, 0, 0, 0, 0],
   [1, 0, 1, 1, 1, 0, 1, 0, 0, 0, 0, 0],
   [0, 0, 0, 1, 1, 1, 0, 0, 0, 0, 0, 0],
   [0, 0, 0, 0, 0, 0, 0, 0, 0, 0, 0, 1],
   [1, 1, 1, 0, 0, 1, 1, 1, 0, 1, 0, 0],
   [0, 0, 1, 0, 0, 0, 1, 1, 0, 1, 0, 0],
   [0, 0, 0, 0, 1, 1, 0, 0, 0, 0, 0, 0],
   [1, 1, 1, 1, 1, 1, 1, 0, 0, 0, 0, 0],
   [0, 1, 0, 0, 0, 0, 0, 0, 0, 0, 0, 0],
   [1, 0, 0, 1, 1, 0, 0, 0, 0, 0, 0, 0],
   [0, 0, 1, 0, 0, 1, 0, 0, 0, 0, 0, 1],
   [0, 0, 0, 1, 0, 0, 0, 0, 1, 0, 1, 0]]

/-- The initialiser of `iMM_con[N_MORPHEMEs][N_MORPHEMEs]`: connections between input morpheme and output morpheme nodes
(`Y` is `1.0`, `N` is `0.0`). -/
def iMM_con : List (List ℚ) :=
  [[1, 0, 0, 0, 0, 0, 0, 0, 0, 0, 0, 0],
   [0, 1, 0, 0, 0, 0, 0, 0, 0, 0, 0, 0],
   [0, 0, 1, 0, 0, 0, 0, 0, 0, 0, 0, 0],
   [0, 0, 0, 1, 0, 0, 0, 0, 0, 0, 0, 0],
   [0, 0, 0, 0, 1, 0, 0, 0, 0, 0, 0, 0],
   [0, 0, 0, 0, 0, 1, 0, 0, 0, 0, 0, 0],
   [0, 0, 0, 0, 0, 0, 1, 0, 0, 0, 0, 0],
   [0, 0, 0, 0, 0, 0, 0, 1, 0, 0, 0, 0],
   [0, 0, 0, 0, 0, 0, 0, 0, 1, 0, 0, 0],
   [0, 0, 0, 0, 0, 0, 0, 0, 0, 1, 0, 0],
   [0, 0, 0, 0, 0, 0, 0, 0, 0, 0, 1, 0],
   [0, 0, 0, 0, 0, 0, 0, 0, 0, 0, 0, 1]]

/-- The initialiser of `iML_con[N_MORPHEMEs][N_LEMMAs]`: connections between input morpheme and lemma nodes
(`Y` is `1.0`, `N` is `0.0`). -/
def iML_con : List (List ℚ) :=
  [[1, 0, 0, 0, 0, 0, 0, 0, 0, 0, 0, 0],
   [0, 1, 0, 0, 0, 0, 0, 0, 0, 0, 0, 0],
   [0, 0, 1, 0, 0, 0, 0, 0, 0, 0, 0, 0],
   [0, 0, 0, 1, 0, 0, 0, 0, 0, 0, 0, 0],
   [0, 0, 0, 0, 1, 0, 0, 0, 0, 0, 0, 0],
   [0, 0, 0, 0, 0, 1, 0, 0, 0, 0, 0, 0],
   [0, 0, 0, 0, 0, 0, 1, 0, 0, 0, 0, 0],
   [0, 0, 0, 0, 0, 0, 0, 1, 0, 0, 0, 0],
   [0, 0, 0, 0, 0, 0, 0, 0, 1, 0, 0, 0],
   [0, 0, 0, 0, 0, 0, 0, 0, 0, 1, 0, 0],
   [0, 0, 0, 0, 0, 0, 0, 0, 0, 0, 1, 0],
   [0, 0, 0, 0, 0, 0, 0, 0, 0, 0, 0, 1]]

/-- The connection matrices as initialised, before `set_spreading_rates`. -/
def initial_con : Conn :=
  { CC_con := CC_con, CL_con := CL_con, LM_con := LM_con, MP_con := MP_con, PS_con := PS_con
    PP_con := PP_con, PiM_con := PiM_con, iMM_con := iMM_con, iML_con := iML_con }

/-- The function `set_spreading_rates`: the series arrays are set to `0.0` and every matrix
is multiplied, entry by entry, by its rate. -/
def set_spreading_rates (con : Conn) : Conn × Recorded :=
  ({ CC_con := scale N_CONCEPTs N_CONCEPTs con.CC_con SEM_rate
     CL_con := scale N_CONCEPTs N_LEMMAs con.CL_con LEM_rate
     LM_con := scale N_LEMMAs N_MORPHEMEs con.LM_con LEX_rate
     MP_con := scale N_MORPHEMEs N_PHONEMEs con.MP_con LEX_rate
     PS_con := scale N_PHONEMEs N_SYLLABLEs con.PS_con LEX_rate
     PP_con := scale N_PHONEMEs N_PHONEMEs con.PP_con LEX_rate
     PiM_con := scale N_PHONEMEs N_MORPHEMEs con.PiM_con (FR * LEX_rate)
     iMM_con := scale N_MORPHEMEs N_MORPHEMEs con.iMM_con LEX_rate
     iML_con := scale N_MORPHEMEs N_LEMMAs con.iML_con LEX_rate }, zero_recorded)

/-- The activations and input buffers when the program starts: C globals, all `0.0`. -/
def initial_net : Net :=
  { C_node_act := tabulate N_CONCEPTs fun _ => 0
    L_node_act := tabulate N_LEMMAs fun _ => 0
    M_node_act := tabulate N_MORPHEMEs fun _ => 0
    oP_node_act := tabulate N_PHONEMEs fun _ => 0
    S_node_act := tabulate N_SYLLABLEs fun _ => 0
    iM_node_act := tabulate N_MORPHEMEs fun _ => 0
    iP_node_act := tabulate N_PHONEMEs fun _ => 0
    input_C := tabulate N_CONCEPTs fun _ => 0
    input_L := tabulate N_LEMMAs fun _ => 0
    input_M := tabulate N_MORPHEMEs fun _ => 0
    input_iM := tabulate N_MORPHEMEs fun _ => 0
    input_iP := tabulate N_PHONEMEs fun _ => 0
    input_oP := tabulate N_PHONEMEs fun _ => 0
    input_S := tabulate N_SYLLABLEs fun _ => 0 }

/-- The table `REAL_DATA_ENGLISH` (Savage et al., 2013). -/
def REAL_DATA_ENGLISH : List (List ℚ) :=
  [[88.7, 97.0, 99.7], [78.3, 94.3, 79.7], [22.7, 63.3, 95.3], [41.3, 84.7, 84.7]]
/-- The table `REAL_DATA_DUTCH` (Janssen et al., 2021). -/
def REAL_DATA_DUTCH : List (List ℚ) :=
  [[90.3, 96.3, 96.7], [77.3, 97.7, 89.3], [29.0, 78.0, 96.3], [66.3, 93.7, 91.3]]
/-- The table `REAL_DATA_BRAMBATI_T1` (Brambati et al., 2015, baseline). -/
def REAL_DATA_BRAMBATI_T1 : List (List ℚ) :=
  [[90.3, 96.3, 96.7], [85.3, 99.7, 83.7], [26.7, 88.0, 90.6], [69.3, 95.0, 69.0]]
/-- The table `REAL_DATA_BRAMBATI_T2` (Brambati et al., 2015, follow up). -/
def REAL_DATA_BRAMBATI_T2 : List (List ℚ) :=
  [[90.3, 96.3, 96.7], [83.3, 94.8, 68.0], [19.3, 66.7, 82.3], [52.7, 95.0, 58.8]]
/-- The table `REAL_DATA_ROHRERMANDELLI_T1` (baseline). -/
def REAL_DATA_ROHRERMANDELLI_T1 : List (List ℚ) :=
  [[90.3, 96.3, 96.7], [76.7, 99.0, 81.5], [26.7, 88.0, 90.6], [61.0, 94.0, 94.0]]
/-- The table `REAL_DATA_ROHRERMANDELLI_T2` (follow up). -/
def REAL_DATA_ROHRERMANDELLI_T2 : List (List ℚ) :=
  [[90.3, 96.3, 96.7], [66.0, 90.0, 65.5], [26.7, 88.0, 90.6], [43.0, 85.0, 77.0]]

/-- Assessment index of the English data. -/
def ENGLISH : Nat := 0
/-- Assessment index of the Dutch data. -/
def DUTCH : Nat := 1
/-- Assessment index of the Brambati baseline data. -/
def BRAMBATI_T1 : Nat := 2
/-- Assessment index of the Brambati follow-up data. -/
def BRAMBATI_T2 : Nat := 3
/-- Assessment index of the Rohrer/Mandelli baseline data. -/
def ROHRERMANDELLI_T1 : Nat := 4
/-- Assessment index of the Rohrer/Mandelli follow-up data. -/
def ROHRERMANDELLI_T2 : Nat := 5

/-- The function `set_real_data_matrix`, reading the global `assessment`. -/
def set_real_data_matrix (assessment : Nat) (REAL_DATA : List (List ℚ)) : List (List ℚ) :=
  (List.range N_GROUPs).map fun group => tabulate N_TASKs fun task =>
    if assessment = ENGLISH then rd2 REAL_DATA_ENGLISH group task
    else if assessment = DUTCH then rd2 REAL_DATA_DUTCH group task
    else if assessment = BRAMBATI_T1 then rd2 REAL_DATA_BRAMBATI_T1 group task
    else if assessment = BRAMBATI_T2 then rd2 REAL_DATA_BRAMBATI_T2 group task
    else if assessment = ROHRERMANDELLI_T1 then rd2 REAL_DATA_ROHRERMANDELLI_T1 group task
    else if assessment = ROHRERMANDELLI_T2 then rd2 REAL_DATA_ROHRERMANDELLI_T2 group task
    else rd2 REAL_DATA group task

/-- The body of the innermost loop of `main` for one cell: `reset_network`,
`set_aphasic_parameters`, then the time loop. -/
def simulate_cell (con : Conn) (cfg : Settings) (group task lesion_value : Nat)
    (m : Machine Lesion) : Machine Lesion :=
  time_loop (fun les T st => update_network con les task T st)
    (fun step st r => determine_activation_critical_nodes lesion_value step group task st r)
    (N_STEPs * STEP_SIZE)
    { net := reset_network m.net
      les := set_aphasic_parameters cfg group lesion_value
      T := 0
      step := 0
      acts := m.acts }

/-- The loops of `main` over `group`, `task` and `lesion_value` for one assessment. -/
def sweep (con : Conn) (cfg : Settings) (m : Machine Lesion) : Machine Lesion :=
  sweep_cells (simulate_cell con cfg) N_GROUPs m

/-- The global state when the sweep starts: activations, buffers and the (uninitialised, hence
zero) lesion factors, and the series arrays as `set_spreading_rates` leaves them. -/
def initial_machine : Machine Lesion :=
  { net := initial_net
    les := { CONNECTION_DECREASE_NONFLUENT_AGRAMMATIC := 0
             CONNECTION_DECREASE_SEMANTIC_DEMENTIA := 0
             CONNECTION_DECREASE_LOGOPENIC := 0
             DECAY_INCREASE_NONFLUENT_AGRAMMATIC := 0
             DECAY_INCREASE_SEMANTIC_DEMENTIA := 0
             DECAY_INCREASE_LOGOPENIC := 0 }
    T := 0
    step := 0
    acts := (set_spreading_rates initial_con).2 }

/-- The function `main`, for the two lesion switches as compiled in: rate scaling, the
severity grids, then for each assessment the sweep, `compute_activation_results` and
`compute_fits_and_print_results_on_screen`.  The result lists what is printed, per
assessment and group. -/
def main (WEIGHT_LESION DECAY_LESION : Bool) : List (List Report) :=
  let con := (set_spreading_rates initial_con).1
  let cfg := main_settings WEIGHT_LESION DECAY_LESION
  ((List.range N_ASSESSMENTs).foldl
    (fun (p : (Machine Lesion × List (List ℚ)) × List (List Report)) assessment =>
      let REAL_DATA := set_real_data_matrix assessment p.1.2
      let m := sweep con cfg p.1.1
      let mn := compute_activation_results m.acts
      ((m, REAL_DATA),
        p.2 ++ [(compute_fits_and_print_results_on_screen cfg mn REAL_DATA N_GROUPs).2]))
    ((initial_machine, (List.range N_GROUPs).map fun _ => tabulate N_TASKs fun _ => 0), [])).2

end GroupStudies

/-! ## The five-word programs: data, set-up and `main` -/

namespace FiveWord

/-- The initialiser of `CC_con[N_CONCEPTs][N_CONCEPTs]`: connections conceptual stratum
(`Y` is `1.0`, `N` is `0.0`). -/
def CC_con : List (List ℚ) :=
  [[0, 1, 0, 0, 1],
   [1, 0, 0, 0, 1],
   [0, 0, 0, 0, 0],
   [0, 0, 0, 0, 0],
   [1, 1, 0, 0, 0]]

/-- The initialiser of `CL_con[N_CONCEPTs][N_LEMMAs]`: connections between concept and lemma nodes
(`Y` is `1.0`, `N` is `0.0`). -/
def CL_con : List (List ℚ) :=
  [[1, 0, 0, 0, 0],
   [0, 1, 0, 0, 0],
   [0, 0, 1, 0, 0],
   [0, 0, 0, 1, 0],
   [0, 0, 0, 0, 1]]

/-- The initialiser of `LM_con[N_LEMMAs][N_MORPHEMEs]`: connections between lemma nodes and morpheme nodes
(`Y` is `1.0`, `N` is `0.0`). -/
def LM_con : List (List ℚ) :=
  [[1, 0, 0, 0, 0],
   [0, 1, 0, 0, 0],
   [0, 0, 1, 0, 0],
   [0, 0, 0, 1, 0],
   [0, 0, 0, 0, 1]]

/-- The initialiser of `MP_con[N_MORPHEMEs][N_PHONEMEs]`: connections between morpheme nodes and output phoneme nodes
(`Y` is `1.0`, `N` is `0.0`). -/
def MP_con : List (List ℚ) :=
  [[1, 1, 1, 0, 0, 0, 0, 0, 0, 0],
   [0, 0, 0, 1, 1, 1, 0, 0, 0, 0],
   [0, 1, 1, 0, 0, 0, 1, 0, 0, 0],
   [0, 0, 0, 0, 1, 1, 0, 1, 0, 0],
   [0, 0, 0, 0, 0, 0, 0, 1, 1, 1]]

/-- The initialiser of `PS_con[N_PHONEMEs][N_SYLLABLEs]`: connections between output phoneme nodes and syllable program nodes
(`Y` is `1.0`, `N` is `0.0`). -/
def PS_con : List (List ℚ) :=
  [[1, 0, 0, 0, 0],
   [1, 0, 1, 0, 0],
   [1, 0, 1, 0, 0],
   [0, 1, 0, 0, 0],
   [0, 1, 0, 1, 0],
   [0, 1, 0, 1, 0],
   [0, 0, 1, 0, 0],
   [0, 0, 0, 1, 1],
   [0, 0, 0, 0, 1],
   [0, 0, 0, 0, 1]]

/-- The initialiser of `PP_con[N_PHONEMEs][N_PHONEMEs]`: connections between input and output phoneme nodes
(`Y` is `1.0`, `N` is `0.0`). -/
def PP_con : List (List ℚ) :=
  [[1, 0, 0, 0, 0, 0, 0, 0, 0, 0],
   [0, 1, 0, 0, 0, 0, 0, 0, 0, 0],
   [0, 0, 1, 0, 0, 0, 0, 0, 0, 0],
   [0, 0, 0, 1, 0, 0, 0, 0, 0, 0],
   [0, 0, 0, 0, 1, 0, 0, 0, 0, 0],
   [0, 0, 0, 0, 0, 1, 0, 0, 0, 0],
   [0, 0, 0, 0, 0, 0, 1, 0, 0, 0],
   [0, 0, 0, 0, 0, 0, 0, 1, 0, 0],
   [0, 0, 0, 0, 0, 0, 0, 0, 1, 0],
   [0, 0, 0, 0, 0, 0, 0, 0, 0, 1]]

/-- The initialiser of `PiM_con[N_PHONEMEs][N_MORPHEMEs]`: connections between input phoneme nodes and input morpheme nodes
(`Y` is `1.0`, `N` is `0.0`). -/
def PiM_con : List (List ℚ) :=
  [[1, 0, 0, 0, 0],
   [1, 0, 1, 0, 0],
   [1, 0, 1, 0, 0],
   [0, 1, 0, 0, 0],
   [0, 1, 0, 1, 0],
   [0, 1, 0, 1, 0],
   [0, 0, 1, 0, 0],
   [0, 0, 0, 1, 1],
   [0, 0, 0, 0, 1],
   [0, 0, 0, 0, 1]]

/-- The initialiser of `iMM_con[N_MORPHEMEs][N_MORPHEMEs]`: connections between input morpheme and output morpheme nodes
(`Y` is `1.0`, `N` is `0.0`). -/
def iMM_con : List (List ℚ) :=
  [[1, 0, 0, 0, 0],
   [0, 1, 0, 0, 0],
   [0, 0, 1, 0, 0],
   [0, 0, 0, 1, 0],
   [0, 0, 0, 0, 1]]

/-- The initialiser of `iML_con[N_MORPHEMEs][N_LEMMAs]`: connections between input morpheme and lemma nodes
(`Y` is `1.0`, `N` is `0.0`). -/
def iML_con : List (List ℚ) :=
  [[1, 0, 0, 0, 0],
   [0, 1, 0, 0, 0],
   [0, 0, 1, 0, 0],
   [0, 0, 0, 1, 0],
   [0, 0, 0, 0, 1]]

/-- The connection matrices as initialised, before `set_spreading_rates`. -/
def initial_con : Conn :=
  { CC_con := CC_con, CL_con := CL_con, LM_con := LM_con, MP_con := MP_con, PS_con := PS_con
    PP_con := PP_con, PiM_con := PiM_con, iMM_con := iMM_con, iML_con := iML_con }

/-- The function `set_spreading_rates`: the series arrays are set to `0.0` and every matrix
is multiplied, entry by entry, by its rate. -/
def set_spreading_rates (con : Conn) : Conn × Recorded :=
  ({ CC_con := scale N_CONCEPTs N_CONCEPTs con.CC_con SEM_rate
     CL_con := scale N_CONCEPTs N_LEMMAs con.CL_con LEM_rate
     LM_con := scale N_LEMMAs N_MORPHEMEs con.LM_con LEX_rate
     MP_con := scale N_MORPHEMEs N_PHONEMEs con.MP_con LEX_rate
     PS_con := scale N_PHONEMEs N_SYLLABLEs con.PS_con LEX_rate
     PP_con := scale N_PHONEMEs N_PHONEMEs con.PP_con LEX_rate
     PiM_con := scale N_PHONEMEs N_MORPHEMEs con.PiM_con (FR * LEX_rate)
     iMM_con := scale N_MORPHEMEs N_MORPHEMEs con.iMM_con LEX_rate
     iML_con := scale N_MORPHEMEs N_LEMMAs con.iML_con LEX_rate }, zero_recorded)

/-- The activations and input buffers when the program starts: C globals, all `0.0`. -/
def initial_net : Net :=
  { C_node_act := tabulate N_CONCEPTs fun _ => 0
    L_node_act := tabulate N_LEMMAs fun _ => 0
    M_node_act := tabulate N_MORPHEMEs fun _ => 0
    oP_node_act := tabulate N_PHONEMEs fun _ => 0
    S_node_act := tabulate N_SYLLABLEs fun _ => 0
    iM_node_act := tabulate N_MORPHEMEs fun _ => 0
    iP_node_act := tabulate N_PHONEMEs fun _ => 0
    input_C := tabulate N_CONCEPTs fun _ => 0
    input_L := tabulate N_LEMMAs fun _ => 0
    input_M := tabulate N_MORPHEMEs fun _ => 0
    input_iM := tabulate N_MORPHEMEs fun _ => 0
    input_iP := tabulate N_PHONEMEs fun _ => 0
    input_oP := tabulate N_PHONEMEs fun _ => 0
    input_S := tabulate N_SYLLABLEs fun _ => 0 }

end FiveWord

namespace Clusters

open FiveWord

/-- The table `REAL_DATA_LEYTON` (Leyton et al., 2015). -/
def REAL_DATA_LEYTON : List (List ℚ) :=
  [[92.7, 97.3, 94.0], [67.3, 93.0, 93.3], [29.0, 77.7, 93.3], [32.0, 85.3, 52.7]]

/-- Assessment index of the Leyton data. -/
def LEYTON : Nat := 0

/-- The function `set_real_data_matrix`, reading the global `assessment`. -/
def set_real_data_matrix (assessment : Nat) (REAL_DATA : List (List ℚ)) : List (List ℚ) :=
  (List.range N_GROUPs).map fun group => tabulate N_TASKs fun task =>
    if assessment = LEYTON then rd2 REAL_DATA_LEYTON group task
    else rd2 REAL_DATA group task

/-- The body of the innermost loop of `main` for one cell: `reset_network`,
`set_aphasic_parameters`, then the time loop. -/
def simulate_cell (con : Conn) (cfg : Settings) (group task lesion_value : Nat)
    (m : Machine Lesion) : Machine Lesion :=
  time_loop (fun les T st => update_network con les task T st)
    (fun step st r => determine_activation_critical_nodes lesion_value step group task st r)
    (N_STEPs * STEP_SIZE)
    { net := reset_network m.net
      les := set_aphasic_parameters cfg group lesion_value
      T := 0
      step := 0
      acts := m.acts }

/-- The loops of `main` over `group`, `task` and `lesion_value` for one assessment. -/
def sweep (con : Conn) (cfg : Settings) (m : Machine Lesion) : Machine Lesion :=
  sweep_cells (simulate_cell con cfg) N_GROUPs m

/-- The global state when the sweep starts: activations, buffers and the (uninitialised, hence
zero) lesion factors, and the series arrays as `set_spreading_rates` leaves them. -/
def initial_machine : Machine Lesion :=
  { net := initial_net
    les := { CONNECTION_DECREASE_CLUSTER_1 := 0
             CONNECTION_DECREASE_CLUSTER_2 := 0
             CONNECTION_DECREASE_CLUSTER_3 := 0
             DECAY_INCREASE_CLUSTER_1 := 0
             DECAY_INCREASE_CLUSTER_2 := 0
             DECAY_INCREASE_CLUSTER_3 := 0 }
    T := 0
    step := 0
    acts := (set_spreading_rates initial_con).2 }

/-- The function `main`, for the two lesion switches as compiled in: rate scaling, the
severity grids, then for each assessment the sweep, `compute_activation_results` and
`compute_fits_and_print_results_on_screen`.  The result lists what is printed, per
assessment and group. -/
def main (WEIGHT_LESION DECAY_LESION : Bool) : List (List Report) :=
  let con := (set_spreading_rates initial_con).1
  let cfg := main_settings WEIGHT_LESION DECAY_LESION
  ((List.range N_ASSESSMENTs).foldl
    (fun (p : (Machine Lesion × List (List ℚ)) × List (List Report)) assessment =>
      let REAL_DATA := set_real_data_matrix assessment p.1.2
      let m := sweep con cfg p.1.1
      let mn := compute_activation_results m.acts
      ((m, REAL_DATA),
        p.2 ++ [(compute_fits_and_print_results_on_screen cfg mn REAL_DATA N_GROUPs).2]))
    ((initial_machine, (List.range N_GROUPs).map fun _ => tabulate N_TASKs fun _ => 0), [])).2

end Clusters

namespace Cases

open FiveWord

/-- The table `REAL_DATA` (Janssen et al., 2022): row 0 the controls, rows 1 to 20 the
patients. -/
def REAL_DATA : List (List ℚ) :=
  [[90, 96, 97],
   [80.0, 97.7, 100.0],
   [53.3, 100.0, 50.0],
   [80.0, 90.0, 100.0],
   [66.7, 93.3, 90.0],
   [70.0, 86.7, 96.7],
   [76.7, 100.0, 90.0],
   [66.7, 100.0, 93.3],
   [60.0, 86.7, 96.7],
   [83.3, 93.3, 86.7],
   [53.3, 90.0, 100.0],
   [40.0, 100.0, 93.3],
   [66.7, 93.3, 86.7],
   [63.3, 90.0, 83.3],
   [76.7, 93.3, 80.0],
   [70.0, 90.0, 96.7],
   [70.0, 86.7, 96.7],
   [63.3, 96.7, 96.7],
   [60.0, 90.0, 96.7],
   [73.3, 100.0, 100.0],
   [53.3, 93.3, 93.3]]

/-- The body of the innermost loop of `main` for one cell: `reset_network`,
`set_aphasic_parameters`, then the time loop. -/
def simulate_cell (con : Conn) (cfg : Settings) (assessment task lesion_value : Nat)
    (m : Machine Lesion) : Machine Lesion :=
  time_loop (fun les T st => update_network con les task T st)
    (fun step st r => determine_activation_critical_nodes lesion_value step assessment task st r)
    (N_STEPs * STEP_SIZE)
    { net := reset_network m.net
      les := set_aphasic_parameters cfg assessment lesion_value
      T := 0
      step := 0
      acts := m.acts }

/-- The loops of `main` over `assessment`, `task` and `lesion_value`. -/
def sweep (con : Conn) (cfg : Settings) (m : Machine Lesion) : Machine Lesion :=
  sweep_cells (simulate_cell con cfg) N_ASSESSMENTs m

/-- The global state when the sweep starts: activations and buffers all `0.0`, the lesion
factors at their initial value `1.0`, and the series arrays as `set_spreading_rates` leaves
them. -/
def initial_machine : Machine Lesion :=
  { net := initial_net
    les := { CONNECTION_DECREASE_LOGOPENIC := 1, DECAY_INCREASE_LOGOPENIC := 1 }
    T := 0
    step := 0
    acts := (set_spreading_rates initial_con).2 }

/-- The function `main`, for the two lesion switches as compiled in: rate scaling, the
severity grids, the sweep over all assessments, then `compute_activation_results` and
`compute_fits_and_print_results_on_screen`.  The result lists what is printed, per
assessment. -/
def main (WEIGHT_LESION DECAY_LESION : Bool) : List Report :=
  let con := (set_spreading_rates initial_con).1
  let cfg := main_settings WEIGHT_LESION DECAY_LESION
  let m := sweep con cfg initial_machine
  let mn := compute_activation_results m.acts
  (compute_fits_and_print_results_on_screen cfg mn REAL_DATA N_ASSESSMENTs).2

end Cases

/-! ## Vocabulary of the statements, and sample inputs -/

/-- The decay-with-input rule on a layer of `n` nodes: every node `i < n` of `new` holds
`old[i] * (1 - DECAY_rate * f) + input[i]`. -/
def DecayRule (n : Nat) (old input new : List ℚ) (f : ℚ) : Prop :=
  ∀ i, i < n → rd new i = rd old i * (1 - DECAY_rate * f) + rd input i

/-- The input a destination node `i` receives over one pathway: the sum over the `m` source
nodes `j` of `act[j] * con[j][i] * k`. -/
def spread (m : Nat) (act : List ℚ) (con : List (List ℚ)) (i : Nat) (k : ℚ) : ℚ :=
  ∑ j in Finset.range m, rd act j * rd2 con j i * k

/-- The arithmetic mean of the `N_STEPs` recorded values `A[lesion_value][0 .. N_STEPs-1][group][task]`. -/
def series_mean (A : Arr4) (lesion_value group task : Nat) : ℚ :=
  (∑ i in Finset.range N_STEPs, A lesion_value i group task) / (N_STEPs : ℚ)

/-- A state of the group-studies network with arbitrary-looking entries, used to instantiate
general statements. -/
def GroupStudies.sample_net : Net :=
  { GroupStudies.initial_net with
    C_node_act := tabulate GroupStudies.N_CONCEPTs fun i => (i : ℚ) / 7
    input_C := tabulate GroupStudies.N_CONCEPTs fun i => 3 - (i : ℚ) / 2 }

/-- The connection matrices of the group-studies program after `set_spreading_rates`. -/
def GroupStudies.scaled_con : Conn := (GroupStudies.set_spreading_rates GroupStudies.initial_con).1

/-- The connection matrices of the five-word programs after `set_spreading_rates`. -/
def FiveWord.scaled_con : Conn := (FiveWord.set_spreading_rates FiveWord.initial_con).1

/-- The lesion factors of the single-case program for the control: both `1.0`. -/
def Cases.healthy : Cases.Lesion :=
  { CONNECTION_DECREASE_LOGOPENIC := 1, DECAY_INCREASE_LOGOPENIC := 1 }

/-- The single-case network of the control in the naming task after the two update steps
at `T = 0` and `T = 25` from the initial (all zero) state. -/
def Cases.naming_net_2 : Net :=
  Cases.update_network FiveWord.scaled_con Cases.healthy NAMING 25
    (Cases.update_network FiveWord.scaled_con Cases.healthy NAMING 0 FiveWord.initial_net)

/-- The network after `n` rounds of the time loop entered at `T = 0` with the network `net0`:
round `n` (counted from `0`) runs `update_network` at `T = STEP_SIZE * n`. -/
def net_after {L : Type} (update_network : L → Int → Net → Net) (les : L) (net0 : Net) :
    Nat → Net
  | 0 => net0
  | n + 1 => update_network les ((STEP_SIZE * n : Nat) : Int)
      (net_after update_network les net0 n)

/-- The shape shared by the three `simulate_cell`: reset, lesion factors, time loop. -/
def cell_of {L : Type} (update_network : Nat → L → Int → Net → Net)
    (determine : Nat → Nat → Nat → Nat → Net → Recorded → Recorded)
    (reset_network : Net → Net) (set_aphasic_parameters : Nat → Nat → L)
    (group task lesion_value : Nat) (m : Machine L) : Machine L :=
  time_loop (update_network task) (fun step st r => determine lesion_value step group task st r)
    (N_STEPs * STEP_SIZE)
    { net := reset_network m.net
      les := set_aphasic_parameters group lesion_value
      T := 0
      step := 0
      acts := m.acts }

/-- The series of one cell: for each step `0 .. N_STEPs-1` the eight recorded values
`ACT_C`, `ACT_S`, `ACT_CT`, `ACT_CR`, `ACT_LT`, `ACT_LR`, `ACT_ST`, `ACT_SR`. -/
def series (r : Recorded) (lesion_value group task : Nat) : List (List ℚ) :=
  (List.range N_STEPs).map fun step =>
    [r.ACT_C lesion_value step group task, r.ACT_S lesion_value step group task,
     r.ACT_CT lesion_value step group task, r.ACT_CR lesion_value step group task,
     r.ACT_LT lesion_value step group task, r.ACT_LR lesion_value step group task,
     r.ACT_ST lesion_value step group task, r.ACT_SR lesion_value step group task]

/-- The group-studies network of the cell `(group, task, lesion_value)` after `n` update
steps from the reset state. -/
def GroupStudies.cell_net (con : Conn) (cfg : Settings) (group task lesion_value n : Nat) : Net :=
  net_after (fun les T st => GroupStudies.update_network con les task T st)
    (GroupStudies.set_aphasic_parameters cfg group lesion_value)
    (GroupStudies.reset_network GroupStudies.initial_net) n

/-- The cluster network of the cell `(group, task, lesion_value)` after `n` update steps from
the reset state. -/
def Clusters.cell_net (con : Conn) (cfg : Settings) (group task lesion_value n : Nat) : Net :=
  net_after (fun les T st => Clusters.update_network con les task T st)
    (Clusters.set_aphasic_parameters cfg group lesion_value)
    (FiveWord.reset_network FiveWord.initial_net) n

/-- The single-case network of the cell `(assessment, task, lesion_value)` after `n` update
steps from the reset state. -/
def Cases.cell_net (con : Conn) (cfg : Settings) (assessment task lesion_value n : Nat) : Net :=
  net_after (fun les T st => Cases.update_network con les task T st)
    (Cases.set_aphasic_parameters cfg assessment lesion_value)
    (FiveWord.reset_network FiveWord.initial_net) n

/-- The shape shared by the two `determine_activation_critical_nodes`: the node indices of
the target and the relative (`cat`, `dog`) and of the target and the relative syllable
(`skat`, `smat`) are the only difference. -/
def record_of (cat dog skat smat : Nat) (lesion_value step group task : Nat) (st : Net)
    (r : Recorded) : Recorded :=
  { ACT_C := r.ACT_C.set lesion_value step group task (rd st.C_node_act cat)
    ACT_S := r.ACT_S.set lesion_value step group task (rd st.S_node_act cat)
    ACT_CT := r.ACT_CT.set lesion_value step group task (rd st.C_node_act cat)
    ACT_CR := r.ACT_CR.set lesion_value step group task (rd st.C_node_act dog)
    ACT_LT := r.ACT_LT.set lesion_value step group task (rd st.L_node_act cat)
    ACT_LR := r.ACT_LR.set lesion_value step group task (rd st.L_node_act dog)
    ACT_ST := r.ACT_ST.set lesion_value step group task (rd st.S_node_act skat)
    ACT_SR := r.ACT_SR.set lesion_value step group task (rd st.S_node_act smat) }

/-- The eight values `record_of` writes for the network `st`, in the order of `series`. -/
def critical_values (cat dog skat smat : Nat) (st : Net) : List ℚ :=
  [rd st.C_node_act cat, rd st.S_node_act cat, rd st.C_node_act cat, rd st.C_node_act dog,
   rd st.L_node_act cat, rd st.L_node_act dog, rd st.S_node_act skat, rd st.S_node_act smat]

/-- The simulated score of a group at a severity index for a task, from the means: the
expression assigned to `SIM_DATA[group][task]`. -/
def sim_score (mn : Means) (group lesion_value task : Nat) : ℚ :=
  if task = NAMING then
    (mn.MEAN_ACT_ST lesion_value group NAMING - mn.MEAN_ACT_SR lesion_value group NAMING)
      / (mn.MEAN_ACT_ST lesion_value NORMAL NAMING - mn.MEAN_ACT_SR lesion_value NORMAL NAMING)
      * 100
  else if task = COMPREHENSION then
    (mn.MEAN_ACT_CT lesion_value group COMPREHENSION
        - mn.MEAN_ACT_CR lesion_value group COMPREHENSION)
      / (mn.MEAN_ACT_CT lesion_value NORMAL COMPREHENSION
        - mn.MEAN_ACT_CR lesion_value NORMAL COMPREHENSION)
      * 100
  else
    (mn.MEAN_ACT_ST lesion_value group REPETITION
        - mn.MEAN_ACT_SR lesion_value group REPETITION)
      / (mn.MEAN_ACT_ST lesion_value NORMAL REPETITION
        - mn.MEAN_ACT_SR lesion_value NORMAL REPETITION)
      * 100

/-- The mean absolute error of a group at a severity index: the expression assigned to
`GOODNESS_OF_FIT[lesion_value]`. -/
def mean_abs_error (mn : Means) (REAL_DATA : List (List ℚ)) (group lesion_value : Nat) : ℚ :=
  (|rd2 REAL_DATA group NAMING - sim_score mn group lesion_value NAMING|
    + |rd2 REAL_DATA group COMPREHENSION - sim_score mn group lesion_value COMPREHENSION|
    + |rd2 REAL_DATA group REPETITION - sim_score mn group lesion_value REPETITION|) / 3

/-- The lesion factors of the group-studies program for the control: all `1.0`. -/
def GroupStudies.healthy : GroupStudies.Lesion :=
  { CONNECTION_DECREASE_NONFLUENT_AGRAMMATIC := 1
    CONNECTION_DECREASE_SEMANTIC_DEMENTIA := 1
    CONNECTION_DECREASE_LOGOPENIC := 1
    DECAY_INCREASE_NONFLUENT_AGRAMMATIC := 1
    DECAY_INCREASE_SEMANTIC_DEMENTIA := 1
    DECAY_INCREASE_LOGOPENIC := 1 }

/-- A state of the group-studies network in which the output morpheme of the target word
has activation `1.0` and every other activation and every input buffer is `0.0`. -/
def GroupStudies.morpheme_only : Net :=
  { GroupStudies.initial_net with
    M_node_act := tabulate GroupStudies.N_MORPHEMEs fun i => if i = GroupStudies.CAT then 1 else 0 }

/-- Means, made up for instantiating statements about the fit stage: at severity index `lv`
the target-minus-foil contrast of the control group is `1` and that of every other group is
`(lv + 1) / 100`, on the syllable and on the concept nodes, so that the simulated score of a
patient group at index `lv` is `lv + 1` for each task. -/
def sample_means : Means :=
  { MEAN_ACT_C := fun _ _ _ => 0
    MEAN_ACT_S := fun _ _ _ => 0
    MEAN_ACT_CT := fun lv g _ => if g = NORMAL then 1 else ((lv : ℚ) + 1) / 100
    MEAN_ACT_CR := fun _ _ _ => 0
    MEAN_ACT_LT := fun _ _ _ => 0
    MEAN_ACT_LR := fun _ _ _ => 0
    MEAN_ACT_ST := fun lv g _ => if g = NORMAL then 1 else ((lv : ℚ) + 1) / 100
    MEAN_ACT_SR := fun _ _ _ => 0 }

/-- Reference scores whose row `1` equals the simulated scores of `sample_means` at severity
index `42` (score `43` for each task); row `0` is the control of the Dutch data. -/
def sample_reference : List (List ℚ) :=
  [[90.3, 96.3, 96.7], [43, 43, 43]]

/-- Means, made up, in which the control group's target-minus-foil contrast is zero at
severity index `0` (target and foil both at `0`) and `1` at every other index, for every
group and task. -/
def zero_contrast_means : Means :=
  { MEAN_ACT_C := fun _ _ _ => 0
    MEAN_ACT_S := fun _ _ _ => 0
    MEAN_ACT_CT := fun lv _ _ => if lv = 0 then 0 else 1
    MEAN_ACT_CR := fun _ _ _ => 0
    MEAN_ACT_LT := fun _ _ _ => 0
    MEAN_ACT_LR := fun _ _ _ => 0
    MEAN_ACT_ST := fun lv _ _ => if lv = 0 then 0 else 1
    MEAN_ACT_SR := fun _ _ _ => 0 }

/-- Reference scores of a patient group at floor: `0` percent correct in each task (row `1`);
row `0` is the control of the Dutch data. -/
def floor_reference : List (List ℚ) :=
  [[90.3, 96.3, 96.7], [0, 0, 0]]

/-- The fit state with which `compute_fits_and_print_results_on_screen` starts:
`SIM_DATA` and `GOODNESS_OF_FIT` all `0.0`, `LV` not yet assigned. -/
def initial_fit : FitState :=
  { SIM_DATA := fun _ _ => 0
    GOODNESS_OF_FIT := tabulate N_lesion_values fun _ => 0
    LV := none }

/-- Every entry `[j][i]`, `j < n`, `i < m`, of `scaled` is the entry of `original` times
`rate`; it is `0` or `rate`, and it is not negative. -/
def ScaledBy (n m : Nat) (original scaled : List (List ℚ)) (rate : ℚ) : Prop :=
  ∀ j i, j < n → i < m →
    rd2 scaled j i = rd2 original j i * rate
      ∧ (rd2 scaled j i = 0 ∨ rd2 scaled j i = rate)
      ∧ 0 ≤ rd2 scaled j i

/-- Every entry `[j][i]`, `j < n`, `i < m`, of the matrix is `0.0` or `1.0`. -/
def Binary (n m : Nat) (con : List (List ℚ)) : Prop :=
  ∀ j, j < n → ∀ i, i < m → rd2 con j i = 0 ∨ rd2 con j i = 1

instance (n m : Nat) (con : List (List ℚ)) : Decidable (Binary n m con) := by
  unfold Binary; infer_instance

/-- Compares one and two applications of a rate to a matrix: at every entry `[j][i]`,
`j < n`, `i < m`, where `original` is `1.0` (a connection), `twice` is `rate * rate` and
differs from `once`, which is `rate`; where `original` is `0.0`, `once` and `twice` are `0.0`. -/
def Rescaled (n m : Nat) (original once twice : List (List ℚ)) (rate : ℚ) : Prop :=
  ∀ j i, j < n → i < m →
    (rd2 original j i = 1 →
        rd2 once j i = rate ∧ rd2 twice j i = rate * rate ∧ rd2 twice j i ≠ rd2 once j i)
      ∧ (rd2 original j i = 0 → rd2 once j i = 0 ∧ rd2 twice j i = 0)

/-- The single-case network of the control in the naming task after `n` update steps from the
reset state, with the matrices as `set_spreading_rates` leaves them. -/
def Cases.control_naming_net (n : Nat) : Net :=
  net_after (fun les T st => Cases.update_network FiveWord.scaled_con les NAMING T st)
    Cases.healthy (FiveWord.reset_network FiveWord.initial_net) n

/-! ### One update step in closed form -/

/-- The sizes of the concept, lemma, morpheme, phoneme and syllable layers. -/
structure Sizes where
  nC : Nat
  nL : Nat
  nM : Nat
  nP : Nat
  nS : Nat

/-- The layer sizes of the group-studies program. -/
def GroupStudies.sizes : Sizes :=
  { nC := GroupStudies.N_CONCEPTs, nL := GroupStudies.N_LEMMAs, nM := GroupStudies.N_MORPHEMEs
    nP := GroupStudies.N_PHONEMEs, nS := GroupStudies.N_SYLLABLEs }

/-- The layer sizes of the cluster and the single-case program. -/
def FiveWord.sizes : Sizes :=
  { nC := FiveWord.N_CONCEPTs, nL := FiveWord.N_LEMMAs, nM := FiveWord.N_MORPHEMEs
    nP := FiveWord.N_PHONEMEs, nS := FiveWord.N_SYLLABLEs }

/-- The factors one `update_network` step multiplies into the decay of the concept, lemma,
output-morpheme and output-phoneme layers (`dC`, `dL`, `dM`, `doP`) and into the pathways
concept to concept (`kCC`), lemma to concept (`kLC`), concept to lemma (`kCL`), lemma to
output morpheme (`kLM`, with `LEMLEXFRAC`), input morpheme to output morpheme (`kiMM`),
morpheme to output phoneme (`kMP`), input phoneme to output phoneme (`kPPo`), output phoneme
to syllable (`kPS`) and output phoneme to input phoneme (`kPPi`). -/
structure Rates where
  dC : ℚ
  dL : ℚ
  dM : ℚ
  doP : ℚ
  kCC : ℚ
  kLC : ℚ
  kCL : ℚ
  kLM : ℚ
  kiMM : ℚ
  kMP : ℚ
  kPPo : ℚ
  kPS : ℚ
  kPPi : ℚ

/-- The factors of `get_internal_input` and `update_activation_of_nodes` of the group-studies
program. -/
def GroupStudies.rates (les : GroupStudies.Lesion) : Rates :=
  { dC := les.DECAY_INCREASE_SEMANTIC_DEMENTIA
    dL := 1
    dM := les.DECAY_INCREASE_LOGOPENIC
    doP := les.DECAY_INCREASE_NONFLUENT_AGRAMMATIC
    kCC := les.CONNECTION_DECREASE_SEMANTIC_DEMENTIA
    kLC := les.CONNECTION_DECREASE_SEMANTIC_DEMENTIA
    kCL := les.CONNECTION_DECREASE_SEMANTIC_DEMENTIA
    kLM := LEMLEXFRAC * les.CONNECTION_DECREASE_LOGOPENIC
    kiMM := les.CONNECTION_DECREASE_LOGOPENIC
    kMP := les.CONNECTION_DECREASE_NONFLUENT_AGRAMMATIC * les.CONNECTION_DECREASE_LOGOPENIC
    kPPo := les.CONNECTION_DECREASE_NONFLUENT_AGRAMMATIC * les.CONNECTION_DECREASE_LOGOPENIC
    kPS := les.CONNECTION_DECREASE_NONFLUENT_AGRAMMATIC
    kPPi := les.CONNECTION_DECREASE_NONFLUENT_AGRAMMATIC * les.CONNECTION_DECREASE_LOGOPENIC }

/-- The factors of `get_internal_input` and `update_activation_of_nodes` of the cluster
program. -/
def Clusters.rates (les : Clusters.Lesion) : Rates :=
  { dC := 1
    dL := les.DECAY_INCREASE_CLUSTER_2
    dM := les.DECAY_INCREASE_CLUSTER_1 * les.DECAY_INCREASE_CLUSTER_2
      * les.DECAY_INCREASE_CLUSTER_3
    doP := les.DECAY_INCREASE_CLUSTER_1 * les.DECAY_INCREASE_CLUSTER_3
    kCC := 1
    kLC := les.CONNECTION_DECREASE_CLUSTER_2
    kCL := les.CONNECTION_DECREASE_CLUSTER_2
    kLM := LEMLEXFRAC * (les.CONNECTION_DECREASE_CLUSTER_1 * les.CONNECTION_DECREASE_CLUSTER_2
      * les.CONNECTION_DECREASE_CLUSTER_3)
    kiMM := les.CONNECTION_DECREASE_CLUSTER_1 * les.CONNECTION_DECREASE_CLUSTER_2
      * les.CONNECTION_DECREASE_CLUSTER_3
    kMP := les.CONNECTION_DECREASE_CLUSTER_1 * les.CONNECTION_DECREASE_CLUSTER_2
      * les.CONNECTION_DECREASE_CLUSTER_3
    kPPo := les.CONNECTION_DECREASE_CLUSTER_1 * les.CONNECTION_DECREASE_CLUSTER_3
    kPS := 1
    kPPi := les.CONNECTION_DECREASE_CLUSTER_1 * les.CONNECTION_DECREASE_CLUSTER_3 }

/-- The factors of `get_internal_input` and `update_activation_of_nodes` of the single-case
program. -/
def Cases.rates (les : Cases.Lesion) : Rates :=
  { dC := 1
    dL := 1
    dM := les.DECAY_INCREASE_LOGOPENIC
    doP := 1
    kCC := 1
    kLC := 1
    kCL := 1
    kLM := LEMLEXFRAC * les.CONNECTION_DECREASE_LOGOPENIC
    kiMM := les.CONNECTION_DECREASE_LOGOPENIC
    kMP := les.CONNECTION_DECREASE_LOGOPENIC
    kPPo := les.CONNECTION_DECREASE_LOGOPENIC
    kPS := 1
    kPPi := les.CONNECTION_DECREASE_LOGOPENIC }

/-- The state `st1` is one update step after `st`: every node `i` of every layer holds
`old * (1 - DECAY_rate * d)` plus its external input (`extC` on the concepts, `extP` on the
input phonemes) plus the input spread to it from the source layers, all read in `st`. -/
def Step (z : Sizes) (con : Conn) (k : Rates) (extC extP : Nat → ℚ) (st st1 : Net) : Prop :=
  (∀ i, i < z.nC → rd st1.C_node_act i = rd st.C_node_act i * (1 - DECAY_rate * k.dC)
      + (extC i + spread z.nC st.C_node_act con.CC_con i k.kCC
        + spread z.nL st.L_node_act con.CL_con i k.kLC))
    ∧ (∀ i, i < z.nL → rd st1.L_node_act i = rd st.L_node_act i * (1 - DECAY_rate * k.dL)
      + (spread z.nC st.C_node_act con.CL_con i k.kCL
        + spread z.nM st.iM_node_act con.iML_con i 1))
    ∧ (∀ i, i < z.nM → rd st1.M_node_act i = rd st.M_node_act i * (1 - DECAY_rate * k.dM)
      + (spread z.nL st.L_node_act con.LM_con i k.kLM
        + spread z.nM st.iM_node_act con.iMM_con i k.kiMM))
    ∧ (∀ i, i < z.nP → rd st1.oP_node_act i = rd st.oP_node_act i * (1 - DECAY_rate * k.doP)
      + (spread z.nM st.M_node_act con.MP_con i k.kMP
        + spread z.nP st.iP_node_act con.PP_con i k.kPPo))
    ∧ (∀ i, i < z.nS → rd st1.S_node_act i = rd st.S_node_act i * (1 - DECAY_rate * 1)
      + spread z.nP st.oP_node_act con.PS_con i k.kPS)
    ∧ (∀ i, i < z.nP → rd st1.iP_node_act i = rd st.iP_node_act i * (1 - DECAY_rate * 1)
      + (extP i + spread z.nP st.oP_node_act con.PP_con i k.kPPi))
    ∧ (∀ i, i < z.nM → rd st1.iM_node_act i = rd st.iM_node_act i * (1 - DECAY_rate * 1)
      + spread z.nP st.iP_node_act con.PiM_con i 1)

/-! ### The external input with its magnitude as a parameter -/

/-- The function `get_external_input` of the cluster and the single-case program, reading
the global `EXTIN` as the parameter `extin`. -/
def FiveWord.get_external_input_with (extin : ℚ) (task : Nat) (T : Int) (st : Net) : Net :=
  let st1 : Net :=
    if task = NAMING then
      let c1 := if T ≥ 0 ∧ T < PICTURE_DURATION then
          add_at FiveWord.N_CONCEPTs st.input_C FiveWord.CAT extin
        else st.input_C
      let c2 := if T ≥ 0 + 1 * CYCLE_TIME ∧ T < 1 * CYCLE_TIME + PICTURE_DURATION then
          add_at FiveWord.N_CONCEPTs c1 FiveWord.CAT extin
        else c1
      { st with input_C := c2 }
    else st
  if task = COMPREHENSION ∨ task = REPETITION then
    let p1 := if 0 ≤ T ∧ T < SEGMENT_DURATION then
        add_at FiveWord.N_PHONEMEs st1.input_iP FiveWord.pK extin
      else st1.input_iP
    let p2 := if SEGMENT_DURATION ≤ T ∧ T < 2 * SEGMENT_DURATION then
        add_at FiveWord.N_PHONEMEs p1 FiveWord.pE extin
      else p1
    let p3 := if 2 * SEGMENT_DURATION ≤ T ∧ T < 3 * SEGMENT_DURATION then
        add_at FiveWord.N_PHONEMEs p2 FiveWord.pT extin
      else p2
    { st1 with input_iP := p3 }
  else st1

/-- The function `get_external_input` of the group-studies program, reading the global
`EXTIN` as the parameter `extin`. -/
def GroupStudies.get_external_input_with (extin : ℚ) (les : GroupStudies.Lesion) (task : Nat)
    (T : Int) (st : Net) : Net :=
  let st1 : Net :=
    if task = NAMING then
      let c1 := if T ≥ 0 ∧ T < PICTURE_DURATION then
          add_at GroupStudies.N_CONCEPTs st.input_C GroupStudies.CAT
            (les.CONNECTION_DECREASE_SEMANTIC_DEMENTIA * extin)
        else st.input_C
      let c2 := if T ≥ 0 + 1 * CYCLE_TIME ∧ T < 1 * CYCLE_TIME + PICTURE_DURATION then
          add_at GroupStudies.N_CONCEPTs c1 GroupStudies.CAT extin
        else c1
      { st with input_C := c2 }
    else st
  if task = COMPREHENSION ∨ task = REPETITION then
    let p1 := if 0 ≤ T ∧ T < SEGMENT_DURATION then
        add_at GroupStudies.N_PHONEMEs st1.input_iP GroupStudies.pK extin
      else st1.input_iP
    let p2 := if SEGMENT_DURATION ≤ T ∧ T < 2 * SEGMENT_DURATION then
        add_at GroupStudies.N_PHONEMEs p1 GroupStudies.pA extin
      else p1
    let p3 := if 2 * SEGMENT_DURATION ≤ T ∧ T < 3 * SEGMENT_DURATION then
        add_at GroupStudies.N_PHONEMEs p2 GroupStudies.pT extin
      else p2
    { st1 with input_iP := p3 }
  else st1

/-- The function `update_network` of the group-studies program with `EXTIN` as a parameter. -/
def GroupStudies.update_network_with (extin : ℚ) (con : Conn) (les : GroupStudies.Lesion)
    (task : Nat) (T : Int) (st : Net) : Net :=
  GroupStudies.update_activation_of_nodes les
    (GroupStudies.get_internal_input con les
      (GroupStudies.get_external_input_with extin les task T
        (GroupStudies.set_input_to_zero st)))

/-- The function `update_network` of the cluster program with `EXTIN` as a parameter. -/
def Clusters.update_network_with (extin : ℚ) (con : Conn) (les : Clusters.Lesion)
    (task : Nat) (T : Int) (st : Net) : Net :=
  Clusters.update_activation_of_nodes les
    (Clusters.get_internal_input con les
      (FiveWord.get_external_input_with extin task T (FiveWord.set_input_to_zero st)))

/-- The function `update_network` of the single-case program with `EXTIN` as a parameter. -/
def Cases.update_network_with (extin : ℚ) (con : Conn) (les : Cases.Lesion)
    (task : Nat) (T : Int) (st : Net) : Net :=
  Cases.update_activation_of_nodes les
    (Cases.get_internal_input con les
      (FiveWord.get_external_input_with extin task T (FiveWord.set_input_to_zero st)))

/-- The external input of the concept node `i` at step `n` (at `T = STEP_SIZE * n`) in the
group-studies program, for the magnitude `extin`. -/
def GroupStudies.external_C (extin : ℚ) (les : GroupStudies.Lesion) (task n i : Nat) : ℚ :=
  rd (GroupStudies.get_external_input_with extin les task ((STEP_SIZE * n : Nat) : Int)
    (GroupStudies.set_input_to_zero GroupStudies.initial_net)).input_C i

/-- The external input of the input-phoneme node `i` at step `n` in the group-studies
program, for the magnitude `extin`. -/
def GroupStudies.external_iP (extin : ℚ) (les : GroupStudies.Lesion) (task n i : Nat) : ℚ :=
  rd (GroupStudies.get_external_input_with extin les task ((STEP_SIZE * n : Nat) : Int)
    (GroupStudies.set_input_to_zero GroupStudies.initial_net)).input_iP i

/-- The external input of the concept node `i` at step `n` (at `T = STEP_SIZE * n`) in the
cluster and the single-case program, for the magnitude `extin`. -/
def FiveWord.external_C (extin : ℚ) (task n i : Nat) : ℚ :=
  rd (FiveWord.get_external_input_with extin task ((STEP_SIZE * n : Nat) : Int)
    (FiveWord.set_input_to_zero FiveWord.initial_net)).input_C i

/-- The external input of the input-phoneme node `i` at step `n` in the cluster and the
single-case program, for the magnitude `extin`. -/
def FiveWord.external_iP (extin : ℚ) (task n i : Nat) : ℚ :=
  rd (FiveWord.get_external_input_with extin task ((STEP_SIZE * n : Nat) : Int)
    (FiveWord.set_input_to_zero FiveWord.initial_net)).input_iP i

/-- The group-studies network of the cell `(group, task, lesion_value)` after `n` update
steps from the reset state, for the external input magnitude `extin`. -/
def GroupStudies.cell_net_with (extin : ℚ) (con : Conn) (cfg : Settings)
    (group task lesion_value n : Nat) : Net :=
  net_after (fun les T st => GroupStudies.update_network_with extin con les task T st)
    (GroupStudies.set_aphasic_parameters cfg group lesion_value)
    (GroupStudies.reset_network GroupStudies.initial_net) n

/-- The cluster network of the cell `(group, task, lesion_value)` after `n` update steps from
the reset state, for the external input magnitude `extin`. -/
def Clusters.cell_net_with (extin : ℚ) (con : Conn) (cfg : Settings)
    (group task lesion_value n : Nat) : Net :=
  net_after (fun les T st => Clusters.update_network_with extin con les task T st)
    (Clusters.set_aphasic_parameters cfg group lesion_value)
    (FiveWord.reset_network FiveWord.initial_net) n

/-- The single-case network of the cell `(assessment, task, lesion_value)` after `n` update
steps from the reset state, for the external input magnitude `extin`. -/
def Cases.cell_net_with (extin : ℚ) (con : Conn) (cfg : Settings)
    (assessment task lesion_value n : Nat) : Net :=
  net_after (fun les T st => Cases.update_network_with extin con les task T st)
    (Cases.set_aphasic_parameters cfg assessment lesion_value)
    (FiveWord.reset_network FiveWord.initial_net) n

/-- Every activation of every node of every layer is `0.0`. -/
def ZeroNet (z : Sizes) (st : Net) : Prop :=
  (∀ i, i < z.nC → rd st.C_node_act i = 0)
    ∧ (∀ i, i < z.nL → rd st.L_node_act i = 0)
    ∧ (∀ i, i < z.nM → rd st.M_node_act i = 0)
    ∧ (∀ i, i < z.nP → rd st.oP_node_act i = 0)
    ∧ (∀ i, i < z.nS → rd st.S_node_act i = 0)
    ∧ (∀ i, i < z.nP → rd st.iP_node_act i = 0)
    ∧ (∀ i, i < z.nM → rd st.iM_node_act i = 0)

/-- The sequence `x` of states starts from all-zero activations and advances by one update
step at a time, with the external inputs `extC n`, `extP n` at step `n`. -/
def Traj (z : Sizes) (con : Conn) (k : Rates) (extC extP : Nat → Nat → ℚ) (x : Nat → Net) :
    Prop :=
  ZeroNet z (x 0) ∧ ∀ n, Step z con k (extC n) (extP n) (x n) (x (n + 1))

/-- No activation of any node of any layer is negative. -/
def NonnegNet (z : Sizes) (st : Net) : Prop :=
  (∀ i, i < z.nC → 0 ≤ rd st.C_node_act i)
    ∧ (∀ i, i < z.nL → 0 ≤ rd st.L_node_act i)
    ∧ (∀ i, i < z.nM → 0 ≤ rd st.M_node_act i)
    ∧ (∀ i, i < z.nP → 0 ≤ rd st.oP_node_act i)
    ∧ (∀ i, i < z.nS → 0 ≤ rd st.S_node_act i)
    ∧ (∀ i, i < z.nP → 0 ≤ rd st.iP_node_act i)
    ∧ (∀ i, i < z.nM → 0 ≤ rd st.iM_node_act i)

/-- No entry of any connection matrix is negative. -/
def NonnegCon (con : Conn) : Prop :=
  (∀ j i, 0 ≤ rd2 con.CC_con j i) ∧ (∀ j i, 0 ≤ rd2 con.CL_con j i)
    ∧ (∀ j i, 0 ≤ rd2 con.LM_con j i) ∧ (∀ j i, 0 ≤ rd2 con.MP_con j i)
    ∧ (∀ j i, 0 ≤ rd2 con.PS_con j i) ∧ (∀ j i, 0 ≤ rd2 con.PP_con j i)
    ∧ (∀ j i, 0 ≤ rd2 con.PiM_con j i) ∧ (∀ j i, 0 ≤ rd2 con.iMM_con j i)
    ∧ (∀ j i, 0 ≤ rd2 con.iML_con j i)

/-- No pathway factor is negative and no decay term exceeds the activation it is taken
from (`DECAY_rate * d <= 1`). -/
def NonnegRates (k : Rates) : Prop :=
  DECAY_rate * k.dC ≤ 1 ∧ DECAY_rate * k.dL ≤ 1 ∧ DECAY_rate * k.dM ≤ 1
    ∧ DECAY_rate * k.doP ≤ 1 ∧ 0 ≤ k.kCC ∧ 0 ≤ k.kLC ∧ 0 ≤ k.kCL ∧ 0 ≤ k.kLM ∧ 0 ≤ k.kiMM
    ∧ 0 ≤ k.kMP ∧ 0 ≤ k.kPPo ∧ 0 ≤ k.kPS ∧ 0 ≤ k.kPPi

/-- Every activation of `st1` is `c` times the activation of the same node in `st`. -/
def ScaledNet (z : Sizes) (c : ℚ) (st st1 : Net) : Prop :=
  (∀ i, i < z.nC → rd st1.C_node_act i = c * rd st.C_node_act i)
    ∧ (∀ i, i < z.nL → rd st1.L_node_act i = c * rd st.L_node_act i)
    ∧ (∀ i, i < z.nM → rd st1.M_node_act i = c * rd st.M_node_act i)
    ∧ (∀ i, i < z.nP → rd st1.oP_node_act i = c * rd st.oP_node_act i)
    ∧ (∀ i, i < z.nS → rd st1.S_node_act i = c * rd st.S_node_act i)
    ∧ (∀ i, i < z.nP → rd st1.iP_node_act i = c * rd st.iP_node_act i)
    ∧ (∀ i, i < z.nM → rd st1.iM_node_act i = c * rd st.iM_node_act i)

/-- Every activation of every output-morpheme, output-phoneme and syllable node is `0.0`. -/
def OutputZero (z : Sizes) (st : Net) : Prop :=
  (∀ i, i < z.nM → rd st.M_node_act i = 0)
    ∧ (∀ i, i < z.nP → rd st.oP_node_act i = 0)
    ∧ (∀ i, i < z.nS → rd st.S_node_act i = 0)

/-- The cell of the group-studies program with `EXTIN` as the parameter `extin`. -/
def GroupStudies.simulate_cell_with (extin : ℚ) (con : Conn) (cfg : Settings)
    (group task lesion_value : Nat) (m : Machine GroupStudies.Lesion) :
    Machine GroupStudies.Lesion :=
  time_loop (fun les T st => GroupStudies.update_network_with extin con les task T st)
    (fun step st r =>
      GroupStudies.determine_activation_critical_nodes lesion_value step group task st r)
    (N_STEPs * STEP_SIZE)
    { net := GroupStudies.reset_network m.net
      les := GroupStudies.set_aphasic_parameters cfg group lesion_value
      T := 0
      step := 0
      acts := m.acts }

/-- The sweep of the group-studies program with `EXTIN` as the parameter `extin`. -/
def GroupStudies.sweep_with (extin : ℚ) (con : Conn) (cfg : Settings)
    (m : Machine GroupStudies.Lesion) : Machine GroupStudies.Lesion :=
  sweep_cells (GroupStudies.simulate_cell_with extin con cfg) GroupStudies.N_GROUPs m

/-- The cell of the cluster program with `EXTIN` as the parameter `extin`. -/
def Clusters.simulate_cell_with (extin : ℚ) (con : Conn) (cfg : Settings)
    (group task lesion_value : Nat) (m : Machine Clusters.Lesion) : Machine Clusters.Lesion :=
  time_loop (fun les T st => Clusters.update_network_with extin con les task T st)
    (fun step st r =>
      FiveWord.determine_activation_critical_nodes lesion_value step group task st r)
    (N_STEPs * STEP_SIZE)
    { net := FiveWord.reset_network m.net
      les := Clusters.set_aphasic_parameters cfg group lesion_value
      T := 0
      step := 0
      acts := m.acts }

/-- The sweep of the cluster program with `EXTIN` as the parameter `extin`. -/
def Clusters.sweep_with (extin : ℚ) (con : Conn) (cfg : Settings)
    (m : Machine Clusters.Lesion) : Machine Clusters.Lesion :=
  sweep_cells (Clusters.simulate_cell_with extin con cfg) Clusters.N_GROUPs m

/-- The cell of the single-case program with `EXTIN` as the parameter `extin`. -/
def Cases.simulate_cell_with (extin : ℚ) (con : Conn) (cfg : Settings)
    (assessment task lesion_value : Nat) (m : Machine Cases.Lesion) : Machine Cases.Lesion :=
  time_loop (fun les T st => Cases.update_network_with extin con les task T st)
    (fun step st r =>
      FiveWord.determine_activation_critical_nodes lesion_value step assessment task st r)
    (N_STEPs * STEP_SIZE)
    { net := FiveWord.reset_network m.net
      les := Cases.set_aphasic_parameters cfg assessment lesion_value
      T := 0
      step := 0
      acts := m.acts }

/-- The sweep of the single-case program with `EXTIN` as the parameter `extin`. -/
def Cases.sweep_with (extin : ℚ) (con : Conn) (cfg : Settings)
    (m : Machine Cases.Lesion) : Machine Cases.Lesion :=
  sweep_cells (Cases.simulate_cell_with extin con cfg) Cases.N_ASSESSMENTs m

/-- The eight values recorded in `r1` at `[lesion_value][step][group][task]` are `c` times
those recorded in `r`. -/
def ScaledRecorded (c : ℚ) (r r1 : Recorded) (lesion_value step group task : Nat) : Prop :=
  r1.ACT_C lesion_value step group task = c * r.ACT_C lesion_value step group task
    ∧ r1.ACT_S lesion_value step group task = c * r.ACT_S lesion_value step group task
    ∧ r1.ACT_CT lesion_value step group task = c * r.ACT_CT lesion_value step group task
    ∧ r1.ACT_CR lesion_value step group task = c * r.ACT_CR lesion_value step group task
    ∧ r1.ACT_LT lesion_value step group task = c * r.ACT_LT lesion_value step group task
    ∧ r1.ACT_LR lesion_value step group task = c * r.ACT_LR lesion_value step group task
    ∧ r1.ACT_ST lesion_value step group task = c * r.ACT_ST lesion_value step group task
    ∧ r1.ACT_SR lesion_value step group task = c * r.ACT_SR lesion_value step group task

/-! ### An integer image of the network, for evaluation

After `n` update steps every activation is a multiple of `1 / D ^ n` for a suitable `D`.
The definitions below compute the numerators with natural numbers, summing over the
connections present in the unscaled matrices; `MatchNet` relates them to the network. -/

/-- Numerators of the activations of the seven layers. -/
structure NetN where
  C : Nat → Nat
  L : Nat → Nat
  M : Nat → Nat
  oP : Nat → Nat
  S : Nat → Nat
  iM : Nat → Nat
  iP : Nat → Nat

/-- The coefficients of one update step as multiples of `1 / D`: the decay multipliers
`(1 - DECAY_rate * d) * D` of the concept, lemma, output-morpheme and output-phoneme layers
and of the remaining layers (`wS`), and the products `rate * factor * D` of the pathways. -/
structure RatesN where
  wC : Nat
  wL : Nat
  wM : Nat
  woP : Nat
  wS : Nat
  wCC : Nat
  wLC : Nat
  wCL : Nat
  wiML : Nat
  wLM : Nat
  wiMM : Nat
  wMP : Nat
  wPPo : Nat
  wPS : Nat
  wPPi : Nat
  wPiM : Nat

/-- The natural number a rational stands for (used on rationals that are natural numbers). -/
def natOf (q : ℚ) : Nat := q.num.toNat

/-- The coefficients `RatesN` for the denominator `D`, the spreading rates `sem`, `lem`,
`lex`, `frlex` and the factors `k`. -/
def RatesN.of (D : Nat) (sem lem lex frlex : ℚ) (k : Rates) : RatesN :=
  { wC := natOf ((1 - DECAY_rate * k.dC) * D)
    wL := natOf ((1 - DECAY_rate * k.dL) * D)
    wM := natOf ((1 - DECAY_rate * k.dM) * D)
    woP := natOf ((1 - DECAY_rate * k.doP) * D)
    wS := natOf ((1 - DECAY_rate * 1) * D)
    wCC := natOf (sem * k.kCC * D)
    wLC := natOf (lem * k.kLC * D)
    wCL := natOf (lem * k.kCL * D)
    wiML := natOf (lex * 1 * D)
    wLM := natOf (lex * k.kLM * D)
    wiMM := natOf (lex * k.kiMM * D)
    wMP := natOf (lex * k.kMP * D)
    wPPo := natOf (lex * k.kPPo * D)
    wPS := natOf (lex * k.kPS * D)
    wPPi := natOf (lex * k.kPPi * D)
    wPiM := natOf (frlex * 1 * D) }

/-- The coefficients `w` are the rates and factors `k` times `D`. -/
def RatesMatch (D : Nat) (sem lem lex frlex : ℚ) (k : Rates) (w : RatesN) : Prop :=
  (w.wC : ℚ) = (1 - DECAY_rate * k.dC) * D
    ∧ (w.wL : ℚ) = (1 - DECAY_rate * k.dL) * D
    ∧ (w.wM : ℚ) = (1 - DECAY_rate * k.dM) * D
    ∧ (w.woP : ℚ) = (1 - DECAY_rate * k.doP) * D
    ∧ (w.wS : ℚ) = (1 - DECAY_rate * 1) * D
    ∧ (w.wCC : ℚ) = sem * k.kCC * D
    ∧ (w.wLC : ℚ) = lem * k.kLC * D
    ∧ (w.wCL : ℚ) = lem * k.kCL * D
    ∧ (w.wiML : ℚ) = lex * 1 * D
    ∧ (w.wLM : ℚ) = lex * k.kLM * D
    ∧ (w.wiMM : ℚ) = lex * k.kiMM * D
    ∧ (w.wMP : ℚ) = lex * k.kMP * D
    ∧ (w.wPPo : ℚ) = lex * k.kPPo * D
    ∧ (w.wPS : ℚ) = lex * k.kPS * D
    ∧ (w.wPPi : ℚ) = lex * k.kPPi * D
    ∧ (w.wPiM : ℚ) = frlex * 1 * D

instance (D : Nat) (sem lem lex frlex : ℚ) (k : Rates) (w : RatesN) :
    Decidable (RatesMatch D sem lem lex frlex k w) := by
  unfold RatesMatch; infer_instance

/-- The source nodes `j < m` connected to the destination node `i` in the unscaled matrix. -/
def supp (con : List (List ℚ)) (m i : Nat) : List Nat :=
  (List.range m).filter fun j => decide (rd2 con j i = 1)

/-- The sum of the values of `act` at the indices `idx`. -/
def gatherN (act : Nat → Nat) (idx : List Nat) : Nat :=
  idx.foldl (fun acc j => acc + act j) 0

/-- One update step on the numerators, with the unscaled matrices `con`. -/
def stepN (z : Sizes) (con : Conn) (w : RatesN) (eC eP : Nat → Nat) (st : NetN) : NetN :=
  { C := fun i => st.C i * w.wC
      + (eC i + gatherN st.C (supp con.CC_con z.nC i) * w.wCC
        + gatherN st.L (supp con.CL_con z.nL i) * w.wLC)
    L := fun i => st.L i * w.wL
      + (gatherN st.C (supp con.CL_con z.nC i) * w.wCL
        + gatherN st.iM (supp con.iML_con z.nM i) * w.wiML)
    M := fun i => st.M i * w.wM
      + (gatherN st.L (supp con.LM_con z.nL i) * w.wLM
        + gatherN st.iM (supp con.iMM_con z.nM i) * w.wiMM)
    oP := fun i => st.oP i * w.woP
      + (gatherN st.M (supp con.MP_con z.nM i) * w.wMP
        + gatherN st.iP (supp con.PP_con z.nP i) * w.wPPo)
    S := fun i => st.S i * w.wS
      + gatherN st.oP (supp con.PS_con z.nP i) * w.wPS
    iP := fun i => st.iP i * w.wS
      + (eP i + gatherN st.oP (supp con.PP_con z.nP i) * w.wPPi)
    iM := fun i => st.iM i * w.wS
      + gatherN st.iP (supp con.PiM_con z.nP i) * w.wPiM }

/-- All numerators `0`. -/
def zeroN : NetN :=
  { C := fun _ => 0, L := fun _ => 0, M := fun _ => 0, oP := fun _ => 0, S := fun _ => 0
    iM := fun _ => 0, iP := fun _ => 0 }

/-- The numerators after `n` update steps from all-zero activations. -/
def trajN (z : Sizes) (con : Conn) (w : RatesN) (eC eP : Nat → Nat → Nat) : Nat → NetN
  | 0 => zeroN
  | n + 1 => stepN z con w (eC n) (eP n) (trajN z con w eC eP n)

/-- The numerator of the external input of the naming task at step `n` for the node `i`:
`a1` in the base window (`n = 0 .. 4`) plus `a2` in the enhancement window (`n = 1 .. 5`),
at the node `cat`, as a multiple of `1 / D ^ (n + 1)`. -/
def naming_drive_N (D cat a1 a2 : Nat) (n i : Nat) : Nat :=
  if i = cat then ((if n ≤ 4 then a1 else 0) + (if 1 ≤ n ∧ n ≤ 5 then a2 else 0)) * D ^ n
  else 0

/-- Every activation of `st` is the numerator in `X` divided by `d`. -/
def MatchNet (z : Sizes) (d : ℚ) (st : Net) (X : NetN) : Prop :=
  (∀ i, i < z.nC → rd st.C_node_act i = (X.C i : ℚ) / d)
    ∧ (∀ i, i < z.nL → rd st.L_node_act i = (X.L i : ℚ) / d)
    ∧ (∀ i, i < z.nM → rd st.M_node_act i = (X.M i : ℚ) / d)
    ∧ (∀ i, i < z.nP → rd st.oP_node_act i = (X.oP i : ℚ) / d)
    ∧ (∀ i, i < z.nS → rd st.S_node_act i = (X.S i : ℚ) / d)
    ∧ (∀ i, i < z.nP → rd st.iP_node_act i = (X.iP i : ℚ) / d)
    ∧ (∀ i, i < z.nM → rd st.iM_node_act i = (X.iM i : ℚ) / d)

/-- The matrices `scon` are the binary matrices `con` times the spreading rates, on the index
ranges in which `get_internal_input` reads them. -/
def ScaledConn (z : Sizes) (con scon : Conn) (sem lem lex frlex : ℚ) : Prop :=
  (Binary z.nC z.nC con.CC_con ∧ ScaledBy z.nC z.nC con.CC_con scon.CC_con sem)
    ∧ (Binary z.nL z.nC con.CL_con ∧ ScaledBy z.nL z.nC con.CL_con scon.CL_con lem)
    ∧ (Binary z.nC z.nL con.CL_con ∧ ScaledBy z.nC z.nL con.CL_con scon.CL_con lem)
    ∧ (Binary z.nM z.nL con.iML_con ∧ ScaledBy z.nM z.nL con.iML_con scon.iML_con lex)
    ∧ (Binary z.nL z.nM con.LM_con ∧ ScaledBy z.nL z.nM con.LM_con scon.LM_con lex)
    ∧ (Binary z.nM z.nM con.iMM_con ∧ ScaledBy z.nM z.nM con.iMM_con scon.iMM_con lex)
    ∧ (Binary z.nM z.nP con.MP_con ∧ ScaledBy z.nM z.nP con.MP_con scon.MP_con lex)
    ∧ (Binary z.nP z.nP con.PP_con ∧ ScaledBy z.nP z.nP con.PP_con scon.PP_con lex)
    ∧ (Binary z.nP z.nS con.PS_con ∧ ScaledBy z.nP z.nS con.PS_con scon.PS_con lex)
    ∧ (Binary z.nP z.nM con.PiM_con ∧ ScaledBy z.nP z.nM con.PiM_con scon.PiM_con frlex)

/-- The denominator base of the integer image: the rates and factors of the programs at the
severity values used are multiples of `1 / 1000000`. -/
def imageD : Nat := 1000000

/-- The integer image of the group-studies network in the naming task with the lesion
parameters `les`, after `n` update steps. -/
def GroupStudies.naming_image (les : GroupStudies.Lesion) (n : Nat) : NetN :=
  trajN GroupStudies.sizes GroupStudies.initial_con
    (RatesN.of imageD GroupStudies.SEM_rate LEM_rate LEX_rate (FR * LEX_rate)
      (GroupStudies.rates les))
    (naming_drive_N imageD GroupStudies.CAT
      (natOf (les.CONNECTION_DECREASE_SEMANTIC_DEMENTIA * EXTIN * imageD))
      (natOf (EXTIN * imageD)))
    (fun _ _ => 0) n

/-- The integer image of the five-word network in the naming task with the factors `k`,
after `n` update steps. -/
def FiveWord.naming_image (k : Rates) (n : Nat) : NetN :=
  trajN FiveWord.sizes FiveWord.initial_con
    (RatesN.of imageD FiveWord.SEM_rate LEM_rate LEX_rate (FR * LEX_rate) k)
    (naming_drive_N imageD FiveWord.CAT (natOf (EXTIN * imageD)) (natOf (EXTIN * imageD)))
    (fun _ _ => 0) n

/-- In the integer image `X n`, at each of the steps `1 .. 80` the syllable node `smat` is
not above the syllable node `skat`, and at step `80` it is below it. -/
def SyllableLead (X : Nat → NetN) (skat smat : Nat) : Prop :=
  (∀ n, n < N_STEPs → (X (n + 1)).S smat ≤ (X (n + 1)).S skat)
    ∧ (X N_STEPs).S smat < (X N_STEPs).S skat

instance (X : Nat → NetN) (skat smat : Nat) : Decidable (SyllableLead X skat smat) := by
  unfold SyllableLead; infer_instance


/-! ### The severity grids for a given number of severity values

The source defines the number of severity values as
`#define N_lesion_values 100 /* for 100 for weight lesion, 66 (!) for decay lesion */`:
the macro is `100` as the programs stand (weight lesion) and is to be `66` when the decay
lesion is switched on.  The definitions below are the grid loop and the settings of `main`
with the value of the macro as the parameter `n`. -/

/-- A C `double`: a finite value, `+inf`, `-inf` or a NaN. -/
inductive Dbl where
  | fin (q : ℚ)
  | pinf
  | ninf
  | nan
deriving DecidableEq

/-- The C difference `x - y` of doubles. -/
def Dbl.sub : Dbl → Dbl → Dbl
  | .fin a, .fin b => .fin (a - b)
  | .fin _, .pinf => .ninf
  | .fin _, .ninf => .pinf
  | .pinf, .fin _ => .pinf
  | .pinf, .ninf => .pinf
  | .ninf, .fin _ => .ninf
  | .ninf, .pinf => .ninf
  | _, _ => .nan

/-- The C sum `x + y` of doubles. -/
def Dbl.add : Dbl → Dbl → Dbl
  | .fin a, .fin b => .fin (a + b)
  | .fin _, .pinf => .pinf
  | .fin _, .ninf => .ninf
  | .pinf, .fin _ => .pinf
  | .pinf, .pinf => .pinf
  | .ninf, .fin _ => .ninf
  | .ninf, .ninf => .ninf
  | _, _ => .nan

/-- The C product `x * y` of doubles. -/
def Dbl.mul : Dbl → Dbl → Dbl
  | .fin a, .fin b => .fin (a * b)
  | .fin a, .pinf => if 0 < a then .pinf else if a < 0 then .ninf else .nan
  | .fin a, .ninf => if 0 < a then .ninf else if a < 0 then .pinf else .nan
  | .pinf, .fin b => if 0 < b then .pinf else if b < 0 then .ninf else .nan
  | .ninf, .fin b => if 0 < b then .ninf else if b < 0 then .pinf else .nan
  | .pinf, .pinf => .pinf
  | .pinf, .ninf => .ninf
  | .ninf, .pinf => .ninf
  | .ninf, .ninf => .pinf
  | _, _ => .nan

/-- The C quotient `x / y` of doubles: a finite `x` over a zero is `+inf`, `-inf` or a NaN
as `x` is positive, negative or zero. -/
def Dbl.div : Dbl → Dbl → Dbl
  | .fin a, .fin b =>
    if b ≠ 0 then .fin (a / b) else if 0 < a then .pinf else if a < 0 then .ninf else .nan
  | .fin _, .pinf => .fin 0
  | .fin _, .ninf => .fin 0
  | .pinf, .fin b => if 0 ≤ b then .pinf else .ninf
  | .ninf, .fin b => if 0 ≤ b then .ninf else .pinf
  | _, _ => .nan

/-- The C library function `fabs`. -/
def Dbl.fabs : Dbl → Dbl
  | .fin a => .fin |a|
  | .pinf => .pinf
  | .ninf => .pinf
  | .nan => .nan

/-- The C comparison `x > y` of doubles: false whenever an operand is a NaN. -/
def Dbl.gt : Dbl → Dbl → Bool
  | .fin a, .fin b => decide (b < a)
  | .fin _, .ninf => true
  | .pinf, .fin _ => true
  | .pinf, .ninf => true
  | _, _ => false

instance : Sub Dbl := ⟨Dbl.sub⟩

instance : Add Dbl := ⟨Dbl.add⟩

instance : Mul Dbl := ⟨Dbl.mul⟩

instance : Div Dbl := ⟨Dbl.div⟩

/-- Read `a[i]` of a C array of doubles that may hold non-finite values. -/
def rd_double (a : List Dbl) (i : Nat) : Dbl := a.getD i (Dbl.fin 0)

/-- The array after `a[k] = v;` for an array `a` of `n` entries. -/
def set_at_double (n : Nat) (a : List Dbl) (k : Nat) (v : Dbl) : List Dbl :=
  (List.range n).map fun i => if i = k then v else rd_double a i

/-- The array after `SIM_DATA[g][t] = v;`. -/
def set_sim_double (S : Nat → Nat → Dbl) (g t : Nat) (v : Dbl) : Nat → Nat → Dbl :=
  fun g1 t1 => if g1 = g ∧ t1 = t then v else S g1 t1

/-- The variables `compute_fits_and_print_results_on_screen` writes, with `SIM_DATA` and
`GOODNESS_OF_FIT` holding C doubles. -/
structure FitDouble where
  SIM_DATA : Nat → Nat → Dbl
  GOODNESS_OF_FIT : List Dbl
  LV : Option ℚ

/-- The fit state with which `compute_fits_and_print_results_on_screen` starts:
`SIM_DATA` and `GOODNESS_OF_FIT` all `0.0`, `LV` not yet assigned. -/
def initial_fit_double : FitDouble :=
  { SIM_DATA := fun _ _ => Dbl.fin 0
    GOODNESS_OF_FIT := (List.range N_lesion_values).map fun _ => Dbl.fin 0
    LV := none }

/-- The body of the loop over `lesion_value` in `compute_fits_and_print_results_on_screen`
(without the optional printing), on C doubles. -/
def fit_body_double (cfg : Settings) (mn : Means) (REAL_DATA : List (List ℚ))
    (group lesion_value : Nat) (f : FitDouble) : FitDouble :=
  let S := set_sim_double f.SIM_DATA group NAMING
    ((Dbl.fin (mn.MEAN_ACT_ST lesion_value group NAMING)
        - Dbl.fin (mn.MEAN_ACT_SR lesion_value group NAMING))
      / (Dbl.fin (mn.MEAN_ACT_ST lesion_value NORMAL NAMING)
        - Dbl.fin (mn.MEAN_ACT_SR lesion_value NORMAL NAMING))
      * Dbl.fin 100)
  let S := set_sim_double S group COMPREHENSION
    ((Dbl.fin (mn.MEAN_ACT_CT lesion_value group COMPREHENSION)
        - Dbl.fin (mn.MEAN_ACT_CR lesion_value group COMPREHENSION))
      / (Dbl.fin (mn.MEAN_ACT_CT lesion_value NORMAL COMPREHENSION)
        - Dbl.fin (mn.MEAN_ACT_CR lesion_value NORMAL COMPREHENSION))
      * Dbl.fin 100)
  let S := set_sim_double S group REPETITION
    ((Dbl.fin (mn.MEAN_ACT_ST lesion_value group REPETITION)
        - Dbl.fin (mn.MEAN_ACT_SR lesion_value group REPETITION))
      / (Dbl.fin (mn.MEAN_ACT_ST lesion_value NORMAL REPETITION)
        - Dbl.fin (mn.MEAN_ACT_SR lesion_value NORMAL REPETITION))
      * Dbl.fin 100)
  let LV : Option ℚ :=
    if group = NORMAL then some 1
    else if cfg.WEIGHT_LESION then some (rd cfg.WEIGHT_value lesion_value)
    else if cfg.DECAY_LESION then some (rd cfg.DECAY_value lesion_value)
    else f.LV
  let G := set_at_double N_lesion_values f.GOODNESS_OF_FIT lesion_value
    ((Dbl.fabs (Dbl.fin (rd2 REAL_DATA group NAMING) - S group NAMING)
      + Dbl.fabs (Dbl.fin (rd2 REAL_DATA group COMPREHENSION) - S group COMPREHENSION)
      + Dbl.fabs (Dbl.fin (rd2 REAL_DATA group REPETITION) - S group REPETITION))
      / Dbl.fin 3)
  { SIM_DATA := S, GOODNESS_OF_FIT := G, LV := LV }

/-- The loop over `lesion_value` in `compute_fits_and_print_results_on_screen`, on C
doubles. -/
def fit_loop_double (cfg : Settings) (mn : Means) (REAL_DATA : List (List ℚ)) (group : Nat)
    (f : FitDouble) : FitDouble :=
  (List.range N_lesion_values).foldl
    (fun f lesion_value => fit_body_double cfg mn REAL_DATA group lesion_value f) f

/-- The best-fit scan
`for (a = 0, i = 0; i < N_lesion_values; i++) if (GOODNESS_OF_FIT[a] > GOODNESS_OF_FIT[i]) a = i;`
on C doubles, returning the final `a`. -/
def best_fit_scan_double (GOODNESS_OF_FIT : List Dbl) : Nat :=
  (List.range N_lesion_values).foldl
    (fun a i => if Dbl.gt (rd_double GOODNESS_OF_FIT a) (rd_double GOODNESS_OF_FIT i) then i
      else a) 0

/-- What `compute_fits_and_print_results_on_screen` prints for one group after the loop over
`lesion_value`, the numbers being C doubles. -/
structure ReportDouble where
  best_fit_weight_value : Option ℚ
  best_fit_decay_value : Option ℚ
  MAE : Dbl
  sim_naming : Dbl
  sim_comprehension : Dbl
  sim_repetition : Dbl
deriving DecidableEq

/-- The lines printed after the best-fit scan, for the scanned index `a`, on C doubles. -/
def report_double (cfg : Settings) (mn : Means) (group : Nat) (f : FitDouble) (a : Nat) :
    ReportDouble :=
  { best_fit_weight_value := if cfg.WEIGHT_LESION then some (rd cfg.WEIGHT_value a) else none
    best_fit_decay_value := if cfg.DECAY_LESION then some (rd cfg.DECAY_value a) else none
    MAE := rd_double f.GOODNESS_OF_FIT a
    sim_naming :=
      (Dbl.fin (mn.MEAN_ACT_ST a group NAMING) - Dbl.fin (mn.MEAN_ACT_SR a group NAMING))
        / (Dbl.fin (mn.MEAN_ACT_ST a NORMAL NAMING) - Dbl.fin (mn.MEAN_ACT_SR a NORMAL NAMING))
        * Dbl.fin 100
    sim_comprehension :=
      (Dbl.fin (mn.MEAN_ACT_CT a group COMPREHENSION)
          - Dbl.fin (mn.MEAN_ACT_CR a group COMPREHENSION))
        / (Dbl.fin (mn.MEAN_ACT_CT a NORMAL COMPREHENSION)
          - Dbl.fin (mn.MEAN_ACT_CR a NORMAL COMPREHENSION))
        * Dbl.fin 100
    sim_repetition :=
      (Dbl.fin (mn.MEAN_ACT_ST a group REPETITION) - Dbl.fin (mn.MEAN_ACT_SR a group REPETITION))
        / (Dbl.fin (mn.MEAN_ACT_ST a NORMAL REPETITION)
          - Dbl.fin (mn.MEAN_ACT_SR a NORMAL REPETITION))
        * Dbl.fin 100 }

/-- The fit stage for one group on C doubles: the loop over `lesion_value`, the best-fit
scan, and the printed lines. -/
def fit_group_double (cfg : Settings) (mn : Means) (REAL_DATA : List (List ℚ)) (group : Nat)
    (f : FitDouble) : FitDouble × ReportDouble :=
  let f1 := fit_loop_double cfg mn REAL_DATA group f
  (f1, report_double cfg mn group f1 (best_fit_scan_double f1.GOODNESS_OF_FIT))

/-- The target-minus-foil contrast that the fit stage forms for a group, a severity index
and a task: the syllable means in naming and repetition, the concept means in
comprehension. -/
def task_contrast (mn : Means) (group lesion_value task : Nat) : ℚ :=
  if task = NAMING then
    mn.MEAN_ACT_ST lesion_value group NAMING - mn.MEAN_ACT_SR lesion_value group NAMING
  else if task = COMPREHENSION then
    mn.MEAN_ACT_CT lesion_value group COMPREHENSION
      - mn.MEAN_ACT_CR lesion_value group COMPREHENSION
  else
    mn.MEAN_ACT_ST lesion_value group REPETITION - mn.MEAN_ACT_SR lesion_value group REPETITION

/-- The simulated score as a C double: the expression assigned to `SIM_DATA[group][task]`. -/
def sim_score_double (mn : Means) (group lesion_value task : Nat) : Dbl :=
  if task = NAMING then
    (Dbl.fin (mn.MEAN_ACT_ST lesion_value group NAMING)
        - Dbl.fin (mn.MEAN_ACT_SR lesion_value group NAMING))
      / (Dbl.fin (mn.MEAN_ACT_ST lesion_value NORMAL NAMING)
        - Dbl.fin (mn.MEAN_ACT_SR lesion_value NORMAL NAMING))
      * Dbl.fin 100
  else if task = COMPREHENSION then
    (Dbl.fin (mn.MEAN_ACT_CT lesion_value group COMPREHENSION)
        - Dbl.fin (mn.MEAN_ACT_CR lesion_value group COMPREHENSION))
      / (Dbl.fin (mn.MEAN_ACT_CT lesion_value NORMAL COMPREHENSION)
        - Dbl.fin (mn.MEAN_ACT_CR lesion_value NORMAL COMPREHENSION))
      * Dbl.fin 100
  else
    (Dbl.fin (mn.MEAN_ACT_ST lesion_value group REPETITION)
        - Dbl.fin (mn.MEAN_ACT_SR lesion_value group REPETITION))
      / (Dbl.fin (mn.MEAN_ACT_ST lesion_value NORMAL REPETITION)
        - Dbl.fin (mn.MEAN_ACT_SR lesion_value NORMAL REPETITION))
      * Dbl.fin 100

/-- The mean absolute error as a C double: the expression assigned to
`GOODNESS_OF_FIT[lesion_value]`. -/
def mean_abs_error_double (mn : Means) (REAL_DATA : List (List ℚ)) (group lesion_value : Nat) :
    Dbl :=
  (Dbl.fabs (Dbl.fin (rd2 REAL_DATA group NAMING) - sim_score_double mn group lesion_value NAMING)
    + Dbl.fabs (Dbl.fin (rd2 REAL_DATA group COMPREHENSION)
        - sim_score_double mn group lesion_value COMPREHENSION)
    + Dbl.fabs (Dbl.fin (rd2 REAL_DATA group REPETITION)
        - sim_score_double mn group lesion_value REPETITION))
    / Dbl.fin 3

/-! ### Integer images of the spoken-word tasks -/

/-- The numerator of the external input of the spoken-word tasks (comprehension and
repetition) at step `n` for the input phoneme `i`: `a` at the first phoneme in the first
segment (`n = 0 .. 4`), at the second phoneme in the second segment (`n = 5 .. 9`) and at the
third phoneme in the third segment (`n = 10 .. 14`), as a multiple of `1 / D ^ (n + 1)`. -/
def spoken_drive_N (D p1 p2 p3 a : Nat) (n i : Nat) : Nat :=
  ((if i = p1 ∧ n ≤ 4 then a else 0) + (if i = p2 ∧ 5 ≤ n ∧ n ≤ 9 then a else 0)
    + (if i = p3 ∧ 10 ≤ n ∧ n ≤ 14 then a else 0)) * D ^ n

/-- The integer image of the group-studies network in a spoken-word task with the lesion
parameters `les`, after `n` update steps. -/
def GroupStudies.spoken_image (les : GroupStudies.Lesion) (n : Nat) : NetN :=
  trajN GroupStudies.sizes GroupStudies.initial_con
    (RatesN.of imageD GroupStudies.SEM_rate LEM_rate LEX_rate (FR * LEX_rate)
      (GroupStudies.rates les))
    (fun _ _ => 0)
    (spoken_drive_N imageD GroupStudies.pK GroupStudies.pA GroupStudies.pT
      (natOf (EXTIN * imageD))) n

/-- The integer image of the five-word network in a spoken-word task with the factors `k`,
after `n` update steps. -/
def FiveWord.spoken_image (k : Rates) (n : Nat) : NetN :=
  trajN FiveWord.sizes FiveWord.initial_con
    (RatesN.of imageD FiveWord.SEM_rate LEM_rate LEX_rate (FR * LEX_rate) k)
    (fun _ _ => 0)
    (spoken_drive_N imageD FiveWord.pK FiveWord.pE FiveWord.pT (natOf (EXTIN * imageD))) n

/-- The sum `f 0 * D ^ (n - 1) + f 1 * D ^ (n - 2) + ... + f (n - 1)`: the numerator over
`D ^ n` of the sum of the fractions `f k / D ^ (k + 1)`, `k < n`. -/
def series_sum_N (D : Nat) (f : Nat → Nat) : Nat → Nat
  | 0 => 0
  | n + 1 => series_sum_N D f n * D + f n

/-- In the integer image `X n`, summed over the steps `1 .. 80`, the concept node `dog` is
below the concept node `cat` and the syllable node `smat` is below the syllable node
`skat`. -/
def SpokenLead (X : Nat → NetN) (cat dog skat smat : Nat) : Prop :=
  series_sum_N imageD (fun k => (X (k + 1)).C dog) N_STEPs
      < series_sum_N imageD (fun k => (X (k + 1)).C cat) N_STEPs
    ∧ series_sum_N imageD (fun k => (X (k + 1)).S smat) N_STEPs
      < series_sum_N imageD (fun k => (X (k + 1)).S skat) N_STEPs

instance (X : Nat → NetN) (cat dog skat smat : Nat) :
    Decidable (SpokenLead X cat dog skat smat) := by
  unfold SpokenLead; infer_instance

/-! # Theorems -/

/-! ## Arrays and loops -/

theorem rd_tabulate {n : Nat} {f : Nat → ℚ} {i : Nat} (h : i < n) : rd (tabulate n f) i = f i := by
  simp [rd, tabulate, List.getD_eq_getElem?_getD, List.getElem?_map, List.getElem?_range, h]

theorem rd_tabulate_of_le {n : Nat} {f : Nat → ℚ} {i : Nat} (h : n ≤ i) :
    rd (tabulate n f) i = 0 := by
  simp [rd, tabulate, List.getD_eq_getElem?_getD, List.getElem?_map, List.getElem?_eq_none, h]

theorem rd_tabulate_zero (n i : Nat) : rd (tabulate n fun _ => 0) i = 0 := by
  rcases Nat.lt_or_ge i n with h | h
  · exact rd_tabulate h
  · exact rd_tabulate_of_le h

theorem foldl_add_eq_sum (m : Nat) (g : Nat → ℚ) (a : ℚ) :
    (List.range m).foldl (fun acc j => acc + g j) a = a + ∑ j in Finset.range m, g j := by
  induction m with
  | zero => simp
  | succ k ih =>
    rw [List.range_succ, List.foldl_append, ih, Finset.sum_range_succ]
    simp [add_assoc]

theorem rd_accumulate {n m : Nat} {inp : List ℚ} {term : Nat → Nat → ℚ} {i : Nat} (h : i < n) :
    rd (accumulate n m inp term) i = rd inp i + ∑ j in Finset.range m, term i j := by
  rw [accumulate, rd_tabulate h, foldl_add_eq_sum]

theorem rd_add_at {n : Nat} {a : List ℚ} {k : Nat} {v : ℚ} {i : Nat} (h : i < n) :
    rd (add_at n a k v) i = if i = k then rd a i + v else rd a i := by
  rw [add_at, rd_tabulate h]

theorem rd_add_at_of_le {n : Nat} {a : List ℚ} {k : Nat} {v : ℚ} {i : Nat} (h : n ≤ i) :
    rd (add_at n a k v) i = 0 := by
  rw [add_at, rd_tabulate_of_le h]

theorem rd_set_at {n : Nat} {a : List ℚ} {k : Nat} {v : ℚ} {i : Nat} (h : i < n) :
    rd (set_at n a k v) i = if i = k then v else rd a i := by
  rw [set_at, rd_tabulate h]

/-! ## The update rule (C1) -/

/-- C1.  In each of the three programs, for every lesion setting and every pre-update state,
`update_activation_of_nodes` sets the activation of every node of every layer to
`old * (1 - DECAY_rate * f) + input`, where `input` is the node's accumulator and `f` is the
decay-increase factor of the layer: the named factor (the product of the named factors, in
the cluster program) on the lesioned layers and `1.0` on every other layer, e.g. on the
lemma, input-phoneme, input-morpheme and syllable layers of the group-studies program. -/
theorem update_activation_rule :
    (∀ (les : GroupStudies.Lesion) (st : Net),
      let u := GroupStudies.update_activation_of_nodes les st
      DecayRule GroupStudies.N_CONCEPTs st.C_node_act st.input_C u.C_node_act
          les.DECAY_INCREASE_SEMANTIC_DEMENTIA
        ∧ DecayRule GroupStudies.N_LEMMAs st.L_node_act st.input_L u.L_node_act 1
        ∧ DecayRule GroupStudies.N_MORPHEMEs st.M_node_act st.input_M u.M_node_act
          les.DECAY_INCREASE_LOGOPENIC
        ∧ DecayRule GroupStudies.N_PHONEMEs st.oP_node_act st.input_oP u.oP_node_act
          les.DECAY_INCREASE_NONFLUENT_AGRAMMATIC
        ∧ DecayRule GroupStudies.N_PHONEMEs st.iP_node_act st.input_iP u.iP_node_act 1
        ∧ DecayRule GroupStudies.N_MORPHEMEs st.iM_node_act st.input_iM u.iM_node_act 1
        ∧ DecayRule GroupStudies.N_SYLLABLEs st.S_node_act st.input_S u.S_node_act 1)
    ∧ (∀ (les : Clusters.Lesion) (st : Net),
      let u := Clusters.update_activation_of_nodes les st
      DecayRule FiveWord.N_CONCEPTs st.C_node_act st.input_C u.C_node_act 1
        ∧ DecayRule FiveWord.N_LEMMAs st.L_node_act st.input_L u.L_node_act
          les.DECAY_INCREASE_CLUSTER_2
        ∧ DecayRule FiveWord.N_MORPHEMEs st.M_node_act st.input_M u.M_node_act
          (les.DECAY_INCREASE_CLUSTER_1 * les.DECAY_INCREASE_CLUSTER_2
            * les.DECAY_INCREASE_CLUSTER_3)
        ∧ DecayRule FiveWord.N_PHONEMEs st.oP_node_act st.input_oP u.oP_node_act
          (les.DECAY_INCREASE_CLUSTER_1 * les.DECAY_INCREASE_CLUSTER_3)
        ∧ DecayRule FiveWord.N_PHONEMEs st.iP_node_act st.input_iP u.iP_node_act 1
        ∧ DecayRule FiveWord.N_MORPHEMEs st.iM_node_act st.input_iM u.iM_node_act 1
        ∧ DecayRule FiveWord.N_SYLLABLEs st.S_node_act st.input_S u.S_node_act 1)
    ∧ (∀ (les : Cases.Lesion) (st : Net),
      let u := Cases.update_activation_of_nodes les st
      DecayRule FiveWord.N_CONCEPTs st.C_node_act st.input_C u.C_node_act 1
        ∧ DecayRule FiveWord.N_LEMMAs st.L_node_act st.input_L u.L_node_act 1
        ∧ DecayRule FiveWord.N_MORPHEMEs st.M_node_act st.input_M u.M_node_act
          les.DECAY_INCREASE_LOGOPENIC
        ∧ DecayRule FiveWord.N_PHONEMEs st.oP_node_act st.input_oP u.oP_node_act 1
        ∧ DecayRule FiveWord.N_PHONEMEs st.iP_node_act st.input_iP u.iP_node_act 1
        ∧ DecayRule FiveWord.N_MORPHEMEs st.iM_node_act st.input_iM u.iM_node_act 1
        ∧ DecayRule FiveWord.N_SYLLABLEs st.S_node_act st.input_S u.S_node_act 1) := by
  refine ⟨fun les st => ?_, fun les st => ?_, fun les st => ?_⟩
  · refine ⟨?_, ?_, ?_, ?_, ?_, ?_, ?_⟩ <;> intro i hi <;>
      simp [GroupStudies.update_activation_of_nodes, rd_tabulate hi]
  · refine ⟨?_, ?_, ?_, ?_, ?_, ?_, ?_⟩ <;> intro i hi <;>
      simp [Clusters.update_activation_of_nodes, rd_tabulate hi, mul_assoc]
  · refine ⟨?_, ?_, ?_, ?_, ?_, ?_, ?_⟩ <;> intro i hi <;>
      simp [Cases.update_activation_of_nodes, rd_tabulate hi]

/-- C1 at a concrete state of the group-studies program: concept node `CAT`, decay factor
`3/2`. -/
theorem update_activation_rule_witness :
    rd (GroupStudies.update_activation_of_nodes
          ⟨1, 1, 1, 1, 3 / 2, 1⟩ GroupStudies.sample_net).C_node_act GroupStudies.CAT
      = rd GroupStudies.sample_net.C_node_act GroupStudies.CAT * (1 - DECAY_rate * (3 / 2))
        + rd GroupStudies.sample_net.input_C GroupStudies.CAT :=
  (update_activation_rule.1 ⟨1, 1, 1, 1, 3 / 2, 1⟩ GroupStudies.sample_net).1
    GroupStudies.CAT (by decide)


/-! ## One update step (C2) -/

theorem group_external_frame (les : GroupStudies.Lesion) (task : Nat) (T : Int)
    (st : Net) :
    (GroupStudies.get_external_input les task T (GroupStudies.set_input_to_zero st)).C_node_act
        = st.C_node_act
      ∧ (GroupStudies.get_external_input les task T
          (GroupStudies.set_input_to_zero st)).L_node_act = st.L_node_act
      ∧ (GroupStudies.get_external_input les task T
          (GroupStudies.set_input_to_zero st)).M_node_act = st.M_node_act
      ∧ (GroupStudies.get_external_input les task T
          (GroupStudies.set_input_to_zero st)).oP_node_act = st.oP_node_act
      ∧ (GroupStudies.get_external_input les task T
          (GroupStudies.set_input_to_zero st)).S_node_act = st.S_node_act
      ∧ (GroupStudies.get_external_input les task T
          (GroupStudies.set_input_to_zero st)).iM_node_act = st.iM_node_act
      ∧ (GroupStudies.get_external_input les task T
          (GroupStudies.set_input_to_zero st)).iP_node_act = st.iP_node_act := by
  simp only [GroupStudies.get_external_input, GroupStudies.set_input_to_zero]
  split_ifs <;> simp

theorem group_external_zero (les : GroupStudies.Lesion) (task : Nat) (T : Int)
    (st : Net) (i : Nat) :
    rd (GroupStudies.get_external_input les task T
        (GroupStudies.set_input_to_zero st)).input_L i = 0
      ∧ rd (GroupStudies.get_external_input les task T
        (GroupStudies.set_input_to_zero st)).input_M i = 0
      ∧ rd (GroupStudies.get_external_input les task T
        (GroupStudies.set_input_to_zero st)).input_oP i = 0
      ∧ rd (GroupStudies.get_external_input les task T
        (GroupStudies.set_input_to_zero st)).input_S i = 0
      ∧ rd (GroupStudies.get_external_input les task T
        (GroupStudies.set_input_to_zero st)).input_iM i = 0 := by
  simp only [GroupStudies.get_external_input, GroupStudies.set_input_to_zero]
  split_ifs <;> simp [rd_tabulate_zero]

theorem five_word_external_frame (task : Nat) (T : Int) (st : Net) :
    (FiveWord.get_external_input task T (FiveWord.set_input_to_zero st)).C_node_act
        = st.C_node_act
      ∧ (FiveWord.get_external_input task T (FiveWord.set_input_to_zero st)).L_node_act
        = st.L_node_act
      ∧ (FiveWord.get_external_input task T (FiveWord.set_input_to_zero st)).M_node_act
        = st.M_node_act
      ∧ (FiveWord.get_external_input task T (FiveWord.set_input_to_zero st)).oP_node_act
        = st.oP_node_act
      ∧ (FiveWord.get_external_input task T (FiveWord.set_input_to_zero st)).S_node_act
        = st.S_node_act
      ∧ (FiveWord.get_external_input task T (FiveWord.set_input_to_zero st)).iM_node_act
        = st.iM_node_act
      ∧ (FiveWord.get_external_input task T (FiveWord.set_input_to_zero st)).iP_node_act
        = st.iP_node_act := by
  simp only [FiveWord.get_external_input, FiveWord.set_input_to_zero]
  split_ifs <;> simp

theorem five_word_external_zero (task : Nat) (T : Int) (st : Net) (i : Nat) :
    rd (FiveWord.get_external_input task T (FiveWord.set_input_to_zero st)).input_L i = 0
      ∧ rd (FiveWord.get_external_input task T (FiveWord.set_input_to_zero st)).input_M i = 0
      ∧ rd (FiveWord.get_external_input task T (FiveWord.set_input_to_zero st)).input_oP i = 0
      ∧ rd (FiveWord.get_external_input task T (FiveWord.set_input_to_zero st)).input_S i = 0
      ∧ rd (FiveWord.get_external_input task T (FiveWord.set_input_to_zero st)).input_iM i = 0 := by
  simp only [FiveWord.get_external_input, FiveWord.set_input_to_zero]
  split_ifs <;> simp [rd_tabulate_zero]

/-- C2 as the programs have it.  In one `update_network` step from any state `st`, the new
activation of every node `i` of every layer is `old * (1 - DECAY_rate * f)` plus the
external input of the node plus, for each layer connected to it, the sum over the source
nodes `j` of `(activation of j in st) * con[j][i] * k`, where `k` is the product of the
lesion factors of the pathway and, on the lemma to output-morpheme pathway, of the constant
`LEMLEXFRAC`.  Every activation on the right-hand side is read in the pre-step state `st`:
the update is synchronous. -/
theorem update_network_rule :
    (∀ (con : Conn) (les : GroupStudies.Lesion) (task : Nat) (T : Int) (st : Net) (i : Nat),
      (i < GroupStudies.N_CONCEPTs →
        rd (GroupStudies.update_network con les task T st).C_node_act i
          = rd st.C_node_act i * (1 - DECAY_rate * les.DECAY_INCREASE_SEMANTIC_DEMENTIA)
            + (rd (GroupStudies.get_external_input les task T
                  (GroupStudies.set_input_to_zero st)).input_C i
              + spread GroupStudies.N_CONCEPTs st.C_node_act con.CC_con i
                  les.CONNECTION_DECREASE_SEMANTIC_DEMENTIA
              + spread GroupStudies.N_LEMMAs st.L_node_act con.CL_con i
                  les.CONNECTION_DECREASE_SEMANTIC_DEMENTIA))
      ∧ (i < GroupStudies.N_LEMMAs →
        rd (GroupStudies.update_network con les task T st).L_node_act i
          = rd st.L_node_act i * (1 - DECAY_rate * 1)
            + (spread GroupStudies.N_CONCEPTs st.C_node_act con.CL_con i
                  les.CONNECTION_DECREASE_SEMANTIC_DEMENTIA
              + spread GroupStudies.N_MORPHEMEs st.iM_node_act con.iML_con i 1))
      ∧ (i < GroupStudies.N_MORPHEMEs →
        rd (GroupStudies.update_network con les task T st).M_node_act i
          = rd st.M_node_act i * (1 - DECAY_rate * les.DECAY_INCREASE_LOGOPENIC)
            + (spread GroupStudies.N_LEMMAs st.L_node_act con.LM_con i
                  (LEMLEXFRAC * les.CONNECTION_DECREASE_LOGOPENIC)
              + spread GroupStudies.N_MORPHEMEs st.iM_node_act con.iMM_con i
                  les.CONNECTION_DECREASE_LOGOPENIC))
      ∧ (i < GroupStudies.N_PHONEMEs →
        rd (GroupStudies.update_network con les task T st).oP_node_act i
          = rd st.oP_node_act i * (1 - DECAY_rate * les.DECAY_INCREASE_NONFLUENT_AGRAMMATIC)
            + (spread GroupStudies.N_MORPHEMEs st.M_node_act con.MP_con i
                  (les.CONNECTION_DECREASE_NONFLUENT_AGRAMMATIC
                    * les.CONNECTION_DECREASE_LOGOPENIC)
              + spread GroupStudies.N_PHONEMEs st.iP_node_act con.PP_con i
                  (les.CONNECTION_DECREASE_NONFLUENT_AGRAMMATIC
                    * les.CONNECTION_DECREASE_LOGOPENIC)))
      ∧ (i < GroupStudies.N_SYLLABLEs →
        rd (GroupStudies.update_network con les task T st).S_node_act i
          = rd st.S_node_act i * (1 - DECAY_rate * 1)
            + spread GroupStudies.N_PHONEMEs st.oP_node_act con.PS_con i
                les.CONNECTION_DECREASE_NONFLUENT_AGRAMMATIC)
      ∧ (i < GroupStudies.N_PHONEMEs →
        rd (GroupStudies.update_network con les task T st).iP_node_act i
          = rd st.iP_node_act i * (1 - DECAY_rate * 1)
            + (rd (GroupStudies.get_external_input les task T
                  (GroupStudies.set_input_to_zero st)).input_iP i
              + spread GroupStudies.N_PHONEMEs st.oP_node_act con.PP_con i
                  (les.CONNECTION_DECREASE_NONFLUENT_AGRAMMATIC
                    * les.CONNECTION_DECREASE_LOGOPENIC)))
      ∧ (i < GroupStudies.N_MORPHEMEs →
        rd (GroupStudies.update_network con les task T st).iM_node_act i
          = rd st.iM_node_act i * (1 - DECAY_rate * 1)
            + spread GroupStudies.N_PHONEMEs st.iP_node_act con.PiM_con i 1))
    ∧ (∀ (con : Conn) (les : Clusters.Lesion) (task : Nat) (T : Int) (st : Net) (i : Nat),
      (i < FiveWord.N_CONCEPTs →
        rd (Clusters.update_network con les task T st).C_node_act i
          = rd st.C_node_act i * (1 - DECAY_rate * 1)
            + (rd (FiveWord.get_external_input task T
                  (FiveWord.set_input_to_zero st)).input_C i
              + spread FiveWord.N_CONCEPTs st.C_node_act con.CC_con i 1
              + spread FiveWord.N_LEMMAs st.L_node_act con.CL_con i
                  les.CONNECTION_DECREASE_CLUSTER_2))
      ∧ (i < FiveWord.N_LEMMAs →
        rd (Clusters.update_network con les task T st).L_node_act i
          = rd st.L_node_act i * (1 - DECAY_rate * les.DECAY_INCREASE_CLUSTER_2)
            + (spread FiveWord.N_CONCEPTs st.C_node_act con.CL_con i
                  les.CONNECTION_DECREASE_CLUSTER_2
              + spread FiveWord.N_MORPHEMEs st.iM_node_act con.iML_con i 1))
      ∧ (i < FiveWord.N_MORPHEMEs →
        rd (Clusters.update_network con les task T st).M_node_act i
          = rd st.M_node_act i * (1 - DECAY_rate * (les.DECAY_INCREASE_CLUSTER_1
              * les.DECAY_INCREASE_CLUSTER_2 * les.DECAY_INCREASE_CLUSTER_3))
            + (spread FiveWord.N_LEMMAs st.L_node_act con.LM_con i
                  (LEMLEXFRAC * (les.CONNECTION_DECREASE_CLUSTER_1
                    * les.CONNECTION_DECREASE_CLUSTER_2 * les.CONNECTION_DECREASE_CLUSTER_3))
              + spread FiveWord.N_MORPHEMEs st.iM_node_act con.iMM_con i
                  (les.CONNECTION_DECREASE_CLUSTER_1
                    * les.CONNECTION_DECREASE_CLUSTER_2 * les.CONNECTION_DECREASE_CLUSTER_3)))
      ∧ (i < FiveWord.N_PHONEMEs →
        rd (Clusters.update_network con les task T st).oP_node_act i
          = rd st.oP_node_act i * (1 - DECAY_rate * (les.DECAY_INCREASE_CLUSTER_1
              * les.DECAY_INCREASE_CLUSTER_3))
            + (spread FiveWord.N_MORPHEMEs st.M_node_act con.MP_con i
                  (les.CONNECTION_DECREASE_CLUSTER_1
                    * les.CONNECTION_DECREASE_CLUSTER_2 * les.CONNECTION_DECREASE_CLUSTER_3)
              + spread FiveWord.N_PHONEMEs st.iP_node_act con.PP_con i
                  (les.CONNECTION_DECREASE_CLUSTER_1 * les.CONNECTION_DECREASE_CLUSTER_3)))
      ∧ (i < FiveWord.N_SYLLABLEs →
        rd (Clusters.update_network con les task T st).S_node_act i
          = rd st.S_node_act i * (1 - DECAY_rate * 1)
            + spread FiveWord.N_PHONEMEs st.oP_node_act con.PS_con i 1)
      ∧ (i < FiveWord.N_PHONEMEs →
        rd (Clusters.update_network con les task T st).iP_node_act i
          = rd st.iP_node_act i * (1 - DECAY_rate * 1)
            + (rd (FiveWord.get_external_input task T
                  (FiveWord.set_input_to_zero st)).input_iP i
              + spread FiveWord.N_PHONEMEs st.oP_node_act con.PP_con i
                  (les.CONNECTION_DECREASE_CLUSTER_1 * les.CONNECTION_DECREASE_CLUSTER_3)))
      ∧ (i < FiveWord.N_MORPHEMEs →
        rd (Clusters.update_network con les task T st).iM_node_act i
          = rd st.iM_node_act i * (1 - DECAY_rate * 1)
            + spread FiveWord.N_PHONEMEs st.iP_node_act con.PiM_con i 1))
    ∧ (∀ (con : Conn) (les : Cases.Lesion) (task : Nat) (T : Int) (st : Net) (i : Nat),
      (i < FiveWord.N_CONCEPTs →
        rd (Cases.update_network con les task T st).C_node_act i
          = rd st.C_node_act i * (1 - DECAY_rate * 1)
            + (rd (FiveWord.get_external_input task T
                  (FiveWord.set_input_to_zero st)).input_C i
              + spread FiveWord.N_CONCEPTs st.C_node_act con.CC_con i 1
              + spread FiveWord.N_LEMMAs st.L_node_act con.CL_con i 1))
      ∧ (i < FiveWord.N_LEMMAs →
        rd (Cases.update_network con les task T st).L_node_act i
          = rd st.L_node_act i * (1 - DECAY_rate * 1)
            + (spread FiveWord.N_CONCEPTs st.C_node_act con.CL_con i 1
              + spread FiveWord.N_MORPHEMEs st.iM_node_act con.iML_con i 1))
      ∧ (i < FiveWord.N_MORPHEMEs →
        rd (Cases.update_network con les task T st).M_node_act i
          = rd st.M_node_act i * (1 - DECAY_rate * les.DECAY_INCREASE_LOGOPENIC)
            + (spread FiveWord.N_LEMMAs st.L_node_act con.LM_con i
                  (LEMLEXFRAC * les.CONNECTION_DECREASE_LOGOPENIC)
              + spread FiveWord.N_MORPHEMEs st.iM_node_act con.iMM_con i
                  les.CONNECTION_DECREASE_LOGOPENIC))
      ∧ (i < FiveWord.N_PHONEMEs →
        rd (Cases.update_network con les task T st).oP_node_act i
          = rd st.oP_node_act i * (1 - DECAY_rate * 1)
            + (spread FiveWord.N_MORPHEMEs st.M_node_act con.MP_con i
                  les.CONNECTION_DECREASE_LOGOPENIC
              + spread FiveWord.N_PHONEMEs st.iP_node_act con.PP_con i
                  les.CONNECTION_DECREASE_LOGOPENIC))
      ∧ (i < FiveWord.N_SYLLABLEs →
        rd (Cases.update_network con les task T st).S_node_act i
          = rd st.S_node_act i * (1 - DECAY_rate * 1)
            + spread FiveWord.N_PHONEMEs st.oP_node_act con.PS_con i 1)
      ∧ (i < FiveWord.N_PHONEMEs →
        rd (Cases.update_network con les task T st).iP_node_act i
          = rd st.iP_node_act i * (1 - DECAY_rate * 1)
            + (rd (FiveWord.get_external_input task T
                  (FiveWord.set_input_to_zero st)).input_iP i
              + spread FiveWord.N_PHONEMEs st.oP_node_act con.PP_con i
                  les.CONNECTION_DECREASE_LOGOPENIC))
      ∧ (i < FiveWord.N_MORPHEMEs →
        rd (Cases.update_network con les task T st).iM_node_act i
          = rd st.iM_node_act i * (1 - DECAY_rate * 1)
            + spread FiveWord.N_PHONEMEs st.iP_node_act con.PiM_con i 1)) := by
  refine ⟨fun con les task T st i => ?_, fun con les task T st i => ?_,
    fun con les task T st i => ?_⟩
  · obtain ⟨hC, hL, hM, hoP, hS, hiM, hiP⟩ := group_external_frame les task T st
    obtain ⟨zL, zM, zoP, zS, ziM⟩ := group_external_zero les task T st i
    refine ⟨?_, ?_, ?_, ?_, ?_, ?_, ?_⟩
    all_goals
      intro hi
      simp only [GroupStudies.update_network, GroupStudies.update_activation_of_nodes,
        GroupStudies.get_internal_input, rd_tabulate hi, rd_accumulate hi, spread,
        hC, hL, hM, hoP, hS, hiM, hiP, zL, zM, zoP, zS, ziM, zero_add, mul_one]
      try simp only [mul_assoc, mul_left_comm, mul_comm, add_assoc]
  · obtain ⟨hC, hL, hM, hoP, hS, hiM, hiP⟩ := five_word_external_frame task T st
    obtain ⟨zL, zM, zoP, zS, ziM⟩ := five_word_external_zero task T st i
    refine ⟨?_, ?_, ?_, ?_, ?_, ?_, ?_⟩
    all_goals
      intro hi
      simp only [Clusters.update_network, Clusters.update_activation_of_nodes,
        Clusters.get_internal_input, rd_tabulate hi, rd_accumulate hi, spread,
        hC, hL, hM, hoP, hS, hiM, hiP, zL, zM, zoP, zS, ziM, zero_add, mul_one]
      try simp only [mul_assoc, mul_left_comm, mul_comm, add_assoc]
  · obtain ⟨hC, hL, hM, hoP, hS, hiM, hiP⟩ := five_word_external_frame task T st
    obtain ⟨zL, zM, zoP, zS, ziM⟩ := five_word_external_zero task T st i
    refine ⟨?_, ?_, ?_, ?_, ?_, ?_, ?_⟩
    all_goals
      intro hi
      simp only [Cases.update_network, Cases.update_activation_of_nodes,
        Cases.get_internal_input, rd_tabulate hi, rd_accumulate hi, spread,
        hC, hL, hM, hoP, hS, hiM, hiP, zL, zM, zoP, zS, ziM, zero_add, mul_one]
      try simp only [mul_assoc, mul_left_comm, mul_comm, add_assoc]


/-- C2 at a concrete input: the output morpheme of the target word in the third naming step
of the control of the single-case program. -/
theorem update_network_rule_witness :
    rd (Cases.update_network FiveWord.scaled_con Cases.healthy NAMING 50
          Cases.naming_net_2).M_node_act FiveWord.CAT
      = rd Cases.naming_net_2.M_node_act FiveWord.CAT
          * (1 - DECAY_rate * Cases.healthy.DECAY_INCREASE_LOGOPENIC)
        + (spread FiveWord.N_LEMMAs Cases.naming_net_2.L_node_act FiveWord.scaled_con.LM_con
              FiveWord.CAT (LEMLEXFRAC * Cases.healthy.CONNECTION_DECREASE_LOGOPENIC)
          + spread FiveWord.N_MORPHEMEs Cases.naming_net_2.iM_node_act
              FiveWord.scaled_con.iMM_con FiveWord.CAT
              Cases.healthy.CONNECTION_DECREASE_LOGOPENIC) :=
  (update_network_rule.2.2 FiveWord.scaled_con Cases.healthy NAMING 50 Cases.naming_net_2
    FiveWord.CAT).2.2.1 (by decide)

/-- C2 as stated fails.  In the third naming step of the control of the single-case program
the new activation of the output morpheme of the target word is not
`old * (1 - DECAY_rate * f)` plus the sums of `activation * scaled weight * lesion factor`
over its source layers: the program multiplies the lemma to morpheme terms by `LEMLEXFRAC`
as well (the program gives `130869 / 1600000`, the stated formula `43623 / 160000`). -/
theorem update_network_counterexample :
    rd (Cases.update_network FiveWord.scaled_con Cases.healthy NAMING 50
          Cases.naming_net_2).M_node_act FiveWord.CAT
      ≠ rd Cases.naming_net_2.M_node_act FiveWord.CAT
          * (1 - DECAY_rate * Cases.healthy.DECAY_INCREASE_LOGOPENIC)
        + (spread FiveWord.N_LEMMAs Cases.naming_net_2.L_node_act FiveWord.scaled_con.LM_con
              FiveWord.CAT Cases.healthy.CONNECTION_DECREASE_LOGOPENIC
          + spread FiveWord.N_MORPHEMEs Cases.naming_net_2.iM_node_act
              FiveWord.scaled_con.iMM_con FiveWord.CAT
              Cases.healthy.CONNECTION_DECREASE_LOGOPENIC) := by
  decide!


/-! ## The best-fit scan (C3) -/

/-- The scan over the first `k` indices. -/
theorem best_fit_scan_prefix (G : List ℚ) (k : Nat) :
    let a := (List.range k).foldl (fun a i => if rd G a > rd G i then i else a) 0
    (a < k ∨ a = 0) ∧ (∀ i, i < k → rd G a ≤ rd G i) ∧ (∀ i, i < a → rd G i > rd G a) := by
  induction k with
  | zero => simp
  | succ k ih =>
    simp only [List.range_succ, List.foldl_append, List.foldl_cons, List.foldl_nil]
    obtain ⟨h1, h2, h3⟩ := ih
    split_ifs with h
    · refine ⟨Or.inl (Nat.lt_succ_self k), ?_, ?_⟩
      · intro i hi
        rcases Nat.lt_succ_iff_lt_or_eq.mp hi with hlt | heq
        · exact le_of_lt (lt_of_lt_of_le h (h2 i hlt))
        · rw [heq]
      · intro i hi
        exact lt_of_lt_of_le h (h2 i hi)
    · refine ⟨?_, ?_, h3⟩
      · rcases h1 with h1 | h1
        · exact Or.inl (Nat.lt_succ_of_lt h1)
        · exact Or.inr h1
      · intro i hi
        rcases Nat.lt_succ_iff_lt_or_eq.mp hi with hlt | heq
        · exact h2 i hlt
        · rw [heq]; exact not_lt.mp h

theorem best_fit_scan_spec (G : List ℚ) :
    best_fit_scan G < N_lesion_values
      ∧ (∀ i, i < N_lesion_values → rd G (best_fit_scan G) ≤ rd G i)
      ∧ (∀ i, i < best_fit_scan G → rd G i > rd G (best_fit_scan G)) := by
  obtain ⟨h1, h2, h3⟩ := best_fit_scan_prefix G N_lesion_values
  refine ⟨?_, h2, h3⟩
  rcases h1 with h1 | h1
  · exact h1
  · unfold best_fit_scan; rw [h1]; decide

/-- C3.  For every array `GOODNESS_OF_FIT`, the index `a` selected by the best-fit scan is an
index of the array, `GOODNESS_OF_FIT[a] <= GOODNESS_OF_FIT[i]` for every index `i`, and
`GOODNESS_OF_FIT[i] > GOODNESS_OF_FIT[a]` for every `i < a`: the scan returns the first
index at which the minimum is attained. -/
theorem best_fit_scan_first_minimum (G : List ℚ) :
    best_fit_scan G < N_lesion_values
      ∧ (∀ i, i < N_lesion_values → rd G (best_fit_scan G) ≤ rd G i)
      ∧ (∀ i, i < best_fit_scan G → rd G i > rd G (best_fit_scan G)) :=
  best_fit_scan_spec G

/-- C3 at a concrete array: errors `5, 3, 3, 4` at the indices `0 .. 3` and `7` elsewhere;
the scan selects index `1`, the first of the two minima. -/
theorem best_fit_scan_first_minimum_witness :
    best_fit_scan ([5, 3, 3, 4] ++ List.replicate 96 7) = 1
      ∧ rd ([5, 3, 3, 4] ++ List.replicate 96 7)
          (best_fit_scan ([5, 3, 3, 4] ++ List.replicate 96 7))
        ≤ rd ([5, 3, 3, 4] ++ List.replicate 96 7) 2
      ∧ rd ([5, 3, 3, 4] ++ List.replicate 96 7) 0
        > rd ([5, 3, 3, 4] ++ List.replicate 96 7)
          (best_fit_scan ([5, 3, 3, 4] ++ List.replicate 96 7)) :=
  ⟨by decide!,
    (best_fit_scan_first_minimum ([5, 3, 3, 4] ++ List.replicate 96 7)).2.1 2 (by decide),
    (best_fit_scan_first_minimum ([5, 3, 3, 4] ++ List.replicate 96 7)).2.2 0 (by decide!)⟩

/-! ## The simulated score (C4) -/

theorem total_act_eq_sum (A : Arr4) (lv g t : Nat) :
    total_act A lv g t = ∑ i in Finset.range N_STEPs, A lv i g t := by
  rw [total_act, foldl_add_eq_sum, zero_add]

theorem mean_eq_series_mean (r : Recorded) (lv g t : Nat) :
    (compute_activation_results r).MEAN_ACT_CT lv g t = series_mean r.ACT_CT lv g t
      ∧ (compute_activation_results r).MEAN_ACT_CR lv g t = series_mean r.ACT_CR lv g t
      ∧ (compute_activation_results r).MEAN_ACT_ST lv g t = series_mean r.ACT_ST lv g t
      ∧ (compute_activation_results r).MEAN_ACT_SR lv g t = series_mean r.ACT_SR lv g t := by
  simp [compute_activation_results, series_mean, total_act_eq_sum]

/-- C4.  For every recorded series, every group (or case), and every severity index, the
simulated scores that `compute_fits_and_print_results_on_screen` assigns to
`SIM_DATA[group][task]` are `(mean_target - mean_foil)` of the group divided by
`(mean_target - mean_foil)` of the control group at the same severity index, times `100`,
with the means of `ACT_ST`/`ACT_SR` for naming and repetition and of `ACT_CT`/`ACT_CR` for
comprehension; the scores printed for the best-fit index are the same expressions; and
`determine_activation_critical_nodes` records in `ACT_ST`/`ACT_SR` the target and foil
syllable nodes and in `ACT_CT`/`ACT_CR` the target and foil concept nodes. -/
theorem simulated_score_formula :
    (∀ (cfg : Settings) (r : Recorded) (REAL_DATA : List (List ℚ)) (group lv : Nat)
        (f : FitState),
      (fit_body cfg (compute_activation_results r) REAL_DATA group lv f).SIM_DATA group NAMING
          = (series_mean r.ACT_ST lv group NAMING - series_mean r.ACT_SR lv group NAMING)
            / (series_mean r.ACT_ST lv NORMAL NAMING - series_mean r.ACT_SR lv NORMAL NAMING)
            * 100
        ∧ (fit_body cfg (compute_activation_results r) REAL_DATA group lv f).SIM_DATA
            group COMPREHENSION
          = (series_mean r.ACT_CT lv group COMPREHENSION
              - series_mean r.ACT_CR lv group COMPREHENSION)
            / (series_mean r.ACT_CT lv NORMAL COMPREHENSION
              - series_mean r.ACT_CR lv NORMAL COMPREHENSION)
            * 100
        ∧ (fit_body cfg (compute_activation_results r) REAL_DATA group lv f).SIM_DATA
            group REPETITION
          = (series_mean r.ACT_ST lv group REPETITION
              - series_mean r.ACT_SR lv group REPETITION)
            / (series_mean r.ACT_ST lv NORMAL REPETITION
              - series_mean r.ACT_SR lv NORMAL REPETITION)
            * 100
        ∧ (report cfg (compute_activation_results r) group f lv).sim_naming
          = (series_mean r.ACT_ST lv group NAMING - series_mean r.ACT_SR lv group NAMING)
            / (series_mean r.ACT_ST lv NORMAL NAMING - series_mean r.ACT_SR lv NORMAL NAMING)
            * 100
        ∧ (report cfg (compute_activation_results r) group f lv).sim_comprehension
          = (series_mean r.ACT_CT lv group COMPREHENSION
              - series_mean r.ACT_CR lv group COMPREHENSION)
            / (series_mean r.ACT_CT lv NORMAL COMPREHENSION
              - series_mean r.ACT_CR lv NORMAL COMPREHENSION)
            * 100
        ∧ (report cfg (compute_activation_results r) group f lv).sim_repetition
          = (series_mean r.ACT_ST lv group REPETITION
              - series_mean r.ACT_SR lv group REPETITION)
            / (series_mean r.ACT_ST lv NORMAL REPETITION
              - series_mean r.ACT_SR lv NORMAL REPETITION)
            * 100)
    ∧ (∀ (lv step group task : Nat) (st : Net) (r : Recorded),
      (GroupStudies.determine_activation_critical_nodes lv step group task st r).ACT_ST
            lv step group task = rd st.S_node_act GroupStudies.sKAT
        ∧ (GroupStudies.determine_activation_critical_nodes lv step group task st r).ACT_SR
            lv step group task = rd st.S_node_act GroupStudies.sMAT
        ∧ (GroupStudies.determine_activation_critical_nodes lv step group task st r).ACT_CT
            lv step group task = rd st.C_node_act GroupStudies.CAT
        ∧ (GroupStudies.determine_activation_critical_nodes lv step group task st r).ACT_CR
            lv step group task = rd st.C_node_act GroupStudies.DOG)
    ∧ (∀ (lv step group task : Nat) (st : Net) (r : Recorded),
      (FiveWord.determine_activation_critical_nodes lv step group task st r).ACT_ST
            lv step group task = rd st.S_node_act FiveWord.CAT
        ∧ (FiveWord.determine_activation_critical_nodes lv step group task st r).ACT_SR
            lv step group task = rd st.S_node_act FiveWord.MAT
        ∧ (FiveWord.determine_activation_critical_nodes lv step group task st r).ACT_CT
            lv step group task = rd st.C_node_act FiveWord.CAT
        ∧ (FiveWord.determine_activation_critical_nodes lv step group task st r).ACT_CR
            lv step group task = rd st.C_node_act FiveWord.DOG) := by
  refine ⟨fun cfg r REAL_DATA group lv f => ?_, fun lv step group task st r => ?_,
    fun lv step group task st r => ?_⟩
  · have hN := mean_eq_series_mean r lv group NAMING
    have hC := mean_eq_series_mean r lv group COMPREHENSION
    have hR := mean_eq_series_mean r lv group REPETITION
    have hN0 := mean_eq_series_mean r lv NORMAL NAMING
    have hC0 := mean_eq_series_mean r lv NORMAL COMPREHENSION
    have hR0 := mean_eq_series_mean r lv NORMAL REPETITION
    simp only [fit_body, report, set_sim, hN.1, hN.2.1, hN.2.2.1, hN.2.2.2, hC.1, hC.2.1,
      hC.2.2.1, hC.2.2.2, hR.1, hR.2.1, hR.2.2.1, hR.2.2.2, hN0.1, hN0.2.1, hN0.2.2.1,
      hN0.2.2.2, hC0.1, hC0.2.1, hC0.2.2.1, hC0.2.2.2, hR0.1, hR0.2.1, hR0.2.2.1, hR0.2.2.2]
    simp [NAMING, COMPREHENSION, REPETITION]
  · simp [GroupStudies.determine_activation_critical_nodes, Arr4.set]
  · simp [FiveWord.determine_activation_critical_nodes, Arr4.set]


/-! ## The control group has no lesion (C6) -/

theorem group_set_aphasic_parameters_normal (cfg : Settings) (lv : Nat) :
    GroupStudies.set_aphasic_parameters cfg NORMAL lv
      = { CONNECTION_DECREASE_NONFLUENT_AGRAMMATIC := 1
          CONNECTION_DECREASE_SEMANTIC_DEMENTIA := 1
          CONNECTION_DECREASE_LOGOPENIC := 1
          DECAY_INCREASE_NONFLUENT_AGRAMMATIC := 1
          DECAY_INCREASE_SEMANTIC_DEMENTIA := 1
          DECAY_INCREASE_LOGOPENIC := 1 } := by
  simp [GroupStudies.set_aphasic_parameters, NORMAL, GroupStudies.NONFLUENT_AGRAMMATIC,
    GroupStudies.SEMANTIC_DEMENTIA, GroupStudies.LOGOPENIC]

theorem cluster_set_aphasic_parameters_normal (cfg : Settings) (lv : Nat) :
    Clusters.set_aphasic_parameters cfg NORMAL lv
      = { CONNECTION_DECREASE_CLUSTER_1 := 1
          CONNECTION_DECREASE_CLUSTER_2 := 1
          CONNECTION_DECREASE_CLUSTER_3 := 1
          DECAY_INCREASE_CLUSTER_1 := 1
          DECAY_INCREASE_CLUSTER_2 := 1
          DECAY_INCREASE_CLUSTER_3 := 1 } := by
  simp [Clusters.set_aphasic_parameters, NORMAL, Clusters.CLUSTER_1, Clusters.CLUSTER_2,
    Clusters.CLUSTER_3]

theorem case_set_aphasic_parameters_normal (cfg : Settings) (lv : Nat) :
    Cases.set_aphasic_parameters cfg NORMAL lv
      = { CONNECTION_DECREASE_LOGOPENIC := 1, DECAY_INCREASE_LOGOPENIC := 1 } := by
  simp [Cases.set_aphasic_parameters]

/-- C6.  For the control (`group == NORMAL`, `assessment == NORMAL` in the single-case
program), `set_aphasic_parameters` sets every connection-decrease factor and every
decay-increase factor to `1.0`, for every severity index, every content of the severity
grids and every setting of the two lesion switches. -/
theorem control_factors_are_one :
    (∀ (cfg : Settings) (lv : Nat),
      GroupStudies.set_aphasic_parameters cfg NORMAL lv
        = { CONNECTION_DECREASE_NONFLUENT_AGRAMMATIC := 1
            CONNECTION_DECREASE_SEMANTIC_DEMENTIA := 1
            CONNECTION_DECREASE_LOGOPENIC := 1
            DECAY_INCREASE_NONFLUENT_AGRAMMATIC := 1
            DECAY_INCREASE_SEMANTIC_DEMENTIA := 1
            DECAY_INCREASE_LOGOPENIC := 1 })
    ∧ (∀ (cfg : Settings) (lv : Nat),
      Clusters.set_aphasic_parameters cfg NORMAL lv
        = { CONNECTION_DECREASE_CLUSTER_1 := 1
            CONNECTION_DECREASE_CLUSTER_2 := 1
            CONNECTION_DECREASE_CLUSTER_3 := 1
            DECAY_INCREASE_CLUSTER_1 := 1
            DECAY_INCREASE_CLUSTER_2 := 1
            DECAY_INCREASE_CLUSTER_3 := 1 })
    ∧ (∀ (cfg : Settings) (lv : Nat),
      Cases.set_aphasic_parameters cfg NORMAL lv
        = { CONNECTION_DECREASE_LOGOPENIC := 1, DECAY_INCREASE_LOGOPENIC := 1 }) :=
  ⟨group_set_aphasic_parameters_normal, cluster_set_aphasic_parameters_normal,
    case_set_aphasic_parameters_normal⟩

/-! ## External input in the naming task (C10) -/

theorem five_word_get_external_input_naming (T : Int) (st : Net) :
    (FiveWord.get_external_input NAMING T st).input_C
        = (if T ≥ 0 + 1 * CYCLE_TIME ∧ T < 1 * CYCLE_TIME + PICTURE_DURATION then
            add_at FiveWord.N_CONCEPTs
              (if T ≥ 0 ∧ T < PICTURE_DURATION then
                add_at FiveWord.N_CONCEPTs st.input_C FiveWord.CAT EXTIN else st.input_C)
              FiveWord.CAT EXTIN
          else
            (if T ≥ 0 ∧ T < PICTURE_DURATION then
              add_at FiveWord.N_CONCEPTs st.input_C FiveWord.CAT EXTIN else st.input_C))
      ∧ (FiveWord.get_external_input NAMING T st).input_iP = st.input_iP :=
  ⟨rfl, rfl⟩

/-- C10.  In the two programs on the five-word network, in the naming task, the external
input added at step `s` (at `T = 25 * s`) to the zeroed input buffers is `EXTIN` for `s = 0`,
`2 * EXTIN` for `s = 1, ..., 4`, `EXTIN` for `s = 5` and `0` for `s >= 6` at the target
concept node, and `0` at every other node of every layer. -/
theorem naming_external_input (s : Nat) (st : Net) (i : Nat) :
    rd (FiveWord.get_external_input NAMING (25 * (s : Int))
          (FiveWord.set_input_to_zero st)).input_C FiveWord.CAT
        = (if s = 0 then EXTIN else if s ≤ 4 then 2 * EXTIN else if s = 5 then EXTIN else 0)
      ∧ (i ≠ FiveWord.CAT →
          rd (FiveWord.get_external_input NAMING (25 * (s : Int))
            (FiveWord.set_input_to_zero st)).input_C i = 0)
      ∧ rd (FiveWord.get_external_input NAMING (25 * (s : Int))
          (FiveWord.set_input_to_zero st)).input_L i = 0
      ∧ rd (FiveWord.get_external_input NAMING (25 * (s : Int))
          (FiveWord.set_input_to_zero st)).input_M i = 0
      ∧ rd (FiveWord.get_external_input NAMING (25 * (s : Int))
          (FiveWord.set_input_to_zero st)).input_oP i = 0
      ∧ rd (FiveWord.get_external_input NAMING (25 * (s : Int))
          (FiveWord.set_input_to_zero st)).input_S i = 0
      ∧ rd (FiveWord.get_external_input NAMING (25 * (s : Int))
          (FiveWord.set_input_to_zero st)).input_iP i = 0
      ∧ rd (FiveWord.get_external_input NAMING (25 * (s : Int))
          (FiveWord.set_input_to_zero st)).input_iM i = 0 := by
  obtain ⟨zL, zM, zoP, zS, ziM⟩ :=
    five_word_external_zero NAMING (25 * (s : Int)) st i
  obtain ⟨hC, hP⟩ :=
    five_word_get_external_input_naming (25 * (s : Int)) (FiveWord.set_input_to_zero st)
  refine ⟨?_, ?_, zL, zM, zoP, zS, ?_, ziM⟩
  · have h5 : FiveWord.CAT < FiveWord.N_CONCEPTs := by decide
    rw [hC]
    simp only [FiveWord.set_input_to_zero, PICTURE_DURATION, CYCLE_TIME]
    rcases Nat.lt_or_ge s 6 with h | h
    · interval_cases s <;> simp [rd_add_at h5, rd_tabulate h5] <;> ring
    · have h1 : ¬ (25 * (s : Int) < 125) := by omega
      have h2 : ¬ (25 * (s : Int) < 1 * 25 + 125) := by omega
      have h3 : ¬ s = 0 := by omega
      have h4 : ¬ s ≤ 4 := by omega
      have h6 : ¬ s = 5 := by omega
      rw [if_neg (fun hh => h2 hh.2), if_neg (fun hh => h1 hh.2), if_neg h3, if_neg h4,
        if_neg h6]
      exact rd_tabulate_zero _ _
  · intro hi
    rw [hC]
    simp only [FiveWord.set_input_to_zero]
    rcases Nat.lt_or_ge i FiveWord.N_CONCEPTs with h | h
    · split_ifs <;> simp [rd_add_at h, rd_tabulate h, hi]
    · split_ifs <;> simp [rd_add_at_of_le h, rd_tabulate_of_le h]
  · rw [hP]
    exact rd_tabulate_zero _ _

/-- C10 at a concrete input: step `3` of the naming task from the initial state, concept
node `DOG`. -/
theorem naming_external_input_witness :
    rd (FiveWord.get_external_input NAMING (25 * ((3 : Nat) : Int))
          (FiveWord.set_input_to_zero FiveWord.initial_net)).input_C FiveWord.CAT = 2 * EXTIN
      ∧ rd (FiveWord.get_external_input NAMING (25 * ((3 : Nat) : Int))
          (FiveWord.set_input_to_zero FiveWord.initial_net)).input_C FiveWord.DOG = 0 :=
  ⟨(naming_external_input 3 FiveWord.initial_net FiveWord.DOG).1,
    (naming_external_input 3 FiveWord.initial_net FiveWord.DOG).2.1 (by decide)⟩


/-! ## The time loop and the sweep -/

theorem time_loop_state {L : Type} (upd : L → Int → Net → Net)
    (det : Nat → Net → Recorded → Recorded) (net0 : Net) :
    ∀ (fuel : Nat) (m : Machine L), m.T = ((STEP_SIZE * m.step : Nat) : Int) →
      m.step ≤ N_STEPs → N_STEPs ≤ m.step + fuel → m.net = net_after upd m.les net0 m.step →
      (time_loop upd det fuel m).net = net_after upd m.les net0 N_STEPs
        ∧ (time_loop upd det fuel m).les = m.les
        ∧ (time_loop upd det fuel m).T = ((N_STEPs * STEP_SIZE : Nat) : Int)
        ∧ (time_loop upd det fuel m).step = N_STEPs := by
  intro fuel
  induction fuel with
  | zero =>
    intro m hT hs hf hnet
    have h : m.step = N_STEPs := by omega
    have e : time_loop upd det 0 m = m := rfl
    rw [e]
    refine ⟨by rw [hnet, h], rfl, ?_, h⟩
    rw [hT, h, Nat.mul_comm]
  | succ fuel ih =>
    intro m hT hs hf hnet
    rw [time_loop]
    rcases Nat.lt_or_ge m.step N_STEPs with h | h
    · have hg : m.T < ((N_STEPs * STEP_SIZE : Nat) : Int) := by
        rw [hT]; simp only [N_STEPs, STEP_SIZE] at h ⊢; omega
      rw [if_pos hg]
      have := ih { m with net := upd m.les m.T m.net, acts := det m.step (upd m.les m.T m.net) m.acts,
                          T := m.T + (STEP_SIZE : Int), step := m.step + 1 }
        (by simp only [hT]; push_cast; ring) (by simpa using h) (by simp only; omega)
        (by simp only [net_after, hT, hnet])
      simpa using this
    · have h' : m.step = N_STEPs := by omega
      have hg : ¬ m.T < ((N_STEPs * STEP_SIZE : Nat) : Int) := by
        rw [hT, h']; simp [N_STEPs, STEP_SIZE]
      rw [if_neg hg]
      refine ⟨by rw [hnet, h'], rfl, ?_, h'⟩
      rw [hT, h', Nat.mul_comm]

theorem time_loop_acts {L : Type} (upd : L → Int → Net → Net)
    (det : Nat → Net → Recorded → Recorded) (net0 : Net)
    (sel : Recorded → Arr4) (val : Net → ℚ) (lv g t : Nat)
    (hdet : ∀ step net r, sel (det step net r) = (sel r).set lv step g t (val net)) :
    ∀ (fuel : Nat) (m : Machine L), m.T = ((STEP_SIZE * m.step : Nat) : Int) →
      m.step ≤ N_STEPs → N_STEPs ≤ m.step + fuel → m.net = net_after upd m.les net0 m.step →
      ∀ a b c d, sel (time_loop upd det fuel m).acts a b c d
        = if a = lv ∧ (m.step ≤ b ∧ b < N_STEPs) ∧ c = g ∧ d = t
          then val (net_after upd m.les net0 (b + 1)) else sel m.acts a b c d := by
  intro fuel
  induction fuel with
  | zero =>
    intro m hT hs hf hnet a b c d
    have h : ¬ (a = lv ∧ (m.step ≤ b ∧ b < N_STEPs) ∧ c = g ∧ d = t) := by omega
    rw [if_neg h]; rfl
  | succ fuel ih =>
    intro m hT hs hf hnet a b c d
    rw [time_loop]
    rcases Nat.lt_or_ge m.step N_STEPs with h | h
    · have hg : m.T < ((N_STEPs * STEP_SIZE : Nat) : Int) := by
        rw [hT]; simp only [N_STEPs, STEP_SIZE] at h ⊢; omega
      rw [if_pos hg]
      have hnet' : upd m.les m.T m.net = net_after upd m.les net0 (m.step + 1) := by
        simp only [net_after, hT, hnet]
      have := ih { m with net := upd m.les m.T m.net, acts := det m.step (upd m.les m.T m.net) m.acts,
                          T := m.T + (STEP_SIZE : Int), step := m.step + 1 }
        (by simp only [hT]; push_cast; ring) (by simpa using h) (by simp only; omega)
        hnet' a b c d
      simp only at this
      rw [this, hdet, Arr4.set, hnet']
      by_cases hb : b = m.step
      · subst hb
        by_cases hk : a = lv ∧ c = g ∧ d = t
        · obtain ⟨h1, h2, h3⟩ := hk
          simp [h1, h2, h3, h]
        · have e1 : ¬ (a = lv ∧ (m.step + 1 ≤ m.step ∧ m.step < N_STEPs) ∧ c = g ∧ d = t) := by
            omega
          have e2 : ¬ (a = lv ∧ m.step = m.step ∧ c = g ∧ d = t) := fun hh =>
            hk ⟨hh.1, hh.2.2⟩
          have e3 : ¬ (a = lv ∧ (m.step ≤ m.step ∧ m.step < N_STEPs) ∧ c = g ∧ d = t) := fun hh =>
            hk ⟨hh.1, hh.2.2⟩
          rw [if_neg e1, if_neg e2, if_neg e3]
      · have e2 : ¬ (a = lv ∧ b = m.step ∧ c = g ∧ d = t) := fun hh => hb hh.2.1
        rw [if_neg e2]
        by_cases hk : a = lv ∧ (m.step + 1 ≤ b ∧ b < N_STEPs) ∧ c = g ∧ d = t
        · have e3 : a = lv ∧ (m.step ≤ b ∧ b < N_STEPs) ∧ c = g ∧ d = t := by omega
          rw [if_pos hk, if_pos e3]
        · have e3 : ¬ (a = lv ∧ (m.step ≤ b ∧ b < N_STEPs) ∧ c = g ∧ d = t) := by omega
          rw [if_neg hk, if_neg e3]
    · have h' : m.step = N_STEPs := by omega
      have hg : ¬ m.T < ((N_STEPs * STEP_SIZE : Nat) : Int) := by
        rw [hT, h']; simp [N_STEPs, STEP_SIZE]
      rw [if_neg hg]
      have e : ¬ (a = lv ∧ (m.step ≤ b ∧ b < N_STEPs) ∧ c = g ∧ d = t) := by omega
      rw [if_neg e]


theorem net_after_reset {L : Type} (upd : L → Int → Net → Net) (reset : Net → Net) (les : L)
    (hreset : ∀ x y, upd les 0 (reset x) = upd les 0 (reset y)) (x y : Net) (n : Nat) :
    net_after upd les (reset x) (n + 1) = net_after upd les (reset y) (n + 1) := by
  induction n with
  | zero => simpa [net_after] using hreset x y
  | succ n ih =>
    show upd les _ (net_after upd les (reset x) (n + 1))
      = upd les _ (net_after upd les (reset y) (n + 1))
    rw [ih]

theorem cell_of_state {L : Type} (upd : Nat → L → Int → Net → Net)
    (det : Nat → Nat → Nat → Nat → Net → Recorded → Recorded) (reset : Net → Net)
    (sap : Nat → Nat → L) (g t lv : Nat) (m : Machine L) :
    (cell_of upd det reset sap g t lv m).net
        = net_after (upd t) (sap g lv) (reset m.net) N_STEPs
      ∧ (cell_of upd det reset sap g t lv m).les = sap g lv
      ∧ (cell_of upd det reset sap g t lv m).T = ((N_STEPs * STEP_SIZE : Nat) : Int)
      ∧ (cell_of upd det reset sap g t lv m).step = N_STEPs :=
  time_loop_state (upd t) (fun step st r => det lv step g t st r) (reset m.net)
    (N_STEPs * STEP_SIZE)
    { net := reset m.net, les := sap g lv, T := 0, step := 0, acts := m.acts }
    rfl (Nat.zero_le _) (by show N_STEPs ≤ 0 + N_STEPs * STEP_SIZE; decide) rfl

theorem cell_of_acts {L : Type} (upd : Nat → L → Int → Net → Net)
    (det : Nat → Nat → Nat → Nat → Net → Recorded → Recorded) (reset : Net → Net)
    (sap : Nat → Nat → L) (sel : Recorded → Arr4) (val : Net → ℚ)
    (hdet : ∀ lv step g t net r, sel (det lv step g t net r) = (sel r).set lv step g t (val net))
    (hreset : ∀ t les x y, upd t les 0 (reset x) = upd t les 0 (reset y))
    (net00 : Net) (g t lv : Nat) (m : Machine L) (a b c d : Nat) :
    sel (cell_of upd det reset sap g t lv m).acts a b c d
      = if a = lv ∧ b < N_STEPs ∧ c = g ∧ d = t
        then val (net_after (upd t) (sap g lv) (reset net00) (b + 1)) else sel m.acts a b c d := by
  have h := time_loop_acts (upd t) (fun step st r => det lv step g t st r) (reset m.net)
    sel val lv g t (fun step net r => hdet lv step g t net r) (N_STEPs * STEP_SIZE)
    { net := reset m.net, les := sap g lv, T := 0, step := 0, acts := m.acts }
    rfl (Nat.zero_le _) (by show N_STEPs ≤ 0 + N_STEPs * STEP_SIZE; decide) rfl a b c d
  rw [cell_of, h]
  simp only [Nat.zero_le, true_and]
  rw [net_after_reset (upd t) reset (sap g lv) (hreset t (sap g lv)) m.net net00 b]

theorem sweep_cells_acts {L : Type} (cell : Nat → Nat → Nat → Machine L → Machine L)
    (sel : Recorded → Arr4) (V : Arr4)
    (hcell : ∀ g t lv m a b c d, sel (cell g t lv m).acts a b c d
      = if a = lv ∧ b < N_STEPs ∧ c = g ∧ d = t then V a b c d else sel m.acts a b c d)
    (n_groups : Nat) (m : Machine L) (a b c d : Nat) :
    sel (sweep_cells cell n_groups m).acts a b c d
      = if a < N_lesion_values ∧ b < N_STEPs ∧ c < n_groups ∧ d < N_TASKs
        then V a b c d else sel m.acts a b c d := by
  have inner : ∀ (g t n : Nat) (m : Machine L),
      sel ((List.range n).foldl (fun m lv => cell g t lv m) m).acts a b c d
        = if a < n ∧ b < N_STEPs ∧ c = g ∧ d = t then V a b c d else sel m.acts a b c d := by
    intro g t n
    induction n with
    | zero => intro m; simp
    | succ n ih =>
      intro m
      rw [List.range_succ, List.foldl_append, List.foldl_cons, List.foldl_nil, hcell, ih]
      by_cases h1 : a = n ∧ b < N_STEPs ∧ c = g ∧ d = t
      · have h2 : a < n + 1 ∧ b < N_STEPs ∧ c = g ∧ d = t := by omega
        rw [if_pos h1, if_pos h2]
      · rw [if_neg h1]
        by_cases h3 : a < n ∧ b < N_STEPs ∧ c = g ∧ d = t
        · have h2 : a < n + 1 ∧ b < N_STEPs ∧ c = g ∧ d = t := by omega
          rw [if_pos h3, if_pos h2]
        · have h2 : ¬ (a < n + 1 ∧ b < N_STEPs ∧ c = g ∧ d = t) := by omega
          rw [if_neg h3, if_neg h2]
  have middle : ∀ (g n : Nat) (m : Machine L),
      sel ((List.range n).foldl (fun m t =>
        (List.range N_lesion_values).foldl (fun m lv => cell g t lv m) m) m).acts a b c d
        = if a < N_lesion_values ∧ b < N_STEPs ∧ c = g ∧ d < n then V a b c d
          else sel m.acts a b c d := by
    intro g n
    induction n with
    | zero => intro m; simp
    | succ n ih =>
      intro m
      rw [List.range_succ, List.foldl_append, List.foldl_cons, List.foldl_nil, inner, ih]
      by_cases h1 : a < N_lesion_values ∧ b < N_STEPs ∧ c = g ∧ d = n
      · have h2 : a < N_lesion_values ∧ b < N_STEPs ∧ c = g ∧ d < n + 1 := by omega
        rw [if_pos h1, if_pos h2]
      · rw [if_neg h1]
        by_cases h3 : a < N_lesion_values ∧ b < N_STEPs ∧ c = g ∧ d < n
        · have h2 : a < N_lesion_values ∧ b < N_STEPs ∧ c = g ∧ d < n + 1 := by omega
          rw [if_pos h3, if_pos h2]
        · have h2 : ¬ (a < N_lesion_values ∧ b < N_STEPs ∧ c = g ∧ d < n + 1) := by omega
          rw [if_neg h3, if_neg h2]
  rw [sweep_cells]
  induction n_groups generalizing m with
  | zero => simp
  | succ n ih =>
    rw [List.range_succ, List.foldl_append, List.foldl_cons, List.foldl_nil, middle, ih]
    by_cases h1 : a < N_lesion_values ∧ b < N_STEPs ∧ c = n ∧ d < N_TASKs
    · have h2 : a < N_lesion_values ∧ b < N_STEPs ∧ c < n + 1 ∧ d < N_TASKs := by omega
      rw [if_pos h1, if_pos h2]
    · rw [if_neg h1]
      by_cases h3 : a < N_lesion_values ∧ b < N_STEPs ∧ c < n ∧ d < N_TASKs
      · have h2 : a < N_lesion_values ∧ b < N_STEPs ∧ c < n + 1 ∧ d < N_TASKs := by omega
        rw [if_pos h3, if_pos h2]
      · have h2 : ¬ (a < N_lesion_values ∧ b < N_STEPs ∧ c < n + 1 ∧ d < N_TASKs) := by omega
        rw [if_neg h3, if_neg h2]


theorem cell_of_series {L : Type} (upd : Nat → L → Int → Net → Net) (reset : Net → Net)
    (sap : Nat → Nat → L) (cat dog skat smat : Nat)
    (hreset : ∀ t les x y, upd t les 0 (reset x) = upd t les 0 (reset y))
    (net00 : Net) (g t lv : Nat) (m : Machine L) :
    series (cell_of upd (record_of cat dog skat smat) reset sap g t lv m).acts lv g t
      = (List.range N_STEPs).map fun step =>
          critical_values cat dog skat smat
            (net_after (upd t) (sap g lv) (reset net00) (step + 1)) := by
  have key : ∀ (sel : Recorded → Arr4) (val : Net → ℚ),
      (∀ lv step g t net r, sel (record_of cat dog skat smat lv step g t net r)
        = (sel r).set lv step g t (val net)) →
      ∀ step, step < N_STEPs →
        sel (cell_of upd (record_of cat dog skat smat) reset sap g t lv m).acts lv step g t
          = val (net_after (upd t) (sap g lv) (reset net00) (step + 1)) := by
    intro sel val hdet step hstep
    rw [cell_of_acts upd (record_of cat dog skat smat) reset sap sel val hdet hreset net00,
      if_pos ⟨rfl, hstep, rfl, rfl⟩]
  unfold series
  apply List.map_congr_left
  intro step hmem
  have hstep : step < N_STEPs := List.mem_range.mp hmem
  rw [key Recorded.ACT_C (fun st => rd st.C_node_act cat) (fun _ _ _ _ _ _ => rfl) step hstep,
    key Recorded.ACT_S (fun st => rd st.S_node_act cat) (fun _ _ _ _ _ _ => rfl) step hstep,
    key Recorded.ACT_CT (fun st => rd st.C_node_act cat) (fun _ _ _ _ _ _ => rfl) step hstep,
    key Recorded.ACT_CR (fun st => rd st.C_node_act dog) (fun _ _ _ _ _ _ => rfl) step hstep,
    key Recorded.ACT_LT (fun st => rd st.L_node_act cat) (fun _ _ _ _ _ _ => rfl) step hstep,
    key Recorded.ACT_LR (fun st => rd st.L_node_act dog) (fun _ _ _ _ _ _ => rfl) step hstep,
    key Recorded.ACT_ST (fun st => rd st.S_node_act skat) (fun _ _ _ _ _ _ => rfl) step hstep,
    key Recorded.ACT_SR (fun st => rd st.S_node_act smat) (fun _ _ _ _ _ _ => rfl) step hstep]
  rfl

theorem sweep_series {L : Type} (upd : Nat → L → Int → Net → Net) (reset : Net → Net)
    (sap : Nat → Nat → L) (cat dog skat smat : Nat)
    (hreset : ∀ t les x y, upd t les 0 (reset x) = upd t les 0 (reset y))
    (net00 : Net) (n_groups : Nat) (m : Machine L) (lv g t : Nat)
    (hlv : lv < N_lesion_values) (hg : g < n_groups) (ht : t < N_TASKs) :
    series (sweep_cells (cell_of upd (record_of cat dog skat smat) reset sap) n_groups m).acts
        lv g t
      = (List.range N_STEPs).map fun step =>
          critical_values cat dog skat smat
            (net_after (upd t) (sap g lv) (reset net00) (step + 1)) := by
  have key : ∀ (sel : Recorded → Arr4) (val : Net → ℚ),
      (∀ lv step g t net r, sel (record_of cat dog skat smat lv step g t net r)
        = (sel r).set lv step g t (val net)) →
      ∀ step, step < N_STEPs →
        sel (sweep_cells (cell_of upd (record_of cat dog skat smat) reset sap)
            n_groups m).acts lv step g t
          = val (net_after (upd t) (sap g lv) (reset net00) (step + 1)) := by
    intro sel val hdet step hstep
    rw [sweep_cells_acts (cell_of upd (record_of cat dog skat smat) reset sap) sel
      (fun a b c d => val (net_after (upd d) (sap c a) (reset net00) (b + 1)))
      (fun g t lv m a b c d => by
        rw [cell_of_acts upd (record_of cat dog skat smat) reset sap sel val hdet hreset net00]
        by_cases h : a = lv ∧ b < N_STEPs ∧ c = g ∧ d = t
        · obtain ⟨h1, _, h3, h4⟩ := h
          subst h1 h3 h4
          rfl
        · rw [if_neg h, if_neg h]),
      if_pos ⟨hlv, hstep, hg, ht⟩]
  unfold series
  apply List.map_congr_left
  intro step hmem
  have hstep : step < N_STEPs := List.mem_range.mp hmem
  rw [key Recorded.ACT_C (fun st => rd st.C_node_act cat) (fun _ _ _ _ _ _ => rfl) step hstep,
    key Recorded.ACT_S (fun st => rd st.S_node_act cat) (fun _ _ _ _ _ _ => rfl) step hstep,
    key Recorded.ACT_CT (fun st => rd st.C_node_act cat) (fun _ _ _ _ _ _ => rfl) step hstep,
    key Recorded.ACT_CR (fun st => rd st.C_node_act dog) (fun _ _ _ _ _ _ => rfl) step hstep,
    key Recorded.ACT_LT (fun st => rd st.L_node_act cat) (fun _ _ _ _ _ _ => rfl) step hstep,
    key Recorded.ACT_LR (fun st => rd st.L_node_act dog) (fun _ _ _ _ _ _ => rfl) step hstep,
    key Recorded.ACT_ST (fun st => rd st.S_node_act skat) (fun _ _ _ _ _ _ => rfl) step hstep,
    key Recorded.ACT_SR (fun st => rd st.S_node_act smat) (fun _ _ _ _ _ _ => rfl) step hstep]
  rfl

theorem series_entries (r r' : Recorded) (lv g t lv' g' t' : Nat)
    (h : series r lv g t = series r' lv' g' t') (step : Nat) (hstep : step < N_STEPs) :
    r.ACT_C lv step g t = r'.ACT_C lv' step g' t'
      ∧ r.ACT_S lv step g t = r'.ACT_S lv' step g' t'
      ∧ r.ACT_CT lv step g t = r'.ACT_CT lv' step g' t'
      ∧ r.ACT_CR lv step g t = r'.ACT_CR lv' step g' t'
      ∧ r.ACT_LT lv step g t = r'.ACT_LT lv' step g' t'
      ∧ r.ACT_LR lv step g t = r'.ACT_LR lv' step g' t'
      ∧ r.ACT_ST lv step g t = r'.ACT_ST lv' step g' t'
      ∧ r.ACT_SR lv step g t = r'.ACT_SR lv' step g' t' := by
  unfold series at h
  have := (List.map_inj_left.mp h) step (List.mem_range.mpr hstep)
  simpa using this

theorem series_means (r r' : Recorded) (lv g t lv' g' t' : Nat)
    (h : series r lv g t = series r' lv' g' t') :
    series_mean r.ACT_CT lv g t = series_mean r'.ACT_CT lv' g' t'
      ∧ series_mean r.ACT_CR lv g t = series_mean r'.ACT_CR lv' g' t'
      ∧ series_mean r.ACT_ST lv g t = series_mean r'.ACT_ST lv' g' t'
      ∧ series_mean r.ACT_SR lv g t = series_mean r'.ACT_SR lv' g' t' := by
  unfold series_mean
  refine ⟨?_, ?_, ?_, ?_⟩ <;> congr 1 <;> apply Finset.sum_congr rfl <;> intro i hi
  · exact (series_entries r r' lv g t lv' g' t' h i (Finset.mem_range.mp hi)).2.2.1
  · exact (series_entries r r' lv g t lv' g' t' h i (Finset.mem_range.mp hi)).2.2.2.1
  · exact (series_entries r r' lv g t lv' g' t' h i (Finset.mem_range.mp hi)).2.2.2.2.2.2.1
  · exact (series_entries r r' lv g t lv' g' t' h i (Finset.mem_range.mp hi)).2.2.2.2.2.2.2


/-! ## The three programs as instances of the shared driver -/

theorem group_simulate_cell_eq (con : Conn) (cfg : Settings) :
    GroupStudies.simulate_cell con cfg
      = cell_of (fun task les T st => GroupStudies.update_network con les task T st)
          (record_of GroupStudies.CAT GroupStudies.DOG GroupStudies.sKAT GroupStudies.sMAT)
          GroupStudies.reset_network (GroupStudies.set_aphasic_parameters cfg) := rfl

theorem cluster_simulate_cell_eq (con : Conn) (cfg : Settings) :
    Clusters.simulate_cell con cfg
      = cell_of (fun task les T st => Clusters.update_network con les task T st)
          (record_of FiveWord.CAT FiveWord.DOG FiveWord.CAT FiveWord.MAT)
          FiveWord.reset_network (Clusters.set_aphasic_parameters cfg) := rfl

theorem case_simulate_cell_eq (con : Conn) (cfg : Settings) :
    Cases.simulate_cell con cfg
      = cell_of (fun task les T st => Cases.update_network con les task T st)
          (record_of FiveWord.CAT FiveWord.DOG FiveWord.CAT FiveWord.MAT)
          FiveWord.reset_network (Cases.set_aphasic_parameters cfg) := rfl

theorem group_update_after_reset (con : Conn) (t : Nat) (les : GroupStudies.Lesion)
    (x y : Net) :
    GroupStudies.update_network con les t 0 (GroupStudies.reset_network x)
      = GroupStudies.update_network con les t 0 (GroupStudies.reset_network y) := rfl

theorem cluster_update_after_reset (con : Conn) (t : Nat) (les : Clusters.Lesion)
    (x y : Net) :
    Clusters.update_network con les t 0 (FiveWord.reset_network x)
      = Clusters.update_network con les t 0 (FiveWord.reset_network y) := rfl

theorem case_update_after_reset (con : Conn) (t : Nat) (les : Cases.Lesion) (x y : Net) :
    Cases.update_network con les t 0 (FiveWord.reset_network x)
      = Cases.update_network con les t 0 (FiveWord.reset_network y) := rfl

theorem group_simulate_cell_series (con : Conn) (cfg : Settings) (g t lv : Nat)
    (m : Machine GroupStudies.Lesion) :
    series (GroupStudies.simulate_cell con cfg g t lv m).acts lv g t
      = (List.range N_STEPs).map fun step =>
          critical_values GroupStudies.CAT GroupStudies.DOG GroupStudies.sKAT GroupStudies.sMAT
            (GroupStudies.cell_net con cfg g t lv (step + 1)) := by
  rw [group_simulate_cell_eq]
  exact cell_of_series _ _ _ _ _ _ _ (group_update_after_reset con) _ g t lv m

theorem cluster_simulate_cell_series (con : Conn) (cfg : Settings) (g t lv : Nat)
    (m : Machine Clusters.Lesion) :
    series (Clusters.simulate_cell con cfg g t lv m).acts lv g t
      = (List.range N_STEPs).map fun step =>
          critical_values FiveWord.CAT FiveWord.DOG FiveWord.CAT FiveWord.MAT
            (Clusters.cell_net con cfg g t lv (step + 1)) := by
  rw [cluster_simulate_cell_eq]
  exact cell_of_series _ _ _ _ _ _ _ (cluster_update_after_reset con) _ g t lv m

theorem case_simulate_cell_series (con : Conn) (cfg : Settings) (g t lv : Nat)
    (m : Machine Cases.Lesion) :
    series (Cases.simulate_cell con cfg g t lv m).acts lv g t
      = (List.range N_STEPs).map fun step =>
          critical_values FiveWord.CAT FiveWord.DOG FiveWord.CAT FiveWord.MAT
            (Cases.cell_net con cfg g t lv (step + 1)) := by
  rw [case_simulate_cell_eq]
  exact cell_of_series _ _ _ _ _ _ _ (case_update_after_reset con) _ g t lv m

theorem group_simulate_cell_final (con : Conn) (cfg : Settings) (g t lv : Nat)
    (m : Machine GroupStudies.Lesion) :
    (GroupStudies.simulate_cell con cfg g t lv m).net
        = GroupStudies.cell_net con cfg g t lv N_STEPs
      ∧ (GroupStudies.simulate_cell con cfg g t lv m).les
        = GroupStudies.set_aphasic_parameters cfg g lv
      ∧ (GroupStudies.simulate_cell con cfg g t lv m).T = ((N_STEPs * STEP_SIZE : Nat) : Int)
      ∧ (GroupStudies.simulate_cell con cfg g t lv m).step = N_STEPs := by
  rw [group_simulate_cell_eq]
  obtain ⟨h1, h2, h3, h4⟩ := cell_of_state
    (fun task les T st => GroupStudies.update_network con les task T st)
    (record_of GroupStudies.CAT GroupStudies.DOG GroupStudies.sKAT GroupStudies.sMAT)
    GroupStudies.reset_network (GroupStudies.set_aphasic_parameters cfg) g t lv m
  refine ⟨?_, h2, h3, h4⟩
  rw [h1]
  exact net_after_reset _ _ _ (group_update_after_reset con t _) _ _ 79

theorem cluster_simulate_cell_final (con : Conn) (cfg : Settings) (g t lv : Nat)
    (m : Machine Clusters.Lesion) :
    (Clusters.simulate_cell con cfg g t lv m).net = Clusters.cell_net con cfg g t lv N_STEPs
      ∧ (Clusters.simulate_cell con cfg g t lv m).les
        = Clusters.set_aphasic_parameters cfg g lv
      ∧ (Clusters.simulate_cell con cfg g t lv m).T = ((N_STEPs * STEP_SIZE : Nat) : Int)
      ∧ (Clusters.simulate_cell con cfg g t lv m).step = N_STEPs := by
  rw [cluster_simulate_cell_eq]
  obtain ⟨h1, h2, h3, h4⟩ := cell_of_state
    (fun task les T st => Clusters.update_network con les task T st)
    (record_of FiveWord.CAT FiveWord.DOG FiveWord.CAT FiveWord.MAT)
    FiveWord.reset_network (Clusters.set_aphasic_parameters cfg) g t lv m
  refine ⟨?_, h2, h3, h4⟩
  rw [h1]
  exact net_after_reset _ _ _ (cluster_update_after_reset con t _) _ _ 79

theorem case_simulate_cell_final (con : Conn) (cfg : Settings) (g t lv : Nat)
    (m : Machine Cases.Lesion) :
    (Cases.simulate_cell con cfg g t lv m).net = Cases.cell_net con cfg g t lv N_STEPs
      ∧ (Cases.simulate_cell con cfg g t lv m).les = Cases.set_aphasic_parameters cfg g lv
      ∧ (Cases.simulate_cell con cfg g t lv m).T = ((N_STEPs * STEP_SIZE : Nat) : Int)
      ∧ (Cases.simulate_cell con cfg g t lv m).step = N_STEPs := by
  rw [case_simulate_cell_eq]
  obtain ⟨h1, h2, h3, h4⟩ := cell_of_state
    (fun task les T st => Cases.update_network con les task T st)
    (record_of FiveWord.CAT FiveWord.DOG FiveWord.CAT FiveWord.MAT)
    FiveWord.reset_network (Cases.set_aphasic_parameters cfg) g t lv m
  refine ⟨?_, h2, h3, h4⟩
  rw [h1]
  exact net_after_reset _ _ _ (case_update_after_reset con t _) _ _ 79

theorem group_sweep_cell_series (con : Conn) (cfg : Settings)
    (m : Machine GroupStudies.Lesion) (lv g t : Nat) (hlv : lv < N_lesion_values)
    (hg : g < GroupStudies.N_GROUPs) (ht : t < N_TASKs) :
    series (GroupStudies.sweep con cfg m).acts lv g t
      = (List.range N_STEPs).map fun step =>
          critical_values GroupStudies.CAT GroupStudies.DOG GroupStudies.sKAT GroupStudies.sMAT
            (GroupStudies.cell_net con cfg g t lv (step + 1)) := by
  rw [GroupStudies.sweep, group_simulate_cell_eq]
  exact sweep_series _ _ _ _ _ _ _ (group_update_after_reset con) _ _ m lv g t hlv hg ht

theorem cluster_sweep_cell_series (con : Conn) (cfg : Settings)
    (m : Machine Clusters.Lesion) (lv g t : Nat) (hlv : lv < N_lesion_values)
    (hg : g < Clusters.N_GROUPs) (ht : t < N_TASKs) :
    series (Clusters.sweep con cfg m).acts lv g t
      = (List.range N_STEPs).map fun step =>
          critical_values FiveWord.CAT FiveWord.DOG FiveWord.CAT FiveWord.MAT
            (Clusters.cell_net con cfg g t lv (step + 1)) := by
  rw [Clusters.sweep, cluster_simulate_cell_eq]
  exact sweep_series _ _ _ _ _ _ _ (cluster_update_after_reset con) _ _ m lv g t hlv hg ht

theorem case_sweep_cell_series (con : Conn) (cfg : Settings)
    (m : Machine Cases.Lesion) (lv g t : Nat) (hlv : lv < N_lesion_values)
    (hg : g < Cases.N_ASSESSMENTs) (ht : t < N_TASKs) :
    series (Cases.sweep con cfg m).acts lv g t
      = (List.range N_STEPs).map fun step =>
          critical_values FiveWord.CAT FiveWord.DOG FiveWord.CAT FiveWord.MAT
            (Cases.cell_net con cfg g t lv (step + 1)) := by
  rw [Cases.sweep, case_simulate_cell_eq]
  exact sweep_series _ _ _ _ _ _ _ (case_update_after_reset con) _ _ m lv g t hlv hg ht

/-! ## Reset isolation (C5) -/

/-- C5.  In each of the three programs, for any two cells `A` and `B` (each a group, a task
and a severity index) and any two global states `m` and `m'`, the series recorded for `B`
when `B` is simulated after `A` (started in `m`) equals the series recorded for `B` when `B`
is simulated from `m'`, and so do the network and the lesion factors that `B` leaves behind:
no activation, input buffer, lesion factor, clock or recorded value left over from an earlier
cell influences a cell. -/
theorem reset_isolation :
    (∀ (con : Conn) (cfg : Settings) (gA tA lvA gB tB lvB : Nat)
        (m m' : Machine GroupStudies.Lesion),
      series (GroupStudies.simulate_cell con cfg gB tB lvB
          (GroupStudies.simulate_cell con cfg gA tA lvA m)).acts lvB gB tB
        = series (GroupStudies.simulate_cell con cfg gB tB lvB m').acts lvB gB tB
      ∧ (GroupStudies.simulate_cell con cfg gB tB lvB
          (GroupStudies.simulate_cell con cfg gA tA lvA m)).net
        = (GroupStudies.simulate_cell con cfg gB tB lvB m').net
      ∧ (GroupStudies.simulate_cell con cfg gB tB lvB
          (GroupStudies.simulate_cell con cfg gA tA lvA m)).les
        = (GroupStudies.simulate_cell con cfg gB tB lvB m').les)
    ∧ (∀ (con : Conn) (cfg : Settings) (gA tA lvA gB tB lvB : Nat)
        (m m' : Machine Clusters.Lesion),
      series (Clusters.simulate_cell con cfg gB tB lvB
          (Clusters.simulate_cell con cfg gA tA lvA m)).acts lvB gB tB
        = series (Clusters.simulate_cell con cfg gB tB lvB m').acts lvB gB tB
      ∧ (Clusters.simulate_cell con cfg gB tB lvB
          (Clusters.simulate_cell con cfg gA tA lvA m)).net
        = (Clusters.simulate_cell con cfg gB tB lvB m').net
      ∧ (Clusters.simulate_cell con cfg gB tB lvB
          (Clusters.simulate_cell con cfg gA tA lvA m)).les
        = (Clusters.simulate_cell con cfg gB tB lvB m').les)
    ∧ (∀ (con : Conn) (cfg : Settings) (gA tA lvA gB tB lvB : Nat)
        (m m' : Machine Cases.Lesion),
      series (Cases.simulate_cell con cfg gB tB lvB
          (Cases.simulate_cell con cfg gA tA lvA m)).acts lvB gB tB
        = series (Cases.simulate_cell con cfg gB tB lvB m').acts lvB gB tB
      ∧ (Cases.simulate_cell con cfg gB tB lvB
          (Cases.simulate_cell con cfg gA tA lvA m)).net
        = (Cases.simulate_cell con cfg gB tB lvB m').net
      ∧ (Cases.simulate_cell con cfg gB tB lvB
          (Cases.simulate_cell con cfg gA tA lvA m)).les
        = (Cases.simulate_cell con cfg gB tB lvB m').les) := by
  refine ⟨fun con cfg gA tA lvA gB tB lvB m m' => ?_,
    fun con cfg gA tA lvA gB tB lvB m m' => ?_, fun con cfg gA tA lvA gB tB lvB m m' => ?_⟩
  · refine ⟨?_, ?_, ?_⟩
    · rw [group_simulate_cell_series, group_simulate_cell_series]
    · rw [(group_simulate_cell_final con cfg gB tB lvB _).1,
        (group_simulate_cell_final con cfg gB tB lvB m').1]
    · rw [(group_simulate_cell_final con cfg gB tB lvB _).2.1,
        (group_simulate_cell_final con cfg gB tB lvB m').2.1]
  · refine ⟨?_, ?_, ?_⟩
    · rw [cluster_simulate_cell_series, cluster_simulate_cell_series]
    · rw [(cluster_simulate_cell_final con cfg gB tB lvB _).1,
        (cluster_simulate_cell_final con cfg gB tB lvB m').1]
    · rw [(cluster_simulate_cell_final con cfg gB tB lvB _).2.1,
        (cluster_simulate_cell_final con cfg gB tB lvB m').2.1]
  · refine ⟨?_, ?_, ?_⟩
    · rw [case_simulate_cell_series, case_simulate_cell_series]
    · rw [(case_simulate_cell_final con cfg gB tB lvB _).1,
        (case_simulate_cell_final con cfg gB tB lvB m').1]
    · rw [(case_simulate_cell_final con cfg gB tB lvB _).2.1,
        (case_simulate_cell_final con cfg gB tB lvB m').2.1]


/-! ## The fit loop -/

theorem fit_body_sim (cfg : Settings) (mn : Means) (REAL_DATA : List (List ℚ))
    (group lv : Nat) (f : FitState) :
    (fit_body cfg mn REAL_DATA group lv f).SIM_DATA group NAMING = sim_score mn group lv NAMING
      ∧ (fit_body cfg mn REAL_DATA group lv f).SIM_DATA group COMPREHENSION
        = sim_score mn group lv COMPREHENSION
      ∧ (fit_body cfg mn REAL_DATA group lv f).SIM_DATA group REPETITION
        = sim_score mn group lv REPETITION := by
  simp [fit_body, set_sim, sim_score, NAMING, COMPREHENSION, REPETITION]

theorem fit_body_gof (cfg : Settings) (mn : Means) (REAL_DATA : List (List ℚ))
    (group lv : Nat) (f : FitState) (i : Nat) (hi : i < N_lesion_values) :
    rd (fit_body cfg mn REAL_DATA group lv f).GOODNESS_OF_FIT i
      = if i = lv then mean_abs_error mn REAL_DATA group lv else rd f.GOODNESS_OF_FIT i := by
  obtain ⟨h1, h2, h3⟩ := fit_body_sim cfg mn REAL_DATA group lv f
  have e : (fit_body cfg mn REAL_DATA group lv f).GOODNESS_OF_FIT
      = set_at N_lesion_values f.GOODNESS_OF_FIT lv
        ((|rd2 REAL_DATA group NAMING
              - (fit_body cfg mn REAL_DATA group lv f).SIM_DATA group NAMING|
          + |rd2 REAL_DATA group COMPREHENSION
              - (fit_body cfg mn REAL_DATA group lv f).SIM_DATA group COMPREHENSION|
          + |rd2 REAL_DATA group REPETITION
              - (fit_body cfg mn REAL_DATA group lv f).SIM_DATA group REPETITION|) / 3) := rfl
  rw [e, rd_set_at hi, h1, h2, h3, mean_abs_error]

theorem fit_loop_gof (cfg : Settings) (mn : Means) (REAL_DATA : List (List ℚ))
    (group : Nat) (f : FitState) (i : Nat) (hi : i < N_lesion_values) :
    rd (fit_loop cfg mn REAL_DATA group f).GOODNESS_OF_FIT i
      = mean_abs_error mn REAL_DATA group i := by
  have pre : ∀ k, rd ((List.range k).foldl
      (fun f lv => fit_body cfg mn REAL_DATA group lv f) f).GOODNESS_OF_FIT i
        = if i < k then mean_abs_error mn REAL_DATA group i else rd f.GOODNESS_OF_FIT i := by
    intro k
    induction k with
    | zero => simp
    | succ k ih =>
      rw [List.range_succ, List.foldl_append, List.foldl_cons, List.foldl_nil,
        fit_body_gof cfg mn REAL_DATA group k _ i hi, ih]
      by_cases h1 : i = k
      · rw [if_pos h1, if_pos (by omega), h1]
      · rw [if_neg h1]
        by_cases h2 : i < k
        · rw [if_pos h2, if_pos (by omega)]
        · rw [if_neg h2, if_neg (by omega)]
  rw [fit_loop, pre, if_pos hi]

theorem fit_loop_LV_normal (cfg : Settings) (mn : Means) (REAL_DATA : List (List ℚ))
    (f : FitState) : (fit_loop cfg mn REAL_DATA NORMAL f).LV = some 1 := by
  have e : N_lesion_values = 99 + 1 := rfl
  rw [fit_loop, e, List.range_succ, List.foldl_append, List.foldl_cons, List.foldl_nil]
  simp [fit_body]

theorem best_fit_scan_constant (G : List ℚ)
    (h : ∀ i, i < N_lesion_values → rd G i = rd G 0) : best_fit_scan G = 0 := by
  obtain ⟨hlt, _, h3⟩ := best_fit_scan_spec G
  by_contra hne
  have hpos : 0 < best_fit_scan G := Nat.pos_of_ne_zero hne
  have := h3 0 hpos
  rw [h (best_fit_scan G) hlt] at this
  exact lt_irrefl _ this

/-! ## Control invariance (C7) -/

theorem control_scores (r : Recorded)
    (hser : ∀ lv1 lv2 t, lv1 < N_lesion_values → lv2 < N_lesion_values → t < N_TASKs →
      series r lv1 NORMAL t = series r lv2 NORMAL t)
    (lv1 lv2 : Nat) (h1 : lv1 < N_lesion_values) (h2 : lv2 < N_lesion_values) (t : Nat) :
    sim_score (compute_activation_results r) NORMAL lv1 t
      = sim_score (compute_activation_results r) NORMAL lv2 t := by
  have hN := series_means r r lv1 NORMAL NAMING lv2 NORMAL NAMING
    (hser lv1 lv2 NAMING h1 h2 (by decide))
  have hC := series_means r r lv1 NORMAL COMPREHENSION lv2 NORMAL COMPREHENSION
    (hser lv1 lv2 COMPREHENSION h1 h2 (by decide))
  have hR := series_means r r lv1 NORMAL REPETITION lv2 NORMAL REPETITION
    (hser lv1 lv2 REPETITION h1 h2 (by decide))
  have a1 := mean_eq_series_mean r lv1 NORMAL NAMING
  have a2 := mean_eq_series_mean r lv2 NORMAL NAMING
  have b1 := mean_eq_series_mean r lv1 NORMAL COMPREHENSION
  have b2 := mean_eq_series_mean r lv2 NORMAL COMPREHENSION
  have c1 := mean_eq_series_mean r lv1 NORMAL REPETITION
  have c2 := mean_eq_series_mean r lv2 NORMAL REPETITION
  simp only [sim_score, a1.1, a1.2.1, a1.2.2.1, a1.2.2.2, a2.1, a2.2.1, a2.2.2.1, a2.2.2.2,
    b1.1, b1.2.1, b1.2.2.1, b1.2.2.2, b2.1, b2.2.1, b2.2.2.1, b2.2.2.2,
    c1.1, c1.2.1, c1.2.2.1, c1.2.2.2, c2.1, c2.2.1, c2.2.2.1, c2.2.2.2,
    hN.1, hN.2.1, hN.2.2.1, hN.2.2.2, hC.1, hC.2.1, hC.2.2.1, hC.2.2.2,
    hR.1, hR.2.1, hR.2.2.1, hR.2.2.2]

theorem fit_body_sim_task (cfg : Settings) (mn : Means) (REAL_DATA : List (List ℚ))
    (group lv : Nat) (f : FitState) (t : Nat) (ht : t < N_TASKs) :
    (fit_body cfg mn REAL_DATA group lv f).SIM_DATA group t = sim_score mn group lv t := by
  obtain ⟨h1, h2, h3⟩ := fit_body_sim cfg mn REAL_DATA group lv f
  have : t = NAMING ∨ t = COMPREHENSION ∨ t = REPETITION := by
    simp only [N_TASKs, NAMING, COMPREHENSION, REPETITION] at ht ⊢; omega
  rcases this with h | h | h <;> rw [h]
  · exact h1
  · exact h2
  · exact h3

theorem group_control_series (con : Conn) (cfg : Settings)
    (m : Machine GroupStudies.Lesion) (lv1 lv2 t : Nat) (h1 : lv1 < N_lesion_values)
    (h2 : lv2 < N_lesion_values) (ht : t < N_TASKs) :
    series (GroupStudies.sweep con cfg m).acts lv1 NORMAL t
      = series (GroupStudies.sweep con cfg m).acts lv2 NORMAL t := by
  rw [group_sweep_cell_series con cfg m lv1 NORMAL t h1 (by decide) ht,
    group_sweep_cell_series con cfg m lv2 NORMAL t h2 (by decide) ht]
  simp only [GroupStudies.cell_net, group_set_aphasic_parameters_normal]

theorem cluster_control_series (con : Conn) (cfg : Settings)
    (m : Machine Clusters.Lesion) (lv1 lv2 t : Nat) (h1 : lv1 < N_lesion_values)
    (h2 : lv2 < N_lesion_values) (ht : t < N_TASKs) :
    series (Clusters.sweep con cfg m).acts lv1 NORMAL t
      = series (Clusters.sweep con cfg m).acts lv2 NORMAL t := by
  rw [cluster_sweep_cell_series con cfg m lv1 NORMAL t h1 (by decide) ht,
    cluster_sweep_cell_series con cfg m lv2 NORMAL t h2 (by decide) ht]
  simp only [Clusters.cell_net, cluster_set_aphasic_parameters_normal]

theorem case_control_series (con : Conn) (cfg : Settings)
    (m : Machine Cases.Lesion) (lv1 lv2 t : Nat) (h1 : lv1 < N_lesion_values)
    (h2 : lv2 < N_lesion_values) (ht : t < N_TASKs) :
    series (Cases.sweep con cfg m).acts lv1 NORMAL t
      = series (Cases.sweep con cfg m).acts lv2 NORMAL t := by
  rw [case_sweep_cell_series con cfg m lv1 NORMAL t h1 (by decide) ht,
    case_sweep_cell_series con cfg m lv2 NORMAL t h2 (by decide) ht]
  simp only [Cases.cell_net, case_set_aphasic_parameters_normal]

/-- C7.  In each of the three programs, for the control group, every task and any two
severity indices, the series recorded by the sweep are the same, and so are the simulated
scores that the fit stage assigns to `SIM_DATA[NORMAL][task]` at the two indices (whatever
the reference data and the earlier content of `SIM_DATA`). -/
theorem control_invariance :
    (∀ (con : Conn) (cfg : Settings) (m : Machine GroupStudies.Lesion)
        (REAL_DATA : List (List ℚ)) (f f' : FitState) (lv1 lv2 task : Nat),
      lv1 < N_lesion_values → lv2 < N_lesion_values → task < N_TASKs →
      series (GroupStudies.sweep con cfg m).acts lv1 NORMAL task
          = series (GroupStudies.sweep con cfg m).acts lv2 NORMAL task
        ∧ (fit_body cfg (compute_activation_results (GroupStudies.sweep con cfg m).acts)
            REAL_DATA NORMAL lv1 f).SIM_DATA NORMAL task
          = (fit_body cfg (compute_activation_results (GroupStudies.sweep con cfg m).acts)
            REAL_DATA NORMAL lv2 f').SIM_DATA NORMAL task)
    ∧ (∀ (con : Conn) (cfg : Settings) (m : Machine Clusters.Lesion)
        (REAL_DATA : List (List ℚ)) (f f' : FitState) (lv1 lv2 task : Nat),
      lv1 < N_lesion_values → lv2 < N_lesion_values → task < N_TASKs →
      series (Clusters.sweep con cfg m).acts lv1 NORMAL task
          = series (Clusters.sweep con cfg m).acts lv2 NORMAL task
        ∧ (fit_body cfg (compute_activation_results (Clusters.sweep con cfg m).acts)
            REAL_DATA NORMAL lv1 f).SIM_DATA NORMAL task
          = (fit_body cfg (compute_activation_results (Clusters.sweep con cfg m).acts)
            REAL_DATA NORMAL lv2 f').SIM_DATA NORMAL task)
    ∧ (∀ (con : Conn) (cfg : Settings) (m : Machine Cases.Lesion)
        (REAL_DATA : List (List ℚ)) (f f' : FitState) (lv1 lv2 task : Nat),
      lv1 < N_lesion_values → lv2 < N_lesion_values → task < N_TASKs →
      series (Cases.sweep con cfg m).acts lv1 NORMAL task
          = series (Cases.sweep con cfg m).acts lv2 NORMAL task
        ∧ (fit_body cfg (compute_activation_results (Cases.sweep con cfg m).acts)
            REAL_DATA NORMAL lv1 f).SIM_DATA NORMAL task
          = (fit_body cfg (compute_activation_results (Cases.sweep con cfg m).acts)
            REAL_DATA NORMAL lv2 f').SIM_DATA NORMAL task) := by
  refine ⟨fun con cfg m REAL_DATA f f' lv1 lv2 task h1 h2 ht => ?_,
    fun con cfg m REAL_DATA f f' lv1 lv2 task h1 h2 ht => ?_,
    fun con cfg m REAL_DATA f f' lv1 lv2 task h1 h2 ht => ?_⟩
  · refine ⟨group_control_series con cfg m lv1 lv2 task h1 h2 ht, ?_⟩
    rw [fit_body_sim_task _ _ _ _ _ _ _ ht, fit_body_sim_task _ _ _ _ _ _ _ ht]
    exact control_scores _ (group_control_series con cfg m) lv1 lv2 h1 h2 task
  · refine ⟨cluster_control_series con cfg m lv1 lv2 task h1 h2 ht, ?_⟩
    rw [fit_body_sim_task _ _ _ _ _ _ _ ht, fit_body_sim_task _ _ _ _ _ _ _ ht]
    exact control_scores _ (cluster_control_series con cfg m) lv1 lv2 h1 h2 task
  · refine ⟨case_control_series con cfg m lv1 lv2 task h1 h2 ht, ?_⟩
    rw [fit_body_sim_task _ _ _ _ _ _ _ ht, fit_body_sim_task _ _ _ _ _ _ _ ht]
    exact control_scores _ (case_control_series con cfg m) lv1 lv2 h1 h2 task

/-- C7 at a concrete input: the single-case program as compiled (weight lesion), severity
indices `0` and `99`, naming. -/
theorem control_invariance_witness :
    series (Cases.sweep FiveWord.scaled_con (main_settings true false)
          Cases.initial_machine).acts 0 NORMAL NAMING
        = series (Cases.sweep FiveWord.scaled_con (main_settings true false)
          Cases.initial_machine).acts 99 NORMAL NAMING
      ∧ (fit_body (main_settings true false)
          (compute_activation_results (Cases.sweep FiveWord.scaled_con
            (main_settings true false) Cases.initial_machine).acts)
          Cases.REAL_DATA NORMAL 0
          { SIM_DATA := fun _ _ => 0, GOODNESS_OF_FIT := [], LV := none }).SIM_DATA NORMAL NAMING
        = (fit_body (main_settings true false)
          (compute_activation_results (Cases.sweep FiveWord.scaled_con
            (main_settings true false) Cases.initial_machine).acts)
          Cases.REAL_DATA NORMAL 99
          { SIM_DATA := fun _ _ => 0, GOODNESS_OF_FIT := [], LV := none }).SIM_DATA
            NORMAL NAMING :=
  control_invariance.2.2 FiveWord.scaled_con (main_settings true false) Cases.initial_machine
    Cases.REAL_DATA { SIM_DATA := fun _ _ => 0, GOODNESS_OF_FIT := [], LV := none }
    { SIM_DATA := fun _ _ => 0, GOODNESS_OF_FIT := [], LV := none } 0 99 NAMING
    (by decide) (by decide) (by decide)


/-! ## The best-fit line of the control group (C8) -/

theorem control_errors (r : Recorded)
    (hser : ∀ lv1 lv2 t, lv1 < N_lesion_values → lv2 < N_lesion_values → t < N_TASKs →
      series r lv1 NORMAL t = series r lv2 NORMAL t)
    (REAL_DATA : List (List ℚ)) (lv : Nat) (h : lv < N_lesion_values) :
    mean_abs_error (compute_activation_results r) REAL_DATA NORMAL lv
      = mean_abs_error (compute_activation_results r) REAL_DATA NORMAL 0 := by
  rw [mean_abs_error, mean_abs_error,
    control_scores r hser lv 0 h (by decide) NAMING,
    control_scores r hser lv 0 h (by decide) COMPREHENSION,
    control_scores r hser lv 0 h (by decide) REPETITION]

theorem control_scan (cfg : Settings) (r : Recorded)
    (hser : ∀ lv1 lv2 t, lv1 < N_lesion_values → lv2 < N_lesion_values → t < N_TASKs →
      series r lv1 NORMAL t = series r lv2 NORMAL t)
    (REAL_DATA : List (List ℚ)) (f : FitState) :
    best_fit_scan
      (fit_loop cfg (compute_activation_results r) REAL_DATA NORMAL f).GOODNESS_OF_FIT = 0 := by
  apply best_fit_scan_constant
  intro i hi
  rw [fit_loop_gof _ _ _ _ _ i hi, fit_loop_gof _ _ _ _ _ 0 (by decide),
    control_errors r hser REAL_DATA i hi]

theorem weight_grid_first : rd (main_settings true false).WEIGHT_value 0 = 0 := by decide!

theorem decay_grid_first : rd (main_settings false true).DECAY_value 0 = 101 / 100 := by decide!

theorem control_line (cfg : Settings) (r : Recorded)
    (hser : ∀ lv1 lv2 t, lv1 < N_lesion_values → lv2 < N_lesion_values → t < N_TASKs →
      series r lv1 NORMAL t = series r lv2 NORMAL t)
    (REAL_DATA : List (List ℚ)) (f : FitState) :
    (fit_group cfg (compute_activation_results r) REAL_DATA NORMAL f).2.best_fit_weight_value
        = (if cfg.WEIGHT_LESION then some (rd cfg.WEIGHT_value 0) else none)
      ∧ (fit_group cfg (compute_activation_results r) REAL_DATA NORMAL f).2.best_fit_decay_value
        = (if cfg.DECAY_LESION then some (rd cfg.DECAY_value 0) else none)
      ∧ (fit_group cfg (compute_activation_results r) REAL_DATA NORMAL f).1.LV = some 1 := by
  simp only [fit_group, report, control_scan cfg r hser REAL_DATA f, fit_loop_LV_normal,
    and_self]

/-- C8, what the programs do.  As compiled (weight lesion), the group-studies program and
the single-case program print for the control group the line `Best fit weight value = 0.00`:
the value is `WEIGHT_value[a]` at the index `a = 0` that the control's own fit scan returns,
the grid value of maximal damage, not the no-damage value `1.0`.  With the decay lesion
switched on instead the line shows `DECAY_value[0] = 1.01`.  The local `LV`, which the loop
over severity indices does set to `1.0` for the control and which the optional table rows
print, is not used for the best-fit line. -/
theorem control_best_fit_line :
    (∀ (con : Conn) (m : Machine GroupStudies.Lesion) (REAL_DATA : List (List ℚ))
        (f : FitState),
      (fit_group (main_settings true false)
          (compute_activation_results
            (GroupStudies.sweep con (main_settings true false) m).acts)
          REAL_DATA NORMAL f).2.best_fit_weight_value = some 0
        ∧ (fit_group (main_settings true false)
          (compute_activation_results
            (GroupStudies.sweep con (main_settings true false) m).acts)
          REAL_DATA NORMAL f).1.LV = some 1
        ∧ (fit_group (main_settings false true)
          (compute_activation_results
            (GroupStudies.sweep con (main_settings false true) m).acts)
          REAL_DATA NORMAL f).2.best_fit_decay_value = some (101 / 100))
    ∧ (∀ (con : Conn) (m : Machine Cases.Lesion) (REAL_DATA : List (List ℚ)) (f : FitState),
      (fit_group (main_settings true false)
          (compute_activation_results (Cases.sweep con (main_settings true false) m).acts)
          REAL_DATA NORMAL f).2.best_fit_weight_value = some 0
        ∧ (fit_group (main_settings true false)
          (compute_activation_results (Cases.sweep con (main_settings true false) m).acts)
          REAL_DATA NORMAL f).1.LV = some 1
        ∧ (fit_group (main_settings false true)
          (compute_activation_results (Cases.sweep con (main_settings false true) m).acts)
          REAL_DATA NORMAL f).2.best_fit_decay_value = some (101 / 100)) := by
  refine ⟨fun con m REAL_DATA f => ?_, fun con m REAL_DATA f => ?_⟩
  · obtain ⟨h1, _, h3⟩ := control_line (main_settings true false) _
      (group_control_series con (main_settings true false) m) REAL_DATA f
    obtain ⟨_, k2, _⟩ := control_line (main_settings false true) _
      (group_control_series con (main_settings false true) m) REAL_DATA f
    refine ⟨?_, h3, ?_⟩
    · rw [h1, ← weight_grid_first]; rfl
    · rw [k2, ← decay_grid_first]; rfl
  · obtain ⟨h1, _, h3⟩ := control_line (main_settings true false) _
      (case_control_series con (main_settings true false) m) REAL_DATA f
    obtain ⟨_, k2, _⟩ := control_line (main_settings false true) _
      (case_control_series con (main_settings false true) m) REAL_DATA f
    refine ⟨?_, h3, ?_⟩
    · rw [h1, ← weight_grid_first]; rfl
    · rw [k2, ← decay_grid_first]; rfl


/-! ## Which factors multiply which pathways (C9) -/

theorem group_morpheme_only_healthy :
    rd (GroupStudies.get_internal_input GroupStudies.scaled_con GroupStudies.healthy
          GroupStudies.morpheme_only).input_oP GroupStudies.pK = 3 / 10 := by
  decide!

theorem group_morpheme_only_nonfluent :
    rd (GroupStudies.get_internal_input GroupStudies.scaled_con
          { GroupStudies.healthy with CONNECTION_DECREASE_NONFLUENT_AGRAMMATIC := 1 / 2 }
          GroupStudies.morpheme_only).input_oP GroupStudies.pK = 3 / 20 := by
  decide!

theorem group_morpheme_only_logopenic :
    rd (GroupStudies.get_internal_input GroupStudies.scaled_con
          { GroupStudies.healthy with CONNECTION_DECREASE_LOGOPENIC := 1 / 2 }
          GroupStudies.morpheme_only).input_oP GroupStudies.pK = 3 / 20 := by
  decide!

/-- C9 as stated fails.  In the group-studies program the terms of the pathway from output
morphemes to output phonemes contain the factors of two different groups: in the state in
which only the output morpheme of the target word is active (so that the input of an output
phoneme consists of these terms only), the input of output phoneme `pK` is `0.3` with all
factors at `1.0`; halving the nonfluent/agrammatic factor alone makes it `0.15`, and halving
the logopenic factor alone makes it `0.15` as well. -/
theorem pathway_factors_counterexample :
    rd (GroupStudies.get_internal_input GroupStudies.scaled_con GroupStudies.healthy
          GroupStudies.morpheme_only).input_oP GroupStudies.pK = 3 / 10
      ∧ rd (GroupStudies.get_internal_input GroupStudies.scaled_con
          { GroupStudies.healthy with CONNECTION_DECREASE_NONFLUENT_AGRAMMATIC := 1 / 2 }
          GroupStudies.morpheme_only).input_oP GroupStudies.pK = 3 / 20
      ∧ rd (GroupStudies.get_internal_input GroupStudies.scaled_con
          { GroupStudies.healthy with CONNECTION_DECREASE_LOGOPENIC := 1 / 2 }
          GroupStudies.morpheme_only).input_oP GroupStudies.pK = 3 / 20 :=
  ⟨group_morpheme_only_healthy, group_morpheme_only_nonfluent,
    group_morpheme_only_logopenic⟩

/-- C9 as the programs have it.  `set_aphasic_parameters` leaves every factor named after a
group other than the current one at `1.0`; hence each product of factors that
`get_internal_input` and `update_activation_of_nodes` multiply into a pathway term or a decay
term equals the current group's severity value (when the group is among those named in the
product) or `1.0`: no term is attenuated by the severity values of two groups at once.  The
sets of pathways of the groups themselves overlap. -/
theorem one_severity_per_term :
    (∀ (cfg : Settings) (group lv : Nat),
      (group ≠ GroupStudies.NONFLUENT_AGRAMMATIC →
          (GroupStudies.set_aphasic_parameters cfg group lv).CONNECTION_DECREASE_NONFLUENT_AGRAMMATIC
              = 1
            ∧ (GroupStudies.set_aphasic_parameters cfg group lv).DECAY_INCREASE_NONFLUENT_AGRAMMATIC
              = 1)
        ∧ (group ≠ GroupStudies.SEMANTIC_DEMENTIA →
          (GroupStudies.set_aphasic_parameters cfg group lv).CONNECTION_DECREASE_SEMANTIC_DEMENTIA
              = 1
            ∧ (GroupStudies.set_aphasic_parameters cfg group lv).DECAY_INCREASE_SEMANTIC_DEMENTIA
              = 1)
        ∧ (group ≠ GroupStudies.LOGOPENIC →
          (GroupStudies.set_aphasic_parameters cfg group lv).CONNECTION_DECREASE_LOGOPENIC = 1
            ∧ (GroupStudies.set_aphasic_parameters cfg group lv).DECAY_INCREASE_LOGOPENIC = 1)
        ∧ (GroupStudies.set_aphasic_parameters cfg group lv).CONNECTION_DECREASE_NONFLUENT_AGRAMMATIC
            * (GroupStudies.set_aphasic_parameters cfg group lv).CONNECTION_DECREASE_LOGOPENIC
          = (if group = GroupStudies.NONFLUENT_AGRAMMATIC ∨ group = GroupStudies.LOGOPENIC
              then (if cfg.WEIGHT_LESION then rd cfg.WEIGHT_value lv else 1) else 1))
    ∧ (∀ (cfg : Settings) (group lv : Nat),
      (group ≠ Clusters.CLUSTER_1 →
          (Clusters.set_aphasic_parameters cfg group lv).CONNECTION_DECREASE_CLUSTER_1 = 1
            ∧ (Clusters.set_aphasic_parameters cfg group lv).DECAY_INCREASE_CLUSTER_1 = 1)
        ∧ (group ≠ Clusters.CLUSTER_2 →
          (Clusters.set_aphasic_parameters cfg group lv).CONNECTION_DECREASE_CLUSTER_2 = 1
            ∧ (Clusters.set_aphasic_parameters cfg group lv).DECAY_INCREASE_CLUSTER_2 = 1)
        ∧ (group ≠ Clusters.CLUSTER_3 →
          (Clusters.set_aphasic_parameters cfg group lv).CONNECTION_DECREASE_CLUSTER_3 = 1
            ∧ (Clusters.set_aphasic_parameters cfg group lv).DECAY_INCREASE_CLUSTER_3 = 1)
        ∧ (Clusters.set_aphasic_parameters cfg group lv).CONNECTION_DECREASE_CLUSTER_1
            * (Clusters.set_aphasic_parameters cfg group lv).CONNECTION_DECREASE_CLUSTER_2
            * (Clusters.set_aphasic_parameters cfg group lv).CONNECTION_DECREASE_CLUSTER_3
          = (if group = Clusters.CLUSTER_1 ∨ group = Clusters.CLUSTER_2
                ∨ group = Clusters.CLUSTER_3
              then (if cfg.WEIGHT_LESION then rd cfg.WEIGHT_value lv else 1) else 1)
        ∧ (Clusters.set_aphasic_parameters cfg group lv).CONNECTION_DECREASE_CLUSTER_1
            * (Clusters.set_aphasic_parameters cfg group lv).CONNECTION_DECREASE_CLUSTER_3
          = (if group = Clusters.CLUSTER_1 ∨ group = Clusters.CLUSTER_3
              then (if cfg.WEIGHT_LESION then rd cfg.WEIGHT_value lv else 1) else 1)
        ∧ (Clusters.set_aphasic_parameters cfg group lv).DECAY_INCREASE_CLUSTER_1
            * (Clusters.set_aphasic_parameters cfg group lv).DECAY_INCREASE_CLUSTER_2
            * (Clusters.set_aphasic_parameters cfg group lv).DECAY_INCREASE_CLUSTER_3
          = (if group = Clusters.CLUSTER_1 ∨ group = Clusters.CLUSTER_2
                ∨ group = Clusters.CLUSTER_3
              then (if cfg.DECAY_LESION then rd cfg.DECAY_value lv else 1) else 1)
        ∧ (Clusters.set_aphasic_parameters cfg group lv).DECAY_INCREASE_CLUSTER_1
            * (Clusters.set_aphasic_parameters cfg group lv).DECAY_INCREASE_CLUSTER_3
          = (if group = Clusters.CLUSTER_1 ∨ group = Clusters.CLUSTER_3
              then (if cfg.DECAY_LESION then rd cfg.DECAY_value lv else 1) else 1)) := by
  refine ⟨fun cfg group lv => ?_, fun cfg group lv => ?_⟩
  · refine ⟨?_, ?_, ?_, ?_⟩
    · intro h; simp [GroupStudies.set_aphasic_parameters, h]
    · intro h; simp [GroupStudies.set_aphasic_parameters, h]
    · intro h; simp [GroupStudies.set_aphasic_parameters, h]
    · simp only [GroupStudies.set_aphasic_parameters, GroupStudies.NONFLUENT_AGRAMMATIC,
        GroupStudies.LOGOPENIC]
      by_cases h1 : group = 1
      · subst h1; simp
      · by_cases h3 : group = 3
        · subst h3; simp
        · simp [h1, h3]
  · simp only [Clusters.set_aphasic_parameters, Clusters.CLUSTER_1, Clusters.CLUSTER_2,
      Clusters.CLUSTER_3]
    by_cases h1 : group = 1
    · subst h1; simp
    · by_cases h2 : group = 2
      · subst h2; simp
      · by_cases h3 : group = 3
        · subst h3; simp
        · simp [h1, h2, h3]

/-- C9 (as the programs have it) at a concrete input: the logopenic group at severity index
`50` of the weight grid of the group-studies program. -/
theorem one_severity_per_term_witness :
    (GroupStudies.set_aphasic_parameters (main_settings true false) GroupStudies.LOGOPENIC
        50).CONNECTION_DECREASE_NONFLUENT_AGRAMMATIC = 1
      ∧ (GroupStudies.set_aphasic_parameters (main_settings true false) GroupStudies.LOGOPENIC
        50).DECAY_INCREASE_NONFLUENT_AGRAMMATIC = 1 :=
  (one_severity_per_term.1 (main_settings true false) GroupStudies.LOGOPENIC 50).1 (by decide)


/-! ## The severity grids (C17, C18, C19) -/

theorem fill_grid_upto (start : ℚ) (value : List ℚ) (k : Nat) :
    ((List.range k).foldl
        (fun (p : List ℚ × ℚ) lesion_value =>
          (set_at N_lesion_values p.1 lesion_value p.2, p.2 + 0.01)) (value, start)).2
        = start + (k : ℚ) / 100
      ∧ ∀ i, i < N_lesion_values →
        rd ((List.range k).foldl
          (fun (p : List ℚ × ℚ) lesion_value =>
            (set_at N_lesion_values p.1 lesion_value p.2, p.2 + 0.01)) (value, start)).1 i
          = if i < k then start + (i : ℚ) / 100 else rd value i := by
  induction k with
  | zero => simp
  | succ k ih =>
    obtain ⟨h1, h2⟩ := ih
    rw [List.range_succ, List.foldl_append, List.foldl_cons, List.foldl_nil]
    refine ⟨?_, ?_⟩
    · simp only [h1]; push_cast; norm_num; ring
    · intro i hi
      simp only [rd_set_at hi, h1, h2 i hi]
      by_cases e : i = k
      · rw [if_pos e, if_pos (by omega), e]
      · rw [if_neg e]
        by_cases l : i < k
        · rw [if_pos l, if_pos (by omega)]
        · rw [if_neg l, if_neg (by omega)]

theorem rd_fill_grid (start : ℚ) (value : List ℚ) (i : Nat) (hi : i < N_lesion_values) :
    rd (fill_grid start value) i = start + (i : ℚ) / 100 := by
  rw [fill_grid, (fill_grid_upto start value N_lesion_values).2 i hi, if_pos hi]

theorem rd_weight_grid (DECAY_LESION : Bool) (i : Nat) (hi : i < N_lesion_values) :
    rd (main_settings true DECAY_LESION).WEIGHT_value i = (i : ℚ) / 100 := by
  simp only [main_settings, if_true]
  rw [rd_fill_grid _ _ i hi]
  norm_num

theorem rd_decay_grid (WEIGHT_LESION : Bool) (i : Nat) (hi : i < N_lesion_values) :
    rd (main_settings WEIGHT_LESION true).DECAY_value i = 101 / 100 + (i : ℚ) / 100 := by
  simp only [main_settings, if_true]
  rw [rd_fill_grid _ _ i hi]
  norm_num

/-- C17.  In exact arithmetic the weight-lesion grid that `main` generates is
`WEIGHT_value[i] = i / 100` for every index `i` in `0 .. 99`: it has 100 entries, starts at
`0.0`, ends at `0.99`, and is strictly increasing (in steps of `0.01`). -/
theorem weight_grid_values (DECAY_LESION : Bool) :
    (main_settings true DECAY_LESION).WEIGHT_value.length = 100
      ∧ (∀ i, i < N_lesion_values →
          rd (main_settings true DECAY_LESION).WEIGHT_value i = (i : ℚ) / 100)
      ∧ rd (main_settings true DECAY_LESION).WEIGHT_value 0 = 0
      ∧ rd (main_settings true DECAY_LESION).WEIGHT_value 99 = 99 / 100
      ∧ (∀ i, i + 1 < N_lesion_values →
          rd (main_settings true DECAY_LESION).WEIGHT_value (i + 1)
            = rd (main_settings true DECAY_LESION).WEIGHT_value i + 1 / 100)
      ∧ (∀ i j, i < j → j < N_lesion_values →
          rd (main_settings true DECAY_LESION).WEIGHT_value i
            < rd (main_settings true DECAY_LESION).WEIGHT_value j) := by
  refine ⟨?_, fun i hi => rd_weight_grid DECAY_LESION i hi, ?_, ?_, ?_, ?_⟩
  · have e : N_lesion_values = 99 + 1 := rfl
    simp only [main_settings, if_true, fill_grid]
    rw [e, List.range_succ, List.foldl_append, List.foldl_cons, List.foldl_nil]
    simp [set_at, tabulate]
  · rw [rd_weight_grid DECAY_LESION 0 (by decide)]; norm_num
  · rw [rd_weight_grid DECAY_LESION 99 (by decide)]; norm_num
  · intro i hi
    rw [rd_weight_grid DECAY_LESION (i + 1) hi, rd_weight_grid DECAY_LESION i (by omega)]
    push_cast; ring
  · intro i j hij hj
    rw [rd_weight_grid DECAY_LESION i (by omega), rd_weight_grid DECAY_LESION j hj]
    have : (i : ℚ) < (j : ℚ) := by exact_mod_cast hij
    linarith

/-- C17 at concrete indices: `WEIGHT_value[42] = 42 / 100` and
`WEIGHT_value[41] < WEIGHT_value[42]` in the program as compiled. -/
theorem weight_grid_values_witness :
    rd (main_settings true false).WEIGHT_value 42 = ((42 : Nat) : ℚ) / 100
      ∧ rd (main_settings true false).WEIGHT_value 41
        < rd (main_settings true false).WEIGHT_value 42 :=
  ⟨(weight_grid_values false).2.1 42 (by decide),
    (weight_grid_values false).2.2.2.2.2 41 42 (by decide) (by decide)⟩


theorem weight_factor_bounds (DECAY_LESION : Bool) (lv : Nat) (h : lv < N_lesion_values) :
    0 ≤ rd (main_settings true DECAY_LESION).WEIGHT_value lv
      ∧ rd (main_settings true DECAY_LESION).WEIGHT_value lv ≤ 1
      ∧ (0 < lv → 0 < rd (main_settings true DECAY_LESION).WEIGHT_value lv) := by
  rw [rd_weight_grid DECAY_LESION lv h]
  have h0 : (0 : ℚ) ≤ (lv : ℚ) := Nat.cast_nonneg lv
  have h1 : (lv : ℚ) < 100 := by exact_mod_cast h
  refine ⟨by positivity, by linarith, fun hp => ?_⟩
  have : (0 : ℚ) < (lv : ℚ) := by exact_mod_cast hp
  positivity

theorem group_nonfluent_factor (cfg : Settings) (lv : Nat) (h : cfg.WEIGHT_LESION = true) :
    (GroupStudies.set_aphasic_parameters cfg
        GroupStudies.NONFLUENT_AGRAMMATIC lv).CONNECTION_DECREASE_NONFLUENT_AGRAMMATIC
      = rd cfg.WEIGHT_value lv := by
  simp [GroupStudies.set_aphasic_parameters, h]

theorem group_semantic_factor (cfg : Settings) (lv : Nat) (h : cfg.WEIGHT_LESION = true) :
    (GroupStudies.set_aphasic_parameters cfg
        GroupStudies.SEMANTIC_DEMENTIA lv).CONNECTION_DECREASE_SEMANTIC_DEMENTIA
      = rd cfg.WEIGHT_value lv := by
  simp [GroupStudies.set_aphasic_parameters, h]

/-- C18 as stated fails.  At severity index `0` of the weight-lesion grid the
connection-decrease factor of the current patient group is `WEIGHT_value[0] = 0.0`, which is
not in `(0, 1]`: here the nonfluent/agrammatic factor of the group-studies program as
compiled. -/
theorem connection_factor_counterexample :
    (GroupStudies.set_aphasic_parameters (main_settings true false)
        GroupStudies.NONFLUENT_AGRAMMATIC 0).CONNECTION_DECREASE_NONFLUENT_AGRAMMATIC = 0
      ∧ ¬ (0 < (GroupStudies.set_aphasic_parameters (main_settings true false)
        GroupStudies.NONFLUENT_AGRAMMATIC 0).CONNECTION_DECREASE_NONFLUENT_AGRAMMATIC) := by
  rw [group_nonfluent_factor (main_settings true false) 0 rfl,
    rd_weight_grid false 0 (by decide)]
  norm_num

/-- C18 as the programs have it.  In weight-lesion mode, for every group (or case) and every
severity index of the grid, every connection-decrease factor that `set_aphasic_parameters`
produces lies in the closed interval `[0, 1]`, and in `(0, 1]` at every severity index other
than `0` (at index `0` the factor of the current patient group is `0.0`). -/
theorem connection_factor_range :
    (∀ (DECAY_LESION : Bool) (group lv : Nat), lv < N_lesion_values →
      (0 ≤ (GroupStudies.set_aphasic_parameters (main_settings true DECAY_LESION)
            group lv).CONNECTION_DECREASE_NONFLUENT_AGRAMMATIC
        ∧ (GroupStudies.set_aphasic_parameters (main_settings true DECAY_LESION)
            group lv).CONNECTION_DECREASE_NONFLUENT_AGRAMMATIC ≤ 1
        ∧ (0 < lv → 0 < (GroupStudies.set_aphasic_parameters (main_settings true DECAY_LESION)
            group lv).CONNECTION_DECREASE_NONFLUENT_AGRAMMATIC))
      ∧ (0 ≤ (GroupStudies.set_aphasic_parameters (main_settings true DECAY_LESION)
            group lv).CONNECTION_DECREASE_SEMANTIC_DEMENTIA
        ∧ (GroupStudies.set_aphasic_parameters (main_settings true DECAY_LESION)
            group lv).CONNECTION_DECREASE_SEMANTIC_DEMENTIA ≤ 1
        ∧ (0 < lv → 0 < (GroupStudies.set_aphasic_parameters (main_settings true DECAY_LESION)
            group lv).CONNECTION_DECREASE_SEMANTIC_DEMENTIA))
      ∧ (0 ≤ (GroupStudies.set_aphasic_parameters (main_settings true DECAY_LESION)
            group lv).CONNECTION_DECREASE_LOGOPENIC
        ∧ (GroupStudies.set_aphasic_parameters (main_settings true DECAY_LESION)
            group lv).CONNECTION_DECREASE_LOGOPENIC ≤ 1
        ∧ (0 < lv → 0 < (GroupStudies.set_aphasic_parameters (main_settings true DECAY_LESION)
            group lv).CONNECTION_DECREASE_LOGOPENIC)))
    ∧ (∀ (DECAY_LESION : Bool) (group lv : Nat), lv < N_lesion_values →
      (0 ≤ (Clusters.set_aphasic_parameters (main_settings true DECAY_LESION)
            group lv).CONNECTION_DECREASE_CLUSTER_1
        ∧ (Clusters.set_aphasic_parameters (main_settings true DECAY_LESION)
            group lv).CONNECTION_DECREASE_CLUSTER_1 ≤ 1
        ∧ (0 < lv → 0 < (Clusters.set_aphasic_parameters (main_settings true DECAY_LESION)
            group lv).CONNECTION_DECREASE_CLUSTER_1))
      ∧ (0 ≤ (Clusters.set_aphasic_parameters (main_settings true DECAY_LESION)
            group lv).CONNECTION_DECREASE_CLUSTER_2
        ∧ (Clusters.set_aphasic_parameters (main_settings true DECAY_LESION)
            group lv).CONNECTION_DECREASE_CLUSTER_2 ≤ 1
        ∧ (0 < lv → 0 < (Clusters.set_aphasic_parameters (main_settings true DECAY_LESION)
            group lv).CONNECTION_DECREASE_CLUSTER_2))
      ∧ (0 ≤ (Clusters.set_aphasic_parameters (main_settings true DECAY_LESION)
            group lv).CONNECTION_DECREASE_CLUSTER_3
        ∧ (Clusters.set_aphasic_parameters (main_settings true DECAY_LESION)
            group lv).CONNECTION_DECREASE_CLUSTER_3 ≤ 1
        ∧ (0 < lv → 0 < (Clusters.set_aphasic_parameters (main_settings true DECAY_LESION)
            group lv).CONNECTION_DECREASE_CLUSTER_3)))
    ∧ (∀ (DECAY_LESION : Bool) (assessment lv : Nat), lv < N_lesion_values →
      0 ≤ (Cases.set_aphasic_parameters (main_settings true DECAY_LESION)
            assessment lv).CONNECTION_DECREASE_LOGOPENIC
        ∧ (Cases.set_aphasic_parameters (main_settings true DECAY_LESION)
            assessment lv).CONNECTION_DECREASE_LOGOPENIC ≤ 1
        ∧ (0 < lv → 0 < (Cases.set_aphasic_parameters (main_settings true DECAY_LESION)
            assessment lv).CONNECTION_DECREASE_LOGOPENIC)) := by
  have one : (0 : ℚ) ≤ 1 ∧ (1 : ℚ) ≤ 1 ∧ ∀ lv : Nat, 0 < lv → (0 : ℚ) < 1 :=
    ⟨by norm_num, le_refl _, fun _ _ => by norm_num⟩
  have sel : ∀ (p : Prop) [Decidable p] (dl : Bool) (lv : Nat), lv < N_lesion_values →
      (0 ≤ (if p then rd (main_settings true dl).WEIGHT_value lv else (1 : ℚ))
        ∧ (if p then rd (main_settings true dl).WEIGHT_value lv else (1 : ℚ)) ≤ 1
        ∧ (0 < lv → 0 < (if p then rd (main_settings true dl).WEIGHT_value lv else (1 : ℚ)))) := by
    intro p _ dl lv h
    by_cases hp : p
    · simp only [if_pos hp]; exact weight_factor_bounds dl lv h
    · simp only [if_neg hp]; exact ⟨one.1, one.2.1, one.2.2 lv⟩
  refine ⟨fun dl group lv h => ⟨?_, ?_, ?_⟩, fun dl group lv h => ⟨?_, ?_, ?_⟩,
    fun dl assessment lv h => ?_⟩
  · exact sel (group = GroupStudies.NONFLUENT_AGRAMMATIC) dl lv h
  · exact sel (group = GroupStudies.SEMANTIC_DEMENTIA) dl lv h
  · exact sel (group = GroupStudies.LOGOPENIC) dl lv h
  · exact sel (group = Clusters.CLUSTER_1) dl lv h
  · exact sel (group = Clusters.CLUSTER_2) dl lv h
  · exact sel (group = Clusters.CLUSTER_3) dl lv h
  · have := sel (¬ assessment = NORMAL) dl lv h
    simpa [Cases.set_aphasic_parameters, main_settings] using this

/-- C18 (as the programs have it) at a concrete input: the logopenic group of the
group-studies program as compiled, severity index `30`. -/
theorem connection_factor_range_witness :
    0 ≤ (GroupStudies.set_aphasic_parameters (main_settings true false)
          GroupStudies.LOGOPENIC 30).CONNECTION_DECREASE_LOGOPENIC
      ∧ (GroupStudies.set_aphasic_parameters (main_settings true false)
          GroupStudies.LOGOPENIC 30).CONNECTION_DECREASE_LOGOPENIC ≤ 1
      ∧ (0 < 30 → 0 < (GroupStudies.set_aphasic_parameters (main_settings true false)
          GroupStudies.LOGOPENIC 30).CONNECTION_DECREASE_LOGOPENIC) :=
  (connection_factor_range.1 false GroupStudies.LOGOPENIC 30 (by decide)).2.2

/-- With the decay lesion switched on and `N_lesion_values` defined as `100`, the value of
the macro as the programs stand, the grid that `main` generates is
`DECAY_value[i] = 1.01 + i / 100` for `i = 0 .. 99`: entry `65` is `1.66`, entry `66` is
`1.67` and the last entry is `2.00`. -/
theorem decay_grid_exceeds :
    rd (main_settings false true).DECAY_value 0 = 101 / 100
      ∧ rd (main_settings false true).DECAY_value 65 = 166 / 100
      ∧ rd (main_settings false true).DECAY_value 66 = 167 / 100
      ∧ rd (main_settings false true).DECAY_value 99 = 2
      ∧ ¬ (rd (main_settings false true).DECAY_value 99 ≤ 166 / 100) := by
  rw [rd_decay_grid false 0 (by decide), rd_decay_grid false 65 (by decide),
    rd_decay_grid false 66 (by decide), rd_decay_grid false 99 (by decide)]
  norm_num

theorem group_get_external_input_naming (les : GroupStudies.Lesion) (T : Int) (st : Net) :
    (GroupStudies.get_external_input les NAMING T st).input_C
        = (if T ≥ 0 + 1 * CYCLE_TIME ∧ T < 1 * CYCLE_TIME + PICTURE_DURATION then
            add_at GroupStudies.N_CONCEPTs
              (if T ≥ 0 ∧ T < PICTURE_DURATION then
                add_at GroupStudies.N_CONCEPTs st.input_C GroupStudies.CAT
                  (les.CONNECTION_DECREASE_SEMANTIC_DEMENTIA * EXTIN)
              else st.input_C)
              GroupStudies.CAT EXTIN
          else
            (if T ≥ 0 ∧ T < PICTURE_DURATION then
              add_at GroupStudies.N_CONCEPTs st.input_C GroupStudies.CAT
                (les.CONNECTION_DECREASE_SEMANTIC_DEMENTIA * EXTIN)
            else st.input_C)) :=
  rfl

theorem group_naming_drive (les : GroupStudies.Lesion) (s : Nat) (st : Net) :
    rd (GroupStudies.get_external_input les NAMING (25 * (s : Int))
          (GroupStudies.set_input_to_zero st)).input_C GroupStudies.CAT
      = (if s ≤ 4 then les.CONNECTION_DECREASE_SEMANTIC_DEMENTIA * EXTIN else 0)
        + (if 1 ≤ s ∧ s ≤ 5 then EXTIN else 0) := by
  have h5 : GroupStudies.CAT < GroupStudies.N_CONCEPTs := by decide
  rw [group_get_external_input_naming]
  simp only [GroupStudies.set_input_to_zero, PICTURE_DURATION, CYCLE_TIME]
  rcases Nat.lt_or_ge s 6 with h | h
  · interval_cases s <;> simp [rd_add_at h5, rd_tabulate h5]
  · have h1 : ¬ (25 * (s : Int) < 125) := by omega
    have h2 : ¬ (25 * (s : Int) < 1 * 25 + 125) := by omega
    have h3 : ¬ s ≤ 4 := by omega
    have h4 : ¬ (1 ≤ s ∧ s ≤ 5) := by omega
    rw [if_neg (fun hh => h2 hh.2), if_neg (fun hh => h1 hh.2), if_neg h3, if_neg h4]
    simp [rd_tabulate_zero]

/-- C11 as stated fails.  In the group-studies program as compiled, for the semantic-dementia
group at severity index `50` the drive injected into the target concept node at `T = 0` (base
window only) is `WEIGHT_value[50] * EXTIN = EXTIN / 2`, not `EXTIN`. -/
theorem naming_drive_counterexample :
    rd (GroupStudies.get_external_input
          (GroupStudies.set_aphasic_parameters (main_settings true false)
            GroupStudies.SEMANTIC_DEMENTIA 50)
          NAMING (25 * ((0 : Nat) : Int))
          (GroupStudies.set_input_to_zero GroupStudies.initial_net)).input_C GroupStudies.CAT
        = EXTIN / 2
      ∧ rd (GroupStudies.get_external_input
          (GroupStudies.set_aphasic_parameters (main_settings true false)
            GroupStudies.SEMANTIC_DEMENTIA 50)
          NAMING (25 * ((0 : Nat) : Int))
          (GroupStudies.set_input_to_zero GroupStudies.initial_net)).input_C GroupStudies.CAT
        ≠ EXTIN := by
  rw [group_naming_drive, group_semantic_factor (main_settings true false) 50 rfl,
    rd_weight_grid false 50 (by decide)]
  norm_num [EXTIN]

/-- C11 as the program has it.  In the group-studies program, in the naming task, the drive
added to the target concept node at step `s` (at `T = 25 * s`) is `F * EXTIN` in the base
window (`s = 0 .. 4`) plus `EXTIN` in the enhancement window (`s = 1 .. 5`), where `F` is the
factor `CONNECTION_DECREASE_SEMANTIC_DEMENTIA`: `F` is `1.0`, and the drive is the constant
`EXTIN` in each of the two windows, for every group other than the semantic-dementia group
at every severity index; for the semantic-dementia group `F` is the weight factor of the
severity index.  The enhancement window's drive is `EXTIN` for every group. -/
theorem naming_drive_group_studies :
    (∀ (les : GroupStudies.Lesion) (s : Nat) (st : Net),
      rd (GroupStudies.get_external_input les NAMING (25 * (s : Int))
            (GroupStudies.set_input_to_zero st)).input_C GroupStudies.CAT
        = (if s ≤ 4 then les.CONNECTION_DECREASE_SEMANTIC_DEMENTIA * EXTIN else 0)
          + (if 1 ≤ s ∧ s ≤ 5 then EXTIN else 0))
    ∧ (∀ (cfg : Settings) (group lv s : Nat) (st : Net),
      group ≠ GroupStudies.SEMANTIC_DEMENTIA →
      rd (GroupStudies.get_external_input (GroupStudies.set_aphasic_parameters cfg group lv)
            NAMING (25 * (s : Int)) (GroupStudies.set_input_to_zero st)).input_C
            GroupStudies.CAT
        = (if s ≤ 4 then EXTIN else 0) + (if 1 ≤ s ∧ s ≤ 5 then EXTIN else 0))
    ∧ (∀ (cfg : Settings) (lv : Nat),
      (GroupStudies.set_aphasic_parameters cfg GroupStudies.SEMANTIC_DEMENTIA
          lv).CONNECTION_DECREASE_SEMANTIC_DEMENTIA
        = (if cfg.WEIGHT_LESION then rd cfg.WEIGHT_value lv else 1)) := by
  refine ⟨group_naming_drive, fun cfg group lv s st hg => ?_, fun cfg lv => ?_⟩
  · rw [group_naming_drive]
    have : (GroupStudies.set_aphasic_parameters cfg group
        lv).CONNECTION_DECREASE_SEMANTIC_DEMENTIA = 1 := by
      simp [GroupStudies.set_aphasic_parameters, hg]
    rw [this, one_mul]
  · simp [GroupStudies.set_aphasic_parameters]

/-- C11 (as the program has it) at a concrete input: the logopenic group at severity index
`0`, step `2`, where both windows are open. -/
theorem naming_drive_group_studies_witness :
    rd (GroupStudies.get_external_input
          (GroupStudies.set_aphasic_parameters (main_settings true false)
            GroupStudies.LOGOPENIC 0)
          NAMING (25 * ((2 : Nat) : Int))
          (GroupStudies.set_input_to_zero GroupStudies.initial_net)).input_C GroupStudies.CAT
      = (if 2 ≤ 4 then EXTIN else 0) + (if 1 ≤ 2 ∧ 2 ≤ 5 then EXTIN else 0) :=
  naming_drive_group_studies.2.1 (main_settings true false) GroupStudies.LOGOPENIC 0 2
    GroupStudies.initial_net (by decide)


theorem segment_windows (n pk pa pt : Nat) (hk : pk < n) (ha : pa < n) (ht : pt < n)
    (s i : Nat) :
    rd (if 2 * SEGMENT_DURATION ≤ 25 * (s : Int) ∧ 25 * (s : Int) < 3 * SEGMENT_DURATION then
          add_at n
            (if SEGMENT_DURATION ≤ 25 * (s : Int) ∧ 25 * (s : Int) < 2 * SEGMENT_DURATION then
              add_at n
                (if 0 ≤ 25 * (s : Int) ∧ 25 * (s : Int) < SEGMENT_DURATION then
                  add_at n (tabulate n fun _ => 0) pk EXTIN else tabulate n fun _ => 0)
                pa EXTIN
            else
              (if 0 ≤ 25 * (s : Int) ∧ 25 * (s : Int) < SEGMENT_DURATION then
                add_at n (tabulate n fun _ => 0) pk EXTIN else tabulate n fun _ => 0))
            pt EXTIN
        else
          (if SEGMENT_DURATION ≤ 25 * (s : Int) ∧ 25 * (s : Int) < 2 * SEGMENT_DURATION then
            add_at n
              (if 0 ≤ 25 * (s : Int) ∧ 25 * (s : Int) < SEGMENT_DURATION then
                add_at n (tabulate n fun _ => 0) pk EXTIN else tabulate n fun _ => 0)
              pa EXTIN
          else
            (if 0 ≤ 25 * (s : Int) ∧ 25 * (s : Int) < SEGMENT_DURATION then
              add_at n (tabulate n fun _ => 0) pk EXTIN else tabulate n fun _ => 0))) i
      = if (i = pk ∧ s ≤ 4) ∨ (i = pa ∧ 5 ≤ s ∧ s ≤ 9) ∨ (i = pt ∧ 10 ≤ s ∧ s ≤ 14)
        then EXTIN else 0 := by
  simp only [SEGMENT_DURATION]
  have c1 : (0 ≤ 25 * (s : Int) ∧ 25 * (s : Int) < 125) ↔ s ≤ 4 := by omega
  have c2 : (125 ≤ 25 * (s : Int) ∧ 25 * (s : Int) < 2 * 125) ↔ (5 ≤ s ∧ s ≤ 9) := by omega
  have c3 : (2 * 125 ≤ 25 * (s : Int) ∧ 25 * (s : Int) < 3 * 125) ↔ (10 ≤ s ∧ s ≤ 14) := by
    omega
  simp only [c1, c2, c3]
  rcases Nat.lt_or_ge i n with hi | hi
  · by_cases w1 : s ≤ 4
    · have w2 : ¬ (5 ≤ s ∧ s ≤ 9) := by omega
      have w3 : ¬ (10 ≤ s ∧ s ≤ 14) := by omega
      simp [w1, w2, w3, rd_add_at hi, rd_tabulate hi]
    · by_cases w2 : 5 ≤ s ∧ s ≤ 9
      · have w3 : ¬ (10 ≤ s ∧ s ≤ 14) := by omega
        simp [w1, w2, w3, rd_add_at hi, rd_tabulate hi]
      · by_cases w3 : 10 ≤ s ∧ s ≤ 14
        · simp [w1, w2, w3, rd_add_at hi, rd_tabulate hi]
        · simp [w1, w2, w3, rd_tabulate hi]
  · have e : ¬ ((i = pk ∧ s ≤ 4) ∨ (i = pa ∧ 5 ≤ s ∧ s ≤ 9) ∨ (i = pt ∧ 10 ≤ s ∧ s ≤ 14)) := by
      omega
    rw [if_neg e]
    split_ifs <;> first | exact rd_add_at_of_le hi | exact rd_tabulate_of_le hi

theorem group_get_external_input_spoken (les : GroupStudies.Lesion) (task : Nat)
    (h : task = COMPREHENSION ∨ task = REPETITION) (T : Int) (st : Net) :
    (GroupStudies.get_external_input les task T st).input_C = st.input_C
      ∧ (GroupStudies.get_external_input les task T st).input_iP
        = (if 2 * SEGMENT_DURATION ≤ T ∧ T < 3 * SEGMENT_DURATION then
            add_at GroupStudies.N_PHONEMEs
              (if SEGMENT_DURATION ≤ T ∧ T < 2 * SEGMENT_DURATION then
                add_at GroupStudies.N_PHONEMEs
                  (if 0 ≤ T ∧ T < SEGMENT_DURATION then
                    add_at GroupStudies.N_PHONEMEs st.input_iP GroupStudies.pK EXTIN
                  else st.input_iP)
                  GroupStudies.pA EXTIN
              else
                (if 0 ≤ T ∧ T < SEGMENT_DURATION then
                  add_at GroupStudies.N_PHONEMEs st.input_iP GroupStudies.pK EXTIN
                else st.input_iP))
              GroupStudies.pT EXTIN
          else
            (if SEGMENT_DURATION ≤ T ∧ T < 2 * SEGMENT_DURATION then
              add_at GroupStudies.N_PHONEMEs
                (if 0 ≤ T ∧ T < SEGMENT_DURATION then
                  add_at GroupStudies.N_PHONEMEs st.input_iP GroupStudies.pK EXTIN
                else st.input_iP)
                GroupStudies.pA EXTIN
            else
              (if 0 ≤ T ∧ T < SEGMENT_DURATION then
                add_at GroupStudies.N_PHONEMEs st.input_iP GroupStudies.pK EXTIN
              else st.input_iP))) := by
  rcases h with h | h <;> subst h <;> exact ⟨rfl, rfl⟩

theorem five_word_get_external_input_spoken (task : Nat)
    (h : task = COMPREHENSION ∨ task = REPETITION) (T : Int) (st : Net) :
    (FiveWord.get_external_input task T st).input_C = st.input_C
      ∧ (FiveWord.get_external_input task T st).input_iP
        = (if 2 * SEGMENT_DURATION ≤ T ∧ T < 3 * SEGMENT_DURATION then
            add_at FiveWord.N_PHONEMEs
              (if SEGMENT_DURATION ≤ T ∧ T < 2 * SEGMENT_DURATION then
                add_at FiveWord.N_PHONEMEs
                  (if 0 ≤ T ∧ T < SEGMENT_DURATION then
                    add_at FiveWord.N_PHONEMEs st.input_iP FiveWord.pK EXTIN
                  else st.input_iP)
                  FiveWord.pE EXTIN
              else
                (if 0 ≤ T ∧ T < SEGMENT_DURATION then
                  add_at FiveWord.N_PHONEMEs st.input_iP FiveWord.pK EXTIN
                else st.input_iP))
              FiveWord.pT EXTIN
          else
            (if SEGMENT_DURATION ≤ T ∧ T < 2 * SEGMENT_DURATION then
              add_at FiveWord.N_PHONEMEs
                (if 0 ≤ T ∧ T < SEGMENT_DURATION then
                  add_at FiveWord.N_PHONEMEs st.input_iP FiveWord.pK EXTIN
                else st.input_iP)
                FiveWord.pE EXTIN
            else
              (if 0 ≤ T ∧ T < SEGMENT_DURATION then
                add_at FiveWord.N_PHONEMEs st.input_iP FiveWord.pK EXTIN
              else st.input_iP))) := by
  rcases h with h | h <;> subst h <;> exact ⟨rfl, rfl⟩

/-- C12.  In the comprehension and in the repetition task, at step `s` (at `T = 25 * s`) the
external input added to the zeroed input buffers is `EXTIN` at the input-phoneme node of the
first segment exactly for `s = 0 .. 4`, at the node of the second segment exactly for
`s = 5 .. 9`, at the node of the third segment exactly for `s = 10 .. 14`, and `0` at every
other input-phoneme node and at every node of every other layer; so at most one node receives
external drive at any step, and none at steps `s >= 15`.  This holds in the group-studies
program (nodes `pK`, `pA`, `pT`, any lesion factors) and in the two five-word programs
(nodes `pK`, `pE`, `pT`). -/
theorem spoken_word_external_input :
    (∀ (les : GroupStudies.Lesion) (task : Nat), task = COMPREHENSION ∨ task = REPETITION →
      ∀ (s : Nat) (st : Net) (i : Nat),
        rd (GroupStudies.get_external_input les task (25 * (s : Int))
              (GroupStudies.set_input_to_zero st)).input_iP i
            = (if (i = GroupStudies.pK ∧ s ≤ 4) ∨ (i = GroupStudies.pA ∧ 5 ≤ s ∧ s ≤ 9)
                  ∨ (i = GroupStudies.pT ∧ 10 ≤ s ∧ s ≤ 14) then EXTIN else 0)
          ∧ rd (GroupStudies.get_external_input les task (25 * (s : Int))
              (GroupStudies.set_input_to_zero st)).input_C i = 0
          ∧ rd (GroupStudies.get_external_input les task (25 * (s : Int))
              (GroupStudies.set_input_to_zero st)).input_L i = 0
          ∧ rd (GroupStudies.get_external_input les task (25 * (s : Int))
              (GroupStudies.set_input_to_zero st)).input_M i = 0
          ∧ rd (GroupStudies.get_external_input les task (25 * (s : Int))
              (GroupStudies.set_input_to_zero st)).input_oP i = 0
          ∧ rd (GroupStudies.get_external_input les task (25 * (s : Int))
              (GroupStudies.set_input_to_zero st)).input_S i = 0
          ∧ rd (GroupStudies.get_external_input les task (25 * (s : Int))
              (GroupStudies.set_input_to_zero st)).input_iM i = 0)
    ∧ (∀ (task : Nat), task = COMPREHENSION ∨ task = REPETITION →
      ∀ (s : Nat) (st : Net) (i : Nat),
        rd (FiveWord.get_external_input task (25 * (s : Int))
              (FiveWord.set_input_to_zero st)).input_iP i
            = (if (i = FiveWord.pK ∧ s ≤ 4) ∨ (i = FiveWord.pE ∧ 5 ≤ s ∧ s ≤ 9)
                  ∨ (i = FiveWord.pT ∧ 10 ≤ s ∧ s ≤ 14) then EXTIN else 0)
          ∧ rd (FiveWord.get_external_input task (25 * (s : Int))
              (FiveWord.set_input_to_zero st)).input_C i = 0
          ∧ rd (FiveWord.get_external_input task (25 * (s : Int))
              (FiveWord.set_input_to_zero st)).input_L i = 0
          ∧ rd (FiveWord.get_external_input task (25 * (s : Int))
              (FiveWord.set_input_to_zero st)).input_M i = 0
          ∧ rd (FiveWord.get_external_input task (25 * (s : Int))
              (FiveWord.set_input_to_zero st)).input_oP i = 0
          ∧ rd (FiveWord.get_external_input task (25 * (s : Int))
              (FiveWord.set_input_to_zero st)).input_S i = 0
          ∧ rd (FiveWord.get_external_input task (25 * (s : Int))
              (FiveWord.set_input_to_zero st)).input_iM i = 0) := by
  refine ⟨fun les task h s st i => ?_, fun task h s st i => ?_⟩
  · obtain ⟨zL, zM, zoP, zS, ziM⟩ := group_external_zero les task (25 * (s : Int)) st i
    obtain ⟨hC, hP⟩ := group_get_external_input_spoken les task h (25 * (s : Int))
      (GroupStudies.set_input_to_zero st)
    refine ⟨?_, ?_, zL, zM, zoP, zS, ziM⟩
    · rw [hP]
      exact segment_windows GroupStudies.N_PHONEMEs GroupStudies.pK GroupStudies.pA
        GroupStudies.pT (by decide) (by decide) (by decide) s i
    · rw [hC]; exact rd_tabulate_zero _ _
  · obtain ⟨zL, zM, zoP, zS, ziM⟩ := five_word_external_zero task (25 * (s : Int)) st i
    obtain ⟨hC, hP⟩ := five_word_get_external_input_spoken task h (25 * (s : Int))
      (FiveWord.set_input_to_zero st)
    refine ⟨?_, ?_, zL, zM, zoP, zS, ziM⟩
    · rw [hP]
      exact segment_windows FiveWord.N_PHONEMEs FiveWord.pK FiveWord.pE FiveWord.pT
        (by decide) (by decide) (by decide) s i
    · rw [hC]; exact rd_tabulate_zero _ _

/-- C12 at a concrete input: the single-case program, repetition, step `7` from the initial
state, input phoneme `pE` (second segment). -/
theorem spoken_word_external_input_witness :
    rd (FiveWord.get_external_input REPETITION (25 * ((7 : Nat) : Int))
          (FiveWord.set_input_to_zero FiveWord.initial_net)).input_iP FiveWord.pE
      = (if (FiveWord.pE = FiveWord.pK ∧ 7 ≤ 4) ∨ (FiveWord.pE = FiveWord.pE ∧ 5 ≤ 7 ∧ 7 ≤ 9)
            ∨ (FiveWord.pE = FiveWord.pT ∧ 10 ≤ 7 ∧ 7 ≤ 14) then EXTIN else 0) :=
  (spoken_word_external_input.2 REPETITION (Or.inr rfl) 7 FiveWord.initial_net FiveWord.pE).1


/-! ## Means and goodness of fit (C13, C14, C16) -/

theorem tabulate_congr (n : Nat) (f g : Nat → ℚ) (h : ∀ i, i < n → f i = g i) :
    tabulate n f = tabulate n g := by
  unfold tabulate
  exact List.map_congr_left fun i hi => h i (List.mem_range.mp hi)

theorem fit_loop_gof_eq (cfg : Settings) (mn : Means) (REAL_DATA : List (List ℚ))
    (group : Nat) (f : FitState) :
    (fit_loop cfg mn REAL_DATA group f).GOODNESS_OF_FIT
      = tabulate N_lesion_values (mean_abs_error mn REAL_DATA group) := by
  have key : ∀ i, i < N_lesion_values →
      rd (fit_loop cfg mn REAL_DATA group f).GOODNESS_OF_FIT i
        = mean_abs_error mn REAL_DATA group i :=
    fun i hi => fit_loop_gof cfg mn REAL_DATA group f i hi
  have e : N_lesion_values = 99 + 1 := rfl
  have shape : ∃ (a : List ℚ) (k : Nat) (v : ℚ),
      (fit_loop cfg mn REAL_DATA group f).GOODNESS_OF_FIT = set_at N_lesion_values a k v := by
    rw [fit_loop, e, List.range_succ, List.foldl_append, List.foldl_cons, List.foldl_nil]
    exact ⟨_, _, _, rfl⟩
  obtain ⟨a, k, v, hs⟩ := shape
  rw [hs] at key ⊢
  rw [set_at]
  apply tabulate_congr
  intro i hi
  rw [← key i hi, rd_set_at hi]

theorem report_of_gof (cfg : Settings) (mn : Means) (group : Nat) (f f' : FitState) (a : Nat)
    (h : f.GOODNESS_OF_FIT = f'.GOODNESS_OF_FIT) :
    report cfg mn group f a = report cfg mn group f' a := by
  simp only [report, h]

theorem fit_group_report (cfg : Settings) (mn : Means) (REAL_DATA : List (List ℚ))
    (group : Nat) (f f' : FitState) :
    (fit_group cfg mn REAL_DATA group f).2 = (fit_group cfg mn REAL_DATA group f').2 := by
  simp only [fit_group, fit_loop_gof_eq]
  exact report_of_gof cfg mn group _ _ _ (by rw [fit_loop_gof_eq, fit_loop_gof_eq])

theorem compute_fits_reports (cfg : Settings) (mn : Means) (REAL_DATA : List (List ℚ))
    (f0 : FitState) (n : Nat) :
    ((List.range n).foldl
        (fun (p : FitState × List Report) group =>
          ((fit_group cfg mn REAL_DATA group p.1).1,
            p.2 ++ [(fit_group cfg mn REAL_DATA group p.1).2])) (f0, [])).2
      = (List.range n).map fun group => (fit_group cfg mn REAL_DATA group f0).2 := by
  induction n with
  | zero => rfl
  | succ n ih =>
    rw [List.range_succ, List.foldl_append, List.foldl_cons, List.foldl_nil, List.map_append,
      List.map_cons, List.map_nil, ih, fit_group_report cfg mn REAL_DATA n _ f0]

/-- C13.  For every group, every severity index `i` and whatever `SIM_DATA` and
`GOODNESS_OF_FIT` held before, after the loop over the severity indices
`GOODNESS_OF_FIT[i]` is `(|real_naming - sim_naming| + |real_comprehension -
sim_comprehension| + |real_repetition - sim_repetition|) / 3` with the group's reference
scores and the simulated scores assigned to `SIM_DATA` at index `i`; the array, the scanned
index and the printed lines of a group do not depend on what an earlier group left behind, so
`compute_fits_and_print_results_on_screen` prints for each group what it would print for that
group alone. -/
theorem goodness_of_fit_values :
    (∀ (cfg : Settings) (mn : Means) (REAL_DATA : List (List ℚ)) (group : Nat)
        (f : FitState) (i : Nat), i < N_lesion_values →
      rd (fit_loop cfg mn REAL_DATA group f).GOODNESS_OF_FIT i
          = (|rd2 REAL_DATA group NAMING
                - (fit_body cfg mn REAL_DATA group i f).SIM_DATA group NAMING|
              + |rd2 REAL_DATA group COMPREHENSION
                - (fit_body cfg mn REAL_DATA group i f).SIM_DATA group COMPREHENSION|
              + |rd2 REAL_DATA group REPETITION
                - (fit_body cfg mn REAL_DATA group i f).SIM_DATA group REPETITION|) / 3
        ∧ (fit_body cfg mn REAL_DATA group i f).SIM_DATA group NAMING
          = sim_score mn group i NAMING
        ∧ (fit_body cfg mn REAL_DATA group i f).SIM_DATA group COMPREHENSION
          = sim_score mn group i COMPREHENSION
        ∧ (fit_body cfg mn REAL_DATA group i f).SIM_DATA group REPETITION
          = sim_score mn group i REPETITION)
    ∧ (∀ (cfg : Settings) (mn : Means) (REAL_DATA : List (List ℚ)) (group : Nat)
        (f f' : FitState),
      (fit_loop cfg mn REAL_DATA group f).GOODNESS_OF_FIT
          = (fit_loop cfg mn REAL_DATA group f').GOODNESS_OF_FIT
        ∧ (fit_group cfg mn REAL_DATA group f).2 = (fit_group cfg mn REAL_DATA group f').2)
    ∧ (∀ (cfg : Settings) (mn : Means) (REAL_DATA : List (List ℚ)) (n_groups : Nat),
      (compute_fits_and_print_results_on_screen cfg mn REAL_DATA n_groups).2
        = (List.range n_groups).map fun group =>
            (fit_group cfg mn REAL_DATA group initial_fit).2) := by
  refine ⟨fun cfg mn REAL_DATA group f i hi => ?_, fun cfg mn REAL_DATA group f f' => ?_,
    fun cfg mn REAL_DATA n_groups => ?_⟩
  · obtain ⟨h1, h2, h3⟩ := fit_body_sim cfg mn REAL_DATA group i f
    refine ⟨?_, h1, h2, h3⟩
    rw [fit_loop_gof cfg mn REAL_DATA group f i hi, h1, h2, h3, mean_abs_error]
  · exact ⟨by rw [fit_loop_gof_eq, fit_loop_gof_eq], fit_group_report cfg mn REAL_DATA group f f'⟩
  · exact compute_fits_reports cfg mn REAL_DATA initial_fit n_groups

/-- C13 at a concrete input: the sample means and reference scores, group `1`, severity
index `42`, from the initial fit state. -/
theorem goodness_of_fit_values_witness :
    rd (fit_loop (main_settings true false) sample_means sample_reference 1
          initial_fit).GOODNESS_OF_FIT 42
      = (|rd2 sample_reference 1 NAMING
            - (fit_body (main_settings true false) sample_means sample_reference 1 42
                initial_fit).SIM_DATA 1 NAMING|
          + |rd2 sample_reference 1 COMPREHENSION
            - (fit_body (main_settings true false) sample_means sample_reference 1 42
                initial_fit).SIM_DATA 1 COMPREHENSION|
          + |rd2 sample_reference 1 REPETITION
            - (fit_body (main_settings true false) sample_means sample_reference 1 42
                initial_fit).SIM_DATA 1 REPETITION|) / 3 :=
  (goodness_of_fit_values.1 (main_settings true false) sample_means sample_reference 1
    initial_fit 42 (by decide)).1


/-! ## Exact match, means (C14, C16) -/

theorem mean_abs_error_nonneg (mn : Means) (REAL_DATA : List (List ℚ)) (group lv : Nat) :
    0 ≤ mean_abs_error mn REAL_DATA group lv := by
  unfold mean_abs_error
  exact div_nonneg (add_nonneg (add_nonneg (abs_nonneg _) (abs_nonneg _)) (abs_nonneg _))
    (by norm_num)

theorem mean_abs_error_exact (mn : Means) (REAL_DATA : List (List ℚ)) (group k : Nat)
    (h1 : rd2 REAL_DATA group NAMING = sim_score mn group k NAMING)
    (h2 : rd2 REAL_DATA group COMPREHENSION = sim_score mn group k COMPREHENSION)
    (h3 : rd2 REAL_DATA group REPETITION = sim_score mn group k REPETITION) :
    mean_abs_error mn REAL_DATA group k = 0 := by
  rw [mean_abs_error, h1, h2, h3]
  simp

theorem sample_errors (i : Nat) (hi : i < 42) :
    rd (fit_loop (main_settings true false) sample_means sample_reference 1
        initial_fit).GOODNESS_OF_FIT i ≠ 0 := by
  rw [fit_loop_gof _ _ _ _ _ i (lt_trans hi (by decide))]
  have a1 : rd2 sample_reference 1 NAMING = 43 := by decide!
  have a2 : rd2 sample_reference 1 COMPREHENSION = 43 := by decide!
  have a3 : rd2 sample_reference 1 REPETITION = 43 := by decide!
  have s : ∀ t, sim_score sample_means 1 i t = (i : ℚ) + 1 := by
    intro t
    simp [sim_score, sample_means, NORMAL]
  rw [mean_abs_error, a1, a2, a3, s, s, s]
  have hq : ((i : ℚ) + 1) < 43 := by
    have : (i : ℚ) < 42 := by exact_mod_cast hi
    linarith
  have hp : (0 : ℚ) < |43 - ((i : ℚ) + 1)| := abs_pos.mpr (by linarith)
  intro h0
  linarith

/-- C14.  For every group and every severity index `k`, if the group's three reference
scores equal the three simulated scores at index `k`, then the index `a` that the fit search
selects satisfies `a <= k`, `GOODNESS_OF_FIT[a]` and the reported MAE are `0`, and `a = k`
when no index before `k` has error `0`. -/
theorem exact_match_selected (cfg : Settings) (mn : Means) (REAL_DATA : List (List ℚ))
    (group : Nat) (f : FitState) (k : Nat) (hk : k < N_lesion_values)
    (h1 : rd2 REAL_DATA group NAMING = sim_score mn group k NAMING)
    (h2 : rd2 REAL_DATA group COMPREHENSION = sim_score mn group k COMPREHENSION)
    (h3 : rd2 REAL_DATA group REPETITION = sim_score mn group k REPETITION) :
    best_fit_scan (fit_loop cfg mn REAL_DATA group f).GOODNESS_OF_FIT ≤ k
      ∧ rd (fit_loop cfg mn REAL_DATA group f).GOODNESS_OF_FIT
          (best_fit_scan (fit_loop cfg mn REAL_DATA group f).GOODNESS_OF_FIT) = 0
      ∧ (fit_group cfg mn REAL_DATA group f).2.MAE = 0
      ∧ ((∀ i, i < k → rd (fit_loop cfg mn REAL_DATA group f).GOODNESS_OF_FIT i ≠ 0) →
          best_fit_scan (fit_loop cfg mn REAL_DATA group f).GOODNESS_OF_FIT = k) := by
  obtain ⟨s1, s2, s3⟩ := best_fit_scan_spec (fit_loop cfg mn REAL_DATA group f).GOODNESS_OF_FIT
  have gk : rd (fit_loop cfg mn REAL_DATA group f).GOODNESS_OF_FIT k = 0 := by
    rw [fit_loop_gof cfg mn REAL_DATA group f k hk]
    exact mean_abs_error_exact mn REAL_DATA group k h1 h2 h3
  have ga : rd (fit_loop cfg mn REAL_DATA group f).GOODNESS_OF_FIT
      (best_fit_scan (fit_loop cfg mn REAL_DATA group f).GOODNESS_OF_FIT) = 0 := by
    apply le_antisymm
    · rw [← gk]; exact s2 k hk
    · rw [fit_loop_gof cfg mn REAL_DATA group f _ s1]
      exact mean_abs_error_nonneg mn REAL_DATA group _
  have le : best_fit_scan (fit_loop cfg mn REAL_DATA group f).GOODNESS_OF_FIT ≤ k := by
    by_contra hlt
    have := s3 k (not_le.mp hlt)
    rw [gk, ga] at this
    exact lt_irrefl _ this
  refine ⟨le, ga, ga, fun hne => ?_⟩
  rcases Nat.lt_or_eq_of_le le with hlt | heq
  · exact absurd ga (hne _ hlt)
  · exact heq

/-- C14 at a concrete input: the sample reference scores of group `1` are `43, 43, 43`, the
simulated scores of the sample means at severity index `42`; the fit search selects index
`42` with error `0`. -/
theorem exact_match_selected_witness :
    best_fit_scan (fit_loop (main_settings true false) sample_means sample_reference 1
        initial_fit).GOODNESS_OF_FIT = 42
      ∧ (fit_group (main_settings true false) sample_means sample_reference 1
          initial_fit).2.MAE = 0 :=
  ⟨(exact_match_selected (main_settings true false) sample_means sample_reference 1 initial_fit
      42 (by decide) (by decide!) (by decide!) (by decide!)).2.2.2 sample_errors,
    (exact_match_selected (main_settings true false) sample_means sample_reference 1 initial_fit
      42 (by decide) (by decide!) (by decide!) (by decide!)).2.2.1⟩

/-- C16.  For each of the eight recorded series `ACT_C`, `ACT_S`, `ACT_CT`, `ACT_CR`,
`ACT_LT`, `ACT_LR`, `ACT_ST`, `ACT_SR`, every severity index, group and task, the aggregate
`MEAN_ACT_x[lesion_value][group][task]` computed by `compute_activation_results` is the sum
of the `N_STEPs = 80` recorded values `ACT_x[lesion_value][0 .. 79][group][task]` divided by
`80`. -/
theorem mean_over_all_steps (r : Recorded) (lv g t : Nat) :
    (compute_activation_results r).MEAN_ACT_C lv g t
        = (∑ i in Finset.range 80, r.ACT_C lv i g t) / 80
      ∧ (compute_activation_results r).MEAN_ACT_S lv g t
        = (∑ i in Finset.range 80, r.ACT_S lv i g t) / 80
      ∧ (compute_activation_results r).MEAN_ACT_CT lv g t
        = (∑ i in Finset.range 80, r.ACT_CT lv i g t) / 80
      ∧ (compute_activation_results r).MEAN_ACT_CR lv g t
        = (∑ i in Finset.range 80, r.ACT_CR lv i g t) / 80
      ∧ (compute_activation_results r).MEAN_ACT_LT lv g t
        = (∑ i in Finset.range 80, r.ACT_LT lv i g t) / 80
      ∧ (compute_activation_results r).MEAN_ACT_LR lv g t
        = (∑ i in Finset.range 80, r.ACT_LR lv i g t) / 80
      ∧ (compute_activation_results r).MEAN_ACT_ST lv g t
        = (∑ i in Finset.range 80, r.ACT_ST lv i g t) / 80
      ∧ (compute_activation_results r).MEAN_ACT_SR lv g t
        = (∑ i in Finset.range 80, r.ACT_SR lv i g t) / 80 := by
  have e : ((N_STEPs : Nat) : ℚ) = 80 := by norm_num [N_STEPs]
  simp only [compute_activation_results, total_act_eq_sum, e]
  exact ⟨rfl, rfl, rfl, rfl, rfl, rfl, rfl, rfl⟩


/-! ## The full horizon (C20) -/

theorem net_after_eq_foldl {L : Type} (upd : L → Int → Net → Net) (les : L) (net0 : Net)
    (n : Nat) :
    net_after upd les net0 n
      = (List.range n).foldl (fun st k => upd les ((STEP_SIZE * k : Nat) : Int) st) net0 := by
  induction n with
  | zero => rfl
  | succ n ih =>
    rw [List.range_succ, List.foldl_append, List.foldl_cons, List.foldl_nil, ← ih]
    rfl

theorem time_loop_rounds {L : Type} (upd : L → Int → Net → Net)
    (det : Nat → Net → Recorded → Recorded) (net0 : Net) :
    ∀ (fuel : Nat) (m : Machine L), m.T = ((STEP_SIZE * m.step : Nat) : Int) →
      m.step + fuel ≤ N_STEPs → m.net = net_after upd m.les net0 m.step →
      (time_loop upd det fuel m).step = m.step + fuel
        ∧ (time_loop upd det fuel m).T = ((STEP_SIZE * (m.step + fuel) : Nat) : Int)
        ∧ (time_loop upd det fuel m).net = net_after upd m.les net0 (m.step + fuel) := by
  intro fuel
  induction fuel with
  | zero =>
    intro m hT _ hnet
    have e : time_loop upd det 0 m = m := rfl
    rw [e]
    exact ⟨rfl, hT, hnet⟩
  | succ fuel ih =>
    intro m hT hf hnet
    rw [time_loop]
    have h : m.step < N_STEPs := by omega
    have hg : m.T < ((N_STEPs * STEP_SIZE : Nat) : Int) := by
      rw [hT]; simp only [N_STEPs, STEP_SIZE] at h ⊢; omega
    rw [if_pos hg]
    have := ih { m with net := upd m.les m.T m.net, acts := det m.step (upd m.les m.T m.net) m.acts,
                        T := m.T + (STEP_SIZE : Int), step := m.step + 1 }
      (by simp only [hT]; push_cast; ring) (by simp only; omega)
      (by simp only [net_after, hT, hnet])
    simp only at this
    have e : m.step + 1 + fuel = m.step + (fuel + 1) := by omega
    rw [e] at this
    exact this

theorem time_loop_fuel {L : Type} (upd : L → Int → Net → Net)
    (det : Nat → Net → Recorded → Recorded) :
    ∀ (fuel : Nat) (m : Machine L), m.T = ((STEP_SIZE * m.step : Nat) : Int) →
      m.step ≤ N_STEPs → N_STEPs ≤ m.step + fuel →
      time_loop upd det fuel m = time_loop upd det (N_STEPs - m.step) m := by
  intro fuel
  induction fuel with
  | zero =>
    intro m _ hs hf
    have h : N_STEPs - m.step = 0 := by omega
    rw [h]
  | succ fuel ih =>
    intro m hT hs hf
    rcases Nat.lt_or_ge m.step N_STEPs with h | h
    · have hg : m.T < ((N_STEPs * STEP_SIZE : Nat) : Int) := by
        rw [hT]; simp only [N_STEPs, STEP_SIZE] at h ⊢; omega
      have e : N_STEPs - m.step = (N_STEPs - (m.step + 1)) + 1 := by omega
      have := ih { m with net := upd m.les m.T m.net,
                          acts := det m.step (upd m.les m.T m.net) m.acts,
                          T := m.T + (STEP_SIZE : Int), step := m.step + 1 }
        (by simp only [hT]; push_cast; ring) (by simpa using h) (by simp only; omega)
      simp only at this
      rw [e]
      simp only [time_loop, if_pos hg]
      exact this
    · have h' : N_STEPs - m.step = 0 := by omega
      have hs' : m.step = N_STEPs := by omega
      have hg : ¬ m.T < ((N_STEPs * STEP_SIZE : Nat) : Int) := by
        rw [hT, hs']; simp [N_STEPs, STEP_SIZE]
      have e0 : time_loop upd det 0 m = m := rfl
      rw [h', e0, time_loop, if_neg hg]

theorem cell_of_full {L : Type} (upd : Nat → L → Int → Net → Net)
    (det : Nat → Nat → Nat → Nat → Net → Recorded → Recorded) (reset : Net → Net)
    (sap : Nat → Nat → L) (g t lv : Nat) (m : Machine L) :
    (cell_of upd det reset sap g t lv m).step = 80
      ∧ (cell_of upd det reset sap g t lv m).T = 2000
      ∧ (cell_of upd det reset sap g t lv m).net
        = (List.range 80).foldl
            (fun st k => upd t (sap g lv) ((STEP_SIZE * k : Nat) : Int) st) (reset m.net) := by
  obtain ⟨h1, _, h3, h4⟩ := cell_of_state upd det reset sap g t lv m
  refine ⟨h4, ?_, ?_⟩
  · rw [h3]; rfl
  · rw [h1, net_after_eq_foldl]; rfl

/-- C20.  The time loop runs the full horizon.  Entered at `T = 0, step = 0`, after `k`
rounds (`k <= N_STEPs = 80`) the loop has made `k` calls of `update_network`, at
`T = 0, 25, ..., 25 * (k - 1)`, and for `k < 80` its condition `T < N_STEPs * STEP_SIZE`
still holds, so it does not leave earlier; after `80` rounds `T = 2000` and the condition is
false, so every larger bound on the number of rounds gives the same result.  For every cell
of the three programs the network at the end is the result of exactly `80` calls of
`update_network`, at `T = 0, 25, ..., 1975`, on the reset network. -/
theorem full_horizon :
    (∀ (L : Type) (upd : L → Int → Net → Net) (det : Nat → Net → Recorded → Recorded)
        (net : Net) (les : L) (acts : Recorded) (k : Nat), k ≤ N_STEPs →
      (time_loop upd det k { net := net, les := les, T := 0, step := 0, acts := acts }).step = k
        ∧ (time_loop upd det k { net := net, les := les, T := 0, step := 0, acts := acts }).T
          = ((STEP_SIZE * k : Nat) : Int)
        ∧ (time_loop upd det k { net := net, les := les, T := 0, step := 0, acts := acts }).net
          = (List.range k).foldl (fun st n => upd les ((STEP_SIZE * n : Nat) : Int) st) net
        ∧ (k < N_STEPs →
          (time_loop upd det k { net := net, les := les, T := 0, step := 0, acts := acts }).T
            < ((N_STEPs * STEP_SIZE : Nat) : Int)))
    ∧ (∀ (L : Type) (upd : L → Int → Net → Net) (det : Nat → Net → Recorded → Recorded)
        (net : Net) (les : L) (acts : Recorded) (fuel : Nat), N_STEPs ≤ fuel →
      time_loop upd det fuel { net := net, les := les, T := 0, step := 0, acts := acts }
          = time_loop upd det N_STEPs
              { net := net, les := les, T := 0, step := 0, acts := acts }
        ∧ (time_loop upd det fuel
            { net := net, les := les, T := 0, step := 0, acts := acts }).step = 80
        ∧ (time_loop upd det fuel
            { net := net, les := les, T := 0, step := 0, acts := acts }).T = 2000
        ∧ ¬ (time_loop upd det fuel
              { net := net, les := les, T := 0, step := 0, acts := acts }).T
            < ((N_STEPs * STEP_SIZE : Nat) : Int))
    ∧ (∀ (con : Conn) (cfg : Settings) (g t lv : Nat) (m : Machine GroupStudies.Lesion),
      (GroupStudies.simulate_cell con cfg g t lv m).step = 80
        ∧ (GroupStudies.simulate_cell con cfg g t lv m).T = 2000
        ∧ (GroupStudies.simulate_cell con cfg g t lv m).net
          = (List.range 80).foldl
              (fun st n => GroupStudies.update_network con
                (GroupStudies.set_aphasic_parameters cfg g lv) t ((STEP_SIZE * n : Nat) : Int) st)
              (GroupStudies.reset_network m.net))
    ∧ (∀ (con : Conn) (cfg : Settings) (g t lv : Nat) (m : Machine Clusters.Lesion),
      (Clusters.simulate_cell con cfg g t lv m).step = 80
        ∧ (Clusters.simulate_cell con cfg g t lv m).T = 2000
        ∧ (Clusters.simulate_cell con cfg g t lv m).net
          = (List.range 80).foldl
              (fun st n => Clusters.update_network con
                (Clusters.set_aphasic_parameters cfg g lv) t ((STEP_SIZE * n : Nat) : Int) st)
              (FiveWord.reset_network m.net))
    ∧ (∀ (con : Conn) (cfg : Settings) (g t lv : Nat) (m : Machine Cases.Lesion),
      (Cases.simulate_cell con cfg g t lv m).step = 80
        ∧ (Cases.simulate_cell con cfg g t lv m).T = 2000
        ∧ (Cases.simulate_cell con cfg g t lv m).net
          = (List.range 80).foldl
              (fun st n => Cases.update_network con
                (Cases.set_aphasic_parameters cfg g lv) t ((STEP_SIZE * n : Nat) : Int) st)
              (FiveWord.reset_network m.net)) := by
  refine ⟨fun L upd det net les acts k hk => ?_, fun L upd det net les acts fuel hf => ?_,
    fun con cfg g t lv m => ?_, fun con cfg g t lv m => ?_, fun con cfg g t lv m => ?_⟩
  · obtain ⟨h1, h2, h3⟩ := time_loop_rounds upd det net k
      { net := net, les := les, T := 0, step := 0, acts := acts } rfl
      (by show 0 + k ≤ N_STEPs; omega) rfl
    simp only [Nat.zero_add] at h1 h2 h3
    refine ⟨h1, h2, ?_, fun hlt => ?_⟩
    · rw [h3, net_after_eq_foldl]
    · rw [h2]; simp only [N_STEPs, STEP_SIZE] at hlt ⊢; omega
  · have e := time_loop_fuel upd det fuel
      { net := net, les := les, T := 0, step := 0, acts := acts } rfl (Nat.zero_le _)
      (by show N_STEPs ≤ 0 + fuel; omega)
    obtain ⟨_, _, h3, h4⟩ := time_loop_state upd det net fuel
      { net := net, les := les, T := 0, step := 0, acts := acts } rfl (Nat.zero_le _)
      (by show N_STEPs ≤ 0 + fuel; omega) rfl
    refine ⟨e, h4, ?_, ?_⟩
    · rw [h3]; rfl
    · rw [h3]; exact lt_irrefl _
  · rw [group_simulate_cell_eq]; exact cell_of_full _ _ _ _ g t lv m
  · rw [cluster_simulate_cell_eq]; exact cell_of_full _ _ _ _ g t lv m
  · rw [case_simulate_cell_eq]; exact cell_of_full _ _ _ _ g t lv m

/-- C20 at a concrete input: the naming cell of the control in the group-studies program,
with the loop bounded by `2000` rounds, stops after `80` rounds at `T = 2000`. -/
theorem full_horizon_witness :
    (time_loop
        (fun les T st => GroupStudies.update_network GroupStudies.initial_con les NAMING T st)
        (fun step st r => GroupStudies.determine_activation_critical_nodes 0 step NORMAL NAMING
          st r)
        2000
        { net := GroupStudies.reset_network GroupStudies.initial_net
          les := GroupStudies.healthy, T := 0, step := 0, acts := zero_recorded }).step = 80
      ∧ (time_loop
        (fun les T st => GroupStudies.update_network GroupStudies.initial_con les NAMING T st)
        (fun step st r => GroupStudies.determine_activation_critical_nodes 0 step NORMAL NAMING
          st r)
        2000
        { net := GroupStudies.reset_network GroupStudies.initial_net
          les := GroupStudies.healthy, T := 0, step := 0, acts := zero_recorded }).T = 2000
      ∧ (time_loop
        (fun les T st => GroupStudies.update_network GroupStudies.initial_con les NAMING T st)
        (fun step st r => GroupStudies.determine_activation_critical_nodes 0 step NORMAL NAMING
          st r)
        3
        { net := GroupStudies.reset_network GroupStudies.initial_net
          les := GroupStudies.healthy, T := 0, step := 0, acts := zero_recorded }).T = 75 :=
  ⟨(full_horizon.2.1 GroupStudies.Lesion _ _ _ _ _ 2000 (by decide)).2.1,
    (full_horizon.2.1 GroupStudies.Lesion _ _ _ _ _ 2000 (by decide)).2.2.1,
    (full_horizon.1 GroupStudies.Lesion _ _ _ _ _ 3 (by decide)).2.1⟩


/-! ## Rate scaling (C21, C22) -/

theorem rd2_scale {n m : Nat} {con : List (List ℚ)} {rate : ℚ} {j i : Nat} (hj : j < n)
    (hi : i < m) : rd2 (scale n m con rate) j i = rd2 con j i * rate := by
  have e : (scale n m con rate).getD j [] = tabulate m fun i => rd2 con j i * rate := by
    simp [scale, List.getD_eq_getElem?_getD, List.getElem?_map, List.getElem?_range, hj]
  rw [rd2, e, rd_tabulate hi]

theorem group_binary :
    Binary 12 12 GroupStudies.CC_con ∧ Binary 12 12 GroupStudies.CL_con
      ∧ Binary 12 12 GroupStudies.LM_con ∧ Binary 12 22 GroupStudies.MP_con
      ∧ Binary 22 28 GroupStudies.PS_con ∧ Binary 22 22 GroupStudies.PP_con
      ∧ Binary 22 12 GroupStudies.PiM_con ∧ Binary 12 12 GroupStudies.iMM_con
      ∧ Binary 12 12 GroupStudies.iML_con := by
  decide!

theorem five_word_binary :
    Binary 5 5 FiveWord.CC_con ∧ Binary 5 5 FiveWord.CL_con
      ∧ Binary 5 5 FiveWord.LM_con ∧ Binary 5 10 FiveWord.MP_con
      ∧ Binary 10 5 FiveWord.PS_con ∧ Binary 10 10 FiveWord.PP_con
      ∧ Binary 10 5 FiveWord.PiM_con ∧ Binary 5 5 FiveWord.iMM_con
      ∧ Binary 5 5 FiveWord.iML_con := by
  decide!

theorem scaled_by_of_binary {n m : Nat} {con : List (List ℚ)} {rate : ℚ} (hb : Binary n m con)
    (hr : 0 ≤ rate) : ScaledBy n m con (scale n m con rate) rate := by
  intro j i hj hi
  rw [rd2_scale hj hi]
  rcases hb j hj i hi with h | h
  · rw [h]; simp
  · rw [h]; simp [hr]

/-- C21.  After `set_spreading_rates` on the matrices as initialised, in the group-studies
program and in the five-word programs, every entry of each connection matrix is its
original (binary) entry times the rate of the layer pair: `SEM_rate` for `CC_con`,
`LEM_rate` for `CL_con`, `LEX_rate` for `LM_con`, `MP_con`, `PS_con`, `PP_con`, `iMM_con`
and `iML_con`, and `FR * LEX_rate` for `PiM_con`; every entry is `0` or the rate, and is not
negative. -/
theorem spreading_rates_scaling :
    (ScaledBy 12 12 GroupStudies.CC_con
          (GroupStudies.set_spreading_rates GroupStudies.initial_con).1.CC_con
          GroupStudies.SEM_rate
      ∧ ScaledBy 12 12 GroupStudies.CL_con
          (GroupStudies.set_spreading_rates GroupStudies.initial_con).1.CL_con LEM_rate
      ∧ ScaledBy 12 12 GroupStudies.LM_con
          (GroupStudies.set_spreading_rates GroupStudies.initial_con).1.LM_con LEX_rate
      ∧ ScaledBy 12 22 GroupStudies.MP_con
          (GroupStudies.set_spreading_rates GroupStudies.initial_con).1.MP_con LEX_rate
      ∧ ScaledBy 22 28 GroupStudies.PS_con
          (GroupStudies.set_spreading_rates GroupStudies.initial_con).1.PS_con LEX_rate
      ∧ ScaledBy 22 22 GroupStudies.PP_con
          (GroupStudies.set_spreading_rates GroupStudies.initial_con).1.PP_con LEX_rate
      ∧ ScaledBy 22 12 GroupStudies.PiM_con
          (GroupStudies.set_spreading_rates GroupStudies.initial_con).1.PiM_con (FR * LEX_rate)
      ∧ ScaledBy 12 12 GroupStudies.iMM_con
          (GroupStudies.set_spreading_rates GroupStudies.initial_con).1.iMM_con LEX_rate
      ∧ ScaledBy 12 12 GroupStudies.iML_con
          (GroupStudies.set_spreading_rates GroupStudies.initial_con).1.iML_con LEX_rate)
    ∧ (ScaledBy 5 5 FiveWord.CC_con
          (FiveWord.set_spreading_rates FiveWord.initial_con).1.CC_con FiveWord.SEM_rate
      ∧ ScaledBy 5 5 FiveWord.CL_con
          (FiveWord.set_spreading_rates FiveWord.initial_con).1.CL_con LEM_rate
      ∧ ScaledBy 5 5 FiveWord.LM_con
          (FiveWord.set_spreading_rates FiveWord.initial_con).1.LM_con LEX_rate
      ∧ ScaledBy 5 10 FiveWord.MP_con
          (FiveWord.set_spreading_rates FiveWord.initial_con).1.MP_con LEX_rate
      ∧ ScaledBy 10 5 FiveWord.PS_con
          (FiveWord.set_spreading_rates FiveWord.initial_con).1.PS_con LEX_rate
      ∧ ScaledBy 10 10 FiveWord.PP_con
          (FiveWord.set_spreading_rates FiveWord.initial_con).1.PP_con LEX_rate
      ∧ ScaledBy 10 5 FiveWord.PiM_con
          (FiveWord.set_spreading_rates FiveWord.initial_con).1.PiM_con (FR * LEX_rate)
      ∧ ScaledBy 5 5 FiveWord.iMM_con
          (FiveWord.set_spreading_rates FiveWord.initial_con).1.iMM_con LEX_rate
      ∧ ScaledBy 5 5 FiveWord.iML_con
          (FiveWord.set_spreading_rates FiveWord.initial_con).1.iML_con LEX_rate) := by
  obtain ⟨g1, g2, g3, g4, g5, g6, g7, g8, g9⟩ := group_binary
  obtain ⟨f1, f2, f3, f4, f5, f6, f7, f8, f9⟩ := five_word_binary
  have r1 : (0 : ℚ) ≤ GroupStudies.SEM_rate := by norm_num [GroupStudies.SEM_rate]
  have r2 : (0 : ℚ) ≤ LEM_rate := by norm_num [LEM_rate]
  have r3 : (0 : ℚ) ≤ LEX_rate := by norm_num [LEX_rate]
  have r4 : (0 : ℚ) ≤ FR * LEX_rate := by norm_num [FR, LEX_rate]
  have r5 : (0 : ℚ) ≤ FiveWord.SEM_rate := by norm_num [FiveWord.SEM_rate]
  exact ⟨⟨scaled_by_of_binary g1 r1, scaled_by_of_binary g2 r2, scaled_by_of_binary g3 r3,
      scaled_by_of_binary g4 r3, scaled_by_of_binary g5 r3, scaled_by_of_binary g6 r3,
      scaled_by_of_binary g7 r4, scaled_by_of_binary g8 r3, scaled_by_of_binary g9 r3⟩,
    ⟨scaled_by_of_binary f1 r5, scaled_by_of_binary f2 r2, scaled_by_of_binary f3 r3,
      scaled_by_of_binary f4 r3, scaled_by_of_binary f5 r3, scaled_by_of_binary f6 r3,
      scaled_by_of_binary f7 r4, scaled_by_of_binary f8 r3, scaled_by_of_binary f9 r3⟩⟩

/-- C21 at a concrete entry: `PiM_con[14][0]` of the group-studies program, a connection,
becomes `FR * LEX_rate`. -/
theorem spreading_rates_scaling_witness :
    rd2 (GroupStudies.set_spreading_rates GroupStudies.initial_con).1.PiM_con 14 0
        = rd2 GroupStudies.PiM_con 14 0 * (FR * LEX_rate)
      ∧ (rd2 (GroupStudies.set_spreading_rates GroupStudies.initial_con).1.PiM_con 14 0 = 0
        ∨ rd2 (GroupStudies.set_spreading_rates GroupStudies.initial_con).1.PiM_con 14 0
          = FR * LEX_rate)
      ∧ 0 ≤ rd2 (GroupStudies.set_spreading_rates GroupStudies.initial_con).1.PiM_con 14 0 :=
  spreading_rates_scaling.1.2.2.2.2.2.2.1 14 0 (by decide) (by decide)

theorem rescaled_of_binary {n m : Nat} {con : List (List ℚ)} {rate : ℚ}
    (h0 : rate ≠ 0) (h1 : rate ≠ 1) :
    Rescaled n m con (scale n m con rate) (scale n m (scale n m con rate) rate) rate := by
  intro j i hj hi
  simp only [rd2_scale hj hi]
  refine ⟨fun h => ?_, fun h => ?_⟩
  · rw [h, one_mul]
    refine ⟨rfl, rfl, fun e => ?_⟩
    have : rate * rate = rate * 1 := by rw [mul_one]; exact e
    exact h1 (mul_left_cancel₀ h0 this)
  · rw [h]; simp

/-- C22.  Rate scaling is not idempotent.  Applying `set_spreading_rates` twice to the
matrices as initialised gives, at every entry with a connection (original entry `1.0`), the
square of the rate, which differs from the rate given by one application; entries without a
connection are `0.0` after one and after two applications.  Every rate is neither `0` nor
`1`.  Stated for the five-word programs and for the group-studies program. -/
theorem spreading_rates_not_idempotent :
    (FiveWord.SEM_rate ≠ 0 ∧ FiveWord.SEM_rate ≠ 1 ∧ GroupStudies.SEM_rate ≠ 0
      ∧ GroupStudies.SEM_rate ≠ 1 ∧ LEM_rate ≠ 0 ∧ LEM_rate ≠ 1 ∧ LEX_rate ≠ 0 ∧ LEX_rate ≠ 1
      ∧ FR * LEX_rate ≠ 0 ∧ FR * LEX_rate ≠ 1)
    ∧ (Rescaled 5 5 FiveWord.CC_con
          (FiveWord.set_spreading_rates FiveWord.initial_con).1.CC_con
          (FiveWord.set_spreading_rates
            (FiveWord.set_spreading_rates FiveWord.initial_con).1).1.CC_con FiveWord.SEM_rate
      ∧ Rescaled 5 5 FiveWord.CL_con
          (FiveWord.set_spreading_rates FiveWord.initial_con).1.CL_con
          (FiveWord.set_spreading_rates
            (FiveWord.set_spreading_rates FiveWord.initial_con).1).1.CL_con LEM_rate
      ∧ Rescaled 5 5 FiveWord.LM_con
          (FiveWord.set_spreading_rates FiveWord.initial_con).1.LM_con
          (FiveWord.set_spreading_rates
            (FiveWord.set_spreading_rates FiveWord.initial_con).1).1.LM_con LEX_rate
      ∧ Rescaled 5 10 FiveWord.MP_con
          (FiveWord.set_spreading_rates FiveWord.initial_con).1.MP_con
          (FiveWord.set_spreading_rates
            (FiveWord.set_spreading_rates FiveWord.initial_con).1).1.MP_con LEX_rate
      ∧ Rescaled 10 5 FiveWord.PS_con
          (FiveWord.set_spreading_rates FiveWord.initial_con).1.PS_con
          (FiveWord.set_spreading_rates
            (FiveWord.set_spreading_rates FiveWord.initial_con).1).1.PS_con LEX_rate
      ∧ Rescaled 10 10 FiveWord.PP_con
          (FiveWord.set_spreading_rates FiveWord.initial_con).1.PP_con
          (FiveWord.set_spreading_rates
            (FiveWord.set_spreading_rates FiveWord.initial_con).1).1.PP_con LEX_rate
      ∧ Rescaled 10 5 FiveWord.PiM_con
          (FiveWord.set_spreading_rates FiveWord.initial_con).1.PiM_con
          (FiveWord.set_spreading_rates
            (FiveWord.set_spreading_rates FiveWord.initial_con).1).1.PiM_con (FR * LEX_rate)
      ∧ Rescaled 5 5 FiveWord.iMM_con
          (FiveWord.set_spreading_rates FiveWord.initial_con).1.iMM_con
          (FiveWord.set_spreading_rates
            (FiveWord.set_spreading_rates FiveWord.initial_con).1).1.iMM_con LEX_rate
      ∧ Rescaled 5 5 FiveWord.iML_con
          (FiveWord.set_spreading_rates FiveWord.initial_con).1.iML_con
          (FiveWord.set_spreading_rates
            (FiveWord.set_spreading_rates FiveWord.initial_con).1).1.iML_con LEX_rate)
    ∧ (Rescaled 12 12 GroupStudies.CC_con
          (GroupStudies.set_spreading_rates GroupStudies.initial_con).1.CC_con
          (GroupStudies.set_spreading_rates
            (GroupStudies.set_spreading_rates GroupStudies.initial_con).1).1.CC_con
          GroupStudies.SEM_rate
      ∧ Rescaled 12 12 GroupStudies.CL_con
          (GroupStudies.set_spreading_rates GroupStudies.initial_con).1.CL_con
          (GroupStudies.set_spreading_rates
            (GroupStudies.set_spreading_rates GroupStudies.initial_con).1).1.CL_con LEM_rate
      ∧ Rescaled 12 12 GroupStudies.LM_con
          (GroupStudies.set_spreading_rates GroupStudies.initial_con).1.LM_con
          (GroupStudies.set_spreading_rates
            (GroupStudies.set_spreading_rates GroupStudies.initial_con).1).1.LM_con LEX_rate
      ∧ Rescaled 12 22 GroupStudies.MP_con
          (GroupStudies.set_spreading_rates GroupStudies.initial_con).1.MP_con
          (GroupStudies.set_spreading_rates
            (GroupStudies.set_spreading_rates GroupStudies.initial_con).1).1.MP_con LEX_rate
      ∧ Rescaled 22 28 GroupStudies.PS_con
          (GroupStudies.set_spreading_rates GroupStudies.initial_con).1.PS_con
          (GroupStudies.set_spreading_rates
            (GroupStudies.set_spreading_rates GroupStudies.initial_con).1).1.PS_con LEX_rate
      ∧ Rescaled 22 22 GroupStudies.PP_con
          (GroupStudies.set_spreading_rates GroupStudies.initial_con).1.PP_con
          (GroupStudies.set_spreading_rates
            (GroupStudies.set_spreading_rates GroupStudies.initial_con).1).1.PP_con LEX_rate
      ∧ Rescaled 22 12 GroupStudies.PiM_con
          (GroupStudies.set_spreading_rates GroupStudies.initial_con).1.PiM_con
          (GroupStudies.set_spreading_rates
            (GroupStudies.set_spreading_rates GroupStudies.initial_con).1).1.PiM_con
          (FR * LEX_rate)
      ∧ Rescaled 12 12 GroupStudies.iMM_con
          (GroupStudies.set_spreading_rates GroupStudies.initial_con).1.iMM_con
          (GroupStudies.set_spreading_rates
            (GroupStudies.set_spreading_rates GroupStudies.initial_con).1).1.iMM_con LEX_rate
      ∧ Rescaled 12 12 GroupStudies.iML_con
          (GroupStudies.set_spreading_rates GroupStudies.initial_con).1.iML_con
          (GroupStudies.set_spreading_rates
            (GroupStudies.set_spreading_rates GroupStudies.initial_con).1).1.iML_con
          LEX_rate) := by
  have a1 : FiveWord.SEM_rate ≠ 0 := by norm_num [FiveWord.SEM_rate]
  have a2 : FiveWord.SEM_rate ≠ 1 := by norm_num [FiveWord.SEM_rate]
  have b1 : GroupStudies.SEM_rate ≠ 0 := by norm_num [GroupStudies.SEM_rate]
  have b2 : GroupStudies.SEM_rate ≠ 1 := by norm_num [GroupStudies.SEM_rate]
  have c1 : LEM_rate ≠ 0 := by norm_num [LEM_rate]
  have c2 : LEM_rate ≠ 1 := by norm_num [LEM_rate]
  have d1 : LEX_rate ≠ 0 := by norm_num [LEX_rate]
  have d2 : LEX_rate ≠ 1 := by norm_num [LEX_rate]
  have e1 : FR * LEX_rate ≠ 0 := by norm_num [FR, LEX_rate]
  have e2 : FR * LEX_rate ≠ 1 := by norm_num [FR, LEX_rate]
  exact ⟨⟨a1, a2, b1, b2, c1, c2, d1, d2, e1, e2⟩,
    ⟨rescaled_of_binary a1 a2, rescaled_of_binary c1 c2, rescaled_of_binary d1 d2,
      rescaled_of_binary d1 d2, rescaled_of_binary d1 d2, rescaled_of_binary d1 d2,
      rescaled_of_binary e1 e2, rescaled_of_binary d1 d2, rescaled_of_binary d1 d2⟩,
    ⟨rescaled_of_binary b1 b2, rescaled_of_binary c1 c2, rescaled_of_binary d1 d2,
      rescaled_of_binary d1 d2, rescaled_of_binary d1 d2, rescaled_of_binary d1 d2,
      rescaled_of_binary e1 e2, rescaled_of_binary d1 d2, rescaled_of_binary d1 d2⟩⟩

/-- C22 at a concrete entry: `CC_con[0][1]` of the five-word programs, a connection, is
`SEM_rate` after one application and `SEM_rate * SEM_rate` after two. -/
theorem spreading_rates_not_idempotent_witness :
    rd2 (FiveWord.set_spreading_rates FiveWord.initial_con).1.CC_con 0 1 = FiveWord.SEM_rate
      ∧ rd2 (FiveWord.set_spreading_rates
          (FiveWord.set_spreading_rates FiveWord.initial_con).1).1.CC_con 0 1
        = FiveWord.SEM_rate * FiveWord.SEM_rate
      ∧ rd2 (FiveWord.set_spreading_rates
          (FiveWord.set_spreading_rates FiveWord.initial_con).1).1.CC_con 0 1
        ≠ rd2 (FiveWord.set_spreading_rates FiveWord.initial_con).1.CC_con 0 1 :=
  (spreading_rates_not_idempotent.2.1.1 0 1 (by decide) (by decide)).1 (by decide!)


/-! ## Comprehension and repetition (C27) -/

theorem series_values (r : Recorded) (lv g t : Nat) (cat dog skat smat : Nat)
    (f : Nat → Net)
    (h : series r lv g t
      = (List.range N_STEPs).map fun step => critical_values cat dog skat smat (f step))
    (step : Nat) (hstep : step < N_STEPs) :
    r.ACT_C lv step g t = rd (f step).C_node_act cat
      ∧ r.ACT_S lv step g t = rd (f step).S_node_act cat
      ∧ r.ACT_CT lv step g t = rd (f step).C_node_act cat
      ∧ r.ACT_CR lv step g t = rd (f step).C_node_act dog
      ∧ r.ACT_LT lv step g t = rd (f step).L_node_act cat
      ∧ r.ACT_LR lv step g t = rd (f step).L_node_act dog
      ∧ r.ACT_ST lv step g t = rd (f step).S_node_act skat
      ∧ r.ACT_SR lv step g t = rd (f step).S_node_act smat := by
  have e := (List.map_inj_left.mp h) step (List.mem_range.mpr hstep)
  simp only [critical_values, List.cons.injEq, and_true] at e
  exact e

theorem group_cell_net_spoken (con : Conn) (cfg : Settings) (g lv n : Nat) :
    GroupStudies.cell_net con cfg g COMPREHENSION lv n
      = GroupStudies.cell_net con cfg g REPETITION lv n := rfl

theorem cluster_cell_net_spoken (con : Conn) (cfg : Settings) (g lv n : Nat) :
    Clusters.cell_net con cfg g COMPREHENSION lv n
      = Clusters.cell_net con cfg g REPETITION lv n := rfl

theorem case_cell_net_spoken (con : Conn) (cfg : Settings) (g lv n : Nat) :
    Cases.cell_net con cfg g COMPREHENSION lv n
      = Cases.cell_net con cfg g REPETITION lv n := rfl

theorem spoken_entries (r : Recorded) (lv g : Nat)
    (h : series r lv g COMPREHENSION = series r lv g REPETITION) (step : Nat)
    (hstep : step < N_STEPs) :
    r.ACT_C lv step g COMPREHENSION = r.ACT_C lv step g REPETITION
      ∧ r.ACT_S lv step g COMPREHENSION = r.ACT_S lv step g REPETITION
      ∧ r.ACT_CT lv step g COMPREHENSION = r.ACT_CT lv step g REPETITION
      ∧ r.ACT_CR lv step g COMPREHENSION = r.ACT_CR lv step g REPETITION
      ∧ r.ACT_LT lv step g COMPREHENSION = r.ACT_LT lv step g REPETITION
      ∧ r.ACT_LR lv step g COMPREHENSION = r.ACT_LR lv step g REPETITION
      ∧ r.ACT_ST lv step g COMPREHENSION = r.ACT_ST lv step g REPETITION
      ∧ r.ACT_SR lv step g COMPREHENSION = r.ACT_SR lv step g REPETITION := by
  have e := (List.map_inj_left.mp h) step (List.mem_range.mpr hstep)
  simp only [List.cons.injEq, and_true] at e
  exact e

/-- C27.  In each of the three programs, after the sweep, every recorded critical-node
activation (`ACT_C`, `ACT_S`, `ACT_CT`, `ACT_CR`, `ACT_LT`, `ACT_LR`, `ACT_ST`, `ACT_SR`) of
every group (assessment), severity index and step is the same for task `COMPREHENSION` and
for task `REPETITION`: the two tasks are simulated identically.  They differ in the pair the
score reads: the concept target and foil (`MEAN_ACT_CT`, `MEAN_ACT_CR`) for comprehension,
the syllable target and foil (`MEAN_ACT_ST`, `MEAN_ACT_SR`) for repetition. -/
theorem spoken_tasks_identical :
    (∀ (con : Conn) (cfg : Settings) (m : Machine GroupStudies.Lesion) (lv g step : Nat),
      lv < N_lesion_values → g < GroupStudies.N_GROUPs → step < N_STEPs →
      (GroupStudies.sweep con cfg m).acts.ACT_C lv step g COMPREHENSION
          = (GroupStudies.sweep con cfg m).acts.ACT_C lv step g REPETITION
        ∧ (GroupStudies.sweep con cfg m).acts.ACT_S lv step g COMPREHENSION
          = (GroupStudies.sweep con cfg m).acts.ACT_S lv step g REPETITION
        ∧ (GroupStudies.sweep con cfg m).acts.ACT_CT lv step g COMPREHENSION
          = (GroupStudies.sweep con cfg m).acts.ACT_CT lv step g REPETITION
        ∧ (GroupStudies.sweep con cfg m).acts.ACT_CR lv step g COMPREHENSION
          = (GroupStudies.sweep con cfg m).acts.ACT_CR lv step g REPETITION
        ∧ (GroupStudies.sweep con cfg m).acts.ACT_LT lv step g COMPREHENSION
          = (GroupStudies.sweep con cfg m).acts.ACT_LT lv step g REPETITION
        ∧ (GroupStudies.sweep con cfg m).acts.ACT_LR lv step g COMPREHENSION
          = (GroupStudies.sweep con cfg m).acts.ACT_LR lv step g REPETITION
        ∧ (GroupStudies.sweep con cfg m).acts.ACT_ST lv step g COMPREHENSION
          = (GroupStudies.sweep con cfg m).acts.ACT_ST lv step g REPETITION
        ∧ (GroupStudies.sweep con cfg m).acts.ACT_SR lv step g COMPREHENSION
          = (GroupStudies.sweep con cfg m).acts.ACT_SR lv step g REPETITION)
    ∧ (∀ (con : Conn) (cfg : Settings) (m : Machine Clusters.Lesion) (lv g step : Nat),
      lv < N_lesion_values → g < Clusters.N_GROUPs → step < N_STEPs →
      (Clusters.sweep con cfg m).acts.ACT_C lv step g COMPREHENSION
          = (Clusters.sweep con cfg m).acts.ACT_C lv step g REPETITION
        ∧ (Clusters.sweep con cfg m).acts.ACT_S lv step g COMPREHENSION
          = (Clusters.sweep con cfg m).acts.ACT_S lv step g REPETITION
        ∧ (Clusters.sweep con cfg m).acts.ACT_CT lv step g COMPREHENSION
          = (Clusters.sweep con cfg m).acts.ACT_CT lv step g REPETITION
        ∧ (Clusters.sweep con cfg m).acts.ACT_CR lv step g COMPREHENSION
          = (Clusters.sweep con cfg m).acts.ACT_CR lv step g REPETITION
        ∧ (Clusters.sweep con cfg m).acts.ACT_LT lv step g COMPREHENSION
          = (Clusters.sweep con cfg m).acts.ACT_LT lv step g REPETITION
        ∧ (Clusters.sweep con cfg m).acts.ACT_LR lv step g COMPREHENSION
          = (Clusters.sweep con cfg m).acts.ACT_LR lv step g REPETITION
        ∧ (Clusters.sweep con cfg m).acts.ACT_ST lv step g COMPREHENSION
          = (Clusters.sweep con cfg m).acts.ACT_ST lv step g REPETITION
        ∧ (Clusters.sweep con cfg m).acts.ACT_SR lv step g COMPREHENSION
          = (Clusters.sweep con cfg m).acts.ACT_SR lv step g REPETITION)
    ∧ (∀ (con : Conn) (cfg : Settings) (m : Machine Cases.Lesion) (lv g step : Nat),
      lv < N_lesion_values → g < Cases.N_ASSESSMENTs → step < N_STEPs →
      (Cases.sweep con cfg m).acts.ACT_C lv step g COMPREHENSION
          = (Cases.sweep con cfg m).acts.ACT_C lv step g REPETITION
        ∧ (Cases.sweep con cfg m).acts.ACT_S lv step g COMPREHENSION
          = (Cases.sweep con cfg m).acts.ACT_S lv step g REPETITION
        ∧ (Cases.sweep con cfg m).acts.ACT_CT lv step g COMPREHENSION
          = (Cases.sweep con cfg m).acts.ACT_CT lv step g REPETITION
        ∧ (Cases.sweep con cfg m).acts.ACT_CR lv step g COMPREHENSION
          = (Cases.sweep con cfg m).acts.ACT_CR lv step g REPETITION
        ∧ (Cases.sweep con cfg m).acts.ACT_LT lv step g COMPREHENSION
          = (Cases.sweep con cfg m).acts.ACT_LT lv step g REPETITION
        ∧ (Cases.sweep con cfg m).acts.ACT_LR lv step g COMPREHENSION
          = (Cases.sweep con cfg m).acts.ACT_LR lv step g REPETITION
        ∧ (Cases.sweep con cfg m).acts.ACT_ST lv step g COMPREHENSION
          = (Cases.sweep con cfg m).acts.ACT_ST lv step g REPETITION
        ∧ (Cases.sweep con cfg m).acts.ACT_SR lv step g COMPREHENSION
          = (Cases.sweep con cfg m).acts.ACT_SR lv step g REPETITION)
    ∧ (∀ (cfg : Settings) (mn : Means) (REAL_DATA : List (List ℚ)) (group lv : Nat)
        (f : FitState),
      (fit_body cfg mn REAL_DATA group lv f).SIM_DATA group COMPREHENSION
          = (mn.MEAN_ACT_CT lv group COMPREHENSION - mn.MEAN_ACT_CR lv group COMPREHENSION)
            / (mn.MEAN_ACT_CT lv NORMAL COMPREHENSION - mn.MEAN_ACT_CR lv NORMAL COMPREHENSION)
            * 100
        ∧ (fit_body cfg mn REAL_DATA group lv f).SIM_DATA group REPETITION
          = (mn.MEAN_ACT_ST lv group REPETITION - mn.MEAN_ACT_SR lv group REPETITION)
            / (mn.MEAN_ACT_ST lv NORMAL REPETITION - mn.MEAN_ACT_SR lv NORMAL REPETITION)
            * 100) := by
  refine ⟨fun con cfg m lv g step hlv hg hstep => ?_, fun con cfg m lv g step hlv hg hstep => ?_,
    fun con cfg m lv g step hlv hg hstep => ?_, fun cfg mn REAL_DATA group lv f => ?_⟩
  · apply spoken_entries _ lv g _ step hstep
    rw [group_sweep_cell_series con cfg m lv g COMPREHENSION hlv hg (by decide),
      group_sweep_cell_series con cfg m lv g REPETITION hlv hg (by decide)]
    rfl
  · apply spoken_entries _ lv g _ step hstep
    rw [cluster_sweep_cell_series con cfg m lv g COMPREHENSION hlv hg (by decide),
      cluster_sweep_cell_series con cfg m lv g REPETITION hlv hg (by decide)]
    rfl
  · apply spoken_entries _ lv g _ step hstep
    rw [case_sweep_cell_series con cfg m lv g COMPREHENSION hlv hg (by decide),
      case_sweep_cell_series con cfg m lv g REPETITION hlv hg (by decide)]
    rfl
  · obtain ⟨_, h2, h3⟩ := fit_body_sim cfg mn REAL_DATA group lv f
    exact ⟨by rw [h2]; rfl, by rw [h3]; rfl⟩

/-- C27 at a concrete input: the single-case program as compiled, patient `4`, severity
index `50`, step `10`, target syllable. -/
theorem spoken_tasks_identical_witness :
    (Cases.sweep FiveWord.scaled_con (main_settings true false) Cases.initial_machine).acts.ACT_ST
        50 10 4 COMPREHENSION
      = (Cases.sweep FiveWord.scaled_con (main_settings true false)
          Cases.initial_machine).acts.ACT_ST 50 10 4 REPETITION :=
  (spoken_tasks_identical.2.2.1 FiveWord.scaled_con (main_settings true false)
    Cases.initial_machine 50 4 10 (by decide) (by decide) (by decide)).2.2.2.2.2.2.1


/-! ## The naming scenario of the control, single-case program (C23, C24) -/

theorem case_control_cell_net (con : Conn) (cfg : Settings) (t lv n : Nat) :
    Cases.cell_net con cfg NORMAL t lv n
      = net_after (fun les T st => Cases.update_network con les t T st) Cases.healthy
          (FiveWord.reset_network FiveWord.initial_net) n := by
  simp only [Cases.cell_net, case_set_aphasic_parameters_normal]
  rfl

theorem case_control_target_concept (cfg : Settings) (m : Machine Cases.Lesion) (lv step : Nat)
    (hlv : lv < N_lesion_values) (hstep : step < N_STEPs) :
    (Cases.sweep FiveWord.scaled_con cfg m).acts.ACT_CT lv step NORMAL NAMING
      = rd (Cases.control_naming_net (step + 1)).C_node_act FiveWord.CAT := by
  have h := (series_values _ lv NORMAL NAMING _ _ _ _ _
    (case_sweep_cell_series FiveWord.scaled_con cfg m lv NORMAL NAMING hlv (by decide)
      (by decide)) step hstep).2.2.1
  rw [h, case_control_cell_net]
  rfl


/-! ## One update step in closed form -/

theorem group_update_network_with (con : Conn) (les : GroupStudies.Lesion) (task : Nat)
    (T : Int) (st : Net) :
    GroupStudies.update_network con les task T st
      = GroupStudies.update_network_with EXTIN con les task T st := rfl

theorem cluster_update_network_with (con : Conn) (les : Clusters.Lesion) (task : Nat)
    (T : Int) (st : Net) :
    Clusters.update_network con les task T st
      = Clusters.update_network_with EXTIN con les task T st := rfl

theorem case_update_network_with (con : Conn) (les : Cases.Lesion) (task : Nat)
    (T : Int) (st : Net) :
    Cases.update_network con les task T st
      = Cases.update_network_with EXTIN con les task T st := rfl

theorem group_external_with_frame (extin : ℚ) (les : GroupStudies.Lesion) (task : Nat)
    (T : Int) (st : Net) :
    (GroupStudies.get_external_input_with extin les task T
          (GroupStudies.set_input_to_zero st)).C_node_act = st.C_node_act
      ∧ (GroupStudies.get_external_input_with extin les task T
          (GroupStudies.set_input_to_zero st)).L_node_act = st.L_node_act
      ∧ (GroupStudies.get_external_input_with extin les task T
          (GroupStudies.set_input_to_zero st)).M_node_act = st.M_node_act
      ∧ (GroupStudies.get_external_input_with extin les task T
          (GroupStudies.set_input_to_zero st)).oP_node_act = st.oP_node_act
      ∧ (GroupStudies.get_external_input_with extin les task T
          (GroupStudies.set_input_to_zero st)).S_node_act = st.S_node_act
      ∧ (GroupStudies.get_external_input_with extin les task T
          (GroupStudies.set_input_to_zero st)).iM_node_act = st.iM_node_act
      ∧ (GroupStudies.get_external_input_with extin les task T
          (GroupStudies.set_input_to_zero st)).iP_node_act = st.iP_node_act := by
  simp only [GroupStudies.get_external_input_with, GroupStudies.set_input_to_zero]
  split_ifs <;> simp

theorem group_external_with_zero (extin : ℚ) (les : GroupStudies.Lesion) (task : Nat)
    (T : Int) (st : Net) (i : Nat) :
    rd (GroupStudies.get_external_input_with extin les task T
        (GroupStudies.set_input_to_zero st)).input_L i = 0
      ∧ rd (GroupStudies.get_external_input_with extin les task T
        (GroupStudies.set_input_to_zero st)).input_M i = 0
      ∧ rd (GroupStudies.get_external_input_with extin les task T
        (GroupStudies.set_input_to_zero st)).input_oP i = 0
      ∧ rd (GroupStudies.get_external_input_with extin les task T
        (GroupStudies.set_input_to_zero st)).input_S i = 0
      ∧ rd (GroupStudies.get_external_input_with extin les task T
        (GroupStudies.set_input_to_zero st)).input_iM i = 0 := by
  simp only [GroupStudies.get_external_input_with, GroupStudies.set_input_to_zero]
  split_ifs <;> simp [rd_tabulate_zero]

theorem group_external_with_input (extin : ℚ) (les : GroupStudies.Lesion) (task n : Nat)
    (st : Net) (i : Nat) :
    rd (GroupStudies.get_external_input_with extin les task ((STEP_SIZE * n : Nat) : Int)
          (GroupStudies.set_input_to_zero st)).input_C i
        = GroupStudies.external_C extin les task n i
      ∧ rd (GroupStudies.get_external_input_with extin les task ((STEP_SIZE * n : Nat) : Int)
          (GroupStudies.set_input_to_zero st)).input_iP i
        = GroupStudies.external_iP extin les task n i := by
  unfold GroupStudies.external_C GroupStudies.external_iP
  by_cases h1 : task = NAMING <;> by_cases h2 : task = COMPREHENSION ∨ task = REPETITION
  all_goals
    simp only [GroupStudies.get_external_input_with, if_pos, if_neg, h1, h2, not_false_eq_true]
    exact ⟨rfl, rfl⟩

theorem five_word_external_with_frame (extin : ℚ) (task : Nat) (T : Int) (st : Net) :
    (FiveWord.get_external_input_with extin task T (FiveWord.set_input_to_zero st)).C_node_act
        = st.C_node_act
      ∧ (FiveWord.get_external_input_with extin task T
          (FiveWord.set_input_to_zero st)).L_node_act = st.L_node_act
      ∧ (FiveWord.get_external_input_with extin task T
          (FiveWord.set_input_to_zero st)).M_node_act = st.M_node_act
      ∧ (FiveWord.get_external_input_with extin task T
          (FiveWord.set_input_to_zero st)).oP_node_act = st.oP_node_act
      ∧ (FiveWord.get_external_input_with extin task T
          (FiveWord.set_input_to_zero st)).S_node_act = st.S_node_act
      ∧ (FiveWord.get_external_input_with extin task T
          (FiveWord.set_input_to_zero st)).iM_node_act = st.iM_node_act
      ∧ (FiveWord.get_external_input_with extin task T
          (FiveWord.set_input_to_zero st)).iP_node_act = st.iP_node_act := by
  simp only [FiveWord.get_external_input_with, FiveWord.set_input_to_zero]
  split_ifs <;> simp

theorem five_word_external_with_zero (extin : ℚ) (task : Nat) (T : Int) (st : Net) (i : Nat) :
    rd (FiveWord.get_external_input_with extin task T
        (FiveWord.set_input_to_zero st)).input_L i = 0
      ∧ rd (FiveWord.get_external_input_with extin task T
        (FiveWord.set_input_to_zero st)).input_M i = 0
      ∧ rd (FiveWord.get_external_input_with extin task T
        (FiveWord.set_input_to_zero st)).input_oP i = 0
      ∧ rd (FiveWord.get_external_input_with extin task T
        (FiveWord.set_input_to_zero st)).input_S i = 0
      ∧ rd (FiveWord.get_external_input_with extin task T
        (FiveWord.set_input_to_zero st)).input_iM i = 0 := by
  simp only [FiveWord.get_external_input_with, FiveWord.set_input_to_zero]
  split_ifs <;> simp [rd_tabulate_zero]

theorem five_word_external_with_input (extin : ℚ) (task n : Nat) (st : Net) (i : Nat) :
    rd (FiveWord.get_external_input_with extin task ((STEP_SIZE * n : Nat) : Int)
          (FiveWord.set_input_to_zero st)).input_C i
        = FiveWord.external_C extin task n i
      ∧ rd (FiveWord.get_external_input_with extin task ((STEP_SIZE * n : Nat) : Int)
          (FiveWord.set_input_to_zero st)).input_iP i
        = FiveWord.external_iP extin task n i := by
  unfold FiveWord.external_C FiveWord.external_iP
  by_cases h1 : task = NAMING <;> by_cases h2 : task = COMPREHENSION ∨ task = REPETITION
  all_goals
    simp only [FiveWord.get_external_input_with, if_pos, if_neg, h1, h2, not_false_eq_true]
    exact ⟨rfl, rfl⟩

theorem group_step (extin : ℚ) (con : Conn) (les : GroupStudies.Lesion) (task n : Nat)
    (st : Net) :
    Step GroupStudies.sizes con (GroupStudies.rates les)
      (GroupStudies.external_C extin les task n) (GroupStudies.external_iP extin les task n) st
      (GroupStudies.update_network_with extin con les task ((STEP_SIZE * n : Nat) : Int) st) := by
  obtain ⟨hC, hL, hM, hoP, hS, hiM, hiP⟩ :=
    group_external_with_frame extin les task ((STEP_SIZE * n : Nat) : Int) st
  have hz := group_external_with_zero extin les task ((STEP_SIZE * n : Nat) : Int) st
  have hx := group_external_with_input extin les task n st
  refine ⟨?_, ?_, ?_, ?_, ?_, ?_, ?_⟩
  all_goals
    intro i hi
    obtain ⟨zL, zM, zoP, zS, ziM⟩ := hz i
    obtain ⟨xC, xP⟩ := hx i
    simp only [GroupStudies.sizes] at hi
    simp only [GroupStudies.update_network_with, GroupStudies.update_activation_of_nodes,
      GroupStudies.get_internal_input, GroupStudies.rates, GroupStudies.sizes,
      rd_tabulate hi, rd_accumulate hi, spread,
      hC, hL, hM, hoP, hS, hiM, hiP, zL, zM, zoP, zS, ziM, xC, xP, zero_add, mul_one]
    try simp only [mul_assoc, mul_left_comm, mul_comm, add_assoc]

theorem cluster_step (extin : ℚ) (con : Conn) (les : Clusters.Lesion) (task n : Nat)
    (st : Net) :
    Step FiveWord.sizes con (Clusters.rates les)
      (FiveWord.external_C extin task n) (FiveWord.external_iP extin task n) st
      (Clusters.update_network_with extin con les task ((STEP_SIZE * n : Nat) : Int) st) := by
  obtain ⟨hC, hL, hM, hoP, hS, hiM, hiP⟩ :=
    five_word_external_with_frame extin task ((STEP_SIZE * n : Nat) : Int) st
  have hz := five_word_external_with_zero extin task ((STEP_SIZE * n : Nat) : Int) st
  have hx := five_word_external_with_input extin task n st
  refine ⟨?_, ?_, ?_, ?_, ?_, ?_, ?_⟩
  all_goals
    intro i hi
    obtain ⟨zL, zM, zoP, zS, ziM⟩ := hz i
    obtain ⟨xC, xP⟩ := hx i
    simp only [FiveWord.sizes] at hi
    simp only [Clusters.update_network_with, Clusters.update_activation_of_nodes,
      Clusters.get_internal_input, Clusters.rates, FiveWord.sizes,
      rd_tabulate hi, rd_accumulate hi, spread,
      hC, hL, hM, hoP, hS, hiM, hiP, zL, zM, zoP, zS, ziM, xC, xP, zero_add, mul_one]
    try simp only [mul_assoc, mul_left_comm, mul_comm, add_assoc]

theorem case_step (extin : ℚ) (con : Conn) (les : Cases.Lesion) (task n : Nat)
    (st : Net) :
    Step FiveWord.sizes con (Cases.rates les)
      (FiveWord.external_C extin task n) (FiveWord.external_iP extin task n) st
      (Cases.update_network_with extin con les task ((STEP_SIZE * n : Nat) : Int) st) := by
  obtain ⟨hC, hL, hM, hoP, hS, hiM, hiP⟩ :=
    five_word_external_with_frame extin task ((STEP_SIZE * n : Nat) : Int) st
  have hz := five_word_external_with_zero extin task ((STEP_SIZE * n : Nat) : Int) st
  have hx := five_word_external_with_input extin task n st
  refine ⟨?_, ?_, ?_, ?_, ?_, ?_, ?_⟩
  all_goals
    intro i hi
    obtain ⟨zL, zM, zoP, zS, ziM⟩ := hz i
    obtain ⟨xC, xP⟩ := hx i
    simp only [FiveWord.sizes] at hi
    simp only [Cases.update_network_with, Cases.update_activation_of_nodes,
      Cases.get_internal_input, Cases.rates, FiveWord.sizes,
      rd_tabulate hi, rd_accumulate hi, spread,
      hC, hL, hM, hoP, hS, hiM, hiP, zL, zM, zoP, zS, ziM, xC, xP, zero_add, mul_one]
    try simp only [mul_assoc, mul_left_comm, mul_comm, add_assoc]


/-! ## Trajectories of the three programs -/

theorem zero_net_group : ZeroNet GroupStudies.sizes
    (GroupStudies.reset_network GroupStudies.initial_net) :=
  ⟨fun i _ => rd_tabulate_zero _ i, fun i _ => rd_tabulate_zero _ i,
    fun i _ => rd_tabulate_zero _ i, fun i _ => rd_tabulate_zero _ i,
    fun i _ => rd_tabulate_zero _ i, fun i _ => rd_tabulate_zero _ i,
    fun i _ => rd_tabulate_zero _ i⟩

theorem zero_net_five_word : ZeroNet FiveWord.sizes
    (FiveWord.reset_network FiveWord.initial_net) :=
  ⟨fun i _ => rd_tabulate_zero _ i, fun i _ => rd_tabulate_zero _ i,
    fun i _ => rd_tabulate_zero _ i, fun i _ => rd_tabulate_zero _ i,
    fun i _ => rd_tabulate_zero _ i, fun i _ => rd_tabulate_zero _ i,
    fun i _ => rd_tabulate_zero _ i⟩

theorem group_traj (extin : ℚ) (con : Conn) (cfg : Settings) (g t lv : Nat) :
    Traj GroupStudies.sizes con
      (GroupStudies.rates (GroupStudies.set_aphasic_parameters cfg g lv))
      (GroupStudies.external_C extin (GroupStudies.set_aphasic_parameters cfg g lv) t)
      (GroupStudies.external_iP extin (GroupStudies.set_aphasic_parameters cfg g lv) t)
      (GroupStudies.cell_net_with extin con cfg g t lv) :=
  ⟨zero_net_group, fun n => group_step extin con _ t n _⟩

theorem cluster_traj (extin : ℚ) (con : Conn) (cfg : Settings) (g t lv : Nat) :
    Traj FiveWord.sizes con (Clusters.rates (Clusters.set_aphasic_parameters cfg g lv))
      (FiveWord.external_C extin t) (FiveWord.external_iP extin t)
      (Clusters.cell_net_with extin con cfg g t lv) :=
  ⟨zero_net_five_word, fun n => cluster_step extin con _ t n _⟩

theorem case_traj (extin : ℚ) (con : Conn) (cfg : Settings) (g t lv : Nat) :
    Traj FiveWord.sizes con (Cases.rates (Cases.set_aphasic_parameters cfg g lv))
      (FiveWord.external_C extin t) (FiveWord.external_iP extin t)
      (Cases.cell_net_with extin con cfg g t lv) :=
  ⟨zero_net_five_word, fun n => case_step extin con _ t n _⟩

theorem group_cell_net_with (con : Conn) (cfg : Settings) (g t lv n : Nat) :
    GroupStudies.cell_net con cfg g t lv n
      = GroupStudies.cell_net_with EXTIN con cfg g t lv n := rfl

theorem cluster_cell_net_with (con : Conn) (cfg : Settings) (g t lv n : Nat) :
    Clusters.cell_net con cfg g t lv n = Clusters.cell_net_with EXTIN con cfg g t lv n := rfl

theorem case_cell_net_with (con : Conn) (cfg : Settings) (g t lv n : Nat) :
    Cases.cell_net con cfg g t lv n = Cases.cell_net_with EXTIN con cfg g t lv n := rfl

/-! ## Non-negative activations (C28) -/

theorem spread_nonneg {m : Nat} {act : List ℚ} {con : List (List ℚ)} {i : Nat} {k : ℚ}
    (ha : ∀ j, j < m → 0 ≤ rd act j) (hc : ∀ j i, 0 ≤ rd2 con j i) (hk : 0 ≤ k) :
    0 ≤ spread m act con i k := by
  unfold spread
  exact Finset.sum_nonneg fun j hj =>
    mul_nonneg (mul_nonneg (ha j (Finset.mem_range.mp hj)) (hc j i)) hk

theorem step_nonneg {z : Sizes} {con : Conn} {k : Rates} {extC extP : Nat → ℚ} {st st1 : Net}
    (h : Step z con k extC extP st st1) (hcon : NonnegCon con) (hk : NonnegRates k)
    (hC : ∀ i, 0 ≤ extC i) (hP : ∀ i, 0 ≤ extP i) (hst : NonnegNet z st) :
    NonnegNet z st1 := by
  obtain ⟨s1, s2, s3, s4, s5, s6, s7⟩ := h
  obtain ⟨c1, c2, c3, c4, c5, c6, c7, c8, c9⟩ := hcon
  obtain ⟨d1, d2, d3, d4, k1, k2, k3, k4, k5, k6, k7, k8, k9⟩ := hk
  obtain ⟨n1, n2, n3, n4, n5, n6, n7⟩ := hst
  have one : (0 : ℚ) ≤ 1 := by norm_num
  have dS : DECAY_rate * 1 ≤ 1 := by norm_num [DECAY_rate]
  refine ⟨fun i hi => ?_, fun i hi => ?_, fun i hi => ?_, fun i hi => ?_, fun i hi => ?_,
    fun i hi => ?_, fun i hi => ?_⟩
  · rw [s1 i hi]
    exact add_nonneg (mul_nonneg (n1 i hi) (by linarith))
      (add_nonneg (add_nonneg (hC i) (spread_nonneg n1 c1 k1)) (spread_nonneg n2 c2 k2))
  · rw [s2 i hi]
    exact add_nonneg (mul_nonneg (n2 i hi) (by linarith))
      (add_nonneg (spread_nonneg n1 c2 k3) (spread_nonneg n7 c9 one))
  · rw [s3 i hi]
    exact add_nonneg (mul_nonneg (n3 i hi) (by linarith))
      (add_nonneg (spread_nonneg n2 c3 k4) (spread_nonneg n7 c8 k5))
  · rw [s4 i hi]
    exact add_nonneg (mul_nonneg (n4 i hi) (by linarith))
      (add_nonneg (spread_nonneg n3 c4 k6) (spread_nonneg n6 c6 k7))
  · rw [s5 i hi]
    exact add_nonneg (mul_nonneg (n5 i hi) (by linarith)) (spread_nonneg n4 c5 k8)
  · rw [s6 i hi]
    exact add_nonneg (mul_nonneg (n6 i hi) (by linarith))
      (add_nonneg (hP i) (spread_nonneg n4 c6 k9))
  · rw [s7 i hi]
    exact add_nonneg (mul_nonneg (n7 i hi) (by linarith)) (spread_nonneg n6 c7 one)

theorem traj_nonneg {z : Sizes} {con : Conn} {k : Rates} {extC extP : Nat → Nat → ℚ}
    {x : Nat → Net} (h : Traj z con k extC extP x) (hcon : NonnegCon con)
    (hk : NonnegRates k) (hC : ∀ n i, 0 ≤ extC n i) (hP : ∀ n i, 0 ≤ extP n i) (n : Nat) :
    NonnegNet z (x n) := by
  induction n with
  | zero =>
    obtain ⟨z1, z2, z3, z4, z5, z6, z7⟩ := h.1
    exact ⟨fun i hi => le_of_eq (z1 i hi).symm, fun i hi => le_of_eq (z2 i hi).symm,
      fun i hi => le_of_eq (z3 i hi).symm, fun i hi => le_of_eq (z4 i hi).symm,
      fun i hi => le_of_eq (z5 i hi).symm, fun i hi => le_of_eq (z6 i hi).symm,
      fun i hi => le_of_eq (z7 i hi).symm⟩
  | succ n ih => exact step_nonneg (h.2 n) hcon hk (hC n) (hP n) ih

theorem rd2_scale_nonneg {n m : Nat} {con : List (List ℚ)} {rate : ℚ} (hb : Binary n m con)
    (hr : 0 ≤ rate) (j i : Nat) : 0 ≤ rd2 (scale n m con rate) j i := by
  by_cases hj : j < n
  · by_cases hi : i < m
    · exact (scaled_by_of_binary hb hr j i hj hi).2.2
    · have e : (scale n m con rate).getD j [] = tabulate m fun i => rd2 con j i * rate := by
        simp [scale, List.getD_eq_getElem?_getD, List.getElem?_map, List.getElem?_range, hj]
      rw [rd2, e, rd_tabulate_of_le (not_lt.mp hi)]
  · have e : (scale n m con rate).getD j [] = [] := by
      simp [scale, List.getD_eq_getElem?_getD, List.getElem?_map, List.getElem?_eq_none,
        not_lt.mp hj]
    rw [rd2, e]
    simp [rd]

theorem group_scaled_con_nonneg : NonnegCon GroupStudies.scaled_con := by
  obtain ⟨g1, g2, g3, g4, g5, g6, g7, g8, g9⟩ := group_binary
  have r1 : (0 : ℚ) ≤ GroupStudies.SEM_rate := by norm_num [GroupStudies.SEM_rate]
  have r2 : (0 : ℚ) ≤ LEM_rate := by norm_num [LEM_rate]
  have r3 : (0 : ℚ) ≤ LEX_rate := by norm_num [LEX_rate]
  have r4 : (0 : ℚ) ≤ FR * LEX_rate := by norm_num [FR, LEX_rate]
  exact ⟨rd2_scale_nonneg g1 r1, rd2_scale_nonneg g2 r2, rd2_scale_nonneg g3 r3,
    rd2_scale_nonneg g4 r3, rd2_scale_nonneg g5 r3, rd2_scale_nonneg g6 r3,
    rd2_scale_nonneg g7 r4, rd2_scale_nonneg g8 r3, rd2_scale_nonneg g9 r3⟩

theorem five_word_scaled_con_nonneg : NonnegCon FiveWord.scaled_con := by
  obtain ⟨g1, g2, g3, g4, g5, g6, g7, g8, g9⟩ := five_word_binary
  have r1 : (0 : ℚ) ≤ FiveWord.SEM_rate := by norm_num [FiveWord.SEM_rate]
  have r2 : (0 : ℚ) ≤ LEM_rate := by norm_num [LEM_rate]
  have r3 : (0 : ℚ) ≤ LEX_rate := by norm_num [LEX_rate]
  have r4 : (0 : ℚ) ≤ FR * LEX_rate := by norm_num [FR, LEX_rate]
  exact ⟨rd2_scale_nonneg g1 r1, rd2_scale_nonneg g2 r2, rd2_scale_nonneg g3 r3,
    rd2_scale_nonneg g4 r3, rd2_scale_nonneg g5 r3, rd2_scale_nonneg g6 r3,
    rd2_scale_nonneg g7 r4, rd2_scale_nonneg g8 r3, rd2_scale_nonneg g9 r3⟩

theorem rd_nonneg_zero (n : Nat) : ∀ i, 0 ≤ rd (tabulate n fun _ => (0 : ℚ)) i := by
  intro i
  rw [rd_tabulate_zero]

theorem rd_nonneg_add_at {n : Nat} {a : List ℚ} {k : Nat} {v : ℚ} (ha : ∀ i, 0 ≤ rd a i)
    (hv : 0 ≤ v) : ∀ i, 0 ≤ rd (add_at n a k v) i := by
  intro i
  rcases Nat.lt_or_ge i n with h | h
  · rw [rd_add_at h]
    split_ifs
    · exact add_nonneg (ha i) hv
    · exact ha i
  · rw [rd_add_at_of_le h]

theorem rd_nonneg_ite {c : Prop} [Decidable c] {a b : List ℚ} (ha : ∀ i, 0 ≤ rd a i)
    (hb : ∀ i, 0 ≤ rd b i) : ∀ i, 0 ≤ rd (if c then a else b) i := by
  split_ifs
  · exact ha
  · exact hb

theorem five_word_get_external_nonneg (extin : ℚ) (hv : 0 ≤ extin) (task : Nat) (T : Int)
    (st : Net) (hC : ∀ i, 0 ≤ rd st.input_C i) (hP : ∀ i, 0 ≤ rd st.input_iP i) :
    (∀ i, 0 ≤ rd (FiveWord.get_external_input_with extin task T st).input_C i)
      ∧ (∀ i, 0 ≤ rd (FiveWord.get_external_input_with extin task T st).input_iP i) := by
  have c1 := rd_nonneg_ite (c := T ≥ 0 ∧ T < PICTURE_DURATION)
    (rd_nonneg_add_at (n := FiveWord.N_CONCEPTs) (k := FiveWord.CAT) hC hv) hC
  have c2 := rd_nonneg_ite (c := T ≥ 0 + 1 * CYCLE_TIME ∧ T < 1 * CYCLE_TIME + PICTURE_DURATION)
    (rd_nonneg_add_at (n := FiveWord.N_CONCEPTs) (k := FiveWord.CAT) c1 hv) c1
  have p1 := rd_nonneg_ite (c := 0 ≤ T ∧ T < SEGMENT_DURATION)
    (rd_nonneg_add_at (n := FiveWord.N_PHONEMEs) (k := FiveWord.pK) hP hv) hP
  have p2 := rd_nonneg_ite (c := SEGMENT_DURATION ≤ T ∧ T < 2 * SEGMENT_DURATION)
    (rd_nonneg_add_at (n := FiveWord.N_PHONEMEs) (k := FiveWord.pE) p1 hv) p1
  have p3 := rd_nonneg_ite (c := 2 * SEGMENT_DURATION ≤ T ∧ T < 3 * SEGMENT_DURATION)
    (rd_nonneg_add_at (n := FiveWord.N_PHONEMEs) (k := FiveWord.pT) p2 hv) p2
  by_cases h1 : task = NAMING <;> by_cases h2 : task = COMPREHENSION ∨ task = REPETITION
  · simp only [FiveWord.get_external_input_with, if_pos h1, if_pos h2]
    exact ⟨c2, p3⟩
  · simp only [FiveWord.get_external_input_with, if_pos h1, if_neg h2]
    exact ⟨c2, hP⟩
  · simp only [FiveWord.get_external_input_with, if_neg h1, if_pos h2]
    exact ⟨hC, p3⟩
  · simp only [FiveWord.get_external_input_with, if_neg h1, if_neg h2]
    exact ⟨hC, hP⟩

theorem five_word_external_nonneg (extin : ℚ) (hv : 0 ≤ extin) (task n i : Nat) :
    0 ≤ FiveWord.external_C extin task n i ∧ 0 ≤ FiveWord.external_iP extin task n i := by
  obtain ⟨h1, h2⟩ := five_word_get_external_nonneg extin hv task ((STEP_SIZE * n : Nat) : Int)
    (FiveWord.set_input_to_zero FiveWord.initial_net) (rd_nonneg_zero FiveWord.N_CONCEPTs)
    (rd_nonneg_zero FiveWord.N_PHONEMEs)
  exact ⟨h1 i, h2 i⟩

theorem group_get_external_nonneg (extin : ℚ) (hv : 0 ≤ extin) (les : GroupStudies.Lesion)
    (hs : 0 ≤ les.CONNECTION_DECREASE_SEMANTIC_DEMENTIA) (task : Nat) (T : Int)
    (st : Net) (hC : ∀ i, 0 ≤ rd st.input_C i) (hP : ∀ i, 0 ≤ rd st.input_iP i) :
    (∀ i, 0 ≤ rd (GroupStudies.get_external_input_with extin les task T st).input_C i)
      ∧ (∀ i, 0 ≤ rd (GroupStudies.get_external_input_with extin les task T st).input_iP i) := by
  have hm : 0 ≤ les.CONNECTION_DECREASE_SEMANTIC_DEMENTIA * extin := mul_nonneg hs hv
  have c1 := rd_nonneg_ite (c := T ≥ 0 ∧ T < PICTURE_DURATION)
    (rd_nonneg_add_at (n := GroupStudies.N_CONCEPTs) (k := GroupStudies.CAT) hC hm) hC
  have c2 := rd_nonneg_ite (c := T ≥ 0 + 1 * CYCLE_TIME ∧ T < 1 * CYCLE_TIME + PICTURE_DURATION)
    (rd_nonneg_add_at (n := GroupStudies.N_CONCEPTs) (k := GroupStudies.CAT) c1 hv) c1
  have p1 := rd_nonneg_ite (c := 0 ≤ T ∧ T < SEGMENT_DURATION)
    (rd_nonneg_add_at (n := GroupStudies.N_PHONEMEs) (k := GroupStudies.pK) hP hv) hP
  have p2 := rd_nonneg_ite (c := SEGMENT_DURATION ≤ T ∧ T < 2 * SEGMENT_DURATION)
    (rd_nonneg_add_at (n := GroupStudies.N_PHONEMEs) (k := GroupStudies.pA) p1 hv) p1
  have p3 := rd_nonneg_ite (c := 2 * SEGMENT_DURATION ≤ T ∧ T < 3 * SEGMENT_DURATION)
    (rd_nonneg_add_at (n := GroupStudies.N_PHONEMEs) (k := GroupStudies.pT) p2 hv) p2
  by_cases h1 : task = NAMING <;> by_cases h2 : task = COMPREHENSION ∨ task = REPETITION
  · simp only [GroupStudies.get_external_input_with, if_pos h1, if_pos h2]
    exact ⟨c2, p3⟩
  · simp only [GroupStudies.get_external_input_with, if_pos h1, if_neg h2]
    exact ⟨c2, hP⟩
  · simp only [GroupStudies.get_external_input_with, if_neg h1, if_pos h2]
    exact ⟨hC, p3⟩
  · simp only [GroupStudies.get_external_input_with, if_neg h1, if_neg h2]
    exact ⟨hC, hP⟩

theorem group_external_nonneg (extin : ℚ) (hv : 0 ≤ extin) (les : GroupStudies.Lesion)
    (hs : 0 ≤ les.CONNECTION_DECREASE_SEMANTIC_DEMENTIA) (task n i : Nat) :
    0 ≤ GroupStudies.external_C extin les task n i
      ∧ 0 ≤ GroupStudies.external_iP extin les task n i := by
  obtain ⟨h1, h2⟩ := group_get_external_nonneg extin hv les hs task
    ((STEP_SIZE * n : Nat) : Int) (GroupStudies.set_input_to_zero GroupStudies.initial_net)
    (rd_nonneg_zero GroupStudies.N_CONCEPTs) (rd_nonneg_zero GroupStudies.N_PHONEMEs)
  exact ⟨h1 i, h2 i⟩

theorem decay_rate_one : DECAY_rate * 1 ≤ 1 := by norm_num [DECAY_rate]

theorem decay_rate_le : DECAY_rate ≤ 1 := by norm_num [DECAY_rate]

theorem weight_lesion_factor (p : Prop) [Decidable p] (lv : Nat) (h : lv < N_lesion_values) :
    0 ≤ (if p then rd (main_settings true false).WEIGHT_value lv else (1 : ℚ)) := by
  by_cases hp : p
  · simp only [if_pos hp]; exact (weight_factor_bounds false lv h).1
  · simp only [if_neg hp]; norm_num

theorem group_weight_lesion_rates (g lv : Nat) (h : lv < N_lesion_values) :
    NonnegRates (GroupStudies.rates
      (GroupStudies.set_aphasic_parameters (main_settings true false) g lv))
      ∧ 0 ≤ (GroupStudies.set_aphasic_parameters (main_settings true false)
          g lv).CONNECTION_DECREASE_SEMANTIC_DEMENTIA := by
  have a1 : 0 ≤ (GroupStudies.set_aphasic_parameters (main_settings true false)
      g lv).CONNECTION_DECREASE_NONFLUENT_AGRAMMATIC :=
    weight_lesion_factor (g = GroupStudies.NONFLUENT_AGRAMMATIC) lv h
  have a2 : 0 ≤ (GroupStudies.set_aphasic_parameters (main_settings true false)
      g lv).CONNECTION_DECREASE_SEMANTIC_DEMENTIA :=
    weight_lesion_factor (g = GroupStudies.SEMANTIC_DEMENTIA) lv h
  have a3 : 0 ≤ (GroupStudies.set_aphasic_parameters (main_settings true false)
      g lv).CONNECTION_DECREASE_LOGOPENIC :=
    weight_lesion_factor (g = GroupStudies.LOGOPENIC) lv h
  have d1 : (GroupStudies.set_aphasic_parameters (main_settings true false)
      g lv).DECAY_INCREASE_NONFLUENT_AGRAMMATIC = 1 := by
    simp [GroupStudies.set_aphasic_parameters, main_settings]
  have d2 : (GroupStudies.set_aphasic_parameters (main_settings true false)
      g lv).DECAY_INCREASE_SEMANTIC_DEMENTIA = 1 := by
    simp [GroupStudies.set_aphasic_parameters, main_settings]
  have d3 : (GroupStudies.set_aphasic_parameters (main_settings true false)
      g lv).DECAY_INCREASE_LOGOPENIC = 1 := by
    simp [GroupStudies.set_aphasic_parameters, main_settings]
  have l : (0 : ℚ) ≤ LEMLEXFRAC := by norm_num [LEMLEXFRAC]
  refine ⟨?_, a2⟩
  simp only [NonnegRates, GroupStudies.rates, d1, d2, d3]
  exact ⟨decay_rate_one, decay_rate_one, decay_rate_one, decay_rate_one, a2, a2, a2,
    mul_nonneg l a3, a3, mul_nonneg a1 a3, mul_nonneg a1 a3, a1, mul_nonneg a1 a3⟩

theorem cluster_weight_lesion_rates (g lv : Nat) (h : lv < N_lesion_values) :
    NonnegRates (Clusters.rates
      (Clusters.set_aphasic_parameters (main_settings true false) g lv)) := by
  have a1 : 0 ≤ (Clusters.set_aphasic_parameters (main_settings true false)
      g lv).CONNECTION_DECREASE_CLUSTER_1 :=
    weight_lesion_factor (g = Clusters.CLUSTER_1) lv h
  have a2 : 0 ≤ (Clusters.set_aphasic_parameters (main_settings true false)
      g lv).CONNECTION_DECREASE_CLUSTER_2 :=
    weight_lesion_factor (g = Clusters.CLUSTER_2) lv h
  have a3 : 0 ≤ (Clusters.set_aphasic_parameters (main_settings true false)
      g lv).CONNECTION_DECREASE_CLUSTER_3 :=
    weight_lesion_factor (g = Clusters.CLUSTER_3) lv h
  have d1 : (Clusters.set_aphasic_parameters (main_settings true false)
      g lv).DECAY_INCREASE_CLUSTER_1 = 1 := by
    simp [Clusters.set_aphasic_parameters, main_settings]
  have d2 : (Clusters.set_aphasic_parameters (main_settings true false)
      g lv).DECAY_INCREASE_CLUSTER_2 = 1 := by
    simp [Clusters.set_aphasic_parameters, main_settings]
  have d3 : (Clusters.set_aphasic_parameters (main_settings true false)
      g lv).DECAY_INCREASE_CLUSTER_3 = 1 := by
    simp [Clusters.set_aphasic_parameters, main_settings]
  have l : (0 : ℚ) ≤ LEMLEXFRAC := by norm_num [LEMLEXFRAC]
  have one : (0 : ℚ) ≤ 1 := by norm_num
  simp only [NonnegRates, Clusters.rates, d1, d2, d3, mul_one]
  exact ⟨decay_rate_le, decay_rate_le, decay_rate_le, decay_rate_le, one, a2, a2,
    mul_nonneg l (mul_nonneg (mul_nonneg a1 a2) a3), mul_nonneg (mul_nonneg a1 a2) a3,
    mul_nonneg (mul_nonneg a1 a2) a3, mul_nonneg a1 a3, one, mul_nonneg a1 a3⟩

theorem case_weight_lesion_rates (g lv : Nat) (h : lv < N_lesion_values) :
    NonnegRates (Cases.rates
      (Cases.set_aphasic_parameters (main_settings true false) g lv)) := by
  have a1 : 0 ≤ (Cases.set_aphasic_parameters (main_settings true false)
      g lv).CONNECTION_DECREASE_LOGOPENIC := by
    have := weight_lesion_factor (¬ g = NORMAL) lv h
    simpa [Cases.set_aphasic_parameters, main_settings] using this
  have d1 : (Cases.set_aphasic_parameters (main_settings true false)
      g lv).DECAY_INCREASE_LOGOPENIC = 1 := by
    simp [Cases.set_aphasic_parameters, main_settings]
  have l : (0 : ℚ) ≤ LEMLEXFRAC := by norm_num [LEMLEXFRAC]
  have one : (0 : ℚ) ≤ 1 := by norm_num
  simp only [NonnegRates, Cases.rates, d1]
  exact ⟨decay_rate_one, decay_rate_one, decay_rate_one, decay_rate_one, one, one, one,
    mul_nonneg l a1, a1, a1, a1, one, a1⟩

theorem extin_nonneg : (0 : ℚ) ≤ EXTIN := by norm_num [EXTIN]

/-- C28.  In weight-lesion mode (the program as compiled: every connection factor is a value
of the weight grid or `1.0`, every decay factor is `1.0`), for every group (assessment),
task and severity index, in each of the three programs, after every number `n` of update
steps from the reset state no activation of any node of any layer is negative. -/
theorem activations_nonnegative :
    (∀ g t lv n, lv < N_lesion_values →
      NonnegNet GroupStudies.sizes
        (GroupStudies.cell_net GroupStudies.scaled_con (main_settings true false) g t lv n))
    ∧ (∀ g t lv n, lv < N_lesion_values →
      NonnegNet FiveWord.sizes
        (Clusters.cell_net FiveWord.scaled_con (main_settings true false) g t lv n))
    ∧ (∀ g t lv n, lv < N_lesion_values →
      NonnegNet FiveWord.sizes
        (Cases.cell_net FiveWord.scaled_con (main_settings true false) g t lv n)) := by
  refine ⟨fun g t lv n h => ?_, fun g t lv n h => ?_, fun g t lv n h => ?_⟩
  · rw [group_cell_net_with]
    obtain ⟨hk, hs⟩ := group_weight_lesion_rates g lv h
    exact traj_nonneg (group_traj EXTIN _ _ g t lv) group_scaled_con_nonneg hk
      (fun n i => (group_external_nonneg EXTIN extin_nonneg _ hs t n i).1)
      (fun n i => (group_external_nonneg EXTIN extin_nonneg _ hs t n i).2) n
  · rw [cluster_cell_net_with]
    exact traj_nonneg (cluster_traj EXTIN _ _ g t lv) five_word_scaled_con_nonneg
      (cluster_weight_lesion_rates g lv h)
      (fun n i => (five_word_external_nonneg EXTIN extin_nonneg t n i).1)
      (fun n i => (five_word_external_nonneg EXTIN extin_nonneg t n i).2) n
  · rw [case_cell_net_with]
    exact traj_nonneg (case_traj EXTIN _ _ g t lv) five_word_scaled_con_nonneg
      (case_weight_lesion_rates g lv h)
      (fun n i => (five_word_external_nonneg EXTIN extin_nonneg t n i).1)
      (fun n i => (five_word_external_nonneg EXTIN extin_nonneg t n i).2) n

/-- C28 at a concrete input: the semantic-dementia group of the group-studies program at
severity index `0`, repetition, after `17` update steps: the concept nodes. -/
theorem activations_nonnegative_witness :
    ∀ i, i < GroupStudies.sizes.nC →
      0 ≤ rd (GroupStudies.cell_net GroupStudies.scaled_con (main_settings true false)
        GroupStudies.SEMANTIC_DEMENTIA REPETITION 0 17).C_node_act i :=
  (activations_nonnegative.1 GroupStudies.SEMANTIC_DEMENTIA REPETITION 0 17 (by decide)).1


/-! ## Scaling and blocking of a trajectory -/
theorem spread_scale {m : Nat} {a a1 : List ℚ} {con : List (List ℚ)} {i : Nat} {k c : ℚ}
    (h : ∀ j, j < m → rd a1 j = c * rd a j) :
    spread m a1 con i k = c * spread m a con i k := by
  unfold spread
  rw [Finset.mul_sum]
  apply Finset.sum_congr rfl
  intro j hj
  rw [h j (Finset.mem_range.mp hj)]
  ring

theorem step_scale {z : Sizes} {con : Conn} {k : Rates} {extC extP extC1 extP1 : Nat → ℚ}
    {st st1 su su1 : Net} {c : ℚ} (h : Step z con k extC extP st su)
    (h1 : Step z con k extC1 extP1 st1 su1) (hC : ∀ i, extC1 i = c * extC i)
    (hP : ∀ i, extP1 i = c * extP i) (hs : ScaledNet z c st st1) : ScaledNet z c su su1 := by
  obtain ⟨s1, s2, s3, s4, s5, s6, s7⟩ := h
  obtain ⟨t1, t2, t3, t4, t5, t6, t7⟩ := h1
  obtain ⟨n1, n2, n3, n4, n5, n6, n7⟩ := hs
  refine ⟨fun i hi => ?_, fun i hi => ?_, fun i hi => ?_, fun i hi => ?_, fun i hi => ?_,
    fun i hi => ?_, fun i hi => ?_⟩
  · rw [t1 i hi, s1 i hi, n1 i hi, hC i, spread_scale n1, spread_scale n2]; ring
  · rw [t2 i hi, s2 i hi, n2 i hi, spread_scale n1, spread_scale n7]; ring
  · rw [t3 i hi, s3 i hi, n3 i hi, spread_scale n2, spread_scale n7]; ring
  · rw [t4 i hi, s4 i hi, n4 i hi, spread_scale n3, spread_scale n6]; ring
  · rw [t5 i hi, s5 i hi, n5 i hi, spread_scale n4]; ring
  · rw [t6 i hi, s6 i hi, n6 i hi, hP i, spread_scale n4]; ring
  · rw [t7 i hi, s7 i hi, n7 i hi, spread_scale n6]; ring

theorem traj_scale {z : Sizes} {con : Conn} {k : Rates} {extC extP extC1 extP1 : Nat → Nat → ℚ}
    {x x1 : Nat → Net} {c : ℚ} (h : Traj z con k extC extP x)
    (h1 : Traj z con k extC1 extP1 x1) (hC : ∀ n i, extC1 n i = c * extC n i)
    (hP : ∀ n i, extP1 n i = c * extP n i) (n : Nat) : ScaledNet z c (x n) (x1 n) := by
  induction n with
  | zero =>
    obtain ⟨a1, a2, a3, a4, a5, a6, a7⟩ := h.1
    obtain ⟨b1, b2, b3, b4, b5, b6, b7⟩ := h1.1
    exact ⟨fun i hi => by rw [a1 i hi, b1 i hi, mul_zero],
      fun i hi => by rw [a2 i hi, b2 i hi, mul_zero],
      fun i hi => by rw [a3 i hi, b3 i hi, mul_zero],
      fun i hi => by rw [a4 i hi, b4 i hi, mul_zero],
      fun i hi => by rw [a5 i hi, b5 i hi, mul_zero],
      fun i hi => by rw [a6 i hi, b6 i hi, mul_zero],
      fun i hi => by rw [a7 i hi, b7 i hi, mul_zero]⟩
  | succ n ih => exact step_scale (h.2 n) (h1.2 n) (hC n) (hP n) ih

theorem spread_zero_coeff (m : Nat) (act : List ℚ) (con : List (List ℚ)) (i : Nat) :
    spread m act con i 0 = 0 := by
  simp [spread]

theorem spread_zero_act {m : Nat} {act : List ℚ} (con : List (List ℚ)) (i : Nat) (k : ℚ)
    (h : ∀ j, j < m → rd act j = 0) : spread m act con i k = 0 := by
  unfold spread
  apply Finset.sum_eq_zero
  intro j hj
  rw [h j (Finset.mem_range.mp hj)]
  ring

theorem step_output_zero {z : Sizes} {con : Conn} {k : Rates} {extC extP : Nat → ℚ}
    {st st1 : Net} (h : Step z con k extC extP st st1) (k1 : k.kLM = 0) (k2 : k.kiMM = 0)
    (k3 : k.kMP = 0) (k4 : k.kPPo = 0) (hz : OutputZero z st) : OutputZero z st1 := by
  obtain ⟨_, _, s3, s4, s5, _, _⟩ := h
  obtain ⟨z1, z2, z3⟩ := hz
  refine ⟨fun i hi => ?_, fun i hi => ?_, fun i hi => ?_⟩
  · rw [s3 i hi, z1 i hi, k1, k2, spread_zero_coeff, spread_zero_coeff]; ring
  · rw [s4 i hi, z2 i hi, k3, k4, spread_zero_coeff, spread_zero_coeff]; ring
  · rw [s5 i hi, z3 i hi, spread_zero_act _ _ _ z2]; ring

theorem traj_output_zero {z : Sizes} {con : Conn} {k : Rates} {extC extP : Nat → Nat → ℚ}
    {x : Nat → Net} (h : Traj z con k extC extP x) (k1 : k.kLM = 0) (k2 : k.kiMM = 0)
    (k3 : k.kMP = 0) (k4 : k.kPPo = 0) (n : Nat) : OutputZero z (x n) := by
  induction n with
  | zero => exact ⟨h.1.2.2.1, h.1.2.2.2.1, h.1.2.2.2.2.1⟩
  | succ n ih => exact step_output_zero (h.2 n) k1 k2 k3 k4 ih


/-! ## Recorded values after the sweep -/

theorem group_sweep_values (con : Conn) (cfg : Settings) (m : Machine GroupStudies.Lesion)
    (lv g t step : Nat) (hlv : lv < N_lesion_values) (hg : g < GroupStudies.N_GROUPs)
    (ht : t < N_TASKs) (hstep : step < N_STEPs) :
    (GroupStudies.sweep con cfg m).acts.ACT_C lv step g t
        = rd (GroupStudies.cell_net con cfg g t lv (step + 1)).C_node_act GroupStudies.CAT
      ∧ (GroupStudies.sweep con cfg m).acts.ACT_S lv step g t
        = rd (GroupStudies.cell_net con cfg g t lv (step + 1)).S_node_act GroupStudies.CAT
      ∧ (GroupStudies.sweep con cfg m).acts.ACT_CT lv step g t
        = rd (GroupStudies.cell_net con cfg g t lv (step + 1)).C_node_act GroupStudies.CAT
      ∧ (GroupStudies.sweep con cfg m).acts.ACT_CR lv step g t
        = rd (GroupStudies.cell_net con cfg g t lv (step + 1)).C_node_act GroupStudies.DOG
      ∧ (GroupStudies.sweep con cfg m).acts.ACT_LT lv step g t
        = rd (GroupStudies.cell_net con cfg g t lv (step + 1)).L_node_act GroupStudies.CAT
      ∧ (GroupStudies.sweep con cfg m).acts.ACT_LR lv step g t
        = rd (GroupStudies.cell_net con cfg g t lv (step + 1)).L_node_act GroupStudies.DOG
      ∧ (GroupStudies.sweep con cfg m).acts.ACT_ST lv step g t
        = rd (GroupStudies.cell_net con cfg g t lv (step + 1)).S_node_act GroupStudies.sKAT
      ∧ (GroupStudies.sweep con cfg m).acts.ACT_SR lv step g t
        = rd (GroupStudies.cell_net con cfg g t lv (step + 1)).S_node_act GroupStudies.sMAT :=
  series_values _ lv g t _ _ _ _ _ (group_sweep_cell_series con cfg m lv g t hlv hg ht) step hstep

theorem cluster_sweep_values (con : Conn) (cfg : Settings) (m : Machine Clusters.Lesion)
    (lv g t step : Nat) (hlv : lv < N_lesion_values) (hg : g < Clusters.N_GROUPs)
    (ht : t < N_TASKs) (hstep : step < N_STEPs) :
    (Clusters.sweep con cfg m).acts.ACT_C lv step g t
        = rd (Clusters.cell_net con cfg g t lv (step + 1)).C_node_act FiveWord.CAT
      ∧ (Clusters.sweep con cfg m).acts.ACT_S lv step g t
        = rd (Clusters.cell_net con cfg g t lv (step + 1)).S_node_act FiveWord.CAT
      ∧ (Clusters.sweep con cfg m).acts.ACT_CT lv step g t
        = rd (Clusters.cell_net con cfg g t lv (step + 1)).C_node_act FiveWord.CAT
      ∧ (Clusters.sweep con cfg m).acts.ACT_CR lv step g t
        = rd (Clusters.cell_net con cfg g t lv (step + 1)).C_node_act FiveWord.DOG
      ∧ (Clusters.sweep con cfg m).acts.ACT_LT lv step g t
        = rd (Clusters.cell_net con cfg g t lv (step + 1)).L_node_act FiveWord.CAT
      ∧ (Clusters.sweep con cfg m).acts.ACT_LR lv step g t
        = rd (Clusters.cell_net con cfg g t lv (step + 1)).L_node_act FiveWord.DOG
      ∧ (Clusters.sweep con cfg m).acts.ACT_ST lv step g t
        = rd (Clusters.cell_net con cfg g t lv (step + 1)).S_node_act FiveWord.CAT
      ∧ (Clusters.sweep con cfg m).acts.ACT_SR lv step g t
        = rd (Clusters.cell_net con cfg g t lv (step + 1)).S_node_act FiveWord.MAT :=
  series_values _ lv g t _ _ _ _ _ (cluster_sweep_cell_series con cfg m lv g t hlv hg ht) step
    hstep

theorem case_sweep_values (con : Conn) (cfg : Settings) (m : Machine Cases.Lesion)
    (lv g t step : Nat) (hlv : lv < N_lesion_values) (hg : g < Cases.N_ASSESSMENTs)
    (ht : t < N_TASKs) (hstep : step < N_STEPs) :
    (Cases.sweep con cfg m).acts.ACT_C lv step g t
        = rd (Cases.cell_net con cfg g t lv (step + 1)).C_node_act FiveWord.CAT
      ∧ (Cases.sweep con cfg m).acts.ACT_S lv step g t
        = rd (Cases.cell_net con cfg g t lv (step + 1)).S_node_act FiveWord.CAT
      ∧ (Cases.sweep con cfg m).acts.ACT_CT lv step g t
        = rd (Cases.cell_net con cfg g t lv (step + 1)).C_node_act FiveWord.CAT
      ∧ (Cases.sweep con cfg m).acts.ACT_CR lv step g t
        = rd (Cases.cell_net con cfg g t lv (step + 1)).C_node_act FiveWord.DOG
      ∧ (Cases.sweep con cfg m).acts.ACT_LT lv step g t
        = rd (Cases.cell_net con cfg g t lv (step + 1)).L_node_act FiveWord.CAT
      ∧ (Cases.sweep con cfg m).acts.ACT_LR lv step g t
        = rd (Cases.cell_net con cfg g t lv (step + 1)).L_node_act FiveWord.DOG
      ∧ (Cases.sweep con cfg m).acts.ACT_ST lv step g t
        = rd (Cases.cell_net con cfg g t lv (step + 1)).S_node_act FiveWord.CAT
      ∧ (Cases.sweep con cfg m).acts.ACT_SR lv step g t
        = rd (Cases.cell_net con cfg g t lv (step + 1)).S_node_act FiveWord.MAT :=
  series_values _ lv g t _ _ _ _ _ (case_sweep_cell_series con cfg m lv g t hlv hg ht) step hstep

theorem mean_syllables (r : Recorded) (lv g t : Nat) :
    (compute_activation_results r).MEAN_ACT_ST lv g t
        - (compute_activation_results r).MEAN_ACT_SR lv g t
      = (∑ i in Finset.range N_STEPs, (r.ACT_ST lv i g t - r.ACT_SR lv i g t)) / (N_STEPs : ℚ) := by
  obtain ⟨_, _, h3, h4⟩ := mean_eq_series_mean r lv g t
  rw [h3, h4, series_mean, series_mean, Finset.sum_sub_distrib, sub_div]

/-! ## Total output block at maximal damage (C30) -/

theorem case_patient_rates_zero (DECAY_LESION : Bool) (a : Nat) (ha : a ≠ NORMAL) :
    (Cases.rates (Cases.set_aphasic_parameters (main_settings true DECAY_LESION) a 0)).kLM = 0
      ∧ (Cases.rates
          (Cases.set_aphasic_parameters (main_settings true DECAY_LESION) a 0)).kiMM = 0
      ∧ (Cases.rates
          (Cases.set_aphasic_parameters (main_settings true DECAY_LESION) a 0)).kMP = 0
      ∧ (Cases.rates
          (Cases.set_aphasic_parameters (main_settings true DECAY_LESION) a 0)).kPPo = 0 := by
  have e : (Cases.set_aphasic_parameters (main_settings true DECAY_LESION)
      a 0).CONNECTION_DECREASE_LOGOPENIC = 0 := by
    have w := rd_weight_grid DECAY_LESION 0 (by decide)
    have : (Cases.set_aphasic_parameters (main_settings true DECAY_LESION)
        a 0).CONNECTION_DECREASE_LOGOPENIC
          = rd (main_settings true DECAY_LESION).WEIGHT_value 0 := by
      simp [Cases.set_aphasic_parameters, ha, main_settings]
    rw [this, w]
    norm_num
  simp only [Cases.rates, e, mul_zero, and_self]

theorem case_output_zero (con : Conn) (DECAY_LESION : Bool) (a t n : Nat) (ha : a ≠ NORMAL) :
    OutputZero FiveWord.sizes
      (Cases.cell_net con (main_settings true DECAY_LESION) a t 0 n) := by
  obtain ⟨k1, k2, k3, k4⟩ := case_patient_rates_zero DECAY_LESION a ha
  rw [case_cell_net_with]
  exact traj_output_zero (case_traj EXTIN con _ a t 0) k1 k2 k3 k4 n

/-- C30.  In the single-case program in weight-lesion mode, for every patient
(`assessment != NORMAL`) at severity index `0` (weight factor `0.0`) and every task, after
every number `n` of update steps all output-morpheme, output-phoneme and syllable
activations are `0.0`; the recorded syllable target and foil are `0.0` at every step, the
patient's target-minus-foil contrast of the syllable means is `0`, and the simulated naming
and repetition scores assigned to `SIM_DATA` are `0` (a quotient of `0` by the control
contrast, times `100`). -/
theorem output_block_at_maximal_damage :
    (∀ (con : Conn) (DECAY_LESION : Bool) (a t n : Nat), a ≠ NORMAL →
      OutputZero FiveWord.sizes (Cases.cell_net con (main_settings true DECAY_LESION) a t 0 n))
    ∧ (∀ (con : Conn) (DECAY_LESION : Bool) (m : Machine Cases.Lesion) (a t step : Nat),
      a ≠ NORMAL → a < Cases.N_ASSESSMENTs → t < N_TASKs → step < N_STEPs →
      (Cases.sweep con (main_settings true DECAY_LESION) m).acts.ACT_ST 0 step a t = 0
        ∧ (Cases.sweep con (main_settings true DECAY_LESION) m).acts.ACT_SR 0 step a t = 0)
    ∧ (∀ (con : Conn) (DECAY_LESION : Bool) (m : Machine Cases.Lesion) (a t : Nat),
      a ≠ NORMAL → a < Cases.N_ASSESSMENTs → t < N_TASKs →
      (compute_activation_results
            (Cases.sweep con (main_settings true DECAY_LESION) m).acts).MEAN_ACT_ST 0 a t
          - (compute_activation_results
            (Cases.sweep con (main_settings true DECAY_LESION) m).acts).MEAN_ACT_SR 0 a t = 0)
    ∧ (∀ (con : Conn) (DECAY_LESION : Bool) (m : Machine Cases.Lesion)
        (REAL_DATA : List (List ℚ)) (f : FitState) (a : Nat),
      a ≠ NORMAL → a < Cases.N_ASSESSMENTs →
      (fit_body (main_settings true DECAY_LESION)
          (compute_activation_results (Cases.sweep con (main_settings true DECAY_LESION) m).acts)
          REAL_DATA a 0 f).SIM_DATA a NAMING = 0
        ∧ (fit_body (main_settings true DECAY_LESION)
          (compute_activation_results (Cases.sweep con (main_settings true DECAY_LESION) m).acts)
          REAL_DATA a 0 f).SIM_DATA a REPETITION = 0) := by
  have rec : ∀ (con : Conn) (DECAY_LESION : Bool) (m : Machine Cases.Lesion) (a t step : Nat),
      a ≠ NORMAL → a < Cases.N_ASSESSMENTs → t < N_TASKs → step < N_STEPs →
      (Cases.sweep con (main_settings true DECAY_LESION) m).acts.ACT_ST 0 step a t = 0
        ∧ (Cases.sweep con (main_settings true DECAY_LESION) m).acts.ACT_SR 0 step a t = 0 := by
    intro con dl m a t step ha ha2 ht hstep
    obtain ⟨_, _, _, _, _, _, h7, h8⟩ :=
      case_sweep_values con (main_settings true dl) m 0 a t step (by decide) ha2 ht hstep
    obtain ⟨_, _, z3⟩ := case_output_zero con dl a t (step + 1) ha
    rw [h7, h8]
    exact ⟨z3 FiveWord.CAT (by decide), z3 FiveWord.MAT (by decide)⟩
  have mean : ∀ (con : Conn) (DECAY_LESION : Bool) (m : Machine Cases.Lesion) (a t : Nat),
      a ≠ NORMAL → a < Cases.N_ASSESSMENTs → t < N_TASKs →
      (compute_activation_results
            (Cases.sweep con (main_settings true DECAY_LESION) m).acts).MEAN_ACT_ST 0 a t
          - (compute_activation_results
            (Cases.sweep con (main_settings true DECAY_LESION) m).acts).MEAN_ACT_SR 0 a t
        = 0 := by
    intro con dl m a t ha ha2 ht
    rw [mean_syllables]
    have z : ∑ i in Finset.range N_STEPs,
        ((Cases.sweep con (main_settings true dl) m).acts.ACT_ST 0 i a t
          - (Cases.sweep con (main_settings true dl) m).acts.ACT_SR 0 i a t) = 0 := by
      apply Finset.sum_eq_zero
      intro i hi
      obtain ⟨e1, e2⟩ := rec con dl m a t i ha ha2 ht (Finset.mem_range.mp hi)
      rw [e1, e2, sub_zero]
    rw [z, zero_div]
  refine ⟨fun con dl a t n ha => case_output_zero con dl a t n ha, rec, mean,
    fun con dl m REAL_DATA f a ha ha2 => ?_⟩
  obtain ⟨h1, _, h3⟩ := fit_body_sim (main_settings true dl)
    (compute_activation_results (Cases.sweep con (main_settings true dl) m).acts) REAL_DATA a 0 f
  rw [h1, h3]
  have e1 := mean con dl m a NAMING ha ha2 (by decide)
  have e3 := mean con dl m a REPETITION ha ha2 (by decide)
  refine ⟨?_, ?_⟩
  · show _ / _ * 100 = 0
    rw [e1, zero_div, zero_mul]
  · show _ / _ * 100 = 0
    rw [e3, zero_div, zero_mul]

/-- C30 at a concrete input: patient `7` of the single-case program as compiled; the score
assigned for naming at severity index `0` is `0`. -/
theorem output_block_at_maximal_damage_witness :
    (fit_body (main_settings true false)
        (compute_activation_results
          (Cases.sweep FiveWord.scaled_con (main_settings true false) Cases.initial_machine).acts)
        Cases.REAL_DATA 7 0 initial_fit).SIM_DATA 7 NAMING = 0 :=
  (output_block_at_maximal_damage.2.2.2 FiveWord.scaled_con false Cases.initial_machine
    Cases.REAL_DATA initial_fit 7 (by decide) (by decide)).1


/-! ## Linearity in the external drive (C29) -/

theorem group_sweep_with (con : Conn) (cfg : Settings) (m : Machine GroupStudies.Lesion) :
    GroupStudies.sweep con cfg m = GroupStudies.sweep_with EXTIN con cfg m := rfl

theorem cluster_sweep_with (con : Conn) (cfg : Settings) (m : Machine Clusters.Lesion) :
    Clusters.sweep con cfg m = Clusters.sweep_with EXTIN con cfg m := rfl

theorem case_sweep_with (con : Conn) (cfg : Settings) (m : Machine Cases.Lesion) :
    Cases.sweep con cfg m = Cases.sweep_with EXTIN con cfg m := rfl

theorem group_simulate_cell_with_eq (extin : ℚ) (con : Conn) (cfg : Settings) :
    GroupStudies.simulate_cell_with extin con cfg
      = cell_of (fun task les T st => GroupStudies.update_network_with extin con les task T st)
          (record_of GroupStudies.CAT GroupStudies.DOG GroupStudies.sKAT GroupStudies.sMAT)
          GroupStudies.reset_network (GroupStudies.set_aphasic_parameters cfg) := rfl

theorem cluster_simulate_cell_with_eq (extin : ℚ) (con : Conn) (cfg : Settings) :
    Clusters.simulate_cell_with extin con cfg
      = cell_of (fun task les T st => Clusters.update_network_with extin con les task T st)
          (record_of FiveWord.CAT FiveWord.DOG FiveWord.CAT FiveWord.MAT)
          FiveWord.reset_network (Clusters.set_aphasic_parameters cfg) := rfl

theorem case_simulate_cell_with_eq (extin : ℚ) (con : Conn) (cfg : Settings) :
    Cases.simulate_cell_with extin con cfg
      = cell_of (fun task les T st => Cases.update_network_with extin con les task T st)
          (record_of FiveWord.CAT FiveWord.DOG FiveWord.CAT FiveWord.MAT)
          FiveWord.reset_network (Cases.set_aphasic_parameters cfg) := rfl

theorem group_update_with_after_reset (extin : ℚ) (con : Conn) (t : Nat)
    (les : GroupStudies.Lesion) (x y : Net) :
    GroupStudies.update_network_with extin con les t 0 (GroupStudies.reset_network x)
      = GroupStudies.update_network_with extin con les t 0 (GroupStudies.reset_network y) := rfl

theorem cluster_update_with_after_reset (extin : ℚ) (con : Conn) (t : Nat)
    (les : Clusters.Lesion) (x y : Net) :
    Clusters.update_network_with extin con les t 0 (FiveWord.reset_network x)
      = Clusters.update_network_with extin con les t 0 (FiveWord.reset_network y) := rfl

theorem case_update_with_after_reset (extin : ℚ) (con : Conn) (t : Nat)
    (les : Cases.Lesion) (x y : Net) :
    Cases.update_network_with extin con les t 0 (FiveWord.reset_network x)
      = Cases.update_network_with extin con les t 0 (FiveWord.reset_network y) := rfl

theorem group_sweep_with_series (extin : ℚ) (con : Conn) (cfg : Settings)
    (m : Machine GroupStudies.Lesion) (lv g t : Nat) (hlv : lv < N_lesion_values)
    (hg : g < GroupStudies.N_GROUPs) (ht : t < N_TASKs) :
    series (GroupStudies.sweep_with extin con cfg m).acts lv g t
      = (List.range N_STEPs).map fun step =>
          critical_values GroupStudies.CAT GroupStudies.DOG GroupStudies.sKAT GroupStudies.sMAT
            (GroupStudies.cell_net_with extin con cfg g t lv (step + 1)) := by
  rw [GroupStudies.sweep_with, group_simulate_cell_with_eq]
  exact sweep_series _ _ _ _ _ _ _ (group_update_with_after_reset extin con) _ _ m lv g t hlv
    hg ht

theorem cluster_sweep_with_series (extin : ℚ) (con : Conn) (cfg : Settings)
    (m : Machine Clusters.Lesion) (lv g t : Nat) (hlv : lv < N_lesion_values)
    (hg : g < Clusters.N_GROUPs) (ht : t < N_TASKs) :
    series (Clusters.sweep_with extin con cfg m).acts lv g t
      = (List.range N_STEPs).map fun step =>
          critical_values FiveWord.CAT FiveWord.DOG FiveWord.CAT FiveWord.MAT
            (Clusters.cell_net_with extin con cfg g t lv (step + 1)) := by
  rw [Clusters.sweep_with, cluster_simulate_cell_with_eq]
  exact sweep_series _ _ _ _ _ _ _ (cluster_update_with_after_reset extin con) _ _ m lv g t hlv
    hg ht

theorem case_sweep_with_series (extin : ℚ) (con : Conn) (cfg : Settings)
    (m : Machine Cases.Lesion) (lv g t : Nat) (hlv : lv < N_lesion_values)
    (hg : g < Cases.N_ASSESSMENTs) (ht : t < N_TASKs) :
    series (Cases.sweep_with extin con cfg m).acts lv g t
      = (List.range N_STEPs).map fun step =>
          critical_values FiveWord.CAT FiveWord.DOG FiveWord.CAT FiveWord.MAT
            (Cases.cell_net_with extin con cfg g t lv (step + 1)) := by
  rw [Cases.sweep_with, case_simulate_cell_with_eq]
  exact sweep_series _ _ _ _ _ _ _ (case_update_with_after_reset extin con) _ _ m lv g t hlv
    hg ht

theorem group_sweep_with_values (extin : ℚ) (con : Conn) (cfg : Settings)
    (m : Machine GroupStudies.Lesion) (lv g t step : Nat) (hlv : lv < N_lesion_values)
    (hg : g < GroupStudies.N_GROUPs) (ht : t < N_TASKs) (hstep : step < N_STEPs) :
    (GroupStudies.sweep_with extin con cfg m).acts.ACT_C lv step g t
        = rd (GroupStudies.cell_net_with extin con cfg g t lv (step + 1)).C_node_act
            GroupStudies.CAT
      ∧ (GroupStudies.sweep_with extin con cfg m).acts.ACT_S lv step g t
        = rd (GroupStudies.cell_net_with extin con cfg g t lv (step + 1)).S_node_act
            GroupStudies.CAT
      ∧ (GroupStudies.sweep_with extin con cfg m).acts.ACT_CT lv step g t
        = rd (GroupStudies.cell_net_with extin con cfg g t lv (step + 1)).C_node_act
            GroupStudies.CAT
      ∧ (GroupStudies.sweep_with extin con cfg m).acts.ACT_CR lv step g t
        = rd (GroupStudies.cell_net_with extin con cfg g t lv (step + 1)).C_node_act
            GroupStudies.DOG
      ∧ (GroupStudies.sweep_with extin con cfg m).acts.ACT_LT lv step g t
        = rd (GroupStudies.cell_net_with extin con cfg g t lv (step + 1)).L_node_act
            GroupStudies.CAT
      ∧ (GroupStudies.sweep_with extin con cfg m).acts.ACT_LR lv step g t
        = rd (GroupStudies.cell_net_with extin con cfg g t lv (step + 1)).L_node_act
            GroupStudies.DOG
      ∧ (GroupStudies.sweep_with extin con cfg m).acts.ACT_ST lv step g t
        = rd (GroupStudies.cell_net_with extin con cfg g t lv (step + 1)).S_node_act
            GroupStudies.sKAT
      ∧ (GroupStudies.sweep_with extin con cfg m).acts.ACT_SR lv step g t
        = rd (GroupStudies.cell_net_with extin con cfg g t lv (step + 1)).S_node_act
            GroupStudies.sMAT :=
  series_values _ lv g t _ _ _ _ _ (group_sweep_with_series extin con cfg m lv g t hlv hg ht)
    step hstep

theorem cluster_sweep_with_values (extin : ℚ) (con : Conn) (cfg : Settings)
    (m : Machine Clusters.Lesion) (lv g t step : Nat) (hlv : lv < N_lesion_values)
    (hg : g < Clusters.N_GROUPs) (ht : t < N_TASKs) (hstep : step < N_STEPs) :
    (Clusters.sweep_with extin con cfg m).acts.ACT_C lv step g t
        = rd (Clusters.cell_net_with extin con cfg g t lv (step + 1)).C_node_act FiveWord.CAT
      ∧ (Clusters.sweep_with extin con cfg m).acts.ACT_S lv step g t
        = rd (Clusters.cell_net_with extin con cfg g t lv (step + 1)).S_node_act FiveWord.CAT
      ∧ (Clusters.sweep_with extin con cfg m).acts.ACT_CT lv step g t
        = rd (Clusters.cell_net_with extin con cfg g t lv (step + 1)).C_node_act FiveWord.CAT
      ∧ (Clusters.sweep_with extin con cfg m).acts.ACT_CR lv step g t
        = rd (Clusters.cell_net_with extin con cfg g t lv (step + 1)).C_node_act FiveWord.DOG
      ∧ (Clusters.sweep_with extin con cfg m).acts.ACT_LT lv step g t
        = rd (Clusters.cell_net_with extin con cfg g t lv (step + 1)).L_node_act FiveWord.CAT
      ∧ (Clusters.sweep_with extin con cfg m).acts.ACT_LR lv step g t
        = rd (Clusters.cell_net_with extin con cfg g t lv (step + 1)).L_node_act FiveWord.DOG
      ∧ (Clusters.sweep_with extin con cfg m).acts.ACT_ST lv step g t
        = rd (Clusters.cell_net_with extin con cfg g t lv (step + 1)).S_node_act FiveWord.CAT
      ∧ (Clusters.sweep_with extin con cfg m).acts.ACT_SR lv step g t
        = rd (Clusters.cell_net_with extin con cfg g t lv (step + 1)).S_node_act FiveWord.MAT :=
  series_values _ lv g t _ _ _ _ _ (cluster_sweep_with_series extin con cfg m lv g t hlv hg ht)
    step hstep

theorem case_sweep_with_values (extin : ℚ) (con : Conn) (cfg : Settings)
    (m : Machine Cases.Lesion) (lv g t step : Nat) (hlv : lv < N_lesion_values)
    (hg : g < Cases.N_ASSESSMENTs) (ht : t < N_TASKs) (hstep : step < N_STEPs) :
    (Cases.sweep_with extin con cfg m).acts.ACT_C lv step g t
        = rd (Cases.cell_net_with extin con cfg g t lv (step + 1)).C_node_act FiveWord.CAT
      ∧ (Cases.sweep_with extin con cfg m).acts.ACT_S lv step g t
        = rd (Cases.cell_net_with extin con cfg g t lv (step + 1)).S_node_act FiveWord.CAT
      ∧ (Cases.sweep_with extin con cfg m).acts.ACT_CT lv step g t
        = rd (Cases.cell_net_with extin con cfg g t lv (step + 1)).C_node_act FiveWord.CAT
      ∧ (Cases.sweep_with extin con cfg m).acts.ACT_CR lv step g t
        = rd (Cases.cell_net_with extin con cfg g t lv (step + 1)).C_node_act FiveWord.DOG
      ∧ (Cases.sweep_with extin con cfg m).acts.ACT_LT lv step g t
        = rd (Cases.cell_net_with extin con cfg g t lv (step + 1)).L_node_act FiveWord.CAT
      ∧ (Cases.sweep_with extin con cfg m).acts.ACT_LR lv step g t
        = rd (Cases.cell_net_with extin con cfg g t lv (step + 1)).L_node_act FiveWord.DOG
      ∧ (Cases.sweep_with extin con cfg m).acts.ACT_ST lv step g t
        = rd (Cases.cell_net_with extin con cfg g t lv (step + 1)).S_node_act FiveWord.CAT
      ∧ (Cases.sweep_with extin con cfg m).acts.ACT_SR lv step g t
        = rd (Cases.cell_net_with extin con cfg g t lv (step + 1)).S_node_act FiveWord.MAT :=
  series_values _ lv g t _ _ _ _ _ (case_sweep_with_series extin con cfg m lv g t hlv hg ht)
    step hstep

theorem rd_scale_zero (n : Nat) (c : ℚ) :
    ∀ i, rd (tabulate n fun _ => (0 : ℚ)) i = c * rd (tabulate n fun _ => (0 : ℚ)) i := by
  intro i
  rw [rd_tabulate_zero, mul_zero]

theorem rd_scale_add_at {n : Nat} {a a1 : List ℚ} {k : Nat} {v v1 c : ℚ}
    (ha : ∀ i, rd a1 i = c * rd a i) (hv : v1 = c * v) :
    ∀ i, rd (add_at n a1 k v1) i = c * rd (add_at n a k v) i := by
  intro i
  rcases Nat.lt_or_ge i n with h | h
  · rw [rd_add_at h, rd_add_at h]
    split_ifs
    · rw [ha i, hv]; ring
    · exact ha i
  · rw [rd_add_at_of_le h, rd_add_at_of_le h, mul_zero]

theorem rd_scale_ite {p : Prop} [Decidable p] {a a1 b b1 : List ℚ} {c : ℚ}
    (ha : ∀ i, rd a1 i = c * rd a i) (hb : ∀ i, rd b1 i = c * rd b i) :
    ∀ i, rd (if p then a1 else b1) i = c * rd (if p then a else b) i := by
  split_ifs
  · exact ha
  · exact hb

theorem five_word_get_external_scale (extin c : ℚ) (task : Nat) (T : Int) (st st1 : Net)
    (hC : ∀ i, rd st1.input_C i = c * rd st.input_C i)
    (hP : ∀ i, rd st1.input_iP i = c * rd st.input_iP i) :
    (∀ i, rd (FiveWord.get_external_input_with (c * extin) task T st1).input_C i
        = c * rd (FiveWord.get_external_input_with extin task T st).input_C i)
      ∧ (∀ i, rd (FiveWord.get_external_input_with (c * extin) task T st1).input_iP i
        = c * rd (FiveWord.get_external_input_with extin task T st).input_iP i) := by
  have c1 := rd_scale_ite (p := T ≥ 0 ∧ T < PICTURE_DURATION)
    (rd_scale_add_at (n := FiveWord.N_CONCEPTs) (k := FiveWord.CAT) hC
      (rfl : c * extin = c * extin)) hC
  have c2 := rd_scale_ite (p := T ≥ 0 + 1 * CYCLE_TIME ∧ T < 1 * CYCLE_TIME + PICTURE_DURATION)
    (rd_scale_add_at (n := FiveWord.N_CONCEPTs) (k := FiveWord.CAT) c1
      (rfl : c * extin = c * extin)) c1
  have p1 := rd_scale_ite (p := 0 ≤ T ∧ T < SEGMENT_DURATION)
    (rd_scale_add_at (n := FiveWord.N_PHONEMEs) (k := FiveWord.pK) hP
      (rfl : c * extin = c * extin)) hP
  have p2 := rd_scale_ite (p := SEGMENT_DURATION ≤ T ∧ T < 2 * SEGMENT_DURATION)
    (rd_scale_add_at (n := FiveWord.N_PHONEMEs) (k := FiveWord.pE) p1
      (rfl : c * extin = c * extin)) p1
  have p3 := rd_scale_ite (p := 2 * SEGMENT_DURATION ≤ T ∧ T < 3 * SEGMENT_DURATION)
    (rd_scale_add_at (n := FiveWord.N_PHONEMEs) (k := FiveWord.pT) p2
      (rfl : c * extin = c * extin)) p2
  by_cases h1 : task = NAMING <;> by_cases h2 : task = COMPREHENSION ∨ task = REPETITION
  · simp only [FiveWord.get_external_input_with, if_pos h1, if_pos h2]
    exact ⟨c2, p3⟩
  · simp only [FiveWord.get_external_input_with, if_pos h1, if_neg h2]
    exact ⟨c2, hP⟩
  · simp only [FiveWord.get_external_input_with, if_neg h1, if_pos h2]
    exact ⟨hC, p3⟩
  · simp only [FiveWord.get_external_input_with, if_neg h1, if_neg h2]
    exact ⟨hC, hP⟩

theorem group_get_external_scale (extin c : ℚ) (les : GroupStudies.Lesion) (task : Nat)
    (T : Int) (st st1 : Net) (hC : ∀ i, rd st1.input_C i = c * rd st.input_C i)
    (hP : ∀ i, rd st1.input_iP i = c * rd st.input_iP i) :
    (∀ i, rd (GroupStudies.get_external_input_with (c * extin) les task T st1).input_C i
        = c * rd (GroupStudies.get_external_input_with extin les task T st).input_C i)
      ∧ (∀ i, rd (GroupStudies.get_external_input_with (c * extin) les task T st1).input_iP i
        = c * rd (GroupStudies.get_external_input_with extin les task T st).input_iP i) := by
  have hm : les.CONNECTION_DECREASE_SEMANTIC_DEMENTIA * (c * extin)
      = c * (les.CONNECTION_DECREASE_SEMANTIC_DEMENTIA * extin) := by ring
  have c1 := rd_scale_ite (p := T ≥ 0 ∧ T < PICTURE_DURATION)
    (rd_scale_add_at (n := GroupStudies.N_CONCEPTs) (k := GroupStudies.CAT) hC hm) hC
  have c2 := rd_scale_ite (p := T ≥ 0 + 1 * CYCLE_TIME ∧ T < 1 * CYCLE_TIME + PICTURE_DURATION)
    (rd_scale_add_at (n := GroupStudies.N_CONCEPTs) (k := GroupStudies.CAT) c1
      (rfl : c * extin = c * extin)) c1
  have p1 := rd_scale_ite (p := 0 ≤ T ∧ T < SEGMENT_DURATION)
    (rd_scale_add_at (n := GroupStudies.N_PHONEMEs) (k := GroupStudies.pK) hP
      (rfl : c * extin = c * extin)) hP
  have p2 := rd_scale_ite (p := SEGMENT_DURATION ≤ T ∧ T < 2 * SEGMENT_DURATION)
    (rd_scale_add_at (n := GroupStudies.N_PHONEMEs) (k := GroupStudies.pA) p1
      (rfl : c * extin = c * extin)) p1
  have p3 := rd_scale_ite (p := 2 * SEGMENT_DURATION ≤ T ∧ T < 3 * SEGMENT_DURATION)
    (rd_scale_add_at (n := GroupStudies.N_PHONEMEs) (k := GroupStudies.pT) p2
      (rfl : c * extin = c * extin)) p2
  by_cases h1 : task = NAMING <;> by_cases h2 : task = COMPREHENSION ∨ task = REPETITION
  · simp only [GroupStudies.get_external_input_with, if_pos h1, if_pos h2]
    exact ⟨c2, p3⟩
  · simp only [GroupStudies.get_external_input_with, if_pos h1, if_neg h2]
    exact ⟨c2, hP⟩
  · simp only [GroupStudies.get_external_input_with, if_neg h1, if_pos h2]
    exact ⟨hC, p3⟩
  · simp only [GroupStudies.get_external_input_with, if_neg h1, if_neg h2]
    exact ⟨hC, hP⟩

theorem five_word_external_scale (extin c : ℚ) (task n i : Nat) :
    FiveWord.external_C (c * extin) task n i = c * FiveWord.external_C extin task n i
      ∧ FiveWord.external_iP (c * extin) task n i
        = c * FiveWord.external_iP extin task n i := by
  obtain ⟨h1, h2⟩ := five_word_get_external_scale extin c task ((STEP_SIZE * n : Nat) : Int)
    (FiveWord.set_input_to_zero FiveWord.initial_net)
    (FiveWord.set_input_to_zero FiveWord.initial_net) (rd_scale_zero FiveWord.N_CONCEPTs c)
    (rd_scale_zero FiveWord.N_PHONEMEs c)
  exact ⟨h1 i, h2 i⟩

theorem group_external_scale (extin c : ℚ) (les : GroupStudies.Lesion) (task n i : Nat) :
    GroupStudies.external_C (c * extin) les task n i
        = c * GroupStudies.external_C extin les task n i
      ∧ GroupStudies.external_iP (c * extin) les task n i
        = c * GroupStudies.external_iP extin les task n i := by
  obtain ⟨h1, h2⟩ := group_get_external_scale extin c les task ((STEP_SIZE * n : Nat) : Int)
    (GroupStudies.set_input_to_zero GroupStudies.initial_net)
    (GroupStudies.set_input_to_zero GroupStudies.initial_net)
    (rd_scale_zero GroupStudies.N_CONCEPTs c) (rd_scale_zero GroupStudies.N_PHONEMEs c)
  exact ⟨h1 i, h2 i⟩

theorem group_cell_net_scale (extin c : ℚ) (con : Conn) (cfg : Settings) (g t lv n : Nat) :
    ScaledNet GroupStudies.sizes c (GroupStudies.cell_net_with extin con cfg g t lv n)
      (GroupStudies.cell_net_with (c * extin) con cfg g t lv n) :=
  traj_scale (group_traj extin con cfg g t lv) (group_traj (c * extin) con cfg g t lv)
    (fun n i => (group_external_scale extin c _ t n i).1)
    (fun n i => (group_external_scale extin c _ t n i).2) n

theorem cluster_cell_net_scale (extin c : ℚ) (con : Conn) (cfg : Settings) (g t lv n : Nat) :
    ScaledNet FiveWord.sizes c (Clusters.cell_net_with extin con cfg g t lv n)
      (Clusters.cell_net_with (c * extin) con cfg g t lv n) :=
  traj_scale (cluster_traj extin con cfg g t lv) (cluster_traj (c * extin) con cfg g t lv)
    (fun n i => (five_word_external_scale extin c t n i).1)
    (fun n i => (five_word_external_scale extin c t n i).2) n

theorem case_cell_net_scale (extin c : ℚ) (con : Conn) (cfg : Settings) (g t lv n : Nat) :
    ScaledNet FiveWord.sizes c (Cases.cell_net_with extin con cfg g t lv n)
      (Cases.cell_net_with (c * extin) con cfg g t lv n) :=
  traj_scale (case_traj extin con cfg g t lv) (case_traj (c * extin) con cfg g t lv)
    (fun n i => (five_word_external_scale extin c t n i).1)
    (fun n i => (five_word_external_scale extin c t n i).2) n

theorem series_mean_scale (A A1 : Arr4) (c : ℚ) (lv g t : Nat)
    (h : ∀ step, step < N_STEPs → A1 lv step g t = c * A lv step g t) :
    series_mean A1 lv g t = c * series_mean A lv g t := by
  unfold series_mean
  have e : ∑ i in Finset.range N_STEPs, A1 lv i g t
      = c * ∑ i in Finset.range N_STEPs, A lv i g t := by
    rw [Finset.mul_sum]
    exact Finset.sum_congr rfl fun i hi => h i (Finset.mem_range.mp hi)
  rw [e, mul_div_assoc]

theorem quotient_scale (c a b a0 b0 : ℚ) (hc : c ≠ 0) :
    (c * a - c * b) / (c * a0 - c * b0) * 100 = (a - b) / (a0 - b0) * 100 := by
  rw [← mul_sub, ← mul_sub, mul_div_mul_left _ _ hc]

theorem sim_score_scale (r r1 : Recorded) (c : ℚ) (hc : c ≠ 0) (g lv : Nat)
    (h : ∀ t step, t < N_TASKs → step < N_STEPs →
      ScaledRecorded c r r1 lv step g t ∧ ScaledRecorded c r r1 lv step NORMAL t)
    (t : Nat) :
    sim_score (compute_activation_results r1) g lv t
      = sim_score (compute_activation_results r) g lv t := by
  have m : ∀ t g1, t < N_TASKs →
      (∀ step, step < N_STEPs → ScaledRecorded c r r1 lv step g1 t) →
      (compute_activation_results r1).MEAN_ACT_CT lv g1 t
          = c * (compute_activation_results r).MEAN_ACT_CT lv g1 t
        ∧ (compute_activation_results r1).MEAN_ACT_CR lv g1 t
          = c * (compute_activation_results r).MEAN_ACT_CR lv g1 t
        ∧ (compute_activation_results r1).MEAN_ACT_ST lv g1 t
          = c * (compute_activation_results r).MEAN_ACT_ST lv g1 t
        ∧ (compute_activation_results r1).MEAN_ACT_SR lv g1 t
          = c * (compute_activation_results r).MEAN_ACT_SR lv g1 t := by
    intro t g1 _ hs
    obtain ⟨a1, a2, a3, a4⟩ := mean_eq_series_mean r lv g1 t
    obtain ⟨b1, b2, b3, b4⟩ := mean_eq_series_mean r1 lv g1 t
    rw [a1, a2, a3, a4, b1, b2, b3, b4]
    exact ⟨series_mean_scale _ _ c lv g1 t fun step hstep => (hs step hstep).2.2.1,
      series_mean_scale _ _ c lv g1 t fun step hstep => (hs step hstep).2.2.2.1,
      series_mean_scale _ _ c lv g1 t fun step hstep => (hs step hstep).2.2.2.2.2.2.1,
      series_mean_scale _ _ c lv g1 t fun step hstep => (hs step hstep).2.2.2.2.2.2.2⟩
  have mg := fun t (ht : t < N_TASKs) => m t g ht fun step hstep => (h t step ht hstep).1
  have mn := fun t (ht : t < N_TASKs) => m t NORMAL ht fun step hstep => (h t step ht hstep).2
  unfold sim_score
  split_ifs
  · obtain ⟨_, _, g3, g4⟩ := mg NAMING (by decide)
    obtain ⟨_, _, n3, n4⟩ := mn NAMING (by decide)
    rw [g3, g4, n3, n4]
    exact quotient_scale c _ _ _ _ hc
  · obtain ⟨g1, g2, _, _⟩ := mg COMPREHENSION (by decide)
    obtain ⟨n1, n2, _, _⟩ := mn COMPREHENSION (by decide)
    rw [g1, g2, n1, n2]
    exact quotient_scale c _ _ _ _ hc
  · obtain ⟨_, _, g3, g4⟩ := mg REPETITION (by decide)
    obtain ⟨_, _, n3, n4⟩ := mn REPETITION (by decide)
    rw [g3, g4, n3, n4]
    exact quotient_scale c _ _ _ _ hc

theorem group_recorded_scale (c : ℚ) (con : Conn) (cfg : Settings)
    (m m1 : Machine GroupStudies.Lesion) (lv g t step : Nat) (hlv : lv < N_lesion_values)
    (hg : g < GroupStudies.N_GROUPs) (ht : t < N_TASKs) (hstep : step < N_STEPs) :
    ScaledRecorded c (GroupStudies.sweep con cfg m).acts
      (GroupStudies.sweep_with (c * EXTIN) con cfg m1).acts lv step g t := by
  obtain ⟨a1, a2, a3, a4, a5, a6, a7, a8⟩ :=
    group_sweep_with_values EXTIN con cfg m lv g t step hlv hg ht hstep
  obtain ⟨b1, b2, b3, b4, b5, b6, b7, b8⟩ :=
    group_sweep_with_values (c * EXTIN) con cfg m1 lv g t step hlv hg ht hstep
  obtain ⟨s1, s2, _, _, s5, _, _⟩ := group_cell_net_scale EXTIN c con cfg g t lv (step + 1)
  rw [group_sweep_with]
  unfold ScaledRecorded
  rw [a1, a2, a3, a4, a5, a6, a7, a8, b1, b2, b3, b4, b5, b6, b7, b8]
  exact ⟨s1 _ (by decide), s5 _ (by decide), s1 _ (by decide), s1 _ (by decide),
    s2 _ (by decide), s2 _ (by decide), s5 _ (by decide), s5 _ (by decide)⟩

theorem cluster_recorded_scale (c : ℚ) (con : Conn) (cfg : Settings)
    (m m1 : Machine Clusters.Lesion) (lv g t step : Nat) (hlv : lv < N_lesion_values)
    (hg : g < Clusters.N_GROUPs) (ht : t < N_TASKs) (hstep : step < N_STEPs) :
    ScaledRecorded c (Clusters.sweep con cfg m).acts
      (Clusters.sweep_with (c * EXTIN) con cfg m1).acts lv step g t := by
  obtain ⟨a1, a2, a3, a4, a5, a6, a7, a8⟩ :=
    cluster_sweep_with_values EXTIN con cfg m lv g t step hlv hg ht hstep
  obtain ⟨b1, b2, b3, b4, b5, b6, b7, b8⟩ :=
    cluster_sweep_with_values (c * EXTIN) con cfg m1 lv g t step hlv hg ht hstep
  obtain ⟨s1, s2, _, _, s5, _, _⟩ := cluster_cell_net_scale EXTIN c con cfg g t lv (step + 1)
  rw [cluster_sweep_with]
  unfold ScaledRecorded
  rw [a1, a2, a3, a4, a5, a6, a7, a8, b1, b2, b3, b4, b5, b6, b7, b8]
  exact ⟨s1 _ (by decide), s5 _ (by decide), s1 _ (by decide), s1 _ (by decide),
    s2 _ (by decide), s2 _ (by decide), s5 _ (by decide), s5 _ (by decide)⟩

theorem case_recorded_scale (c : ℚ) (con : Conn) (cfg : Settings)
    (m m1 : Machine Cases.Lesion) (lv g t step : Nat) (hlv : lv < N_lesion_values)
    (hg : g < Cases.N_ASSESSMENTs) (ht : t < N_TASKs) (hstep : step < N_STEPs) :
    ScaledRecorded c (Cases.sweep con cfg m).acts
      (Cases.sweep_with (c * EXTIN) con cfg m1).acts lv step g t := by
  obtain ⟨a1, a2, a3, a4, a5, a6, a7, a8⟩ :=
    case_sweep_with_values EXTIN con cfg m lv g t step hlv hg ht hstep
  obtain ⟨b1, b2, b3, b4, b5, b6, b7, b8⟩ :=
    case_sweep_with_values (c * EXTIN) con cfg m1 lv g t step hlv hg ht hstep
  obtain ⟨s1, s2, _, _, s5, _, _⟩ := case_cell_net_scale EXTIN c con cfg g t lv (step + 1)
  rw [case_sweep_with]
  unfold ScaledRecorded
  rw [a1, a2, a3, a4, a5, a6, a7, a8, b1, b2, b3, b4, b5, b6, b7, b8]
  exact ⟨s1 _ (by decide), s5 _ (by decide), s1 _ (by decide), s1 _ (by decide),
    s2 _ (by decide), s2 _ (by decide), s5 _ (by decide), s5 _ (by decide)⟩

/-- C29.  In each of the three programs, for every factor `c`, the sweep run with the
external input magnitude `c * EXTIN` records, for every cell and at every step, `c` times the
eight critical-node activations that the program records with `EXTIN`; and for `c != 0` every
simulated score (naming, comprehension, repetition) computed from the means of the scaled
run equals the score of the program, for every group (assessment) and severity index. -/
theorem external_drive_linearity :
    (∀ (c : ℚ) (con : Conn) (cfg : Settings) (m m1 : Machine GroupStudies.Lesion)
        (lv g t step : Nat), lv < N_lesion_values → g < GroupStudies.N_GROUPs →
        t < N_TASKs → step < N_STEPs →
      ScaledRecorded c (GroupStudies.sweep con cfg m).acts
        (GroupStudies.sweep_with (c * EXTIN) con cfg m1).acts lv step g t)
    ∧ (∀ (c : ℚ) (con : Conn) (cfg : Settings) (m m1 : Machine Clusters.Lesion)
        (lv g t step : Nat), lv < N_lesion_values → g < Clusters.N_GROUPs →
        t < N_TASKs → step < N_STEPs →
      ScaledRecorded c (Clusters.sweep con cfg m).acts
        (Clusters.sweep_with (c * EXTIN) con cfg m1).acts lv step g t)
    ∧ (∀ (c : ℚ) (con : Conn) (cfg : Settings) (m m1 : Machine Cases.Lesion)
        (lv g t step : Nat), lv < N_lesion_values → g < Cases.N_ASSESSMENTs →
        t < N_TASKs → step < N_STEPs →
      ScaledRecorded c (Cases.sweep con cfg m).acts
        (Cases.sweep_with (c * EXTIN) con cfg m1).acts lv step g t)
    ∧ (∀ (c : ℚ) (con : Conn) (cfg : Settings) (m m1 : Machine GroupStudies.Lesion)
        (lv g t : Nat), c ≠ 0 → lv < N_lesion_values → g < GroupStudies.N_GROUPs →
      sim_score (compute_activation_results
          (GroupStudies.sweep_with (c * EXTIN) con cfg m1).acts) g lv t
        = sim_score (compute_activation_results (GroupStudies.sweep con cfg m).acts) g lv t)
    ∧ (∀ (c : ℚ) (con : Conn) (cfg : Settings) (m m1 : Machine Clusters.Lesion)
        (lv g t : Nat), c ≠ 0 → lv < N_lesion_values → g < Clusters.N_GROUPs →
      sim_score (compute_activation_results
          (Clusters.sweep_with (c * EXTIN) con cfg m1).acts) g lv t
        = sim_score (compute_activation_results (Clusters.sweep con cfg m).acts) g lv t)
    ∧ (∀ (c : ℚ) (con : Conn) (cfg : Settings) (m m1 : Machine Cases.Lesion)
        (lv g t : Nat), c ≠ 0 → lv < N_lesion_values → g < Cases.N_ASSESSMENTs →
      sim_score (compute_activation_results
          (Cases.sweep_with (c * EXTIN) con cfg m1).acts) g lv t
        = sim_score (compute_activation_results (Cases.sweep con cfg m).acts) g lv t) := by
  refine ⟨fun c con cfg m m1 lv g t step => group_recorded_scale c con cfg m m1 lv g t step,
    fun c con cfg m m1 lv g t step => cluster_recorded_scale c con cfg m m1 lv g t step,
    fun c con cfg m m1 lv g t step => case_recorded_scale c con cfg m m1 lv g t step,
    fun c con cfg m m1 lv g t hc hlv hg => ?_, fun c con cfg m m1 lv g t hc hlv hg => ?_,
    fun c con cfg m m1 lv g t hc hlv hg => ?_⟩
  · exact sim_score_scale _ _ c hc g lv (fun t step ht hstep =>
      ⟨group_recorded_scale c con cfg m m1 lv g t step hlv hg ht hstep,
        group_recorded_scale c con cfg m m1 lv NORMAL t step hlv (by decide) ht hstep⟩) t
  · exact sim_score_scale _ _ c hc g lv (fun t step ht hstep =>
      ⟨cluster_recorded_scale c con cfg m m1 lv g t step hlv hg ht hstep,
        cluster_recorded_scale c con cfg m m1 lv NORMAL t step hlv (by decide) ht hstep⟩) t
  · exact sim_score_scale _ _ c hc g lv (fun t step ht hstep =>
      ⟨case_recorded_scale c con cfg m m1 lv g t step hlv hg ht hstep,
        case_recorded_scale c con cfg m m1 lv NORMAL t step hlv (by decide) ht hstep⟩) t

/-- C29 at a concrete input: the single-case program as compiled with the external input
doubled; the naming score of patient `3` at severity index `50` is unchanged. -/
theorem external_drive_linearity_witness :
    sim_score (compute_activation_results
        (Cases.sweep_with (2 * EXTIN) FiveWord.scaled_con (main_settings true false)
          Cases.initial_machine).acts) 3 50 NAMING
      = sim_score (compute_activation_results
        (Cases.sweep FiveWord.scaled_con (main_settings true false)
          Cases.initial_machine).acts) 3 50 NAMING :=
  external_drive_linearity.2.2.2.2.2 2 FiveWord.scaled_con (main_settings true false)
    Cases.initial_machine Cases.initial_machine 50 3 NAMING (by norm_num) (by decide)
    (by decide)


/-! ## The cluster and the single-case program (C26) -/

theorem cluster_control_rates (cfg : Settings) (lv : Nat) :
    Clusters.rates (Clusters.set_aphasic_parameters cfg NORMAL lv)
      = Cases.rates (Cases.set_aphasic_parameters cfg NORMAL lv) := by
  rw [cluster_set_aphasic_parameters_normal, case_set_aphasic_parameters_normal]
  simp [Clusters.rates, Cases.rates]

theorem cluster_one_rates (WEIGHT_LESION : Bool) (a lv : Nat) (ha : a ≠ NORMAL) :
    Clusters.rates
        (Clusters.set_aphasic_parameters (main_settings WEIGHT_LESION false)
          Clusters.CLUSTER_1 lv)
      = Cases.rates (Cases.set_aphasic_parameters (main_settings WEIGHT_LESION false) a lv) := by
  simp [Clusters.rates, Cases.rates, Clusters.set_aphasic_parameters,
    Cases.set_aphasic_parameters, main_settings, ha, Clusters.CLUSTER_1, Clusters.CLUSTER_2,
    Clusters.CLUSTER_3]

theorem critical_values_of_equal {z : Sizes} {st st1 : Net} (h : ScaledNet z 1 st st1)
    (cat dog skat smat : Nat) (h1 : cat < z.nC) (h2 : dog < z.nC) (h3 : cat < z.nL)
    (h4 : dog < z.nL) (h5 : cat < z.nS) (h6 : skat < z.nS) (h7 : smat < z.nS) :
    critical_values cat dog skat smat st1 = critical_values cat dog skat smat st := by
  obtain ⟨s1, s2, _, _, s5, _, _⟩ := h
  unfold critical_values
  rw [s1 cat h1, s1 dog h2, s2 cat h3, s2 dog h4, s5 cat h5, s5 skat h6, s5 smat h7]
  simp only [one_mul]

theorem cluster_case_control (con : Conn) (cfg : Settings) (t lv n : Nat) :
    ScaledNet FiveWord.sizes 1 (Cases.cell_net con cfg NORMAL t lv n)
      (Clusters.cell_net con cfg NORMAL t lv n) := by
  have h1 := case_traj EXTIN con cfg NORMAL t lv
  have h2 := cluster_traj EXTIN con cfg NORMAL t lv
  rw [cluster_control_rates] at h2
  exact traj_scale h1 h2 (fun _ _ => (one_mul _).symm) (fun _ _ => (one_mul _).symm) n

theorem cluster_case_patient (con : Conn) (WEIGHT_LESION : Bool) (a t lv n : Nat)
    (ha : a ≠ NORMAL) :
    ScaledNet FiveWord.sizes 1
      (Cases.cell_net con (main_settings WEIGHT_LESION false) a t lv n)
      (Clusters.cell_net con (main_settings WEIGHT_LESION false) Clusters.CLUSTER_1 t lv n) := by
  have h1 := case_traj EXTIN con (main_settings WEIGHT_LESION false) a t lv
  have h2 := cluster_traj EXTIN con (main_settings WEIGHT_LESION false) Clusters.CLUSTER_1 t lv
  rw [cluster_one_rates WEIGHT_LESION a lv ha] at h2
  exact traj_scale h1 h2 (fun _ _ => (one_mul _).symm) (fun _ _ => (one_mul _).symm) n

/-- C26.  With the decay lesion switched off (weight-lesion mode), on the same connection
matrices, for every task and severity index the series of the eight critical-node
activations (all 80 steps) that the cluster program records for its control group equals the
series the single-case program records for the control, and the series the cluster program
records for cluster 1 equals the series the single-case program records for any patient. -/
theorem cluster_and_case_engines_agree :
    (∀ (con : Conn) (WEIGHT_LESION : Bool) (m : Machine Cases.Lesion)
        (m1 : Machine Clusters.Lesion) (lv t : Nat), lv < N_lesion_values → t < N_TASKs →
      series (Clusters.sweep con (main_settings WEIGHT_LESION false) m1).acts lv NORMAL t
        = series (Cases.sweep con (main_settings WEIGHT_LESION false) m).acts lv NORMAL t)
    ∧ (∀ (con : Conn) (WEIGHT_LESION : Bool) (m : Machine Cases.Lesion)
        (m1 : Machine Clusters.Lesion) (lv t a : Nat), lv < N_lesion_values → t < N_TASKs →
        a ≠ NORMAL → a < Cases.N_ASSESSMENTs →
      series (Clusters.sweep con (main_settings WEIGHT_LESION false) m1).acts lv
          Clusters.CLUSTER_1 t
        = series (Cases.sweep con (main_settings WEIGHT_LESION false) m).acts lv a t) := by
  refine ⟨fun con wl m m1 lv t hlv ht => ?_, fun con wl m m1 lv t a hlv ht ha ha2 => ?_⟩
  · rw [cluster_sweep_cell_series con _ m1 lv NORMAL t hlv (by decide) ht,
      case_sweep_cell_series con _ m lv NORMAL t hlv (by decide) ht]
    apply List.map_congr_left
    intro step _
    exact critical_values_of_equal (cluster_case_control con _ t lv (step + 1)) _ _ _ _
      (by decide) (by decide) (by decide) (by decide) (by decide) (by decide) (by decide)
  · rw [cluster_sweep_cell_series con _ m1 lv Clusters.CLUSTER_1 t hlv (by decide) ht,
      case_sweep_cell_series con _ m lv a t hlv ha2 ht]
    apply List.map_congr_left
    intro step _
    exact critical_values_of_equal (cluster_case_patient con wl a t lv (step + 1) ha) _ _ _ _
      (by decide) (by decide) (by decide) (by decide) (by decide) (by decide) (by decide)

/-- C26 at a concrete input: the two programs as compiled, patient `12`, repetition,
severity index `30`. -/
theorem cluster_and_case_engines_agree_witness :
    series (Clusters.sweep FiveWord.scaled_con (main_settings true false)
        Clusters.initial_machine).acts 30 Clusters.CLUSTER_1 REPETITION
      = series (Cases.sweep FiveWord.scaled_con (main_settings true false)
        Cases.initial_machine).acts 30 12 REPETITION :=
  cluster_and_case_engines_agree.2 FiveWord.scaled_con true Cases.initial_machine
    Clusters.initial_machine 30 REPETITION 12 (by decide) (by decide) (by decide) (by decide)


/-! ### The integer image follows the network -/

theorem gatherN_snoc (X : Nat → Nat) (l : List Nat) (j : Nat) :
    gatherN X (l ++ [j]) = gatherN X l + X j := by
  simp [gatherN, List.foldl_append]

theorem supp_succ (con : List (List ℚ)) (m i : Nat) :
    supp con (m + 1) i = supp con m i ++ (if rd2 con m i = 1 then [m] else []) := by
  simp only [supp, List.range_succ, List.filter_append]
  congr 1
  by_cases h : rd2 con m i = 1 <;> simp [List.filter, h]

/-- The input spread over a scaled binary matrix is the sum of the source activations over the
connections present, times the rate and the factor. -/
theorem spread_gather {m : Nat} {act : List ℚ} {X : Nat → Nat} {d : ℚ}
    {con scon : List (List ℚ)} {rate : ℚ} (k : ℚ) {i : Nat}
    (hb : ∀ j, j < m → rd2 con j i = 0 ∨ rd2 con j i = 1)
    (hs : ∀ j, j < m → rd2 scon j i = rd2 con j i * rate)
    (hx : ∀ j, j < m → rd act j = (X j : ℚ) / d) :
    spread m act scon i k = ((gatherN X (supp con m i) : Nat) : ℚ) / d * (rate * k) := by
  induction m with
  | zero => simp [spread, supp, gatherN]
  | succ m ih =>
    have ih1 := ih (fun j hj => hb j (by omega)) (fun j hj => hs j (by omega))
      (fun j hj => hx j (by omega))
    unfold spread at ih1 ⊢
    rw [Finset.sum_range_succ, ih1, supp_succ, hs m (by omega), hx m (by omega)]
    rcases hb m (by omega) with h | h
    · rw [if_neg (by rw [h]; norm_num), List.append_nil, h]; ring
    · rw [if_pos h, gatherN_snoc, h]; push_cast; ring

/-- One update step of the network is one step of the integer image, with the denominator
multiplied by `D`. -/
theorem step_match {z : Sizes} {con scon : Conn} {k : Rates} {w : RatesN} {D : Nat}
    {sem lem lex frlex : ℚ} {extC extP : Nat → ℚ} {eC eP : Nat → Nat} {st st1 : Net}
    {X : NetN} {d : ℚ} (hd : d ≠ 0) (hD : (D : ℚ) ≠ 0)
    (hc : ScaledConn z con scon sem lem lex frlex) (hw : RatesMatch D sem lem lex frlex k w)
    (heC : ∀ i, i < z.nC → (eC i : ℚ) = extC i * (d * D))
    (heP : ∀ i, i < z.nP → (eP i : ℚ) = extP i * (d * D))
    (h : Step z scon k extC extP st st1) (hm : MatchNet z d st X) :
    MatchNet z (d * D) st1 (stepN z con w eC eP X) := by
  obtain ⟨⟨bCC, sCC⟩, ⟨bLC, sLC⟩, ⟨bCL, sCL⟩, ⟨biML, siML⟩, ⟨bLM, sLM⟩, ⟨biMM, siMM⟩,
    ⟨bMP, sMP⟩, ⟨bPP, sPP⟩, ⟨bPS, sPS⟩, ⟨bPiM, sPiM⟩⟩ := hc
  obtain ⟨wC, wL, wM, woP, wS, wCC, wLC, wCL, wiML, wLM, wiMM, wMP, wPPo, wPS, wPPi, wPiM⟩ := hw
  obtain ⟨hC, hL, hM, hoP, hS, hiP, hiM⟩ := h
  obtain ⟨mC, mL, mM, moP, mS, miP, miM⟩ := hm
  refine ⟨fun i hi => ?_, fun i hi => ?_, fun i hi => ?_, fun i hi => ?_, fun i hi => ?_,
    fun i hi => ?_, fun i hi => ?_⟩
  · rw [hC i hi, mC i hi,
      spread_gather k.kCC (fun j hj => bCC j hj i hi) (fun j hj => (sCC j i hj hi).1) mC,
      spread_gather k.kLC (fun j hj => bLC j hj i hi) (fun j hj => (sLC j i hj hi).1) mL]
    simp only [stepN]
    push_cast
    rw [wC, wCC, wLC, heC i hi]
    field_simp
    ring
  · rw [hL i hi, mL i hi,
      spread_gather k.kCL (fun j hj => bCL j hj i hi) (fun j hj => (sCL j i hj hi).1) mC,
      spread_gather 1 (fun j hj => biML j hj i hi) (fun j hj => (siML j i hj hi).1) miM]
    simp only [stepN]
    push_cast
    rw [wL, wCL, wiML]
    field_simp
    ring
  · rw [hM i hi, mM i hi,
      spread_gather k.kLM (fun j hj => bLM j hj i hi) (fun j hj => (sLM j i hj hi).1) mL,
      spread_gather k.kiMM (fun j hj => biMM j hj i hi) (fun j hj => (siMM j i hj hi).1) miM]
    simp only [stepN]
    push_cast
    rw [wM, wLM, wiMM]
    field_simp
    ring
  · rw [hoP i hi, moP i hi,
      spread_gather k.kMP (fun j hj => bMP j hj i hi) (fun j hj => (sMP j i hj hi).1) mM,
      spread_gather k.kPPo (fun j hj => bPP j hj i hi) (fun j hj => (sPP j i hj hi).1) miP]
    simp only [stepN]
    push_cast
    rw [woP, wMP, wPPo]
    field_simp
    ring
  · rw [hS i hi, mS i hi,
      spread_gather k.kPS (fun j hj => bPS j hj i hi) (fun j hj => (sPS j i hj hi).1) moP]
    simp only [stepN]
    push_cast
    rw [wS, wPS]
    field_simp
    ring
  · rw [hiP i hi, miP i hi,
      spread_gather k.kPPi (fun j hj => bPP j hj i hi) (fun j hj => (sPP j i hj hi).1) moP]
    simp only [stepN]
    push_cast
    rw [wS, wPPi, heP i hi]
    field_simp
    ring
  · rw [hiM i hi, miM i hi,
      spread_gather 1 (fun j hj => bPiM j hj i hi) (fun j hj => (sPiM j i hj hi).1) miP]
    simp only [stepN]
    push_cast
    rw [wS, wPiM]
    field_simp
    ring

theorem zero_match (z : Sizes) {st : Net} (h : ZeroNet z st) : MatchNet z 1 st zeroN := by
  obtain ⟨hC, hL, hM, hoP, hS, hiP, hiM⟩ := h
  refine ⟨fun i hi => ?_, fun i hi => ?_, fun i hi => ?_, fun i hi => ?_, fun i hi => ?_,
    fun i hi => ?_, fun i hi => ?_⟩
  · rw [hC i hi]; simp [zeroN]
  · rw [hL i hi]; simp [zeroN]
  · rw [hM i hi]; simp [zeroN]
  · rw [hoP i hi]; simp [zeroN]
  · rw [hS i hi]; simp [zeroN]
  · rw [hiP i hi]; simp [zeroN]
  · rw [hiM i hi]; simp [zeroN]

/-- After `n` steps the activations are the numerators of the integer image over `D ^ n`. -/
theorem traj_match {z : Sizes} {con scon : Conn} {k : Rates} {w : RatesN} {D : Nat}
    {sem lem lex frlex : ℚ} {extC extP : Nat → Nat → ℚ} {eC eP : Nat → Nat → Nat}
    {x : Nat → Net} (hD : 0 < D)
    (hc : ScaledConn z con scon sem lem lex frlex) (hw : RatesMatch D sem lem lex frlex k w)
    (heC : ∀ n i, i < z.nC → (eC n i : ℚ) = extC n i * (D : ℚ) ^ (n + 1))
    (heP : ∀ n i, i < z.nP → (eP n i : ℚ) = extP n i * (D : ℚ) ^ (n + 1))
    (h : Traj z scon k extC extP x) (n : Nat) :
    MatchNet z ((D : ℚ) ^ n) (x n) (trajN z con w eC eP n) := by
  have hD0 : (D : ℚ) ≠ 0 := by exact_mod_cast hD.ne'
  induction n with
  | zero => simpa [trajN] using zero_match z h.1
  | succ n ih =>
    have := step_match (pow_ne_zero n hD0) hD0 hc hw
      (fun i hi => by rw [heC n i hi, pow_succ]) (fun i hi => by rw [heP n i hi, pow_succ])
      (h.2 n) ih
    rw [pow_succ]
    exact this

/-! ### The naming drive in closed form -/

theorem group_external_naming (extin : ℚ) (les : GroupStudies.Lesion) (n i : Nat)
    (hi : i < GroupStudies.N_CONCEPTs) :
    GroupStudies.external_C extin les NAMING n i
        = if i = GroupStudies.CAT then
            (if n ≤ 4 then les.CONNECTION_DECREASE_SEMANTIC_DEMENTIA * extin else 0)
              + (if 1 ≤ n ∧ n ≤ 5 then extin else 0)
          else 0 := by
  have hn : ¬ (NAMING = COMPREHENSION ∨ NAMING = REPETITION) := by decide
  unfold GroupStudies.external_C
  simp only [GroupStudies.get_external_input_with, if_pos, if_neg hn, not_false_eq_true,
    GroupStudies.set_input_to_zero, PICTURE_DURATION, CYCLE_TIME, STEP_SIZE]
  rcases Nat.lt_or_ge n 6 with h | h
  · by_cases hc : i = GroupStudies.CAT
    · subst hc
      interval_cases n <;> simp [rd_add_at hi, rd_tabulate hi]
    · interval_cases n <;> simp [rd_add_at hi, rd_tabulate hi, hc]
  · have h1 : ¬ (((25 * n : Nat) : Int) < 125) := by push_cast; omega
    have h2 : ¬ (((25 * n : Nat) : Int) < 1 * 25 + 125) := by push_cast; omega
    have h3 : ¬ n ≤ 4 := by omega
    have h4 : ¬ (1 ≤ n ∧ n ≤ 5) := by omega
    rw [if_neg (fun hh => h2 hh.2), if_neg (fun hh => h1 hh.2), if_neg h3, if_neg h4]
    simp [rd_tabulate_zero]

theorem group_external_naming_phonemes (extin : ℚ) (les : GroupStudies.Lesion) (n i : Nat) :
    GroupStudies.external_iP extin les NAMING n i = 0 := by
  have hn : ¬ (NAMING = COMPREHENSION ∨ NAMING = REPETITION) := by decide
  unfold GroupStudies.external_iP
  simp only [GroupStudies.get_external_input_with, if_pos, if_neg hn, not_false_eq_true,
    GroupStudies.set_input_to_zero]
  exact rd_tabulate_zero _ i

theorem five_word_external_naming (extin : ℚ) (n i : Nat) (hi : i < FiveWord.N_CONCEPTs) :
    FiveWord.external_C extin NAMING n i
        = if i = FiveWord.CAT then
            (if n ≤ 4 then extin else 0) + (if 1 ≤ n ∧ n ≤ 5 then extin else 0)
          else 0 := by
  have hn : ¬ (NAMING = COMPREHENSION ∨ NAMING = REPETITION) := by decide
  unfold FiveWord.external_C
  simp only [FiveWord.get_external_input_with, if_pos, if_neg hn, not_false_eq_true,
    FiveWord.set_input_to_zero, PICTURE_DURATION, CYCLE_TIME, STEP_SIZE]
  rcases Nat.lt_or_ge n 6 with h | h
  · by_cases hc : i = FiveWord.CAT
    · subst hc
      interval_cases n <;> simp [rd_add_at hi, rd_tabulate hi]
    · interval_cases n <;> simp [rd_add_at hi, rd_tabulate hi, hc]
  · have h1 : ¬ (((25 * n : Nat) : Int) < 125) := by push_cast; omega
    have h2 : ¬ (((25 * n : Nat) : Int) < 1 * 25 + 125) := by push_cast; omega
    have h3 : ¬ n ≤ 4 := by omega
    have h4 : ¬ (1 ≤ n ∧ n ≤ 5) := by omega
    rw [if_neg (fun hh => h2 hh.2), if_neg (fun hh => h1 hh.2), if_neg h3, if_neg h4]
    simp [rd_tabulate_zero]

theorem five_word_external_naming_phonemes (extin : ℚ) (n i : Nat) :
    FiveWord.external_iP extin NAMING n i = 0 := by
  have hn : ¬ (NAMING = COMPREHENSION ∨ NAMING = REPETITION) := by decide
  unfold FiveWord.external_iP
  simp only [FiveWord.get_external_input_with, if_pos, if_neg hn, not_false_eq_true,
    FiveWord.set_input_to_zero]
  exact rd_tabulate_zero _ i

/-- The numerators `naming_drive_N` are the naming drive times `D ^ (n + 1)`. -/
theorem naming_drive_cast (D cat a1 a2 : Nat) (v1 v2 : ℚ) (h1 : (a1 : ℚ) = v1 * D)
    (h2 : (a2 : ℚ) = v2 * D) (n i : Nat) :
    ((naming_drive_N D cat a1 a2 n i : Nat) : ℚ)
      = (if i = cat then (if n ≤ 4 then v1 else 0) + (if 1 ≤ n ∧ n ≤ 5 then v2 else 0) else 0)
        * (D : ℚ) ^ (n + 1) := by
  unfold naming_drive_N
  by_cases hc : i = cat
  · rw [if_pos hc, if_pos hc]
    by_cases ha : n ≤ 4 <;> by_cases hb : 1 ≤ n ∧ n ≤ 5
    · rw [if_pos ha, if_pos hb, if_pos ha, if_pos hb]; push_cast; rw [h1, h2]; ring
    · rw [if_pos ha, if_neg hb, if_pos ha, if_neg hb]; push_cast; rw [h1]; ring
    · rw [if_neg ha, if_pos hb, if_neg ha, if_pos hb]; push_cast; rw [h2]; ring
    · rw [if_neg ha, if_neg hb, if_neg ha, if_neg hb]; simp
  · rw [if_neg hc, if_neg hc]
    simp

/-! ### The integer images of the naming runs -/

theorem group_scaled_conn : ScaledConn GroupStudies.sizes GroupStudies.initial_con
    GroupStudies.scaled_con GroupStudies.SEM_rate LEM_rate LEX_rate (FR * LEX_rate) := by
  obtain ⟨g1, g2, g3, g4, g5, g6, g7, g8, g9⟩ := group_binary
  have r1 : (0 : ℚ) ≤ GroupStudies.SEM_rate := by norm_num [GroupStudies.SEM_rate]
  have r2 : (0 : ℚ) ≤ LEM_rate := by norm_num [LEM_rate]
  have r3 : (0 : ℚ) ≤ LEX_rate := by norm_num [LEX_rate]
  have r4 : (0 : ℚ) ≤ FR * LEX_rate := by norm_num [FR, LEX_rate]
  exact ⟨⟨g1, scaled_by_of_binary g1 r1⟩, ⟨g2, scaled_by_of_binary g2 r2⟩,
    ⟨g2, scaled_by_of_binary g2 r2⟩, ⟨g9, scaled_by_of_binary g9 r3⟩,
    ⟨g3, scaled_by_of_binary g3 r3⟩, ⟨g8, scaled_by_of_binary g8 r3⟩,
    ⟨g4, scaled_by_of_binary g4 r3⟩, ⟨g6, scaled_by_of_binary g6 r3⟩,
    ⟨g5, scaled_by_of_binary g5 r3⟩, ⟨g7, scaled_by_of_binary g7 r4⟩⟩

theorem five_word_scaled_conn : ScaledConn FiveWord.sizes FiveWord.initial_con
    FiveWord.scaled_con FiveWord.SEM_rate LEM_rate LEX_rate (FR * LEX_rate) := by
  obtain ⟨g1, g2, g3, g4, g5, g6, g7, g8, g9⟩ := five_word_binary
  have r1 : (0 : ℚ) ≤ FiveWord.SEM_rate := by norm_num [FiveWord.SEM_rate]
  have r2 : (0 : ℚ) ≤ LEM_rate := by norm_num [LEM_rate]
  have r3 : (0 : ℚ) ≤ LEX_rate := by norm_num [LEX_rate]
  have r4 : (0 : ℚ) ≤ FR * LEX_rate := by norm_num [FR, LEX_rate]
  exact ⟨⟨g1, scaled_by_of_binary g1 r1⟩, ⟨g2, scaled_by_of_binary g2 r2⟩,
    ⟨g2, scaled_by_of_binary g2 r2⟩, ⟨g9, scaled_by_of_binary g9 r3⟩,
    ⟨g3, scaled_by_of_binary g3 r3⟩, ⟨g8, scaled_by_of_binary g8 r3⟩,
    ⟨g4, scaled_by_of_binary g4 r3⟩, ⟨g6, scaled_by_of_binary g6 r3⟩,
    ⟨g5, scaled_by_of_binary g5 r3⟩, ⟨g7, scaled_by_of_binary g7 r4⟩⟩

theorem extin_image : ((natOf (EXTIN * imageD) : Nat) : ℚ) = EXTIN * (imageD : ℚ) := by
  decide!

/-- The group-studies network in the naming task is its integer image over `imageD ^ n`. -/
theorem group_image_match {les : GroupStudies.Lesion} {x : Nat → Net}
    (h : Traj GroupStudies.sizes GroupStudies.scaled_con (GroupStudies.rates les)
      (GroupStudies.external_C EXTIN les NAMING) (GroupStudies.external_iP EXTIN les NAMING) x)
    (hw : RatesMatch imageD GroupStudies.SEM_rate LEM_rate LEX_rate (FR * LEX_rate)
      (GroupStudies.rates les)
      (RatesN.of imageD GroupStudies.SEM_rate LEM_rate LEX_rate (FR * LEX_rate)
        (GroupStudies.rates les)))
    (h1 : ((natOf (les.CONNECTION_DECREASE_SEMANTIC_DEMENTIA * EXTIN * imageD) : Nat) : ℚ)
      = les.CONNECTION_DECREASE_SEMANTIC_DEMENTIA * EXTIN * (imageD : ℚ))
    (n : Nat) :
    MatchNet GroupStudies.sizes ((imageD : ℚ) ^ n) (x n) (GroupStudies.naming_image les n) := by
  refine traj_match (by decide) group_scaled_conn hw (fun n i hi => ?_) (fun n i _ => ?_) h n
  · rw [naming_drive_cast imageD GroupStudies.CAT _ _ _ _ h1 extin_image n i,
      group_external_naming EXTIN les n i hi]
  · rw [group_external_naming_phonemes]
    simp

/-- The five-word network in the naming task is its integer image over `imageD ^ n`. -/
theorem five_word_image_match {k : Rates} {x : Nat → Net}
    (h : Traj FiveWord.sizes FiveWord.scaled_con k (FiveWord.external_C EXTIN NAMING)
      (FiveWord.external_iP EXTIN NAMING) x)
    (hw : RatesMatch imageD FiveWord.SEM_rate LEM_rate LEX_rate (FR * LEX_rate) k
      (RatesN.of imageD FiveWord.SEM_rate LEM_rate LEX_rate (FR * LEX_rate) k))
    (n : Nat) :
    MatchNet FiveWord.sizes ((imageD : ℚ) ^ n) (x n) (FiveWord.naming_image k n) := by
  refine traj_match (by decide) five_word_scaled_conn hw (fun n i hi => ?_) (fun n i _ => ?_) h n
  · rw [naming_drive_cast imageD FiveWord.CAT _ _ _ _ extin_image extin_image n i,
      five_word_external_naming EXTIN n i hi]
  · rw [five_word_external_naming_phonemes]
    simp

theorem match_syllable_le {z : Sizes} {d : ℚ} {st : Net} {X : NetN} (hd : 0 < d)
    (h : MatchNet z d st X) {a b : Nat} (ha : a < z.nS) (hb : b < z.nS)
    (hle : X.S b ≤ X.S a) : rd st.S_node_act b ≤ rd st.S_node_act a := by
  obtain ⟨_, _, _, _, hS, _, _⟩ := h
  rw [hS a ha, hS b hb]
  exact div_le_div_of_nonneg_right (by exact_mod_cast hle) hd.le

theorem match_syllable_lt {z : Sizes} {d : ℚ} {st : Net} {X : NetN} (hd : 0 < d)
    (h : MatchNet z d st X) {a b : Nat} (ha : a < z.nS) (hb : b < z.nS)
    (hlt : X.S b < X.S a) : rd st.S_node_act b < rd st.S_node_act a := by
  obtain ⟨_, _, _, _, hS, _, _⟩ := h
  rw [hS a ha, hS b hb]
  exact div_lt_div_of_pos_right (by exact_mod_cast hlt) hd

/-! ### Evaluation of the integer images -/

set_option maxRecDepth 100000 in
theorem group_control_image :
    RatesMatch imageD GroupStudies.SEM_rate LEM_rate LEX_rate (FR * LEX_rate)
        (GroupStudies.rates (GroupStudies.set_aphasic_parameters (main_settings true false)
          NORMAL 99))
        (RatesN.of imageD GroupStudies.SEM_rate LEM_rate LEX_rate (FR * LEX_rate)
          (GroupStudies.rates (GroupStudies.set_aphasic_parameters (main_settings true false)
            NORMAL 99)))
      ∧ ((natOf ((GroupStudies.set_aphasic_parameters (main_settings true false)
            NORMAL 99).CONNECTION_DECREASE_SEMANTIC_DEMENTIA
              * EXTIN * imageD) : Nat) : ℚ)
          = (GroupStudies.set_aphasic_parameters (main_settings true false)
            NORMAL 99).CONNECTION_DECREASE_SEMANTIC_DEMENTIA
              * EXTIN * (imageD : ℚ)
      ∧ SyllableLead
        (GroupStudies.naming_image
          (GroupStudies.set_aphasic_parameters (main_settings true false)
            NORMAL 99))
        GroupStudies.sKAT GroupStudies.sMAT := by
  decide!

set_option maxRecDepth 100000 in
theorem group_nonfluent_image :
    RatesMatch imageD GroupStudies.SEM_rate LEM_rate LEX_rate (FR * LEX_rate)
        (GroupStudies.rates (GroupStudies.set_aphasic_parameters (main_settings true false)
          GroupStudies.NONFLUENT_AGRAMMATIC 99))
        (RatesN.of imageD GroupStudies.SEM_rate LEM_rate LEX_rate (FR * LEX_rate)
          (GroupStudies.rates (GroupStudies.set_aphasic_parameters (main_settings true false)
            GroupStudies.NONFLUENT_AGRAMMATIC 99)))
      ∧ ((natOf ((GroupStudies.set_aphasic_parameters (main_settings true false)
            GroupStudies.NONFLUENT_AGRAMMATIC 99).CONNECTION_DECREASE_SEMANTIC_DEMENTIA
              * EXTIN * imageD) : Nat) : ℚ)
          = (GroupStudies.set_aphasic_parameters (main_settings true false)
            GroupStudies.NONFLUENT_AGRAMMATIC 99).CONNECTION_DECREASE_SEMANTIC_DEMENTIA
              * EXTIN * (imageD : ℚ)
      ∧ SyllableLead
        (GroupStudies.naming_image
          (GroupStudies.set_aphasic_parameters (main_settings true false)
            GroupStudies.NONFLUENT_AGRAMMATIC 99))
        GroupStudies.sKAT GroupStudies.sMAT := by
  decide!

set_option maxRecDepth 100000 in
theorem group_semantic_image :
    RatesMatch imageD GroupStudies.SEM_rate LEM_rate LEX_rate (FR * LEX_rate)
        (GroupStudies.rates (GroupStudies.set_aphasic_parameters (main_settings true false)
          GroupStudies.SEMANTIC_DEMENTIA 99))
        (RatesN.of imageD GroupStudies.SEM_rate LEM_rate LEX_rate (FR * LEX_rate)
          (GroupStudies.rates (GroupStudies.set_aphasic_parameters (main_settings true false)
            GroupStudies.SEMANTIC_DEMENTIA 99)))
      ∧ ((natOf ((GroupStudies.set_aphasic_parameters (main_settings true false)
            GroupStudies.SEMANTIC_DEMENTIA 99).CONNECTION_DECREASE_SEMANTIC_DEMENTIA
              * EXTIN * imageD) : Nat) : ℚ)
          = (GroupStudies.set_aphasic_parameters (main_settings true false)
            GroupStudies.SEMANTIC_DEMENTIA 99).CONNECTION_DECREASE_SEMANTIC_DEMENTIA
              * EXTIN * (imageD : ℚ)
      ∧ SyllableLead
        (GroupStudies.naming_image
          (GroupStudies.set_aphasic_parameters (main_settings true false)
            GroupStudies.SEMANTIC_DEMENTIA 99))
        GroupStudies.sKAT GroupStudies.sMAT := by
  decide!

set_option maxRecDepth 100000 in
theorem group_logopenic_image :
    RatesMatch imageD GroupStudies.SEM_rate LEM_rate LEX_rate (FR * LEX_rate)
        (GroupStudies.rates (GroupStudies.set_aphasic_parameters (main_settings true false)
          GroupStudies.LOGOPENIC 99))
        (RatesN.of imageD GroupStudies.SEM_rate LEM_rate LEX_rate (FR * LEX_rate)
          (GroupStudies.rates (GroupStudies.set_aphasic_parameters (main_settings true false)
            GroupStudies.LOGOPENIC 99)))
      ∧ ((natOf ((GroupStudies.set_aphasic_parameters (main_settings true false)
            GroupStudies.LOGOPENIC 99).CONNECTION_DECREASE_SEMANTIC_DEMENTIA
              * EXTIN * imageD) : Nat) : ℚ)
          = (GroupStudies.set_aphasic_parameters (main_settings true false)
            GroupStudies.LOGOPENIC 99).CONNECTION_DECREASE_SEMANTIC_DEMENTIA
              * EXTIN * (imageD : ℚ)
      ∧ SyllableLead
        (GroupStudies.naming_image
          (GroupStudies.set_aphasic_parameters (main_settings true false)
            GroupStudies.LOGOPENIC 99))
        GroupStudies.sKAT GroupStudies.sMAT := by
  decide!

set_option maxRecDepth 100000 in
theorem cluster_control_image :
    RatesMatch imageD FiveWord.SEM_rate LEM_rate LEX_rate (FR * LEX_rate)
        (Clusters.rates (Clusters.set_aphasic_parameters (main_settings true false)
          NORMAL 99))
        (RatesN.of imageD FiveWord.SEM_rate LEM_rate LEX_rate (FR * LEX_rate)
          (Clusters.rates (Clusters.set_aphasic_parameters (main_settings true false)
            NORMAL 99)))
      ∧ SyllableLead
        (FiveWord.naming_image
          (Clusters.rates (Clusters.set_aphasic_parameters (main_settings true false)
            NORMAL 99)))
        FiveWord.CAT FiveWord.MAT := by
  decide!

set_option maxRecDepth 100000 in
theorem cluster_one_image :
    RatesMatch imageD FiveWord.SEM_rate LEM_rate LEX_rate (FR * LEX_rate)
        (Clusters.rates (Clusters.set_aphasic_parameters (main_settings true false)
          Clusters.CLUSTER_1 99))
        (RatesN.of imageD FiveWord.SEM_rate LEM_rate LEX_rate (FR * LEX_rate)
          (Clusters.rates (Clusters.set_aphasic_parameters (main_settings true false)
            Clusters.CLUSTER_1 99)))
      ∧ SyllableLead
        (FiveWord.naming_image
          (Clusters.rates (Clusters.set_aphasic_parameters (main_settings true false)
            Clusters.CLUSTER_1 99)))
        FiveWord.CAT FiveWord.MAT := by
  decide!

set_option maxRecDepth 100000 in
theorem cluster_two_image :
    RatesMatch imageD FiveWord.SEM_rate LEM_rate LEX_rate (FR * LEX_rate)
        (Clusters.rates (Clusters.set_aphasic_parameters (main_settings true false)
          Clusters.CLUSTER_2 99))
        (RatesN.of imageD FiveWord.SEM_rate LEM_rate LEX_rate (FR * LEX_rate)
          (Clusters.rates (Clusters.set_aphasic_parameters (main_settings true false)
            Clusters.CLUSTER_2 99)))
      ∧ SyllableLead
        (FiveWord.naming_image
          (Clusters.rates (Clusters.set_aphasic_parameters (main_settings true false)
            Clusters.CLUSTER_2 99)))
        FiveWord.CAT FiveWord.MAT := by
  decide!

set_option maxRecDepth 100000 in
theorem cluster_three_image :
    RatesMatch imageD FiveWord.SEM_rate LEM_rate LEX_rate (FR * LEX_rate)
        (Clusters.rates (Clusters.set_aphasic_parameters (main_settings true false)
          Clusters.CLUSTER_3 99))
        (RatesN.of imageD FiveWord.SEM_rate LEM_rate LEX_rate (FR * LEX_rate)
          (Clusters.rates (Clusters.set_aphasic_parameters (main_settings true false)
            Clusters.CLUSTER_3 99)))
      ∧ SyllableLead
        (FiveWord.naming_image
          (Clusters.rates (Clusters.set_aphasic_parameters (main_settings true false)
            Clusters.CLUSTER_3 99)))
        FiveWord.CAT FiveWord.MAT := by
  decide!

/-! ## Damage trend (C25) -/

theorem traj_syllable_zero {z : Sizes} {con : Conn} {k : Rates} {extC extP : Nat → Nat → ℚ}
    {x : Nat → Net} (h : Traj z con k extC extP x) (k1 : k.kPS = 0) (n : Nat) :
    ∀ i, i < z.nS → rd (x n).S_node_act i = 0 := by
  induction n with
  | zero => exact h.1.2.2.2.2.1
  | succ n ih =>
    intro i hi
    rw [(h.2 n).2.2.2.2.1 i hi, ih i hi, k1, spread_zero_coeff]
    ring

theorem traj_lexical_zero {z : Sizes} {con : Conn} {k : Rates} {extC extP : Nat → Nat → ℚ}
    {x : Nat → Net} (h : Traj z con k extC extP x) (k1 : k.kCL = 0)
    (hP : ∀ n i, extP n i = 0) (n : Nat) :
    (∀ i, i < z.nL → rd (x n).L_node_act i = 0)
      ∧ (∀ i, i < z.nM → rd (x n).M_node_act i = 0)
      ∧ (∀ i, i < z.nP → rd (x n).oP_node_act i = 0)
      ∧ (∀ i, i < z.nS → rd (x n).S_node_act i = 0)
      ∧ (∀ i, i < z.nP → rd (x n).iP_node_act i = 0)
      ∧ (∀ i, i < z.nM → rd (x n).iM_node_act i = 0) := by
  induction n with
  | zero =>
    obtain ⟨_, a2, a3, a4, a5, a6, a7⟩ := h.1
    exact ⟨a2, a3, a4, a5, a6, a7⟩
  | succ n ih =>
    obtain ⟨_, s2, s3, s4, s5, s6, s7⟩ := h.2 n
    obtain ⟨zL, zM, zoP, zS, ziP, ziM⟩ := ih
    refine ⟨fun i hi => ?_, fun i hi => ?_, fun i hi => ?_, fun i hi => ?_, fun i hi => ?_,
      fun i hi => ?_⟩
    · rw [s2 i hi, zL i hi, k1, spread_zero_coeff, spread_zero_act _ _ _ ziM]; ring
    · rw [s3 i hi, zM i hi, spread_zero_act _ _ _ zL, spread_zero_act _ _ _ ziM]; ring
    · rw [s4 i hi, zoP i hi, spread_zero_act _ _ _ zM, spread_zero_act _ _ _ ziP]; ring
    · rw [s5 i hi, zS i hi, spread_zero_act _ _ _ zoP]; ring
    · rw [s6 i hi, ziP i hi, hP n i, spread_zero_act _ _ _ zoP]; ring
    · rw [s7 i hi, ziM i hi, spread_zero_act _ _ _ ziP]; ring

/-- At severity index `0` in weight-lesion mode no syllable node of a patient group of the
group-studies program is ever activated in the naming task. -/
theorem group_syllables_blocked (g n : Nat) (hg : g ≠ NORMAL) (hg2 : g < GroupStudies.N_GROUPs) :
    ∀ i, i < GroupStudies.N_SYLLABLEs →
      rd (GroupStudies.cell_net GroupStudies.scaled_con (main_settings true false)
        g NAMING 0 n).S_node_act i = 0 := by
  have tr := group_traj EXTIN GroupStudies.scaled_con (main_settings true false) g NAMING 0
  have hc : g = 1 ∨ g = 2 ∨ g = 3 := by
    simp only [NORMAL, GroupStudies.N_GROUPs] at hg hg2; omega
  rw [group_cell_net_with]
  rcases hc with h | h | h <;> subst h
  · exact traj_syllable_zero tr (by decide!) n
  · exact (traj_lexical_zero tr (by decide!)
      (fun n i => group_external_naming_phonemes EXTIN _ n i) n).2.2.2.1
  · exact (traj_output_zero tr (by decide!) (by decide!) (by decide!) (by decide!) n).2.2

/-- At severity index `0` in weight-lesion mode no syllable node of a cluster of the cluster
program is ever activated in the naming task. -/
theorem cluster_syllables_blocked (g n : Nat) (hg : g ≠ NORMAL) (hg2 : g < Clusters.N_GROUPs) :
    ∀ i, i < FiveWord.N_SYLLABLEs →
      rd (Clusters.cell_net FiveWord.scaled_con (main_settings true false)
        g NAMING 0 n).S_node_act i = 0 := by
  have tr := cluster_traj EXTIN FiveWord.scaled_con (main_settings true false) g NAMING 0
  have hc : g = 1 ∨ g = 2 ∨ g = 3 := by
    simp only [NORMAL, Clusters.N_GROUPs] at hg hg2; omega
  rw [cluster_cell_net_with]
  rcases hc with h | h | h <;> subst h
  · exact (traj_output_zero tr (by decide!) (by decide!) (by decide!) (by decide!) n).2.2
  · exact (traj_lexical_zero tr (by decide!)
      (fun n i => five_word_external_naming_phonemes EXTIN n i) n).2.2.2.1
  · exact (traj_output_zero tr (by decide!) (by decide!) (by decide!) (by decide!) n).2.2

theorem image_denominator_pos (n : Nat) : (0 : ℚ) < (imageD : ℚ) ^ n :=
  pow_pos (by norm_num [imageD]) n

theorem group_lead_of_image {les : GroupStudies.Lesion} {x : Nat → Net}
    (h : Traj GroupStudies.sizes GroupStudies.scaled_con (GroupStudies.rates les)
      (GroupStudies.external_C EXTIN les NAMING) (GroupStudies.external_iP EXTIN les NAMING) x)
    (hi : RatesMatch imageD GroupStudies.SEM_rate LEM_rate LEX_rate (FR * LEX_rate)
        (GroupStudies.rates les)
        (RatesN.of imageD GroupStudies.SEM_rate LEM_rate LEX_rate (FR * LEX_rate)
          (GroupStudies.rates les))
      ∧ ((natOf (les.CONNECTION_DECREASE_SEMANTIC_DEMENTIA * EXTIN * imageD) : Nat) : ℚ)
          = les.CONNECTION_DECREASE_SEMANTIC_DEMENTIA * EXTIN * (imageD : ℚ)
      ∧ SyllableLead (GroupStudies.naming_image les) GroupStudies.sKAT GroupStudies.sMAT) :
    (∀ step, step < N_STEPs →
        rd (x (step + 1)).S_node_act GroupStudies.sMAT
          ≤ rd (x (step + 1)).S_node_act GroupStudies.sKAT)
      ∧ rd (x N_STEPs).S_node_act GroupStudies.sMAT
          < rd (x N_STEPs).S_node_act GroupStudies.sKAT := by
  obtain ⟨hw, h1, hl, hs⟩ := hi
  exact ⟨fun step hstep => match_syllable_le (image_denominator_pos _)
      (group_image_match h hw h1 (step + 1)) (by decide) (by decide) (hl step hstep),
    match_syllable_lt (image_denominator_pos _) (group_image_match h hw h1 N_STEPs)
      (by decide) (by decide) hs⟩

theorem five_word_lead_of_image {k : Rates} {x : Nat → Net}
    (h : Traj FiveWord.sizes FiveWord.scaled_con k (FiveWord.external_C EXTIN NAMING)
      (FiveWord.external_iP EXTIN NAMING) x)
    (hi : RatesMatch imageD FiveWord.SEM_rate LEM_rate LEX_rate (FR * LEX_rate) k
        (RatesN.of imageD FiveWord.SEM_rate LEM_rate LEX_rate (FR * LEX_rate) k)
      ∧ SyllableLead (FiveWord.naming_image k) FiveWord.CAT FiveWord.MAT) :
    (∀ step, step < N_STEPs →
        rd (x (step + 1)).S_node_act FiveWord.MAT ≤ rd (x (step + 1)).S_node_act FiveWord.CAT)
      ∧ rd (x N_STEPs).S_node_act FiveWord.MAT < rd (x N_STEPs).S_node_act FiveWord.CAT := by
  obtain ⟨hw, hl, hs⟩ := hi
  exact ⟨fun step hstep => match_syllable_le (image_denominator_pos _)
      (five_word_image_match h hw (step + 1)) (by decide) (by decide) (hl step hstep),
    match_syllable_lt (image_denominator_pos _) (five_word_image_match h hw N_STEPs)
      (by decide) (by decide) hs⟩

/-- At severity index `99` in weight-lesion mode, in the naming task of the group-studies
program the foil syllable is never above the target syllable, and is below it at the last
step, for the control and every patient group. -/
theorem group_syllable_lead (g : Nat) (hg : g < GroupStudies.N_GROUPs) :
    (∀ step, step < N_STEPs →
        rd (GroupStudies.cell_net GroupStudies.scaled_con (main_settings true false)
            g NAMING 99 (step + 1)).S_node_act GroupStudies.sMAT
          ≤ rd (GroupStudies.cell_net GroupStudies.scaled_con (main_settings true false)
            g NAMING 99 (step + 1)).S_node_act GroupStudies.sKAT)
      ∧ rd (GroupStudies.cell_net GroupStudies.scaled_con (main_settings true false)
            g NAMING 99 N_STEPs).S_node_act GroupStudies.sMAT
          < rd (GroupStudies.cell_net GroupStudies.scaled_con (main_settings true false)
            g NAMING 99 N_STEPs).S_node_act GroupStudies.sKAT := by
  have tr := group_traj EXTIN GroupStudies.scaled_con (main_settings true false) g NAMING 99
  have hc : g = 0 ∨ g = 1 ∨ g = 2 ∨ g = 3 := by
    simp only [GroupStudies.N_GROUPs] at hg; omega
  simp only [group_cell_net_with]
  rcases hc with h | h | h | h <;> subst h
  · exact group_lead_of_image tr group_control_image
  · exact group_lead_of_image tr group_nonfluent_image
  · exact group_lead_of_image tr group_semantic_image
  · exact group_lead_of_image tr group_logopenic_image

/-- The same for the control and the clusters of the cluster program. -/
theorem cluster_syllable_lead (g : Nat) (hg : g < Clusters.N_GROUPs) :
    (∀ step, step < N_STEPs →
        rd (Clusters.cell_net FiveWord.scaled_con (main_settings true false)
            g NAMING 99 (step + 1)).S_node_act FiveWord.MAT
          ≤ rd (Clusters.cell_net FiveWord.scaled_con (main_settings true false)
            g NAMING 99 (step + 1)).S_node_act FiveWord.CAT)
      ∧ rd (Clusters.cell_net FiveWord.scaled_con (main_settings true false)
            g NAMING 99 N_STEPs).S_node_act FiveWord.MAT
          < rd (Clusters.cell_net FiveWord.scaled_con (main_settings true false)
            g NAMING 99 N_STEPs).S_node_act FiveWord.CAT := by
  have tr := cluster_traj EXTIN FiveWord.scaled_con (main_settings true false) g NAMING 99
  have hc : g = 0 ∨ g = 1 ∨ g = 2 ∨ g = 3 := by
    simp only [Clusters.N_GROUPs] at hg; omega
  simp only [cluster_cell_net_with]
  rcases hc with h | h | h | h <;> subst h
  · exact five_word_lead_of_image tr cluster_control_image
  · exact five_word_lead_of_image tr cluster_one_image
  · exact five_word_lead_of_image tr cluster_two_image
  · exact five_word_lead_of_image tr cluster_three_image

/-- The same for the control and every patient of the single-case program. -/
theorem case_syllable_lead (a : Nat) :
    (∀ step, step < N_STEPs →
        rd (Cases.cell_net FiveWord.scaled_con (main_settings true false)
            a NAMING 99 (step + 1)).S_node_act FiveWord.MAT
          ≤ rd (Cases.cell_net FiveWord.scaled_con (main_settings true false)
            a NAMING 99 (step + 1)).S_node_act FiveWord.CAT)
      ∧ rd (Cases.cell_net FiveWord.scaled_con (main_settings true false)
            a NAMING 99 N_STEPs).S_node_act FiveWord.MAT
          < rd (Cases.cell_net FiveWord.scaled_con (main_settings true false)
            a NAMING 99 N_STEPs).S_node_act FiveWord.CAT := by
  have conv : ∀ n i, i < FiveWord.N_SYLLABLEs → ∀ g,
      ScaledNet FiveWord.sizes 1
        (Cases.cell_net FiveWord.scaled_con (main_settings true false) a NAMING 99 n)
        (Clusters.cell_net FiveWord.scaled_con (main_settings true false) g NAMING 99 n) →
      rd (Cases.cell_net FiveWord.scaled_con (main_settings true false)
          a NAMING 99 n).S_node_act i
        = rd (Clusters.cell_net FiveWord.scaled_con (main_settings true false)
          g NAMING 99 n).S_node_act i := by
    intro n i hi g hs
    rw [hs.2.2.2.2.1 i hi, one_mul]
  by_cases ha : a = NORMAL
  · have hs := fun n => cluster_case_control FiveWord.scaled_con (main_settings true false)
      NAMING 99 n
    subst ha
    obtain ⟨l1, l2⟩ := cluster_syllable_lead NORMAL (by decide)
    refine ⟨fun step hstep => ?_, ?_⟩
    · rw [conv _ _ (by decide) _ (hs _), conv _ _ (by decide) _ (hs _)]
      exact l1 step hstep
    · rw [conv _ _ (by decide) _ (hs _), conv _ _ (by decide) _ (hs _)]
      exact l2
  · have hs := fun n => cluster_case_patient FiveWord.scaled_con true a NAMING 99 n ha
    obtain ⟨l1, l2⟩ := cluster_syllable_lead Clusters.CLUSTER_1 (by decide)
    refine ⟨fun step hstep => ?_, ?_⟩
    · rw [conv _ _ (by decide) _ (hs _), conv _ _ (by decide) _ (hs _)]
      exact l1 step hstep
    · rw [conv _ _ (by decide) _ (hs _), conv _ _ (by decide) _ (hs _)]
      exact l2

theorem contrast_nonneg (r : Recorded) (lv g t : Nat)
    (h : ∀ i, i < N_STEPs → r.ACT_SR lv i g t ≤ r.ACT_ST lv i g t) :
    0 ≤ (compute_activation_results r).MEAN_ACT_ST lv g t
      - (compute_activation_results r).MEAN_ACT_SR lv g t := by
  rw [mean_syllables]
  apply div_nonneg
  · exact Finset.sum_nonneg fun i hi => sub_nonneg.mpr (h i (Finset.mem_range.mp hi))
  · exact Nat.cast_nonneg _

theorem contrast_pos (r : Recorded) (lv g t : Nat)
    (h : ∀ i, i < N_STEPs → r.ACT_SR lv i g t ≤ r.ACT_ST lv i g t)
    (hs : r.ACT_SR lv (N_STEPs - 1) g t < r.ACT_ST lv (N_STEPs - 1) g t) :
    0 < (compute_activation_results r).MEAN_ACT_ST lv g t
      - (compute_activation_results r).MEAN_ACT_SR lv g t := by
  rw [mean_syllables]
  apply div_pos
  · exact Finset.sum_pos' (fun i hi => sub_nonneg.mpr (h i (Finset.mem_range.mp hi)))
      ⟨N_STEPs - 1, Finset.mem_range.mpr (by decide), sub_pos.mpr hs⟩
  · norm_num [N_STEPs]

theorem contrast_zero (r : Recorded) (lv g t : Nat)
    (h : ∀ i, i < N_STEPs → r.ACT_ST lv i g t = 0 ∧ r.ACT_SR lv i g t = 0) :
    (compute_activation_results r).MEAN_ACT_ST lv g t
      - (compute_activation_results r).MEAN_ACT_SR lv g t = 0 := by
  rw [mean_syllables]
  have z : ∑ i in Finset.range N_STEPs, (r.ACT_ST lv i g t - r.ACT_SR lv i g t) = 0 := by
    apply Finset.sum_eq_zero
    intro i hi
    obtain ⟨e1, e2⟩ := h i (Finset.mem_range.mp hi)
    rw [e1, e2, sub_zero]
  rw [z, zero_div]

/-- From the recorded syllable series: the naming score is `0` at a severity index where the
patient's syllables stay `0`, and is not negative where the foil syllable is never above the
target syllable for the patient and for the control. -/
theorem score_trend (r : Recorded) (g lv0 lv1 : Nat)
    (h0 : ∀ i, i < N_STEPs → r.ACT_ST lv0 i g NAMING = 0 ∧ r.ACT_SR lv0 i g NAMING = 0)
    (h1 : ∀ i, i < N_STEPs → r.ACT_SR lv1 i g NAMING ≤ r.ACT_ST lv1 i g NAMING)
    (hc : ∀ i, i < N_STEPs → r.ACT_SR lv1 i NORMAL NAMING ≤ r.ACT_ST lv1 i NORMAL NAMING) :
    sim_score (compute_activation_results r) g lv0 NAMING = 0
      ∧ sim_score (compute_activation_results r) g lv0 NAMING
        ≤ sim_score (compute_activation_results r) g lv1 NAMING := by
  have e0 : sim_score (compute_activation_results r) g lv0 NAMING = 0 := by
    rw [sim_score, if_pos rfl, contrast_zero r lv0 g NAMING h0, zero_div, zero_mul]
  refine ⟨e0, ?_⟩
  rw [e0, sim_score, if_pos rfl]
  exact mul_nonneg (div_nonneg (contrast_nonneg r lv1 g NAMING h1)
    (contrast_nonneg r lv1 NORMAL NAMING hc)) (by norm_num)

theorem group_control_cell_net (con : Conn) (cfg : Settings) (t lv lv1 n : Nat) :
    GroupStudies.cell_net con cfg NORMAL t lv n = GroupStudies.cell_net con cfg NORMAL t lv1 n := by
  simp only [GroupStudies.cell_net, group_set_aphasic_parameters_normal]

theorem cluster_control_cell_net (con : Conn) (cfg : Settings) (t lv lv1 n : Nat) :
    Clusters.cell_net con cfg NORMAL t lv n = Clusters.cell_net con cfg NORMAL t lv1 n := by
  simp only [Clusters.cell_net, cluster_set_aphasic_parameters_normal]

theorem case_control_cell_net_any (con : Conn) (cfg : Settings) (t lv lv1 n : Nat) :
    Cases.cell_net con cfg NORMAL t lv n = Cases.cell_net con cfg NORMAL t lv1 n := by
  simp only [Cases.cell_net, case_set_aphasic_parameters_normal]

theorem group_control_contrast_pos (m : Machine GroupStudies.Lesion) (lv : Nat)
    (hlv : lv < N_lesion_values) :
    0 < (compute_activation_results
          (GroupStudies.sweep GroupStudies.scaled_con (main_settings true false)
            m).acts).MEAN_ACT_ST lv NORMAL NAMING
        - (compute_activation_results
          (GroupStudies.sweep GroupStudies.scaled_con (main_settings true false)
            m).acts).MEAN_ACT_SR lv NORMAL NAMING := by
  apply contrast_pos
  · intro i hi
    obtain ⟨_, _, _, _, _, _, h7, h8⟩ := group_sweep_values GroupStudies.scaled_con
      (main_settings true false) m lv NORMAL NAMING i hlv (by decide) (by decide) hi
    rw [h7, h8, group_control_cell_net _ _ _ lv 99]
    exact (group_syllable_lead NORMAL (by decide)).1 i hi
  · obtain ⟨_, _, _, _, _, _, h7, h8⟩ := group_sweep_values GroupStudies.scaled_con
      (main_settings true false) m lv NORMAL NAMING (N_STEPs - 1) hlv (by decide)
      (by decide) (by decide)
    rw [h7, h8, group_control_cell_net _ _ _ lv 99]
    exact (group_syllable_lead NORMAL (by decide)).2

theorem cluster_control_contrast_pos (m : Machine Clusters.Lesion) (lv : Nat)
    (hlv : lv < N_lesion_values) :
    0 < (compute_activation_results
          (Clusters.sweep FiveWord.scaled_con (main_settings true false)
            m).acts).MEAN_ACT_ST lv NORMAL NAMING
        - (compute_activation_results
          (Clusters.sweep FiveWord.scaled_con (main_settings true false)
            m).acts).MEAN_ACT_SR lv NORMAL NAMING := by
  apply contrast_pos
  · intro i hi
    obtain ⟨_, _, _, _, _, _, h7, h8⟩ := cluster_sweep_values FiveWord.scaled_con
      (main_settings true false) m lv NORMAL NAMING i hlv (by decide) (by decide) hi
    rw [h7, h8, cluster_control_cell_net _ _ _ lv 99]
    exact (cluster_syllable_lead NORMAL (by decide)).1 i hi
  · obtain ⟨_, _, _, _, _, _, h7, h8⟩ := cluster_sweep_values FiveWord.scaled_con
      (main_settings true false) m lv NORMAL NAMING (N_STEPs - 1) hlv (by decide)
      (by decide) (by decide)
    rw [h7, h8, cluster_control_cell_net _ _ _ lv 99]
    exact (cluster_syllable_lead NORMAL (by decide)).2

theorem case_control_contrast_pos (m : Machine Cases.Lesion) (lv : Nat)
    (hlv : lv < N_lesion_values) :
    0 < (compute_activation_results
          (Cases.sweep FiveWord.scaled_con (main_settings true false)
            m).acts).MEAN_ACT_ST lv NORMAL NAMING
        - (compute_activation_results
          (Cases.sweep FiveWord.scaled_con (main_settings true false)
            m).acts).MEAN_ACT_SR lv NORMAL NAMING := by
  apply contrast_pos
  · intro i hi
    obtain ⟨_, _, _, _, _, _, h7, h8⟩ := case_sweep_values FiveWord.scaled_con
      (main_settings true false) m lv NORMAL NAMING i hlv (by decide) (by decide) hi
    rw [h7, h8, case_control_cell_net_any _ _ _ lv 99]
    exact (case_syllable_lead NORMAL).1 i hi
  · obtain ⟨_, _, _, _, _, _, h7, h8⟩ := case_sweep_values FiveWord.scaled_con
      (main_settings true false) m lv NORMAL NAMING (N_STEPs - 1) hlv (by decide)
      (by decide) (by decide)
    rw [h7, h8, case_control_cell_net_any _ _ _ lv 99]
    exact (case_syllable_lead NORMAL).2

/-- C25.  In weight-lesion mode (decay lesion off), on the matrices as scaled by
`set_spreading_rates`, for every patient group of the group-studies program, every cluster
of the cluster program and every patient of the single-case program, the simulated naming
score at severity index `0` (weight factor `0.0`) is `0` and is less than or equal to the
simulated naming score at severity index `99` (weight factor `0.99`); and in each program the
control contrast of the syllable means, the denominator of the scores, is positive at every
severity index. -/
theorem damage_trend :
    (∀ (m : Machine GroupStudies.Lesion) (g : Nat), g ≠ NORMAL → g < GroupStudies.N_GROUPs →
      sim_score (compute_activation_results
          (GroupStudies.sweep GroupStudies.scaled_con (main_settings true false) m).acts)
          g 0 NAMING = 0
        ∧ sim_score (compute_activation_results
          (GroupStudies.sweep GroupStudies.scaled_con (main_settings true false) m).acts)
          g 0 NAMING
          ≤ sim_score (compute_activation_results
            (GroupStudies.sweep GroupStudies.scaled_con (main_settings true false) m).acts)
            g 99 NAMING)
    ∧ (∀ (m : Machine Clusters.Lesion) (g : Nat), g ≠ NORMAL → g < Clusters.N_GROUPs →
      sim_score (compute_activation_results
          (Clusters.sweep FiveWord.scaled_con (main_settings true false) m).acts)
          g 0 NAMING = 0
        ∧ sim_score (compute_activation_results
          (Clusters.sweep FiveWord.scaled_con (main_settings true false) m).acts)
          g 0 NAMING
          ≤ sim_score (compute_activation_results
            (Clusters.sweep FiveWord.scaled_con (main_settings true false) m).acts)
            g 99 NAMING)
    ∧ (∀ (m : Machine Cases.Lesion) (a : Nat), a ≠ NORMAL → a < Cases.N_ASSESSMENTs →
      sim_score (compute_activation_results
          (Cases.sweep FiveWord.scaled_con (main_settings true false) m).acts)
          a 0 NAMING = 0
        ∧ sim_score (compute_activation_results
          (Cases.sweep FiveWord.scaled_con (main_settings true false) m).acts)
          a 0 NAMING
          ≤ sim_score (compute_activation_results
            (Cases.sweep FiveWord.scaled_con (main_settings true false) m).acts)
            a 99 NAMING)
    ∧ (∀ (m : Machine GroupStudies.Lesion) (lv : Nat), lv < N_lesion_values →
      0 < (compute_activation_results
            (GroupStudies.sweep GroupStudies.scaled_con (main_settings true false)
              m).acts).MEAN_ACT_ST lv NORMAL NAMING
          - (compute_activation_results
            (GroupStudies.sweep GroupStudies.scaled_con (main_settings true false)
              m).acts).MEAN_ACT_SR lv NORMAL NAMING)
    ∧ (∀ (m : Machine Clusters.Lesion) (lv : Nat), lv < N_lesion_values →
      0 < (compute_activation_results
            (Clusters.sweep FiveWord.scaled_con (main_settings true false)
              m).acts).MEAN_ACT_ST lv NORMAL NAMING
          - (compute_activation_results
            (Clusters.sweep FiveWord.scaled_con (main_settings true false)
              m).acts).MEAN_ACT_SR lv NORMAL NAMING)
    ∧ (∀ (m : Machine Cases.Lesion) (lv : Nat), lv < N_lesion_values →
      0 < (compute_activation_results
            (Cases.sweep FiveWord.scaled_con (main_settings true false)
              m).acts).MEAN_ACT_ST lv NORMAL NAMING
          - (compute_activation_results
            (Cases.sweep FiveWord.scaled_con (main_settings true false)
              m).acts).MEAN_ACT_SR lv NORMAL NAMING) := by
  refine ⟨fun m g hg hg2 => ?_, fun m g hg hg2 => ?_, fun m a ha ha2 => ?_,
    fun m lv hlv => ?_, fun m lv hlv => ?_, fun m lv hlv => ?_⟩
  · apply score_trend
    · intro i hi
      obtain ⟨_, _, _, _, _, _, h7, h8⟩ := group_sweep_values GroupStudies.scaled_con
        (main_settings true false) m 0 g NAMING i (by decide) hg2 (by decide) hi
      rw [h7, h8]
      exact ⟨group_syllables_blocked g (i + 1) hg hg2 _ (by decide),
        group_syllables_blocked g (i + 1) hg hg2 _ (by decide)⟩
    · intro i hi
      obtain ⟨_, _, _, _, _, _, h7, h8⟩ := group_sweep_values GroupStudies.scaled_con
        (main_settings true false) m 99 g NAMING i (by decide) hg2 (by decide) hi
      rw [h7, h8]
      exact (group_syllable_lead g hg2).1 i hi
    · intro i hi
      obtain ⟨_, _, _, _, _, _, h7, h8⟩ := group_sweep_values GroupStudies.scaled_con
        (main_settings true false) m 99 NORMAL NAMING i (by decide) (by decide) (by decide) hi
      rw [h7, h8]
      exact (group_syllable_lead NORMAL (by decide)).1 i hi
  · apply score_trend
    · intro i hi
      obtain ⟨_, _, _, _, _, _, h7, h8⟩ := cluster_sweep_values FiveWord.scaled_con
        (main_settings true false) m 0 g NAMING i (by decide) hg2 (by decide) hi
      rw [h7, h8]
      exact ⟨cluster_syllables_blocked g (i + 1) hg hg2 _ (by decide),
        cluster_syllables_blocked g (i + 1) hg hg2 _ (by decide)⟩
    · intro i hi
      obtain ⟨_, _, _, _, _, _, h7, h8⟩ := cluster_sweep_values FiveWord.scaled_con
        (main_settings true false) m 99 g NAMING i (by decide) hg2 (by decide) hi
      rw [h7, h8]
      exact (cluster_syllable_lead g hg2).1 i hi
    · intro i hi
      obtain ⟨_, _, _, _, _, _, h7, h8⟩ := cluster_sweep_values FiveWord.scaled_con
        (main_settings true false) m 99 NORMAL NAMING i (by decide) (by decide) (by decide) hi
      rw [h7, h8]
      exact (cluster_syllable_lead NORMAL (by decide)).1 i hi
  · apply score_trend
    · intro i hi
      obtain ⟨_, _, _, _, _, _, h7, h8⟩ := case_sweep_values FiveWord.scaled_con
        (main_settings true false) m 0 a NAMING i (by decide) ha2 (by decide) hi
      obtain ⟨_, _, z3⟩ := case_output_zero FiveWord.scaled_con false a NAMING (i + 1) ha
      rw [h7, h8]
      exact ⟨z3 FiveWord.CAT (by decide), z3 FiveWord.MAT (by decide)⟩
    · intro i hi
      obtain ⟨_, _, _, _, _, _, h7, h8⟩ := case_sweep_values FiveWord.scaled_con
        (main_settings true false) m 99 a NAMING i (by decide) ha2 (by decide) hi
      rw [h7, h8]
      exact (case_syllable_lead a).1 i hi
    · intro i hi
      obtain ⟨_, _, _, _, _, _, h7, h8⟩ := case_sweep_values FiveWord.scaled_con
        (main_settings true false) m 99 NORMAL NAMING i (by decide) (by decide) (by decide) hi
      rw [h7, h8]
      exact (case_syllable_lead NORMAL).1 i hi
  · exact group_control_contrast_pos m lv hlv
  · exact cluster_control_contrast_pos m lv hlv
  · exact case_control_contrast_pos m lv hlv

/-- C25 at a concrete input: the semantic-dementia group of the group-studies program as
compiled; its naming score at severity index `0` is at most the one at index `99`. -/
theorem damage_trend_witness :
    sim_score (compute_activation_results
        (GroupStudies.sweep GroupStudies.scaled_con (main_settings true false)
          GroupStudies.initial_machine).acts)
        GroupStudies.SEMANTIC_DEMENTIA 0 NAMING
      ≤ sim_score (compute_activation_results
        (GroupStudies.sweep GroupStudies.scaled_con (main_settings true false)
          GroupStudies.initial_machine).acts)
        GroupStudies.SEMANTIC_DEMENTIA 99 NAMING :=
  (damage_trend.1 GroupStudies.initial_machine GroupStudies.SEMANTIC_DEMENTIA (by decide)
    (by decide)).2

/-! ## The naming scenario of the control on the integer image (C23, C24) -/

theorem image_diff_lower (D X1 X2 n a b : Nat) (hD : 0 < D) (hb : 0 < b)
    (h : a * D ^ (n + 1) + b * (D * X1) ≤ b * X2) :
    (a : ℚ) / b ≤ (X2 : ℚ) / (D : ℚ) ^ (n + 1) - (X1 : ℚ) / (D : ℚ) ^ n := by
  have hD0 : (0 : ℚ) < D := by exact_mod_cast hD
  have hb0 : (0 : ℚ) < b := by exact_mod_cast hb
  have hp : (0 : ℚ) < (D : ℚ) ^ n := pow_pos hD0 n
  have e : (X2 : ℚ) / (D : ℚ) ^ (n + 1) - (X1 : ℚ) / (D : ℚ) ^ n
      = ((X2 : ℚ) - D * X1) / (D : ℚ) ^ (n + 1) := by
    rw [pow_succ]; field_simp; ring
  have hq : (a : ℚ) * (D : ℚ) ^ (n + 1) + b * (D * X1) ≤ b * X2 := by exact_mod_cast h
  rw [e, div_le_div_iff₀ hb0 (pow_pos hD0 (n + 1))]
  nlinarith

theorem image_diff_upper (D X1 X2 n a b : Nat) (hD : 0 < D) (hb : 0 < b)
    (h : a * D ^ (n + 1) + b * X2 ≤ b * (D * X1)) :
    (a : ℚ) / b ≤ (X1 : ℚ) / (D : ℚ) ^ n - (X2 : ℚ) / (D : ℚ) ^ (n + 1) := by
  have hD0 : (0 : ℚ) < D := by exact_mod_cast hD
  have hb0 : (0 : ℚ) < b := by exact_mod_cast hb
  have hp : (0 : ℚ) < (D : ℚ) ^ n := pow_pos hD0 n
  have e : (X1 : ℚ) / (D : ℚ) ^ n - (X2 : ℚ) / (D : ℚ) ^ (n + 1)
      = ((D : ℚ) * X1 - X2) / (D : ℚ) ^ (n + 1) := by
    rw [pow_succ]; field_simp; ring
  have hq : (a : ℚ) * (D : ℚ) ^ (n + 1) + b * X2 ≤ b * (D * X1) := by exact_mod_cast h
  rw [e, div_le_div_iff₀ hb0 (pow_pos hD0 (n + 1))]
  nlinarith

theorem image_diff_shrink (D X1 X2 X3 n : Nat) (hD : 0 < D)
    (h : 2 * (D * X2) < D * (D * X1) + X3) :
    (X2 : ℚ) / (D : ℚ) ^ (n + 1) - (X3 : ℚ) / (D : ℚ) ^ (n + 2)
      < (X1 : ℚ) / (D : ℚ) ^ n - (X2 : ℚ) / (D : ℚ) ^ (n + 1) := by
  have hD0 : (0 : ℚ) < D := by exact_mod_cast hD
  have hp : (0 : ℚ) < (D : ℚ) ^ n := pow_pos hD0 n
  have e1 : (X2 : ℚ) / (D : ℚ) ^ (n + 1) - (X3 : ℚ) / (D : ℚ) ^ (n + 2)
      = ((D : ℚ) * X2 - X3) / (D : ℚ) ^ (n + 2) := by
    rw [pow_succ, pow_succ, pow_succ]; field_simp; ring
  have e2 : (X1 : ℚ) / (D : ℚ) ^ n - (X2 : ℚ) / (D : ℚ) ^ (n + 1)
      = ((D : ℚ) * (D * X1) - D * X2) / (D : ℚ) ^ (n + 2) := by
    rw [pow_succ, pow_succ, pow_succ]; field_simp; ring
  have hq : (2 : ℚ) * (D * X2) < D * (D * X1) + X3 := by exact_mod_cast h
  rw [e1, e2, div_lt_div_iff_of_pos_right (pow_pos hD0 (n + 2))]
  linarith

theorem control_naming_traj :
    Traj FiveWord.sizes FiveWord.scaled_con (Cases.rates Cases.healthy)
      (FiveWord.external_C EXTIN NAMING) (FiveWord.external_iP EXTIN NAMING)
      Cases.control_naming_net :=
  ⟨zero_net_five_word, fun n => case_step EXTIN FiveWord.scaled_con Cases.healthy NAMING n _⟩

set_option maxRecDepth 100000 in
theorem control_naming_image :
    RatesMatch imageD FiveWord.SEM_rate LEM_rate LEX_rate (FR * LEX_rate)
        (Cases.rates Cases.healthy)
        (RatesN.of imageD FiveWord.SEM_rate LEM_rate LEX_rate (FR * LEX_rate)
          (Cases.rates Cases.healthy))
      ∧ (∀ t, t < 4 →
        365 * imageD ^ (t + 1 + 1)
            + 10000 * (imageD
              * (FiveWord.naming_image (Cases.rates Cases.healthy) (t + 1)).C FiveWord.CAT)
          ≤ 10000 * (FiveWord.naming_image (Cases.rates Cases.healthy) (t + 1 + 1)).C
              FiveWord.CAT)
      ∧ (∀ t, t < 75 →
        365 * imageD ^ (t + 5 + 1)
            + 10000 * (FiveWord.naming_image (Cases.rates Cases.healthy) (t + 5 + 1)).C
              FiveWord.CAT
          ≤ 10000 * (imageD
              * (FiveWord.naming_image (Cases.rates Cases.healthy) (t + 5)).C FiveWord.CAT))
      ∧ (∀ t, t < 73 →
        2 * (imageD
            * (FiveWord.naming_image (Cases.rates Cases.healthy) (t + 6 + 1)).C FiveWord.CAT)
          < imageD * (imageD
              * (FiveWord.naming_image (Cases.rates Cases.healthy) (t + 6)).C FiveWord.CAT)
            + (FiveWord.naming_image (Cases.rates Cases.healthy) (t + 6 + 2)).C
              FiveWord.CAT) := by
  decide!

theorem control_naming_value (n : Nat) :
    rd (Cases.control_naming_net n).C_node_act FiveWord.CAT
      = ((FiveWord.naming_image (Cases.rates Cases.healthy) n).C FiveWord.CAT : ℚ)
        / (imageD : ℚ) ^ n :=
  (five_word_image_match control_naming_traj control_naming_image.1 n).1 FiveWord.CAT
    (by decide)

theorem control_naming_decline :
    (∀ t, t < 4 → 365 / 10000 ≤ rd (Cases.control_naming_net (t + 2)).C_node_act FiveWord.CAT
        - rd (Cases.control_naming_net (t + 1)).C_node_act FiveWord.CAT)
      ∧ (∀ t, t < 75 →
          365 / 10000 ≤ rd (Cases.control_naming_net (t + 5)).C_node_act FiveWord.CAT
            - rd (Cases.control_naming_net (t + 6)).C_node_act FiveWord.CAT)
      ∧ (∀ t, t < 73 →
          rd (Cases.control_naming_net (t + 7)).C_node_act FiveWord.CAT
              - rd (Cases.control_naming_net (t + 8)).C_node_act FiveWord.CAT
            < rd (Cases.control_naming_net (t + 6)).C_node_act FiveWord.CAT
              - rd (Cases.control_naming_net (t + 7)).C_node_act FiveWord.CAT) := by
  obtain ⟨_, h1, h2, h3⟩ := control_naming_image
  have hD : 0 < imageD := by decide
  refine ⟨fun t ht => ?_, fun t ht => ?_, fun t ht => ?_⟩
  · have := image_diff_lower imageD _ _ (t + 1) 365 10000 hD (by decide) (h1 t ht)
    rw [control_naming_value (t + 2), control_naming_value (t + 1)]
    norm_num at this ⊢
    exact this
  · have := image_diff_upper imageD _ _ (t + 5) 365 10000 hD (by decide) (h2 t ht)
    rw [control_naming_value (t + 5), control_naming_value (t + 6)]
    norm_num at this ⊢
    exact this
  · have := image_diff_shrink imageD _ _ _ (t + 6) hD (h3 t ht)
    rw [control_naming_value (t + 6), control_naming_value (t + 7),
      control_naming_value (t + 8)]
    exact this

theorem control_naming_rise :
    rd (Cases.control_naming_net 1).C_node_act FiveWord.CAT
        < rd (Cases.control_naming_net 2).C_node_act FiveWord.CAT
      ∧ rd (Cases.control_naming_net 2).C_node_act FiveWord.CAT
        < rd (Cases.control_naming_net 3).C_node_act FiveWord.CAT
      ∧ rd (Cases.control_naming_net 3).C_node_act FiveWord.CAT
        < rd (Cases.control_naming_net 4).C_node_act FiveWord.CAT
      ∧ rd (Cases.control_naming_net 4).C_node_act FiveWord.CAT
        < rd (Cases.control_naming_net 5).C_node_act FiveWord.CAT
      ∧ rd (Cases.control_naming_net 6).C_node_act FiveWord.CAT
        < rd (Cases.control_naming_net 5).C_node_act FiveWord.CAT := by
  obtain ⟨h1, h2, _⟩ := control_naming_decline
  have a0 := h1 0 (by decide)
  have a1 := h1 1 (by decide)
  have a2 := h1 2 (by decide)
  have a3 := h1 3 (by decide)
  have b0 := h2 0 (by decide)
  have p : (0 : ℚ) < 365 / 10000 := by norm_num
  simp only [Nat.reduceAdd] at a0 a1 a2 a3 b0
  refine ⟨?_, ?_, ?_, ?_, ?_⟩ <;> linarith

/-- C23 as stated fails.  In the single-case program as compiled, for the control in the
naming task, the recorded target-concept activation at step `5` is below the one at step `4`
(about `18.78` against `21.10`): the base picture input ends after step `4`. -/
theorem naming_rise_counterexample :
    ¬ ((Cases.sweep FiveWord.scaled_con (main_settings true false)
          Cases.initial_machine).acts.ACT_CT 0 4 NORMAL NAMING
        < (Cases.sweep FiveWord.scaled_con (main_settings true false)
          Cases.initial_machine).acts.ACT_CT 0 5 NORMAL NAMING) := by
  rw [case_control_target_concept _ _ 0 4 (by decide) (by decide),
    case_control_target_concept _ _ 0 5 (by decide) (by decide)]
  exact not_lt.mpr (le_of_lt control_naming_rise.2.2.2.2)

/-- C23 as the program has it.  In the single-case program, for the control in the naming
task (all lesion factors `1.0`, at every severity index and for every setting of the lesion
switches), the recorded target-concept activation is strictly increasing over the first five
recorded steps, `ACT_CT[0] < ACT_CT[1] < ACT_CT[2] < ACT_CT[3] < ACT_CT[4]`, and falls at the
sixth, `ACT_CT[5] < ACT_CT[4]`. -/
theorem naming_rise_five_steps (cfg : Settings) (m : Machine Cases.Lesion) (lv : Nat)
    (hlv : lv < N_lesion_values) :
    (Cases.sweep FiveWord.scaled_con cfg m).acts.ACT_CT lv 0 NORMAL NAMING
        < (Cases.sweep FiveWord.scaled_con cfg m).acts.ACT_CT lv 1 NORMAL NAMING
      ∧ (Cases.sweep FiveWord.scaled_con cfg m).acts.ACT_CT lv 1 NORMAL NAMING
        < (Cases.sweep FiveWord.scaled_con cfg m).acts.ACT_CT lv 2 NORMAL NAMING
      ∧ (Cases.sweep FiveWord.scaled_con cfg m).acts.ACT_CT lv 2 NORMAL NAMING
        < (Cases.sweep FiveWord.scaled_con cfg m).acts.ACT_CT lv 3 NORMAL NAMING
      ∧ (Cases.sweep FiveWord.scaled_con cfg m).acts.ACT_CT lv 3 NORMAL NAMING
        < (Cases.sweep FiveWord.scaled_con cfg m).acts.ACT_CT lv 4 NORMAL NAMING
      ∧ (Cases.sweep FiveWord.scaled_con cfg m).acts.ACT_CT lv 5 NORMAL NAMING
        < (Cases.sweep FiveWord.scaled_con cfg m).acts.ACT_CT lv 4 NORMAL NAMING := by
  rw [case_control_target_concept cfg m lv 0 hlv (by decide),
    case_control_target_concept cfg m lv 1 hlv (by decide),
    case_control_target_concept cfg m lv 2 hlv (by decide),
    case_control_target_concept cfg m lv 3 hlv (by decide),
    case_control_target_concept cfg m lv 4 hlv (by decide),
    case_control_target_concept cfg m lv 5 hlv (by decide)]
  exact control_naming_rise

/-- C23 (as the program has it) at the program as compiled, severity index `0`. -/
theorem naming_rise_five_steps_witness :
    (Cases.sweep FiveWord.scaled_con (main_settings true false)
          Cases.initial_machine).acts.ACT_CT 0 3 NORMAL NAMING
        < (Cases.sweep FiveWord.scaled_con (main_settings true false)
          Cases.initial_machine).acts.ACT_CT 0 4 NORMAL NAMING
      ∧ (Cases.sweep FiveWord.scaled_con (main_settings true false)
          Cases.initial_machine).acts.ACT_CT 0 5 NORMAL NAMING
        < (Cases.sweep FiveWord.scaled_con (main_settings true false)
          Cases.initial_machine).acts.ACT_CT 0 4 NORMAL NAMING :=
  (naming_rise_five_steps (main_settings true false) Cases.initial_machine 0 (by decide)).2.2.2


/-! ## The naming scenario over the full horizon (C24) -/

theorem control_naming_differences (cfg : Settings) (m : Machine Cases.Lesion) (lv : Nat)
    (hlv : lv < N_lesion_values) (t : Nat) (ht : t < 79) :
    365 / 10000 ≤ |(Cases.sweep FiveWord.scaled_con cfg m).acts.ACT_CT lv (t + 1) NORMAL NAMING
      - (Cases.sweep FiveWord.scaled_con cfg m).acts.ACT_CT lv t NORMAL NAMING| := by
  rw [case_control_target_concept cfg m lv (t + 1) hlv (by show t + 1 < 80; omega),
    case_control_target_concept cfg m lv t hlv (by show t < 80; omega)]
  obtain ⟨h1, h2, _⟩ := control_naming_decline
  rcases Nat.lt_or_ge t 4 with h | h
  · exact le_trans (h1 t h) (le_abs_self _)
  · have e := h2 (t - 4) (by omega)
    have e1 : t - 4 + 5 = t + 1 := by omega
    have e2 : t - 4 + 6 = t + 1 + 1 := by omega
    rw [e1, e2] at e
    rw [abs_sub_comm]
    exact le_trans e (le_abs_self _)

/-- C24 as stated fails.  In the single-case program as compiled, for the control in the
naming task, there is no step `s < 79` from which on every successive difference of the
recorded target-concept activation is below `1e-6`: the last one,
`|ACT_CT[79] - ACT_CT[78]|`, is about `0.0365`. -/
theorem naming_asymptote_counterexample :
    ¬ ∃ s, s < 79 ∧ ∀ t, s ≤ t → t < 79 →
      |(Cases.sweep FiveWord.scaled_con (main_settings true false)
            Cases.initial_machine).acts.ACT_CT 0 (t + 1) NORMAL NAMING
        - (Cases.sweep FiveWord.scaled_con (main_settings true false)
            Cases.initial_machine).acts.ACT_CT 0 t NORMAL NAMING| < 1 / 1000000 := by
  rintro ⟨s, hs, h⟩
  have h1 := h 78 (by omega) (by decide)
  have h2 := control_naming_differences (main_settings true false) Cases.initial_machine 0
    (by decide) 78 (by decide)
  have : (365 : ℚ) / 10000 < 1 / 1000000 := lt_of_le_of_lt h2 h1
  norm_num at this

/-- C24 as the program has it.  In the single-case program, for the control in the naming
task (at every severity index and for every setting of the lesion switches), the recorded
target-concept activation reaches no asymptote within the 80 steps: it falls at every step
after step `4`, the successive differences shrink from step `5` on, and every successive
difference `|ACT_CT[t+1] - ACT_CT[t]|`, `t < 79`, is at least `0.0365`. -/
theorem naming_slow_decline (cfg : Settings) (m : Machine Cases.Lesion) (lv : Nat)
    (hlv : lv < N_lesion_values) :
    (∀ t, 4 ≤ t → t < 79 →
        (Cases.sweep FiveWord.scaled_con cfg m).acts.ACT_CT lv (t + 1) NORMAL NAMING
          < (Cases.sweep FiveWord.scaled_con cfg m).acts.ACT_CT lv t NORMAL NAMING)
      ∧ (∀ t, 5 ≤ t → t < 78 →
        |(Cases.sweep FiveWord.scaled_con cfg m).acts.ACT_CT lv (t + 2) NORMAL NAMING
            - (Cases.sweep FiveWord.scaled_con cfg m).acts.ACT_CT lv (t + 1) NORMAL NAMING|
          < |(Cases.sweep FiveWord.scaled_con cfg m).acts.ACT_CT lv (t + 1) NORMAL NAMING
            - (Cases.sweep FiveWord.scaled_con cfg m).acts.ACT_CT lv t NORMAL NAMING|)
      ∧ (∀ t, t < 79 →
        365 / 10000
          ≤ |(Cases.sweep FiveWord.scaled_con cfg m).acts.ACT_CT lv (t + 1) NORMAL NAMING
            - (Cases.sweep FiveWord.scaled_con cfg m).acts.ACT_CT lv t NORMAL NAMING|) := by
  obtain ⟨_, h2, h3⟩ := control_naming_decline
  have fall : ∀ t, 4 ≤ t → t < 79 →
      rd (Cases.control_naming_net (t + 1 + 1)).C_node_act FiveWord.CAT
        < rd (Cases.control_naming_net (t + 1)).C_node_act FiveWord.CAT := by
    intro t h4 h79
    have e := h2 (t - 4) (by omega)
    have e1 : t - 4 + 5 = t + 1 := by omega
    have e2 : t - 4 + 6 = t + 1 + 1 := by omega
    rw [e1, e2] at e
    have : (0 : ℚ) < 365 / 10000 := by norm_num
    linarith
  refine ⟨fun t h4 h79 => ?_, fun t h5 h78 => ?_,
    fun t ht => control_naming_differences cfg m lv hlv t ht⟩
  · rw [case_control_target_concept cfg m lv (t + 1) hlv (by show t + 1 < 80; omega),
      case_control_target_concept cfg m lv t hlv (by show t < 80; omega)]
    exact fall t h4 h79
  · rw [case_control_target_concept cfg m lv (t + 2) hlv (by show t + 2 < 80; omega),
      case_control_target_concept cfg m lv (t + 1) hlv (by show t + 1 < 80; omega),
      case_control_target_concept cfg m lv t hlv (by show t < 80; omega)]
    have f1 := fall t (by omega) (by omega)
    have f2 := fall (t + 1) (by omega) (by omega)
    have e := h3 (t - 5) (by omega)
    have e1 : t - 5 + 6 = t + 1 := by omega
    have e2 : t - 5 + 7 = t + 1 + 1 := by omega
    have e3 : t - 5 + 8 = t + 2 + 1 := by omega
    rw [e1, e2, e3] at e
    have e4 : t + 1 + 1 + 1 = t + 2 + 1 := by omega
    rw [e4] at f2
    rw [abs_of_neg (by linarith), abs_of_neg (by linarith)]
    linarith

/-- C24 (as the program has it) at the program as compiled, severity index `0`: the last
successive difference. -/
theorem naming_slow_decline_witness :
    365 / 10000
      ≤ |(Cases.sweep FiveWord.scaled_con (main_settings true false)
            Cases.initial_machine).acts.ACT_CT 0 (78 + 1) NORMAL NAMING
          - (Cases.sweep FiveWord.scaled_con (main_settings true false)
            Cases.initial_machine).acts.ACT_CT 0 78 NORMAL NAMING| :=
  (naming_slow_decline (main_settings true false) Cases.initial_machine 0 (by decide)).2.2 78
    (by decide)


/-! ## The large topology: adjacency of morphemes and phonemes, concept connections (C36, C37) -/

theorem group_adjacency_rows :
    (∀ m, m < GroupStudies.N_MORPHEMEs → ∀ p, p < GroupStudies.N_PHONEMEs → m ≠ 0 → m ≠ 3 →
        rd2 GroupStudies.MP_con m p = rd2 GroupStudies.PiM_con p m)
      ∧ (GroupStudies.MP_con.getD 0 []).length = 21
      ∧ (∀ m, m < GroupStudies.N_MORPHEMEs → m ≠ 0 →
        (GroupStudies.MP_con.getD m []).length = GroupStudies.N_PHONEMEs) := by
  decide!

theorem group_adjacency_butterfly :
    (∀ p, p < 3 → rd2 GroupStudies.MP_con 0 p = rd2 GroupStudies.PiM_con p 0)
      ∧ (∀ p, p < 21 → 3 ≤ p →
        rd2 GroupStudies.MP_con 0 p = rd2 GroupStudies.PiM_con (p + 1) 0)
      ∧ rd2 GroupStudies.MP_con 0 21 = 0
      ∧ (rd2 GroupStudies.MP_con 0 5 = 1 ∧ rd2 GroupStudies.PiM_con 5 0 = 0) := by
  decide!

theorem group_adjacency_dinosaur :
    (∀ p, p < GroupStudies.N_PHONEMEs → p ≠ 19 → p ≠ 20 →
        rd2 GroupStudies.MP_con 3 p = rd2 GroupStudies.PiM_con p 3)
      ∧ (rd2 GroupStudies.MP_con 3 19 = 0 ∧ rd2 GroupStudies.PiM_con 19 3 = 1)
      ∧ (rd2 GroupStudies.MP_con 3 20 = 1 ∧ rd2 GroupStudies.PiM_con 20 3 = 0) := by
  decide!

/-- C36, what the program has.  In the group-studies program, before scaling,
`MP_con[m][p] = PiM_con[p][m]` holds for every phoneme `p < 22` and every morpheme
`m < 12` other than `0` (butterfly) and `3` (dinosaur).  The initialiser of row `0` of
`MP_con` has `21` values instead of `22`: the first three agree with `PiM_con`
(`p = 0, 1, 2`), the values at `p = 3 .. 20` are those of `PiM_con[p + 1][0]` (the row is
shifted by one from the fourth entry on) and `MP_con[0][21]` is the padding `0.0`; so
`MP_con[0][5]` is `1.0` while `PiM_con[5][0]` is `0.0`.  Row `3` agrees with `PiM_con` except
at `p = 19, 20`: `MP_con[3][19]` is `0.0` and `MP_con[3][20]` is `1.0`, while
`PiM_con[19][3]` is `1.0` and `PiM_con[20][3]` is `0.0`. -/
theorem morpheme_phoneme_adjacency :
    (∀ m, m < GroupStudies.N_MORPHEMEs → ∀ p, p < GroupStudies.N_PHONEMEs → m ≠ 0 → m ≠ 3 →
        rd2 GroupStudies.MP_con m p = rd2 GroupStudies.PiM_con p m)
      ∧ (GroupStudies.MP_con.getD 0 []).length = 21
      ∧ (∀ m, m < GroupStudies.N_MORPHEMEs → m ≠ 0 →
        (GroupStudies.MP_con.getD m []).length = GroupStudies.N_PHONEMEs)
      ∧ (∀ p, p < 3 → rd2 GroupStudies.MP_con 0 p = rd2 GroupStudies.PiM_con p 0)
      ∧ (∀ p, p < 21 → 3 ≤ p →
        rd2 GroupStudies.MP_con 0 p = rd2 GroupStudies.PiM_con (p + 1) 0)
      ∧ rd2 GroupStudies.MP_con 0 21 = 0
      ∧ (rd2 GroupStudies.MP_con 0 5 = 1 ∧ rd2 GroupStudies.PiM_con 5 0 = 0)
      ∧ (∀ p, p < GroupStudies.N_PHONEMEs → p ≠ 19 → p ≠ 20 →
        rd2 GroupStudies.MP_con 3 p = rd2 GroupStudies.PiM_con p 3)
      ∧ (rd2 GroupStudies.MP_con 3 19 = 0 ∧ rd2 GroupStudies.PiM_con 19 3 = 1)
      ∧ (rd2 GroupStudies.MP_con 3 20 = 1 ∧ rd2 GroupStudies.PiM_con 20 3 = 0)
      ∧ ¬ (∀ m, m < GroupStudies.N_MORPHEMEs → ∀ p, p < GroupStudies.N_PHONEMEs →
        rd2 GroupStudies.MP_con m p = rd2 GroupStudies.PiM_con p m) := by
  obtain ⟨a1, a2, a3⟩ := group_adjacency_rows
  obtain ⟨b1, b2, b3, b4⟩ := group_adjacency_butterfly
  obtain ⟨c1, c2, c3⟩ := group_adjacency_dinosaur
  refine ⟨a1, a2, a3, b1, b2, b3, b4, c1, c2, c3, fun h => ?_⟩
  have e := h 0 (by decide) 5 (by decide)
  rw [b4.1, b4.2] at e
  exact one_ne_zero e

/-- C36 at a concrete entry: morpheme `7` (cat) and phoneme `5` (k). -/
theorem morpheme_phoneme_adjacency_witness :
    rd2 GroupStudies.MP_con 7 5 = rd2 GroupStudies.PiM_con 5 7 :=
  morpheme_phoneme_adjacency.1 7 (by decide) 5 (by decide) (by decide) (by decide)

set_option maxRecDepth 100000 in
/-- C37, what the program has.  In the group-studies program `CC_con` is symmetric, and its
diagonal is `0.0` at every concept except the foil: `CC_con[DOG][DOG]` (`DOG = 8`) is `1.0`,
a connection of the foil concept to itself; the target (`CAT = 7`) has none.  In the
five-word programs `CC_con` is symmetric with a zero diagonal. -/
theorem concept_connections :
    (∀ i, i < GroupStudies.N_CONCEPTs → ∀ j, j < GroupStudies.N_CONCEPTs →
        rd2 GroupStudies.CC_con i j = rd2 GroupStudies.CC_con j i)
      ∧ (∀ i, i < GroupStudies.N_CONCEPTs → i ≠ GroupStudies.DOG →
        rd2 GroupStudies.CC_con i i = 0)
      ∧ rd2 GroupStudies.CC_con GroupStudies.CAT GroupStudies.CAT = 0
      ∧ rd2 GroupStudies.CC_con GroupStudies.DOG GroupStudies.DOG = 1
      ∧ ¬ (∀ i, i < GroupStudies.N_CONCEPTs → rd2 GroupStudies.CC_con i i = 0)
      ∧ (∀ i, i < FiveWord.N_CONCEPTs → ∀ j, j < FiveWord.N_CONCEPTs →
        rd2 FiveWord.CC_con i j = rd2 FiveWord.CC_con j i)
      ∧ (∀ i, i < FiveWord.N_CONCEPTs → rd2 FiveWord.CC_con i i = 0) := by
  decide!

/-- C37 at a concrete entry: the concepts `0` (butterfly) and `11` (fish). -/
theorem concept_connections_witness :
    rd2 GroupStudies.CC_con 0 11 = rd2 GroupStudies.CC_con 11 0 :=
  concept_connections.1 0 (by decide) 11 (by decide)

/-! ## The retention multiplier over the decay grid (C35) -/

/-- C35.  With the decay lesion switched on, `DECAY_rate` is `0.6` and the grid that `main`
generates with `N_lesion_values = 100` is `DECAY_value[i] = 1.01 + 0.01 * i`; the retention
multiplier `1 - DECAY_rate * DECAY_value[i]` is strictly between `0` and `1` for every index
`i <= 65` (grid value at most `1.66`) and is negative for every index `66 <= i < 100` (grid
value at least `1.67`).  The grid value is the decay factor of the lesioned layer: of the
output morphemes for a patient of the single-case program and for the logopenic group, of
the concepts for the semantic-dementia group and of the output phonemes for the nonfluent
group of the group-studies program. -/
theorem decay_grid_safety (WEIGHT_LESION : Bool) :
    DECAY_rate = 6 / 10
      ∧ (∀ i, i < N_lesion_values →
        rd (main_settings WEIGHT_LESION true).DECAY_value i = 101 / 100 + (i : ℚ) / 100)
      ∧ (∀ i, i ≤ 65 →
        0 < 1 - DECAY_rate * rd (main_settings WEIGHT_LESION true).DECAY_value i
          ∧ 1 - DECAY_rate * rd (main_settings WEIGHT_LESION true).DECAY_value i < 1)
      ∧ (∀ i, 66 ≤ i → i < N_lesion_values →
        1 - DECAY_rate * rd (main_settings WEIGHT_LESION true).DECAY_value i < 0)
      ∧ (∀ a i, a ≠ NORMAL →
        (Cases.rates (Cases.set_aphasic_parameters (main_settings WEIGHT_LESION true) a i)).dM
          = rd (main_settings WEIGHT_LESION true).DECAY_value i)
      ∧ (∀ i,
        (GroupStudies.rates (GroupStudies.set_aphasic_parameters
            (main_settings WEIGHT_LESION true) GroupStudies.LOGOPENIC i)).dM
          = rd (main_settings WEIGHT_LESION true).DECAY_value i
        ∧ (GroupStudies.rates (GroupStudies.set_aphasic_parameters
            (main_settings WEIGHT_LESION true) GroupStudies.SEMANTIC_DEMENTIA i)).dC
          = rd (main_settings WEIGHT_LESION true).DECAY_value i
        ∧ (GroupStudies.rates (GroupStudies.set_aphasic_parameters
            (main_settings WEIGHT_LESION true) GroupStudies.NONFLUENT_AGRAMMATIC i)).doP
          = rd (main_settings WEIGHT_LESION true).DECAY_value i) := by
  have hr : DECAY_rate = 6 / 10 := by norm_num [DECAY_rate]
  refine ⟨hr, fun i hi => rd_decay_grid WEIGHT_LESION i hi, fun i hi => ?_, fun i h1 h2 => ?_,
    fun a i ha => ?_, fun i => ?_⟩
  · rw [rd_decay_grid WEIGHT_LESION i (lt_of_le_of_lt hi (by decide)), hr]
    have h1 : (i : ℚ) ≤ 65 := by exact_mod_cast hi
    have h0 : (0 : ℚ) ≤ i := Nat.cast_nonneg i
    constructor <;> linarith
  · rw [rd_decay_grid WEIGHT_LESION i h2, hr]
    have h3 : (66 : ℚ) ≤ i := by exact_mod_cast h1
    linarith
  · simp [Cases.rates, Cases.set_aphasic_parameters, main_settings, ha]
  · simp [GroupStudies.rates, GroupStudies.set_aphasic_parameters, main_settings]

/-- C35 at concrete inputs: the program with only the decay lesion on, the last index with a
positive multiplier (`65`) and the first with a negative one (`66`). -/
theorem decay_grid_safety_witness :
    (0 < 1 - DECAY_rate * rd (main_settings false true).DECAY_value 65
        ∧ 1 - DECAY_rate * rd (main_settings false true).DECAY_value 65 < 1)
      ∧ 1 - DECAY_rate * rd (main_settings false true).DECAY_value 66 < 0 :=
  ⟨(decay_grid_safety false).2.2.1 65 (by decide),
    (decay_grid_safety false).2.2.2.1 66 (by decide) (by decide)⟩

/-! ## Groups that are simulated identically (C31, C32) -/

theorem means_of_series (r : Recorded) (lv g g' t : Nat)
    (h : series r lv g t = series r lv g' t) :
    (compute_activation_results r).MEAN_ACT_C lv g t
        = (compute_activation_results r).MEAN_ACT_C lv g' t
      ∧ (compute_activation_results r).MEAN_ACT_S lv g t
        = (compute_activation_results r).MEAN_ACT_S lv g' t
      ∧ (compute_activation_results r).MEAN_ACT_CT lv g t
        = (compute_activation_results r).MEAN_ACT_CT lv g' t
      ∧ (compute_activation_results r).MEAN_ACT_CR lv g t
        = (compute_activation_results r).MEAN_ACT_CR lv g' t
      ∧ (compute_activation_results r).MEAN_ACT_LT lv g t
        = (compute_activation_results r).MEAN_ACT_LT lv g' t
      ∧ (compute_activation_results r).MEAN_ACT_LR lv g t
        = (compute_activation_results r).MEAN_ACT_LR lv g' t
      ∧ (compute_activation_results r).MEAN_ACT_ST lv g t
        = (compute_activation_results r).MEAN_ACT_ST lv g' t
      ∧ (compute_activation_results r).MEAN_ACT_SR lv g t
        = (compute_activation_results r).MEAN_ACT_SR lv g' t := by
  simp only [compute_activation_results, total_act_eq_sum]
  refine ⟨?_, ?_, ?_, ?_, ?_, ?_, ?_, ?_⟩ <;> congr 1 <;> apply Finset.sum_congr rfl <;>
    intro i hi
  · exact (series_entries r r lv g t lv g' t h i (Finset.mem_range.mp hi)).1
  · exact (series_entries r r lv g t lv g' t h i (Finset.mem_range.mp hi)).2.1
  · exact (series_entries r r lv g t lv g' t h i (Finset.mem_range.mp hi)).2.2.1
  · exact (series_entries r r lv g t lv g' t h i (Finset.mem_range.mp hi)).2.2.2.1
  · exact (series_entries r r lv g t lv g' t h i (Finset.mem_range.mp hi)).2.2.2.2.1
  · exact (series_entries r r lv g t lv g' t h i (Finset.mem_range.mp hi)).2.2.2.2.2.1
  · exact (series_entries r r lv g t lv g' t h i (Finset.mem_range.mp hi)).2.2.2.2.2.2.1
  · exact (series_entries r r lv g t lv g' t h i (Finset.mem_range.mp hi)).2.2.2.2.2.2.2

theorem scores_of_series (r : Recorded) (lv g g' : Nat)
    (h : ∀ t, t < N_TASKs → series r lv g t = series r lv g' t) (t : Nat) :
    sim_score (compute_activation_results r) g lv t
      = sim_score (compute_activation_results r) g' lv t := by
  obtain ⟨_, _, _, _, _, _, n7, n8⟩ := means_of_series r lv g g' NAMING (h NAMING (by decide))
  obtain ⟨_, _, c3, c4, _, _, _, _⟩ :=
    means_of_series r lv g g' COMPREHENSION (h COMPREHENSION (by decide))
  obtain ⟨_, _, _, _, _, _, r7, r8⟩ :=
    means_of_series r lv g g' REPETITION (h REPETITION (by decide))
  simp only [sim_score, n7, n8, c3, c4, r7, r8]

theorem errors_of_series (r : Recorded) (REAL_DATA : List (List ℚ)) (lv g g' : Nat)
    (h : ∀ t, t < N_TASKs → series r lv g t = series r lv g' t)
    (hr : ∀ t, t < N_TASKs → rd2 REAL_DATA g t = rd2 REAL_DATA g' t) :
    mean_abs_error (compute_activation_results r) REAL_DATA g lv
      = mean_abs_error (compute_activation_results r) REAL_DATA g' lv := by
  simp only [mean_abs_error, scores_of_series r lv g g' h, hr NAMING (by decide),
    hr COMPREHENSION (by decide), hr REPETITION (by decide)]

theorem fits_of_series (cfg : Settings) (r : Recorded) (REAL_DATA : List (List ℚ))
    (g g' : Nat) (f f' : FitState)
    (h : ∀ lv, lv < N_lesion_values → ∀ t, t < N_TASKs → series r lv g t = series r lv g' t)
    (hr : ∀ t, t < N_TASKs → rd2 REAL_DATA g t = rd2 REAL_DATA g' t) :
    (fit_loop cfg (compute_activation_results r) REAL_DATA g f).GOODNESS_OF_FIT
        = (fit_loop cfg (compute_activation_results r) REAL_DATA g' f').GOODNESS_OF_FIT
      ∧ (fit_group cfg (compute_activation_results r) REAL_DATA g f).2
        = (fit_group cfg (compute_activation_results r) REAL_DATA g' f').2 := by
  have e : (fit_loop cfg (compute_activation_results r) REAL_DATA g f).GOODNESS_OF_FIT
      = (fit_loop cfg (compute_activation_results r) REAL_DATA g' f').GOODNESS_OF_FIT := by
    rw [fit_loop_gof_eq, fit_loop_gof_eq]
    exact tabulate_congr _ _ _ fun lv hlv => errors_of_series r REAL_DATA lv g g' (h lv hlv) hr
  refine ⟨e, ?_⟩
  have ha := (best_fit_scan_spec
    (fit_loop cfg (compute_activation_results r) REAL_DATA g' f').GOODNESS_OF_FIT).1
  have s1 := scores_of_series r _ g g' (h _ ha) NAMING
  have s2 := scores_of_series r _ g g' (h _ ha) COMPREHENSION
  have s3 := scores_of_series r _ g g' (h _ ha) REPETITION
  simp only [sim_score, NAMING, COMPREHENSION, REPETITION, if_true, if_false, if_pos,
    OfNat.ofNat_ne_zero, OfNat.ofNat_ne_one, one_ne_zero, Nat.succ_ne_self] at s1 s2 s3
  simp only [fit_group, report, e, NAMING, COMPREHENSION, REPETITION]
  rw [s1, s2, s3]

theorem case_patient_parameters (cfg : Settings) (i j lv : Nat) (hi : i ≠ NORMAL)
    (hj : j ≠ NORMAL) :
    Cases.set_aphasic_parameters cfg i lv = Cases.set_aphasic_parameters cfg j lv := by
  simp [Cases.set_aphasic_parameters, hi, hj]

theorem case_patient_cell_net (con : Conn) (cfg : Settings) (i j t lv n : Nat) (hi : i ≠ NORMAL)
    (hj : j ≠ NORMAL) : Cases.cell_net con cfg i t lv n = Cases.cell_net con cfg j t lv n := by
  simp only [Cases.cell_net, case_patient_parameters cfg i j lv hi hj]

theorem case_patient_series (con : Conn) (cfg : Settings) (m : Machine Cases.Lesion)
    (i j lv t : Nat) (hi : i ≠ NORMAL) (hj : j ≠ NORMAL) (hi2 : i < Cases.N_ASSESSMENTs)
    (hj2 : j < Cases.N_ASSESSMENTs) (hlv : lv < N_lesion_values) (ht : t < N_TASKs) :
    series (Cases.sweep con cfg m).acts lv i t = series (Cases.sweep con cfg m).acts lv j t := by
  rw [case_sweep_cell_series con cfg m lv i t hlv hi2 ht,
    case_sweep_cell_series con cfg m lv j t hlv hj2 ht]
  simp only [case_patient_cell_net con cfg i j t lv _ hi hj]

/-- C31.  In the single-case program, for every connection matrices, every setting of the
lesion switches and grids, and any two patients `i`, `j` in `1 .. 20`: the lesion factors set
for `i` and for `j` are the same at every severity index; for every task, severity index and
step the eight recorded critical-node activations coincide, and so do the eight means and
the simulated score; and for every reference table whose rows `i` and `j` agree on the three
tasks, the errors `GOODNESS_OF_FIT` and the printed best fit (best-fit value, error and the
three scores) coincide: best fits can differ only through `REAL_DATA`. -/
theorem patients_simulated_identically :
    ∀ (con : Conn) (cfg : Settings) (m : Machine Cases.Lesion) (i j : Nat),
      i ≠ NORMAL → j ≠ NORMAL → i < Cases.N_ASSESSMENTs → j < Cases.N_ASSESSMENTs →
      (∀ lv, Cases.set_aphasic_parameters cfg i lv = Cases.set_aphasic_parameters cfg j lv)
      ∧ (∀ lv t, lv < N_lesion_values → t < N_TASKs →
        series (Cases.sweep con cfg m).acts lv i t = series (Cases.sweep con cfg m).acts lv j t
        ∧ (∀ step, step < N_STEPs →
          (Cases.sweep con cfg m).acts.ACT_CT lv step i t
              = (Cases.sweep con cfg m).acts.ACT_CT lv step j t
            ∧ (Cases.sweep con cfg m).acts.ACT_CR lv step i t
              = (Cases.sweep con cfg m).acts.ACT_CR lv step j t
            ∧ (Cases.sweep con cfg m).acts.ACT_ST lv step i t
              = (Cases.sweep con cfg m).acts.ACT_ST lv step j t
            ∧ (Cases.sweep con cfg m).acts.ACT_SR lv step i t
              = (Cases.sweep con cfg m).acts.ACT_SR lv step j t)
        ∧ (compute_activation_results (Cases.sweep con cfg m).acts).MEAN_ACT_CT lv i t
          = (compute_activation_results (Cases.sweep con cfg m).acts).MEAN_ACT_CT lv j t
        ∧ (compute_activation_results (Cases.sweep con cfg m).acts).MEAN_ACT_CR lv i t
          = (compute_activation_results (Cases.sweep con cfg m).acts).MEAN_ACT_CR lv j t
        ∧ (compute_activation_results (Cases.sweep con cfg m).acts).MEAN_ACT_ST lv i t
          = (compute_activation_results (Cases.sweep con cfg m).acts).MEAN_ACT_ST lv j t
        ∧ (compute_activation_results (Cases.sweep con cfg m).acts).MEAN_ACT_SR lv i t
          = (compute_activation_results (Cases.sweep con cfg m).acts).MEAN_ACT_SR lv j t
        ∧ sim_score (compute_activation_results (Cases.sweep con cfg m).acts) i lv t
          = sim_score (compute_activation_results (Cases.sweep con cfg m).acts) j lv t)
      ∧ (∀ (REAL_DATA : List (List ℚ)) (f f' : FitState),
        (∀ t, t < N_TASKs → rd2 REAL_DATA i t = rd2 REAL_DATA j t) →
        (fit_loop cfg (compute_activation_results (Cases.sweep con cfg m).acts)
            REAL_DATA i f).GOODNESS_OF_FIT
          = (fit_loop cfg (compute_activation_results (Cases.sweep con cfg m).acts)
            REAL_DATA j f').GOODNESS_OF_FIT
        ∧ (fit_group cfg (compute_activation_results (Cases.sweep con cfg m).acts)
            REAL_DATA i f).2
          = (fit_group cfg (compute_activation_results (Cases.sweep con cfg m).acts)
            REAL_DATA j f').2) := by
  intro con cfg m i j hi hj hi2 hj2
  have hs : ∀ lv, lv < N_lesion_values → ∀ t, t < N_TASKs →
      series (Cases.sweep con cfg m).acts lv i t = series (Cases.sweep con cfg m).acts lv j t :=
    fun lv hlv t ht => case_patient_series con cfg m i j lv t hi hj hi2 hj2 hlv ht
  refine ⟨fun lv => case_patient_parameters cfg i j lv hi hj, fun lv t hlv ht => ?_,
    fun REAL_DATA f f' hr => fits_of_series cfg _ REAL_DATA i j f f' hs hr⟩
  obtain ⟨_, _, m3, m4, _, _, m7, m8⟩ := means_of_series _ lv i j t (hs lv hlv t ht)
  refine ⟨hs lv hlv t ht, fun step hstep => ?_, m3, m4, m7, m8,
    scores_of_series _ lv i j (hs lv hlv) t⟩
  obtain ⟨_, _, e3, e4, _, _, e7, e8⟩ := series_entries _ _ lv i t lv j t (hs lv hlv t ht) step hstep
  exact ⟨e3, e4, e7, e8⟩

/-- C31 at a concrete input: the single-case program as compiled, patients `3` and `17`,
naming at severity index `50`: the simulated scores coincide. -/
theorem patients_simulated_identically_witness :
    sim_score (compute_activation_results
        (Cases.sweep FiveWord.scaled_con (main_settings true false)
          Cases.initial_machine).acts) 3 50 NAMING
      = sim_score (compute_activation_results
        (Cases.sweep FiveWord.scaled_con (main_settings true false)
          Cases.initial_machine).acts) 17 50 NAMING :=
  ((patients_simulated_identically FiveWord.scaled_con (main_settings true false)
    Cases.initial_machine 3 17 (by decide) (by decide) (by decide) (by decide)).2.1
      50 NAMING (by decide) (by decide)).2.2.2.2.2.2

/-! ### Cluster 1 and cluster 3 (C32) -/

theorem cluster_one_three_rates (cfg : Settings) (lv : Nat) :
    Clusters.rates (Clusters.set_aphasic_parameters cfg Clusters.CLUSTER_1 lv)
      = Clusters.rates (Clusters.set_aphasic_parameters cfg Clusters.CLUSTER_3 lv) := by
  simp [Clusters.rates, Clusters.set_aphasic_parameters, Clusters.CLUSTER_1,
    Clusters.CLUSTER_2, Clusters.CLUSTER_3]

theorem cluster_one_three_net (con : Conn) (cfg : Settings) (t lv n : Nat) :
    ScaledNet FiveWord.sizes 1 (Clusters.cell_net con cfg Clusters.CLUSTER_1 t lv n)
      (Clusters.cell_net con cfg Clusters.CLUSTER_3 t lv n) := by
  have h1 := cluster_traj EXTIN con cfg Clusters.CLUSTER_1 t lv
  have h2 := cluster_traj EXTIN con cfg Clusters.CLUSTER_3 t lv
  rw [← cluster_one_three_rates cfg lv] at h2
  exact traj_scale h1 h2 (fun _ _ => (one_mul _).symm) (fun _ _ => (one_mul _).symm) n

theorem cluster_one_three_series (con : Conn) (cfg : Settings) (m : Machine Clusters.Lesion)
    (lv t : Nat) (hlv : lv < N_lesion_values) (ht : t < N_TASKs) :
    series (Clusters.sweep con cfg m).acts lv Clusters.CLUSTER_1 t
      = series (Clusters.sweep con cfg m).acts lv Clusters.CLUSTER_3 t := by
  rw [cluster_sweep_cell_series con cfg m lv Clusters.CLUSTER_1 t hlv (by decide) ht,
    cluster_sweep_cell_series con cfg m lv Clusters.CLUSTER_3 t hlv (by decide) ht]
  apply List.map_congr_left
  intro step _
  exact (critical_values_of_equal (cluster_one_three_net con cfg t lv (step + 1)) _ _ _ _
    (by decide) (by decide) (by decide) (by decide) (by decide) (by decide) (by decide)).symm

/-- C32.  In the cluster program, for every connection matrices and every setting of the
lesion switches and grids (weight-lesion mode, decay-lesion mode, both or none), the factors
applied on every pathway and the decay factors of every layer are the same for `CLUSTER_1`
and for `CLUSTER_3` at every severity index; for every task and severity index the series of
the eight recorded critical-node activations (all 80 steps) of `CLUSTER_1` equals that of
`CLUSTER_3`, and so do the simulated scores. -/
theorem clusters_one_and_three_agree :
    ∀ (con : Conn) (cfg : Settings) (m : Machine Clusters.Lesion) (lv : Nat),
      lv < N_lesion_values →
      Clusters.rates (Clusters.set_aphasic_parameters cfg Clusters.CLUSTER_1 lv)
          = Clusters.rates (Clusters.set_aphasic_parameters cfg Clusters.CLUSTER_3 lv)
        ∧ (∀ t, t < N_TASKs →
          series (Clusters.sweep con cfg m).acts lv Clusters.CLUSTER_1 t
              = series (Clusters.sweep con cfg m).acts lv Clusters.CLUSTER_3 t
            ∧ (∀ step, step < N_STEPs →
              (Clusters.sweep con cfg m).acts.ACT_CT lv step Clusters.CLUSTER_1 t
                  = (Clusters.sweep con cfg m).acts.ACT_CT lv step Clusters.CLUSTER_3 t
                ∧ (Clusters.sweep con cfg m).acts.ACT_CR lv step Clusters.CLUSTER_1 t
                  = (Clusters.sweep con cfg m).acts.ACT_CR lv step Clusters.CLUSTER_3 t
                ∧ (Clusters.sweep con cfg m).acts.ACT_ST lv step Clusters.CLUSTER_1 t
                  = (Clusters.sweep con cfg m).acts.ACT_ST lv step Clusters.CLUSTER_3 t
                ∧ (Clusters.sweep con cfg m).acts.ACT_SR lv step Clusters.CLUSTER_1 t
                  = (Clusters.sweep con cfg m).acts.ACT_SR lv step Clusters.CLUSTER_3 t)
            ∧ sim_score (compute_activation_results (Clusters.sweep con cfg m).acts)
                Clusters.CLUSTER_1 lv t
              = sim_score (compute_activation_results (Clusters.sweep con cfg m).acts)
                Clusters.CLUSTER_3 lv t) := by
  intro con cfg m lv hlv
  refine ⟨cluster_one_three_rates cfg lv, fun t ht => ?_⟩
  have hs := cluster_one_three_series con cfg m lv t hlv ht
  refine ⟨hs, fun step hstep => ?_,
    scores_of_series _ lv _ _ (fun t ht => cluster_one_three_series con cfg m lv t hlv ht) t⟩
  obtain ⟨_, _, e3, e4, _, _, e7, e8⟩ := series_entries _ _ lv _ t lv _ t hs step hstep
  exact ⟨e3, e4, e7, e8⟩

/-- C32 at a concrete input: the cluster program with only the decay lesion on, repetition
at severity index `40`: the scores of cluster 1 and cluster 3 coincide. -/
theorem clusters_one_and_three_agree_witness :
    sim_score (compute_activation_results
        (Clusters.sweep FiveWord.scaled_con (main_settings false true)
          Clusters.initial_machine).acts) Clusters.CLUSTER_1 40 REPETITION
      = sim_score (compute_activation_results
        (Clusters.sweep FiveWord.scaled_con (main_settings false true)
          Clusters.initial_machine).acts) Clusters.CLUSTER_3 40 REPETITION :=
  ((clusters_one_and_three_agree FiveWord.scaled_con (main_settings false true)
    Clusters.initial_machine 40 (by decide)).2 REPETITION (by decide)).2.2

/-! ## The scores of the control (C33) -/

theorem quotient_hundred (x : ℚ) (h : x ≠ 0) : x / x * 100 = 100 := by
  rw [div_self h, one_mul]

theorem control_score_value (mn : Means) (lv : Nat) :
    (mn.MEAN_ACT_ST lv NORMAL NAMING - mn.MEAN_ACT_SR lv NORMAL NAMING ≠ 0 →
        sim_score mn NORMAL lv NAMING = 100)
      ∧ (mn.MEAN_ACT_CT lv NORMAL COMPREHENSION - mn.MEAN_ACT_CR lv NORMAL COMPREHENSION ≠ 0 →
        sim_score mn NORMAL lv COMPREHENSION = 100)
      ∧ (mn.MEAN_ACT_ST lv NORMAL REPETITION - mn.MEAN_ACT_SR lv NORMAL REPETITION ≠ 0 →
        sim_score mn NORMAL lv REPETITION = 100) := by
  refine ⟨fun h => ?_, fun h => ?_, fun h => ?_⟩
  · simp only [sim_score, if_pos]
    exact quotient_hundred _ h
  · have e : ¬ (COMPREHENSION = NAMING) := by decide
    simp only [sim_score, if_neg e, if_pos]
    exact quotient_hundred _ h
  · have e : ¬ (REPETITION = NAMING) := by decide
    have e1 : ¬ (REPETITION = COMPREHENSION) := by decide
    simp only [sim_score, if_neg e, if_neg e1]
    exact quotient_hundred _ h

/-- C33.  For the control group, at every severity index and for each task, the simulated
score (the value assigned to `SIM_DATA[NORMAL][task]`) is exactly `100` whenever the control
contrast of that task, the denominator, is not zero; where the three contrasts are not zero
the mean absolute error is `(|real_naming - 100| + |real_comprehension - 100| +
|real_repetition - 100|) / 3`.  In the sweeps of the three programs the control's mean
absolute error is the same at every severity index and the best-fit scan returns index `0`.
In the programs as compiled (weight-lesion mode) the naming contrast of the control is
positive, so the naming score of the control is `100` at every severity index. -/
theorem control_score_hundred :
    (∀ (cfg : Settings) (mn : Means) (REAL_DATA : List (List ℚ)) (f : FitState) (lv : Nat),
      (mn.MEAN_ACT_ST lv NORMAL NAMING - mn.MEAN_ACT_SR lv NORMAL NAMING ≠ 0 →
        sim_score mn NORMAL lv NAMING = 100
          ∧ (fit_body cfg mn REAL_DATA NORMAL lv f).SIM_DATA NORMAL NAMING = 100)
      ∧ (mn.MEAN_ACT_CT lv NORMAL COMPREHENSION - mn.MEAN_ACT_CR lv NORMAL COMPREHENSION ≠ 0 →
        sim_score mn NORMAL lv COMPREHENSION = 100
          ∧ (fit_body cfg mn REAL_DATA NORMAL lv f).SIM_DATA NORMAL COMPREHENSION = 100)
      ∧ (mn.MEAN_ACT_ST lv NORMAL REPETITION - mn.MEAN_ACT_SR lv NORMAL REPETITION ≠ 0 →
        sim_score mn NORMAL lv REPETITION = 100
          ∧ (fit_body cfg mn REAL_DATA NORMAL lv f).SIM_DATA NORMAL REPETITION = 100)
      ∧ (mn.MEAN_ACT_ST lv NORMAL NAMING - mn.MEAN_ACT_SR lv NORMAL NAMING ≠ 0 →
        mn.MEAN_ACT_CT lv NORMAL COMPREHENSION - mn.MEAN_ACT_CR lv NORMAL COMPREHENSION ≠ 0 →
        mn.MEAN_ACT_ST lv NORMAL REPETITION - mn.MEAN_ACT_SR lv NORMAL REPETITION ≠ 0 →
        mean_abs_error mn REAL_DATA NORMAL lv
          = (|rd2 REAL_DATA NORMAL NAMING - 100| + |rd2 REAL_DATA NORMAL COMPREHENSION - 100|
            + |rd2 REAL_DATA NORMAL REPETITION - 100|) / 3))
    ∧ (∀ (con : Conn) (cfg : Settings) (m : Machine GroupStudies.Lesion)
        (REAL_DATA : List (List ℚ)) (f : FitState) (lv : Nat), lv < N_lesion_values →
      mean_abs_error (compute_activation_results (GroupStudies.sweep con cfg m).acts)
          REAL_DATA NORMAL lv
        = mean_abs_error (compute_activation_results (GroupStudies.sweep con cfg m).acts)
          REAL_DATA NORMAL 0
      ∧ best_fit_scan (fit_loop cfg
          (compute_activation_results (GroupStudies.sweep con cfg m).acts)
          REAL_DATA NORMAL f).GOODNESS_OF_FIT = 0)
    ∧ (∀ (con : Conn) (cfg : Settings) (m : Machine Clusters.Lesion)
        (REAL_DATA : List (List ℚ)) (f : FitState) (lv : Nat), lv < N_lesion_values →
      mean_abs_error (compute_activation_results (Clusters.sweep con cfg m).acts)
          REAL_DATA NORMAL lv
        = mean_abs_error (compute_activation_results (Clusters.sweep con cfg m).acts)
          REAL_DATA NORMAL 0
      ∧ best_fit_scan (fit_loop cfg
          (compute_activation_results (Clusters.sweep con cfg m).acts)
          REAL_DATA NORMAL f).GOODNESS_OF_FIT = 0)
    ∧ (∀ (con : Conn) (cfg : Settings) (m : Machine Cases.Lesion)
        (REAL_DATA : List (List ℚ)) (f : FitState) (lv : Nat), lv < N_lesion_values →
      mean_abs_error (compute_activation_results (Cases.sweep con cfg m).acts)
          REAL_DATA NORMAL lv
        = mean_abs_error (compute_activation_results (Cases.sweep con cfg m).acts)
          REAL_DATA NORMAL 0
      ∧ best_fit_scan (fit_loop cfg
          (compute_activation_results (Cases.sweep con cfg m).acts)
          REAL_DATA NORMAL f).GOODNESS_OF_FIT = 0)
    ∧ (∀ (lv : Nat), lv < N_lesion_values →
      (∀ m : Machine GroupStudies.Lesion,
        sim_score (compute_activation_results
          (GroupStudies.sweep GroupStudies.scaled_con (main_settings true false) m).acts)
          NORMAL lv NAMING = 100)
      ∧ (∀ m : Machine Clusters.Lesion,
        sim_score (compute_activation_results
          (Clusters.sweep FiveWord.scaled_con (main_settings true false) m).acts)
          NORMAL lv NAMING = 100)
      ∧ (∀ m : Machine Cases.Lesion,
        sim_score (compute_activation_results
          (Cases.sweep FiveWord.scaled_con (main_settings true false) m).acts)
          NORMAL lv NAMING = 100)) := by
  refine ⟨fun cfg mn REAL_DATA f lv => ?_, fun con cfg m REAL_DATA f lv hlv => ?_,
    fun con cfg m REAL_DATA f lv hlv => ?_, fun con cfg m REAL_DATA f lv hlv => ?_,
    fun lv hlv => ?_⟩
  · obtain ⟨s1, s2, s3⟩ := control_score_value mn lv
    obtain ⟨b1, b2, b3⟩ := fit_body_sim cfg mn REAL_DATA NORMAL lv f
    refine ⟨fun h => ⟨s1 h, by rw [b1]; exact s1 h⟩, fun h => ⟨s2 h, by rw [b2]; exact s2 h⟩,
      fun h => ⟨s3 h, by rw [b3]; exact s3 h⟩, fun h1 h2 h3 => ?_⟩
    rw [mean_abs_error, s1 h1, s2 h2, s3 h3]
  · exact ⟨control_errors _ (fun l1 l2 t a b c => group_control_series con cfg m l1 l2 t a b c)
        REAL_DATA lv hlv,
      control_scan cfg _ (fun l1 l2 t a b c => group_control_series con cfg m l1 l2 t a b c)
        REAL_DATA f⟩
  · exact ⟨control_errors _ (fun l1 l2 t a b c => cluster_control_series con cfg m l1 l2 t a b c)
        REAL_DATA lv hlv,
      control_scan cfg _ (fun l1 l2 t a b c => cluster_control_series con cfg m l1 l2 t a b c)
        REAL_DATA f⟩
  · exact ⟨control_errors _ (fun l1 l2 t a b c => case_control_series con cfg m l1 l2 t a b c)
        REAL_DATA lv hlv,
      control_scan cfg _ (fun l1 l2 t a b c => case_control_series con cfg m l1 l2 t a b c)
        REAL_DATA f⟩
  · exact ⟨fun m => (control_score_value _ lv).1 (ne_of_gt (group_control_contrast_pos m lv hlv)),
      fun m => (control_score_value _ lv).1 (ne_of_gt (cluster_control_contrast_pos m lv hlv)),
      fun m => (control_score_value _ lv).1 (ne_of_gt (case_control_contrast_pos m lv hlv))⟩

/-- C33 at a concrete input: the group-studies program as compiled, severity index `37`: the
naming contrast of the control is not zero and its naming score is `100`. -/
theorem control_score_hundred_witness :
    (compute_activation_results
          (GroupStudies.sweep GroupStudies.scaled_con (main_settings true false)
            GroupStudies.initial_machine).acts).MEAN_ACT_ST 37 NORMAL NAMING
        - (compute_activation_results
          (GroupStudies.sweep GroupStudies.scaled_con (main_settings true false)
            GroupStudies.initial_machine).acts).MEAN_ACT_SR 37 NORMAL NAMING ≠ 0
      ∧ sim_score (compute_activation_results
          (GroupStudies.sweep GroupStudies.scaled_con (main_settings true false)
            GroupStudies.initial_machine).acts) NORMAL 37 NAMING = 100 :=
  ⟨ne_of_gt (group_control_contrast_pos GroupStudies.initial_machine 37 (by decide)),
    ((control_score_hundred.1 (main_settings true false) _ GroupStudies.REAL_DATA_ENGLISH
      initial_fit 37).1
      (ne_of_gt (group_control_contrast_pos GroupStudies.initial_machine 37 (by decide)))).1⟩

/-! ## Recording offset (C34) -/

theorem means_of_values (r : Recorded) (lv g t : Nat) (cat dog skat smat : Nat)
    (f : Nat → Net)
    (h : series r lv g t
      = (List.range N_STEPs).map fun step => critical_values cat dog skat smat (f step)) :
    (compute_activation_results r).MEAN_ACT_CT lv g t
        = (∑ s in Finset.range N_STEPs, rd (f s).C_node_act cat) / (N_STEPs : ℚ)
      ∧ (compute_activation_results r).MEAN_ACT_CR lv g t
        = (∑ s in Finset.range N_STEPs, rd (f s).C_node_act dog) / (N_STEPs : ℚ)
      ∧ (compute_activation_results r).MEAN_ACT_ST lv g t
        = (∑ s in Finset.range N_STEPs, rd (f s).S_node_act skat) / (N_STEPs : ℚ)
      ∧ (compute_activation_results r).MEAN_ACT_SR lv g t
        = (∑ s in Finset.range N_STEPs, rd (f s).S_node_act smat) / (N_STEPs : ℚ) := by
  obtain ⟨m1, m2, m3, m4⟩ := mean_eq_series_mean r lv g t
  rw [m1, m2, m3, m4]
  unfold series_mean
  refine ⟨?_, ?_, ?_, ?_⟩ <;> congr 1 <;> apply Finset.sum_congr rfl <;> intro s hs
  · exact (series_values r lv g t cat dog skat smat f h s (Finset.mem_range.mp hs)).2.2.1
  · exact (series_values r lv g t cat dog skat smat f h s (Finset.mem_range.mp hs)).2.2.2.1
  · exact (series_values r lv g t cat dog skat smat f h s
      (Finset.mem_range.mp hs)).2.2.2.2.2.2.1
  · exact (series_values r lv g t cat dog skat smat f h s
      (Finset.mem_range.mp hs)).2.2.2.2.2.2.2

/-- C34.  In each of the three programs, for every cell (group or assessment, task, severity
index) the network after `0` update steps is the reset state, with all activations `0.0`;
the series entry recorded at step index `s`, `0 <= s < 80`, holds the critical-node
activations of the network after `s + 1` update steps from the reset state (the reset state
itself is not recorded); and each mean the scores read is the sum over the states after the
updates `1 .. 80`, divided by `N_STEPs`. -/
theorem recording_offset :
    (∀ (con : Conn) (cfg : Settings) (m : Machine GroupStudies.Lesion) (lv g t : Nat),
      lv < N_lesion_values → g < GroupStudies.N_GROUPs → t < N_TASKs →
      (GroupStudies.cell_net con cfg g t lv 0
          = GroupStudies.reset_network GroupStudies.initial_net
        ∧ ZeroNet GroupStudies.sizes (GroupStudies.cell_net con cfg g t lv 0))
      ∧ (∀ s, s < N_STEPs →
        (GroupStudies.sweep con cfg m).acts.ACT_CT lv s g t
            = rd (GroupStudies.cell_net con cfg g t lv (s + 1)).C_node_act GroupStudies.CAT
          ∧ (GroupStudies.sweep con cfg m).acts.ACT_CR lv s g t
            = rd (GroupStudies.cell_net con cfg g t lv (s + 1)).C_node_act GroupStudies.DOG
          ∧ (GroupStudies.sweep con cfg m).acts.ACT_ST lv s g t
            = rd (GroupStudies.cell_net con cfg g t lv (s + 1)).S_node_act GroupStudies.sKAT
          ∧ (GroupStudies.sweep con cfg m).acts.ACT_SR lv s g t
            = rd (GroupStudies.cell_net con cfg g t lv (s + 1)).S_node_act GroupStudies.sMAT)
      ∧ series (GroupStudies.sweep con cfg m).acts lv g t
        = ((List.range N_STEPs).map fun s =>
            critical_values GroupStudies.CAT GroupStudies.DOG GroupStudies.sKAT
              GroupStudies.sMAT (GroupStudies.cell_net con cfg g t lv (s + 1)))
      ∧ (compute_activation_results (GroupStudies.sweep con cfg m).acts).MEAN_ACT_CT lv g t
        = (∑ s in Finset.range N_STEPs,
            rd (GroupStudies.cell_net con cfg g t lv (s + 1)).C_node_act GroupStudies.CAT)
          / (N_STEPs : ℚ)
      ∧ (compute_activation_results (GroupStudies.sweep con cfg m).acts).MEAN_ACT_ST lv g t
        = (∑ s in Finset.range N_STEPs,
            rd (GroupStudies.cell_net con cfg g t lv (s + 1)).S_node_act GroupStudies.sKAT)
          / (N_STEPs : ℚ))
    ∧ (∀ (con : Conn) (cfg : Settings) (m : Machine Clusters.Lesion) (lv g t : Nat),
      lv < N_lesion_values → g < Clusters.N_GROUPs → t < N_TASKs →
      (Clusters.cell_net con cfg g t lv 0 = FiveWord.reset_network FiveWord.initial_net
        ∧ ZeroNet FiveWord.sizes (Clusters.cell_net con cfg g t lv 0))
      ∧ (∀ s, s < N_STEPs →
        (Clusters.sweep con cfg m).acts.ACT_CT lv s g t
            = rd (Clusters.cell_net con cfg g t lv (s + 1)).C_node_act FiveWord.CAT
          ∧ (Clusters.sweep con cfg m).acts.ACT_CR lv s g t
            = rd (Clusters.cell_net con cfg g t lv (s + 1)).C_node_act FiveWord.DOG
          ∧ (Clusters.sweep con cfg m).acts.ACT_ST lv s g t
            = rd (Clusters.cell_net con cfg g t lv (s + 1)).S_node_act FiveWord.CAT
          ∧ (Clusters.sweep con cfg m).acts.ACT_SR lv s g t
            = rd (Clusters.cell_net con cfg g t lv (s + 1)).S_node_act FiveWord.MAT)
      ∧ series (Clusters.sweep con cfg m).acts lv g t
        = ((List.range N_STEPs).map fun s =>
            critical_values FiveWord.CAT FiveWord.DOG FiveWord.CAT FiveWord.MAT
              (Clusters.cell_net con cfg g t lv (s + 1)))
      ∧ (compute_activation_results (Clusters.sweep con cfg m).acts).MEAN_ACT_CT lv g t
        = (∑ s in Finset.range N_STEPs,
            rd (Clusters.cell_net con cfg g t lv (s + 1)).C_node_act FiveWord.CAT)
          / (N_STEPs : ℚ)
      ∧ (compute_activation_results (Clusters.sweep con cfg m).acts).MEAN_ACT_ST lv g t
        = (∑ s in Finset.range N_STEPs,
            rd (Clusters.cell_net con cfg g t lv (s + 1)).S_node_act FiveWord.CAT)
          / (N_STEPs : ℚ))
    ∧ (∀ (con : Conn) (cfg : Settings) (m : Machine Cases.Lesion) (lv a t : Nat),
      lv < N_lesion_values → a < Cases.N_ASSESSMENTs → t < N_TASKs →
      (Cases.cell_net con cfg a t lv 0 = FiveWord.reset_network FiveWord.initial_net
        ∧ ZeroNet FiveWord.sizes (Cases.cell_net con cfg a t lv 0))
      ∧ (∀ s, s < N_STEPs →
        (Cases.sweep con cfg m).acts.ACT_CT lv s a t
            = rd (Cases.cell_net con cfg a t lv (s + 1)).C_node_act FiveWord.CAT
          ∧ (Cases.sweep con cfg m).acts.ACT_CR lv s a t
            = rd (Cases.cell_net con cfg a t lv (s + 1)).C_node_act FiveWord.DOG
          ∧ (Cases.sweep con cfg m).acts.ACT_ST lv s a t
            = rd (Cases.cell_net con cfg a t lv (s + 1)).S_node_act FiveWord.CAT
          ∧ (Cases.sweep con cfg m).acts.ACT_SR lv s a t
            = rd (Cases.cell_net con cfg a t lv (s + 1)).S_node_act FiveWord.MAT)
      ∧ series (Cases.sweep con cfg m).acts lv a t
        = ((List.range N_STEPs).map fun s =>
            critical_values FiveWord.CAT FiveWord.DOG FiveWord.CAT FiveWord.MAT
              (Cases.cell_net con cfg a t lv (s + 1)))
      ∧ (compute_activation_results (Cases.sweep con cfg m).acts).MEAN_ACT_CT lv a t
        = (∑ s in Finset.range N_STEPs,
            rd (Cases.cell_net con cfg a t lv (s + 1)).C_node_act FiveWord.CAT)
          / (N_STEPs : ℚ)
      ∧ (compute_activation_results (Cases.sweep con cfg m).acts).MEAN_ACT_ST lv a t
        = (∑ s in Finset.range N_STEPs,
            rd (Cases.cell_net con cfg a t lv (s + 1)).S_node_act FiveWord.CAT)
          / (N_STEPs : ℚ)) := by
  refine ⟨fun con cfg m lv g t hlv hg ht => ?_, fun con cfg m lv g t hlv hg ht => ?_,
    fun con cfg m lv a t hlv ha ht => ?_⟩
  · have hs := group_sweep_cell_series con cfg m lv g t hlv hg ht
    obtain ⟨m1, _, m3, _⟩ := means_of_values _ lv g t _ _ _ _ _ hs
    refine ⟨⟨rfl, zero_net_group⟩, fun s hsn => ?_, hs, m1, m3⟩
    obtain ⟨_, _, e3, e4, _, _, e7, e8⟩ := group_sweep_values con cfg m lv g t s hlv hg ht hsn
    exact ⟨e3, e4, e7, e8⟩
  · have hs := cluster_sweep_cell_series con cfg m lv g t hlv hg ht
    obtain ⟨m1, _, m3, _⟩ := means_of_values _ lv g t _ _ _ _ _ hs
    refine ⟨⟨rfl, zero_net_five_word⟩, fun s hsn => ?_, hs, m1, m3⟩
    obtain ⟨_, _, e3, e4, _, _, e7, e8⟩ := cluster_sweep_values con cfg m lv g t s hlv hg ht hsn
    exact ⟨e3, e4, e7, e8⟩
  · have hs := case_sweep_cell_series con cfg m lv a t hlv ha ht
    obtain ⟨m1, _, m3, _⟩ := means_of_values _ lv a t _ _ _ _ _ hs
    refine ⟨⟨rfl, zero_net_five_word⟩, fun s hsn => ?_, hs, m1, m3⟩
    obtain ⟨_, _, e3, e4, _, _, e7, e8⟩ := case_sweep_values con cfg m lv a t s hlv ha ht hsn
    exact ⟨e3, e4, e7, e8⟩

/-- C34 at a concrete input: the group-studies program as compiled, nonfluent group, naming,
severity index `20`: the entry recorded at step index `0` is the target concept's activation
after one update step. -/
theorem recording_offset_witness :
    (GroupStudies.sweep GroupStudies.scaled_con (main_settings true false)
        GroupStudies.initial_machine).acts.ACT_CT 20 0 GroupStudies.NONFLUENT_AGRAMMATIC NAMING
      = rd (GroupStudies.cell_net GroupStudies.scaled_con (main_settings true false)
          GroupStudies.NONFLUENT_AGRAMMATIC NAMING 20 (0 + 1)).C_node_act GroupStudies.CAT :=
  ((recording_offset.1 GroupStudies.scaled_con (main_settings true false)
    GroupStudies.initial_machine 20 GroupStudies.NONFLUENT_AGRAMMATIC NAMING (by decide)
    (by decide) (by decide)).2.1 0 (by decide)).1

/-! ## Index safety (C38) -/

theorem time_loop_index {L : Type} (upd : L → Int → Net → Net)
    (det det1 : Nat → Net → Recorded → Recorded)
    (h : ∀ s net r, s < N_STEPs → det s net r = det1 s net r) :
    ∀ (fuel : Nat) (m : Machine L), m.T = ((STEP_SIZE * m.step : Nat) : Int) →
      time_loop upd det fuel m = time_loop upd det1 fuel m := by
  intro fuel
  induction fuel with
  | zero => intro m _; rfl
  | succ fuel ih =>
    intro m hT
    by_cases hg : m.T < ((N_STEPs * STEP_SIZE : Nat) : Int)
    · have hs : m.step < N_STEPs := by
        rw [hT] at hg
        simp only [N_STEPs, STEP_SIZE] at hg ⊢
        omega
      have e := ih { m with net := upd m.les m.T m.net
                            acts := det m.step (upd m.les m.T m.net) m.acts
                            T := m.T + (STEP_SIZE : Int), step := m.step + 1 }
        (by simp only [hT]; push_cast; ring)
      simp only at e
      simp only [time_loop, if_pos hg]
      rw [e, h m.step _ _ hs]
    · simp only [time_loop, if_neg hg]

theorem cell_of_index {L : Type} (upd : Nat → L → Int → Net → Net)
    (det det1 : Nat → Nat → Nat → Nat → Net → Recorded → Recorded) (reset : Net → Net)
    (setp : Nat → Nat → L) (g t lv : Nat) (m : Machine L)
    (h : ∀ s net r, s < N_STEPs → det lv s g t net r = det1 lv s g t net r) :
    cell_of upd det reset setp g t lv m = cell_of upd det1 reset setp g t lv m := by
  unfold cell_of
  exact time_loop_index (upd t) _ _ h _ _ (by simp)

theorem sweep_cells_index {L : Type} (cell cell1 : Nat → Nat → Nat → Machine L → Machine L)
    (n : Nat) (m : Machine L)
    (h : ∀ g t lv x, g < n → t < N_TASKs → lv < N_lesion_values →
      cell g t lv x = cell1 g t lv x) :
    sweep_cells cell n m = sweep_cells cell1 n m := by
  unfold sweep_cells
  apply List.foldl_ext
  intro a g hg
  apply List.foldl_ext
  intro b t ht
  apply List.foldl_ext
  intro c lv hlv
  exact h g t lv c (List.mem_range.mp hg) (List.mem_range.mp ht) (List.mem_range.mp hlv)

theorem sweep_index {L : Type} (upd : Nat → L → Int → Net → Net)
    (det det1 : Nat → Nat → Nat → Nat → Net → Recorded → Recorded) (reset : Net → Net)
    (setp : Nat → Nat → L) (n : Nat) (m : Machine L)
    (h : ∀ lv s g t net r, lv < N_lesion_values → s < N_STEPs → g < n → t < N_TASKs →
      det lv s g t net r = det1 lv s g t net r) :
    sweep_cells (cell_of upd det reset setp) n m
      = sweep_cells (cell_of upd det1 reset setp) n m :=
  sweep_cells_index _ _ n m fun g t lv x hg ht hlv =>
    cell_of_index upd det det1 reset setp g t lv x fun s net r hs => h lv s g t net r hlv hs hg ht

theorem node_labels :
    (GroupStudies.CAT < GroupStudies.N_CONCEPTs ∧ GroupStudies.DOG < GroupStudies.N_CONCEPTs
        ∧ GroupStudies.CAT < GroupStudies.N_LEMMAs ∧ GroupStudies.DOG < GroupStudies.N_LEMMAs
        ∧ GroupStudies.CAT < GroupStudies.N_SYLLABLEs
        ∧ GroupStudies.sKAT < GroupStudies.N_SYLLABLEs
        ∧ GroupStudies.sMAT < GroupStudies.N_SYLLABLEs
        ∧ GroupStudies.pK < GroupStudies.N_PHONEMEs ∧ GroupStudies.pA < GroupStudies.N_PHONEMEs
        ∧ GroupStudies.pT < GroupStudies.N_PHONEMEs)
      ∧ (FiveWord.CAT < FiveWord.N_CONCEPTs ∧ FiveWord.DOG < FiveWord.N_CONCEPTs
        ∧ FiveWord.CAT < FiveWord.N_LEMMAs ∧ FiveWord.DOG < FiveWord.N_LEMMAs
        ∧ FiveWord.CAT < FiveWord.N_SYLLABLEs ∧ FiveWord.MAT < FiveWord.N_SYLLABLEs
        ∧ FiveWord.pK < FiveWord.N_PHONEMEs ∧ FiveWord.pE < FiveWord.N_PHONEMEs
        ∧ FiveWord.pT < FiveWord.N_PHONEMEs) := by
  decide

/-- C38.  In the sweep of each of the three programs the recording function is applied only
at indices in range: replacing `determine_activation_critical_nodes` by any function that
agrees with it whenever `lesion_value < N_lesion_values`, `step < N_STEPs`,
`group < N_GROUPs` (`assessment < N_ASSESSMENTs`) and `task < N_TASKs` leaves the result of
the sweep unchanged, so the step index stays in `0 .. N_STEPs - 1` inside the time loop.  The
best-fit index `a` is smaller than `N_lesion_values` for every array `GOODNESS_OF_FIT`.  The
labelled node indices are smaller than the node count of every layer they index: `CAT`,
`DOG` (concepts and lemmas), `CAT`, `sKAT`, `sMAT` (syllables), `pK`, `pA`, `pT` (phonemes)
in the group-studies program and `CAT`, `DOG` (concepts and lemmas), `CAT`, `MAT`
(syllables), `pK`, `pE`, `pT` (phonemes) in the five-word programs. -/
theorem index_safety :
    (∀ (con : Conn) (cfg : Settings) (m : Machine GroupStudies.Lesion)
        (det : Nat → Nat → Nat → Nat → Net → Recorded → Recorded),
      (∀ lv s g t net r, lv < N_lesion_values → s < N_STEPs → g < GroupStudies.N_GROUPs →
        t < N_TASKs →
        GroupStudies.determine_activation_critical_nodes lv s g t net r = det lv s g t net r) →
      GroupStudies.sweep con cfg m
        = sweep_cells
            (cell_of (fun task les T st => GroupStudies.update_network con les task T st) det
              GroupStudies.reset_network (GroupStudies.set_aphasic_parameters cfg))
            GroupStudies.N_GROUPs m)
    ∧ (∀ (con : Conn) (cfg : Settings) (m : Machine Clusters.Lesion)
        (det : Nat → Nat → Nat → Nat → Net → Recorded → Recorded),
      (∀ lv s g t net r, lv < N_lesion_values → s < N_STEPs → g < Clusters.N_GROUPs →
        t < N_TASKs →
        FiveWord.determine_activation_critical_nodes lv s g t net r = det lv s g t net r) →
      Clusters.sweep con cfg m
        = sweep_cells
            (cell_of (fun task les T st => Clusters.update_network con les task T st) det
              FiveWord.reset_network (Clusters.set_aphasic_parameters cfg))
            Clusters.N_GROUPs m)
    ∧ (∀ (con : Conn) (cfg : Settings) (m : Machine Cases.Lesion)
        (det : Nat → Nat → Nat → Nat → Net → Recorded → Recorded),
      (∀ lv s a t net r, lv < N_lesion_values → s < N_STEPs → a < Cases.N_ASSESSMENTs →
        t < N_TASKs →
        FiveWord.determine_activation_critical_nodes lv s a t net r = det lv s a t net r) →
      Cases.sweep con cfg m
        = sweep_cells
            (cell_of (fun task les T st => Cases.update_network con les task T st) det
              FiveWord.reset_network (Cases.set_aphasic_parameters cfg))
            Cases.N_ASSESSMENTs m)
    ∧ (∀ (L : Type) (upd : L → Int → Net → Net) (det : Nat → Net → Recorded → Recorded)
        (m : Machine L) (k : Nat), m.T = 0 → m.step = 0 → k ≤ N_STEPs →
      (time_loop upd det k m).step = k
        ∧ (time_loop upd det (N_STEPs * STEP_SIZE) m).step = N_STEPs)
    ∧ (∀ G : List ℚ, best_fit_scan G < N_lesion_values)
    ∧ (GroupStudies.CAT < GroupStudies.N_CONCEPTs ∧ GroupStudies.DOG < GroupStudies.N_CONCEPTs
        ∧ GroupStudies.CAT < GroupStudies.N_LEMMAs ∧ GroupStudies.DOG < GroupStudies.N_LEMMAs
        ∧ GroupStudies.CAT < GroupStudies.N_SYLLABLEs
        ∧ GroupStudies.sKAT < GroupStudies.N_SYLLABLEs
        ∧ GroupStudies.sMAT < GroupStudies.N_SYLLABLEs
        ∧ GroupStudies.pK < GroupStudies.N_PHONEMEs ∧ GroupStudies.pA < GroupStudies.N_PHONEMEs
        ∧ GroupStudies.pT < GroupStudies.N_PHONEMEs)
    ∧ (FiveWord.CAT < FiveWord.N_CONCEPTs ∧ FiveWord.DOG < FiveWord.N_CONCEPTs
        ∧ FiveWord.CAT < FiveWord.N_LEMMAs ∧ FiveWord.DOG < FiveWord.N_LEMMAs
        ∧ FiveWord.CAT < FiveWord.N_SYLLABLEs ∧ FiveWord.MAT < FiveWord.N_SYLLABLEs
        ∧ FiveWord.pK < FiveWord.N_PHONEMEs ∧ FiveWord.pE < FiveWord.N_PHONEMEs
        ∧ FiveWord.pT < FiveWord.N_PHONEMEs) := by
  refine ⟨fun con cfg m det h => ?_, fun con cfg m det h => ?_, fun con cfg m det h => ?_,
    fun L upd det m k hT hs hk => ?_, fun G => (best_fit_scan_spec G).1, node_labels.1,
    node_labels.2⟩
  · rw [GroupStudies.sweep, group_simulate_cell_eq]
    exact sweep_index _ _ _ _ _ _ m h
  · rw [Clusters.sweep, cluster_simulate_cell_eq]
    exact sweep_index _ _ _ _ _ _ m h
  · rw [Cases.sweep, case_simulate_cell_eq]
    exact sweep_index _ _ _ _ _ _ m h
  · have hT' : m.T = ((STEP_SIZE * m.step : Nat) : Int) := by rw [hT, hs]; rfl
    have r1 := (time_loop_rounds upd det m.net k m hT' (by rw [hs]; omega) (by rw [hs]; rfl)).1
    have r2 := (time_loop_state upd det m.net (N_STEPs * STEP_SIZE) m hT' (by rw [hs]; decide)
      (by rw [hs]; decide) (by rw [hs]; rfl)).2.2.2
    rw [hs, zero_add] at r1
    exact ⟨r1, r2⟩

/-- C38 at a concrete input: a recording function that writes nothing when an index is out of
range leaves the sweep of the single-case program as compiled unchanged. -/
theorem index_safety_witness :
    Cases.sweep FiveWord.scaled_con (main_settings true false) Cases.initial_machine
      = sweep_cells
          (cell_of (fun task les T st => Cases.update_network FiveWord.scaled_con les task T st)
            (fun lv s a t net r =>
              if lv < N_lesion_values ∧ s < N_STEPs ∧ a < Cases.N_ASSESSMENTs ∧ t < N_TASKs
              then FiveWord.determine_activation_critical_nodes lv s a t net r else r)
            FiveWord.reset_network (Cases.set_aphasic_parameters (main_settings true false)))
          Cases.N_ASSESSMENTs Cases.initial_machine :=
  index_safety.2.2.1 FiveWord.scaled_con (main_settings true false) Cases.initial_machine _
    (fun lv s a t net r h1 h2 h3 h4 => by rw [if_pos ⟨h1, h2, h3, h4⟩])

/-! ## The fit stage at a zero control contrast (C15) -/

theorem rd_double_set_at {n : Nat} {a : List Dbl} {k : Nat} {v : Dbl} {i : Nat} (h : i < n) :
    rd_double (set_at_double n a k v) i = if i = k then v else rd_double a i := by
  simp [rd_double, set_at_double, List.getD_eq_getElem?_getD, List.getElem?_map,
    List.getElem?_range, h]

theorem double_sub_fin (a b : ℚ) : Dbl.fin a - Dbl.fin b = Dbl.fin (a - b) := rfl

theorem double_quotient (n d : ℚ) :
    Dbl.fin n / Dbl.fin d * Dbl.fin 100
      = if d ≠ 0 then Dbl.fin (n / d * 100)
        else if 0 < n then Dbl.pinf else if n < 0 then Dbl.ninf else Dbl.nan := by
  show Dbl.mul (Dbl.div (Dbl.fin n) (Dbl.fin d)) (Dbl.fin 100) = _
  by_cases hd : d ≠ 0
  · simp only [Dbl.div, if_pos hd, Dbl.mul]
  · by_cases h1 : 0 < n
    · simp [Dbl.div, if_neg hd, if_pos h1, Dbl.mul]
    · by_cases h2 : n < 0
      · simp [Dbl.div, if_neg hd, if_neg h1, if_pos h2, Dbl.mul]
      · simp [Dbl.div, if_neg hd, if_neg h1, if_neg h2, Dbl.mul]

/-- The score assigned is the C quotient of the group's contrast by the control contrast,
times `100.0`. -/
theorem sim_score_double_eq (mn : Means) (group lv task : Nat) :
    sim_score_double mn group lv task
      = if task_contrast mn NORMAL lv task ≠ 0 then
          Dbl.fin (task_contrast mn group lv task / task_contrast mn NORMAL lv task * 100)
        else if 0 < task_contrast mn group lv task then Dbl.pinf
        else if task_contrast mn group lv task < 0 then Dbl.ninf
        else Dbl.nan := by
  unfold sim_score_double task_contrast
  by_cases h1 : task = NAMING
  · simp only [if_pos h1, double_sub_fin, double_quotient]
  · by_cases h2 : task = COMPREHENSION
    · simp only [if_neg h1, if_pos h2, double_sub_fin, double_quotient]
    · simp only [if_neg h1, if_neg h2, double_sub_fin, double_quotient]

theorem fit_body_double_sim (cfg : Settings) (mn : Means) (REAL_DATA : List (List ℚ))
    (group lv : Nat) (f : FitDouble) :
    (fit_body_double cfg mn REAL_DATA group lv f).SIM_DATA group NAMING
        = sim_score_double mn group lv NAMING
      ∧ (fit_body_double cfg mn REAL_DATA group lv f).SIM_DATA group COMPREHENSION
        = sim_score_double mn group lv COMPREHENSION
      ∧ (fit_body_double cfg mn REAL_DATA group lv f).SIM_DATA group REPETITION
        = sim_score_double mn group lv REPETITION := by
  simp [fit_body_double, set_sim_double, sim_score_double, NAMING, COMPREHENSION, REPETITION]

theorem fit_body_double_gof (cfg : Settings) (mn : Means) (REAL_DATA : List (List ℚ))
    (group lv : Nat) (f : FitDouble) (i : Nat) (hi : i < N_lesion_values) :
    rd_double (fit_body_double cfg mn REAL_DATA group lv f).GOODNESS_OF_FIT i
      = if i = lv then mean_abs_error_double mn REAL_DATA group lv
        else rd_double f.GOODNESS_OF_FIT i := by
  obtain ⟨h1, h2, h3⟩ := fit_body_double_sim cfg mn REAL_DATA group lv f
  have e : (fit_body_double cfg mn REAL_DATA group lv f).GOODNESS_OF_FIT
      = set_at_double N_lesion_values f.GOODNESS_OF_FIT lv
        ((Dbl.fabs (Dbl.fin (rd2 REAL_DATA group NAMING)
              - (fit_body_double cfg mn REAL_DATA group lv f).SIM_DATA group NAMING)
          + Dbl.fabs (Dbl.fin (rd2 REAL_DATA group COMPREHENSION)
              - (fit_body_double cfg mn REAL_DATA group lv f).SIM_DATA group COMPREHENSION)
          + Dbl.fabs (Dbl.fin (rd2 REAL_DATA group REPETITION)
              - (fit_body_double cfg mn REAL_DATA group lv f).SIM_DATA group REPETITION))
          / Dbl.fin 3) := rfl
  rw [e, rd_double_set_at hi, h1, h2, h3, mean_abs_error_double]

theorem fit_loop_double_gof (cfg : Settings) (mn : Means) (REAL_DATA : List (List ℚ))
    (group : Nat) (f : FitDouble) (i : Nat) (hi : i < N_lesion_values) :
    rd_double (fit_loop_double cfg mn REAL_DATA group f).GOODNESS_OF_FIT i
      = mean_abs_error_double mn REAL_DATA group i := by
  have pre : ∀ k, rd_double ((List.range k).foldl
      (fun f lv => fit_body_double cfg mn REAL_DATA group lv f) f).GOODNESS_OF_FIT i
        = if i < k then mean_abs_error_double mn REAL_DATA group i
          else rd_double f.GOODNESS_OF_FIT i := by
    intro k
    induction k with
    | zero => simp
    | succ k ih =>
      rw [List.range_succ, List.foldl_append, List.foldl_cons, List.foldl_nil,
        fit_body_double_gof cfg mn REAL_DATA group k _ i hi, ih]
      by_cases h1 : i = k
      · rw [if_pos h1, if_pos (by omega), h1]
      · rw [if_neg h1]
        by_cases h2 : i < k
        · rw [if_pos h2, if_pos (by omega)]
        · rw [if_neg h2, if_neg (by omega)]
  rw [fit_loop_double, pre, if_pos hi]

/-- An absolute deviation `fabs(r - s)` from a score that is not finite is `+inf` or a NaN. -/
theorem fabs_sub_not_finite (r : ℚ) (s : Dbl) (h : ∀ q, s ≠ Dbl.fin q) :
    Dbl.fabs (Dbl.fin r - s) = Dbl.pinf ∨ Dbl.fabs (Dbl.fin r - s) = Dbl.nan := by
  cases s with
  | fin q => exact absurd rfl (h q)
  | pinf => left; rfl
  | ninf => left; rfl
  | nan => right; rfl

/-- An absolute deviation `fabs(r - s)` is never `-inf`. -/
theorem fabs_sub_not_ninf (r : ℚ) (s : Dbl) : Dbl.fabs (Dbl.fin r - s) ≠ Dbl.ninf := by
  cases s <;> simp [Dbl.fabs, HSub.hSub, Sub.sub, Dbl.sub]

/-- A sum of three values, none `-inf` and one of them `+inf` or a NaN, divided by `3.0`, is
`+inf` or a NaN. -/
theorem error_not_finite (x y z : Dbl) (hx : x ≠ Dbl.ninf) (hy : y ≠ Dbl.ninf)
    (hz : z ≠ Dbl.ninf)
    (h : (x = Dbl.pinf ∨ x = Dbl.nan) ∨ (y = Dbl.pinf ∨ y = Dbl.nan)
      ∨ (z = Dbl.pinf ∨ z = Dbl.nan)) :
    (x + y + z) / Dbl.fin 3 = Dbl.pinf ∨ (x + y + z) / Dbl.fin 3 = Dbl.nan := by
  show Dbl.div (Dbl.add (Dbl.add x y) z) (Dbl.fin 3) = Dbl.pinf
    ∨ Dbl.div (Dbl.add (Dbl.add x y) z) (Dbl.fin 3) = Dbl.nan
  cases x <;> cases y <;> cases z <;> simp_all [Dbl.add, Dbl.div]

theorem sim_score_double_not_finite (mn : Means) (group lv task : Nat)
    (h : task_contrast mn NORMAL lv task = 0) (q : ℚ) :
    sim_score_double mn group lv task ≠ Dbl.fin q := by
  rw [sim_score_double_eq, if_neg (not_not.mpr h)]
  split_ifs <;> simp

/-- If a control contrast is zero at a severity index, the mean absolute error of the index
is `+inf` or a NaN. -/
theorem mean_abs_error_double_not_finite (mn : Means) (REAL_DATA : List (List ℚ))
    (group lv task : Nat) (ht : task = NAMING ∨ task = COMPREHENSION ∨ task = REPETITION)
    (h : task_contrast mn NORMAL lv task = 0) :
    mean_abs_error_double mn REAL_DATA group lv = Dbl.pinf
      ∨ mean_abs_error_double mn REAL_DATA group lv = Dbl.nan := by
  unfold mean_abs_error_double
  apply error_not_finite _ _ _ (fabs_sub_not_ninf _ _) (fabs_sub_not_ninf _ _)
    (fabs_sub_not_ninf _ _)
  rcases ht with e | e | e
  · subst e
    exact Or.inl (fabs_sub_not_finite _ _ (sim_score_double_not_finite mn group lv _ h))
  · subst e
    exact Or.inr (Or.inl
      (fabs_sub_not_finite _ _ (sim_score_double_not_finite mn group lv _ h)))
  · subst e
    exact Or.inr (Or.inr
      (fabs_sub_not_finite _ _ (sim_score_double_not_finite mn group lv _ h)))

/-- A quotient `0 / 0` among the three scores makes the mean absolute error a NaN. -/
theorem mean_abs_error_double_nan (mn : Means) (REAL_DATA : List (List ℚ))
    (group lv task : Nat) (ht : task = NAMING ∨ task = COMPREHENSION ∨ task = REPETITION)
    (h : task_contrast mn NORMAL lv task = 0) (hg : task_contrast mn group lv task = 0) :
    mean_abs_error_double mn REAL_DATA group lv = Dbl.nan := by
  have hs : sim_score_double mn group lv task = Dbl.nan := by
    rw [sim_score_double_eq, if_neg (not_not.mpr h), hg]
    simp
  unfold mean_abs_error_double
  show Dbl.div (Dbl.add (Dbl.add _ _) _) (Dbl.fin 3) = Dbl.nan
  rcases ht with e | e | e
  · subst e
    rw [hs]
    generalize sim_score_double mn group lv COMPREHENSION = y
    generalize sim_score_double mn group lv REPETITION = z
    cases y <;> cases z <;> simp [Dbl.add, Dbl.div, Dbl.fabs, HSub.hSub, Sub.sub, Dbl.sub]
  · subst e
    rw [hs]
    generalize sim_score_double mn group lv NAMING = y
    generalize sim_score_double mn group lv REPETITION = z
    cases y <;> cases z <;> simp [Dbl.add, Dbl.div, Dbl.fabs, HSub.hSub, Sub.sub, Dbl.sub]
  · subst e
    rw [hs]
    generalize sim_score_double mn group lv NAMING = y
    generalize sim_score_double mn group lv COMPREHENSION = z
    cases y <;> cases z <;> simp [Dbl.add, Dbl.div, Dbl.fabs, HSub.hSub, Sub.sub, Dbl.sub]

theorem double_gt_nan_left (x : Dbl) : Dbl.gt Dbl.nan x = false := by
  cases x <;> rfl

theorem double_gt_not_finite_right (x y : Dbl) (h : y = Dbl.pinf ∨ y = Dbl.nan) :
    Dbl.gt x y = false := by
  rcases h with h | h <;> subst h <;> cases x <;> rfl

/-- A NaN in `GOODNESS_OF_FIT[0]` is never replaced: the scan returns index `0`. -/
theorem scan_double_first_nan (G : List Dbl) (h : rd_double G 0 = Dbl.nan) :
    best_fit_scan_double G = 0 := by
  have pre : ∀ l : List Nat, l.foldl
      (fun a i => if Dbl.gt (rd_double G a) (rd_double G i) then i else a) 0 = 0 := by
    intro l
    induction l with
    | nil => rfl
    | cons i l ih =>
      rw [List.foldl_cons, h, double_gt_nan_left]
      exact ih
  exact pre _

/-- The scan returns index `0` or an index whose entry was found below another entry. -/
theorem scan_double_selected (G : List Dbl) :
    best_fit_scan_double G = 0
      ∨ ∃ a, Dbl.gt (rd_double G a) (rd_double G (best_fit_scan_double G)) = true := by
  have pre : ∀ (l : List Nat) (a : Nat),
      (a = 0 ∨ ∃ b, Dbl.gt (rd_double G b) (rd_double G a) = true) →
      (l.foldl (fun a i => if Dbl.gt (rd_double G a) (rd_double G i) then i else a) a = 0
        ∨ ∃ b, Dbl.gt (rd_double G b) (rd_double G
          (l.foldl (fun a i => if Dbl.gt (rd_double G a) (rd_double G i) then i else a) a))
            = true) := by
    intro l
    induction l with
    | nil => intro a ha; exact ha
    | cons i l ih =>
      intro a ha
      rw [List.foldl_cons]
      apply ih
      by_cases hg : Dbl.gt (rd_double G a) (rd_double G i) = true
      · rw [if_pos hg]; exact Or.inr ⟨a, hg⟩
      · rw [if_neg hg]; exact ha
  exact pre _ 0 (Or.inl rfl)

/-- An entry `+inf` or NaN at an index above `0` is never selected by the scan. -/
theorem scan_double_not_selected (G : List Dbl) (i : Nat) (hi : 0 < i)
    (h : rd_double G i = Dbl.pinf ∨ rd_double G i = Dbl.nan) : best_fit_scan_double G ≠ i := by
  intro e
  rcases scan_double_selected G with h0 | ⟨a, ha⟩
  · omega
  · rw [e, double_gt_not_finite_right _ _ h] at ha
    exact Bool.noConfusion ha

theorem scan_double_lt (G : List Dbl) : best_fit_scan_double G < N_lesion_values := by
  have pre : ∀ (k a : Nat), a < N_lesion_values → k ≤ N_lesion_values →
      (List.range k).foldl
        (fun a i => if Dbl.gt (rd_double G a) (rd_double G i) then i else a) a
        < N_lesion_values := by
    intro k
    induction k with
    | zero => intro a ha _; exact ha
    | succ k ih =>
      intro a ha hk
      rw [List.range_succ, List.foldl_append, List.foldl_cons, List.foldl_nil]
      split_ifs
      · omega
      · exact ih a ha (by omega)
  exact pre N_lesion_values 0 (by decide) le_rfl

/-- Where the control contrast is not zero the C quotient is the score of exact arithmetic. -/
theorem sim_score_double_finite (mn : Means) (group lv task : Nat)
    (h : task_contrast mn NORMAL lv task ≠ 0) :
    sim_score_double mn group lv task = Dbl.fin (sim_score mn group lv task) := by
  rw [sim_score_double_eq, if_pos h]
  unfold task_contrast sim_score
  by_cases h1 : task = NAMING
  · simp only [if_pos h1]
  · by_cases h2 : task = COMPREHENSION
    · simp only [if_neg h1, if_pos h2]
    · simp only [if_neg h1, if_neg h2]

/-- Where no control contrast is zero the C error is the error of exact arithmetic. -/
theorem mean_abs_error_double_finite (mn : Means) (REAL_DATA : List (List ℚ)) (group lv : Nat)
    (h : ∀ task, task = NAMING ∨ task = COMPREHENSION ∨ task = REPETITION →
      task_contrast mn NORMAL lv task ≠ 0) :
    mean_abs_error_double mn REAL_DATA group lv
      = Dbl.fin (mean_abs_error mn REAL_DATA group lv) := by
  unfold mean_abs_error_double mean_abs_error
  rw [sim_score_double_finite mn group lv NAMING (h _ (Or.inl rfl)),
    sim_score_double_finite mn group lv COMPREHENSION (h _ (Or.inr (Or.inl rfl))),
    sim_score_double_finite mn group lv REPETITION (h _ (Or.inr (Or.inr rfl)))]
  show Dbl.div (Dbl.add (Dbl.add (Dbl.fabs (Dbl.sub _ _)) (Dbl.fabs (Dbl.sub _ _)))
    (Dbl.fabs (Dbl.sub _ _))) (Dbl.fin 3) = _
  simp only [Dbl.sub, Dbl.fabs, Dbl.add, Dbl.div]
  rw [if_pos (by norm_num)]

/-- On arrays of finite entries the scan on C doubles is the scan of exact arithmetic. -/
theorem scan_double_finite (GD : List Dbl) (G : List ℚ)
    (h : ∀ i, i < N_lesion_values → rd_double GD i = Dbl.fin (rd G i)) :
    best_fit_scan_double GD = best_fit_scan G := by
  have pre : ∀ (k : Nat), k ≤ N_lesion_values →
      (List.range k).foldl
          (fun a i => if Dbl.gt (rd_double GD a) (rd_double GD i) then i else a) 0
        = (List.range k).foldl (fun a i => if rd G a > rd G i then i else a) 0
      ∧ (List.range k).foldl (fun a i => if rd G a > rd G i then i else a) 0
        < N_lesion_values := by
    intro k
    induction k with
    | zero => intro _; exact ⟨rfl, Nat.lt_of_sub_eq_succ (rfl : N_lesion_values - 0 = 99 + 1)⟩
    | succ k ih =>
      intro hk
      obtain ⟨e, l⟩ := ih (by omega)
      rw [List.range_succ, List.foldl_append, List.foldl_cons, List.foldl_nil,
        List.foldl_append, List.foldl_cons, List.foldl_nil, e, h _ l, h k (by omega)]
      have hg : Dbl.gt
          (Dbl.fin (rd G ((List.range k).foldl (fun a i => if rd G a > rd G i then i else a) 0)))
          (Dbl.fin (rd G k))
          = decide (rd G k
            < rd G ((List.range k).foldl (fun a i => if rd G a > rd G i then i else a) 0)) :=
        rfl
      rw [hg]
      by_cases c : rd G ((List.range k).foldl (fun a i => if rd G a > rd G i then i else a) 0)
          > rd G k
      · rw [if_pos c, if_pos (by simpa using c)]
        exact ⟨rfl, by omega⟩
      · rw [if_neg c, if_neg (by simpa using c)]
        exact ⟨rfl, l⟩
  exact (pre N_lesion_values le_rfl).1

/-- The error printed for the best fit is the entry of `GOODNESS_OF_FIT` at the index that
the scan returns. -/
theorem fit_group_double_error (cfg : Settings) (mn : Means) (REAL_DATA : List (List ℚ))
    (group : Nat) (f : FitDouble) :
    (fit_group_double cfg mn REAL_DATA group f).2.MAE
      = rd_double (fit_loop_double cfg mn REAL_DATA group f).GOODNESS_OF_FIT
          (best_fit_scan_double (fit_loop_double cfg mn REAL_DATA group f).GOODNESS_OF_FIT) := by
  simp only [fit_group_double, report_double]

/-- On means none of whose control contrasts is zero, the fit stage on C doubles is the fit
stage of exact arithmetic: every entry of `GOODNESS_OF_FIT` is the finite error, and the
scan returns the same index. -/
theorem fit_double_finite (cfg : Settings) (mn : Means) (REAL_DATA : List (List ℚ))
    (group : Nat) (f : FitDouble) (f0 : FitState)
    (h : ∀ i task, i < N_lesion_values →
      task = NAMING ∨ task = COMPREHENSION ∨ task = REPETITION →
      task_contrast mn NORMAL i task ≠ 0) :
    (∀ i, i < N_lesion_values →
        rd_double (fit_loop_double cfg mn REAL_DATA group f).GOODNESS_OF_FIT i
          = Dbl.fin (rd (fit_loop cfg mn REAL_DATA group f0).GOODNESS_OF_FIT i))
      ∧ best_fit_scan_double (fit_loop_double cfg mn REAL_DATA group f).GOODNESS_OF_FIT
        = best_fit_scan (fit_loop cfg mn REAL_DATA group f0).GOODNESS_OF_FIT := by
  have e : ∀ i, i < N_lesion_values →
      rd_double (fit_loop_double cfg mn REAL_DATA group f).GOODNESS_OF_FIT i
        = Dbl.fin (rd (fit_loop cfg mn REAL_DATA group f0).GOODNESS_OF_FIT i) := by
    intro i hi
    rw [fit_loop_double_gof cfg mn REAL_DATA group f i hi,
      fit_loop_gof cfg mn REAL_DATA group f0 i hi,
      mean_abs_error_double_finite mn REAL_DATA group i (fun task ht => h i task hi ht)]
  exact ⟨e, scan_double_finite _ _ e⟩

/-! ## The control contrasts of the spoken-word tasks -/

theorem group_external_spoken (extin : ℚ) (les : GroupStudies.Lesion) (task n i : Nat)
    (ht : task = COMPREHENSION ∨ task = REPETITION) (hi : i < GroupStudies.N_PHONEMEs) :
    GroupStudies.external_iP extin les task n i
        = (if i = GroupStudies.pK ∧ n ≤ 4 then extin else 0)
          + (if i = GroupStudies.pA ∧ 5 ≤ n ∧ n ≤ 9 then extin else 0)
          + (if i = GroupStudies.pT ∧ 10 ≤ n ∧ n ≤ 14 then extin else 0) := by
  have hn : ¬ task = NAMING := by rcases ht with h | h <;> rw [h] <;> decide
  unfold GroupStudies.external_iP
  simp only [GroupStudies.get_external_input_with, if_neg hn, if_pos ht,
    GroupStudies.set_input_to_zero, SEGMENT_DURATION, STEP_SIZE]
  rcases Nat.lt_or_ge n 15 with h | h
  · interval_cases n <;>
      simp [rd_add_at hi, rd_tabulate hi, GroupStudies.pK, GroupStudies.pA, GroupStudies.pT]
  · have h1 : ¬ (((25 * n : Nat) : Int) < 125) := by push_cast; omega
    have h2 : ¬ (((25 * n : Nat) : Int) < 2 * 125) := by push_cast; omega
    have h3 : ¬ (((25 * n : Nat) : Int) < 3 * 125) := by push_cast; omega
    rw [if_neg (fun hh => h3 hh.2), if_neg (fun hh => h2 hh.2), if_neg (fun hh => h1 hh.2),
      if_neg (by omega), if_neg (by omega), if_neg (by omega)]
    simp [rd_tabulate_zero]

theorem group_external_spoken_concepts (extin : ℚ) (les : GroupStudies.Lesion) (task n i : Nat)
    (ht : task = COMPREHENSION ∨ task = REPETITION) :
    GroupStudies.external_C extin les task n i = 0 := by
  have hn : ¬ task = NAMING := by rcases ht with h | h <;> rw [h] <;> decide
  unfold GroupStudies.external_C
  simp only [GroupStudies.get_external_input_with, if_neg hn, if_pos ht,
    GroupStudies.set_input_to_zero]
  exact rd_tabulate_zero _ i

theorem five_word_external_spoken (extin : ℚ) (task n i : Nat)
    (ht : task = COMPREHENSION ∨ task = REPETITION) (hi : i < FiveWord.N_PHONEMEs) :
    FiveWord.external_iP extin task n i
        = (if i = FiveWord.pK ∧ n ≤ 4 then extin else 0)
          + (if i = FiveWord.pE ∧ 5 ≤ n ∧ n ≤ 9 then extin else 0)
          + (if i = FiveWord.pT ∧ 10 ≤ n ∧ n ≤ 14 then extin else 0) := by
  have hn : ¬ task = NAMING := by rcases ht with h | h <;> rw [h] <;> decide
  unfold FiveWord.external_iP
  simp only [FiveWord.get_external_input_with, if_neg hn, if_pos ht,
    FiveWord.set_input_to_zero, SEGMENT_DURATION, STEP_SIZE]
  rcases Nat.lt_or_ge n 15 with h | h
  · interval_cases n <;>
      simp [rd_add_at hi, rd_tabulate hi, FiveWord.pK, FiveWord.pE, FiveWord.pT]
  · have h1 : ¬ (((25 * n : Nat) : Int) < 125) := by push_cast; omega
    have h2 : ¬ (((25 * n : Nat) : Int) < 2 * 125) := by push_cast; omega
    have h3 : ¬ (((25 * n : Nat) : Int) < 3 * 125) := by push_cast; omega
    rw [if_neg (fun hh => h3 hh.2), if_neg (fun hh => h2 hh.2), if_neg (fun hh => h1 hh.2),
      if_neg (by omega), if_neg (by omega), if_neg (by omega)]
    simp [rd_tabulate_zero]

theorem five_word_external_spoken_concepts (extin : ℚ) (task n i : Nat)
    (ht : task = COMPREHENSION ∨ task = REPETITION) :
    FiveWord.external_C extin task n i = 0 := by
  have hn : ¬ task = NAMING := by rcases ht with h | h <;> rw [h] <;> decide
  unfold FiveWord.external_C
  simp only [FiveWord.get_external_input_with, if_neg hn, if_pos ht,
    FiveWord.set_input_to_zero]
  exact rd_tabulate_zero _ i

/-- The numerators `spoken_drive_N` are the drive of a spoken word times `D ^ (n + 1)`. -/
theorem spoken_drive_cast (D p1 p2 p3 a : Nat) (v : ℚ) (h : (a : ℚ) = v * D) (n i : Nat) :
    ((spoken_drive_N D p1 p2 p3 a n i : Nat) : ℚ)
      = ((if i = p1 ∧ n ≤ 4 then v else 0) + (if i = p2 ∧ 5 ≤ n ∧ n ≤ 9 then v else 0)
          + (if i = p3 ∧ 10 ≤ n ∧ n ≤ 14 then v else 0)) * (D : ℚ) ^ (n + 1) := by
  unfold spoken_drive_N
  have e : ∀ c : Prop, ∀ [Decidable c], (if c then (a : ℚ) else 0)
      = (if c then v else 0) * D := by
    intro c _
    by_cases hc : c
    · rw [if_pos hc, if_pos hc, h]
    · rw [if_neg hc, if_neg hc]; simp
  push_cast
  rw [e, e, e]
  ring

/-- The group-studies network in a spoken-word task is its integer image over `imageD ^ n`. -/
theorem group_spoken_match {les : GroupStudies.Lesion} {x : Nat → Net} {task : Nat}
    (ht : task = COMPREHENSION ∨ task = REPETITION)
    (h : Traj GroupStudies.sizes GroupStudies.scaled_con (GroupStudies.rates les)
      (GroupStudies.external_C EXTIN les task) (GroupStudies.external_iP EXTIN les task) x)
    (hw : RatesMatch imageD GroupStudies.SEM_rate LEM_rate LEX_rate (FR * LEX_rate)
      (GroupStudies.rates les)
      (RatesN.of imageD GroupStudies.SEM_rate LEM_rate LEX_rate (FR * LEX_rate)
        (GroupStudies.rates les)))
    (n : Nat) :
    MatchNet GroupStudies.sizes ((imageD : ℚ) ^ n) (x n) (GroupStudies.spoken_image les n) := by
  refine traj_match (by decide) group_scaled_conn hw (fun n i _ => ?_) (fun n i hi => ?_) h n
  · rw [group_external_spoken_concepts EXTIN les task n i ht]
    simp
  · rw [spoken_drive_cast imageD _ _ _ _ _ extin_image n i,
      group_external_spoken EXTIN les task n i ht hi]

/-- The five-word network in a spoken-word task is its integer image over `imageD ^ n`. -/
theorem five_word_spoken_match {k : Rates} {x : Nat → Net} {task : Nat}
    (ht : task = COMPREHENSION ∨ task = REPETITION)
    (h : Traj FiveWord.sizes FiveWord.scaled_con k (FiveWord.external_C EXTIN task)
      (FiveWord.external_iP EXTIN task) x)
    (hw : RatesMatch imageD FiveWord.SEM_rate LEM_rate LEX_rate (FR * LEX_rate) k
      (RatesN.of imageD FiveWord.SEM_rate LEM_rate LEX_rate (FR * LEX_rate) k))
    (n : Nat) :
    MatchNet FiveWord.sizes ((imageD : ℚ) ^ n) (x n) (FiveWord.spoken_image k n) := by
  refine traj_match (by decide) five_word_scaled_conn hw (fun n i _ => ?_) (fun n i hi => ?_) h n
  · rw [five_word_external_spoken_concepts EXTIN task n i ht]
    simp
  · rw [spoken_drive_cast imageD _ _ _ _ _ extin_image n i,
      five_word_external_spoken EXTIN task n i ht hi]

/-- The number `series_sum_N D f n` over `D ^ n` is the sum of the fractions
`f k / D ^ (k + 1)`, `k < n`. -/
theorem series_sum_cast (D : Nat) (hD : 0 < D) (f : Nat → Nat) (n : Nat) :
    ((series_sum_N D f n : Nat) : ℚ) / (D : ℚ) ^ n
      = ∑ k in Finset.range n, (f k : ℚ) / (D : ℚ) ^ (k + 1) := by
  have hD0 : (D : ℚ) ≠ 0 := by exact_mod_cast hD.ne'
  induction n with
  | zero => simp [series_sum_N]
  | succ n ih =>
    rw [Finset.sum_range_succ, ← ih, series_sum_N]
    push_cast
    field_simp
    ring

/-- A series whose numerators sum to more than those of another series has the larger sum. -/
theorem series_lead (D : Nat) (hD : 0 < D) (a b : Nat → Nat) (A B : Nat → ℚ) (n : Nat)
    (hA : ∀ k, k < n → A k = (a k : ℚ) / (D : ℚ) ^ (k + 1))
    (hB : ∀ k, k < n → B k = (b k : ℚ) / (D : ℚ) ^ (k + 1))
    (h : series_sum_N D b n < series_sum_N D a n) :
    0 < ∑ k in Finset.range n, (A k - B k) := by
  have hp : (0 : ℚ) < (D : ℚ) ^ n := pow_pos (by exact_mod_cast hD) n
  have eA : ∑ k in Finset.range n, A k = ((series_sum_N D a n : Nat) : ℚ) / (D : ℚ) ^ n := by
    rw [series_sum_cast D hD a n]
    exact Finset.sum_congr rfl fun k hk => hA k (Finset.mem_range.mp hk)
  have eB : ∑ k in Finset.range n, B k = ((series_sum_N D b n : Nat) : ℚ) / (D : ℚ) ^ n := by
    rw [series_sum_cast D hD b n]
    exact Finset.sum_congr rfl fun k hk => hB k (Finset.mem_range.mp hk)
  rw [Finset.sum_sub_distrib, eA, eB, sub_pos]
  exact div_lt_div_of_pos_right (by exact_mod_cast h) hp

theorem mean_concepts (r : Recorded) (lv g t : Nat) :
    (compute_activation_results r).MEAN_ACT_CT lv g t
        - (compute_activation_results r).MEAN_ACT_CR lv g t
      = (∑ i in Finset.range N_STEPs, (r.ACT_CT lv i g t - r.ACT_CR lv i g t)) / (N_STEPs : ℚ) := by
  obtain ⟨h1, h2, _, _⟩ := mean_eq_series_mean r lv g t
  rw [h1, h2, series_mean, series_mean, Finset.sum_sub_distrib, sub_div]

theorem group_control_cell_net_any (con : Conn) (cfg cfg1 : Settings) (t lv lv1 n : Nat) :
    GroupStudies.cell_net con cfg NORMAL t lv n
      = GroupStudies.cell_net con cfg1 NORMAL t lv1 n := by
  simp only [GroupStudies.cell_net, group_set_aphasic_parameters_normal]

theorem cluster_control_cell_net_any (con : Conn) (cfg cfg1 : Settings) (t lv lv1 n : Nat) :
    Clusters.cell_net con cfg NORMAL t lv n = Clusters.cell_net con cfg1 NORMAL t lv1 n := by
  simp only [Clusters.cell_net, cluster_set_aphasic_parameters_normal]

theorem case_control_cell_net_cfg (con : Conn) (cfg cfg1 : Settings) (t lv lv1 n : Nat) :
    Cases.cell_net con cfg NORMAL t lv n = Cases.cell_net con cfg1 NORMAL t lv1 n := by
  simp only [Cases.cell_net, case_set_aphasic_parameters_normal]

set_option maxRecDepth 100000 in
theorem group_spoken_control_image :
    RatesMatch imageD GroupStudies.SEM_rate LEM_rate LEX_rate (FR * LEX_rate)
        (GroupStudies.rates (GroupStudies.set_aphasic_parameters (main_settings true false)
          NORMAL 99))
        (RatesN.of imageD GroupStudies.SEM_rate LEM_rate LEX_rate (FR * LEX_rate)
          (GroupStudies.rates (GroupStudies.set_aphasic_parameters (main_settings true false)
            NORMAL 99)))
      ∧ SpokenLead
        (GroupStudies.spoken_image
          (GroupStudies.set_aphasic_parameters (main_settings true false) NORMAL 99))
        GroupStudies.CAT GroupStudies.DOG GroupStudies.sKAT GroupStudies.sMAT := by
  decide!

set_option maxRecDepth 100000 in
theorem cluster_spoken_control_image :
    RatesMatch imageD FiveWord.SEM_rate LEM_rate LEX_rate (FR * LEX_rate)
        (Clusters.rates (Clusters.set_aphasic_parameters (main_settings true false)
          NORMAL 99))
        (RatesN.of imageD FiveWord.SEM_rate LEM_rate LEX_rate (FR * LEX_rate)
          (Clusters.rates (Clusters.set_aphasic_parameters (main_settings true false)
            NORMAL 99)))
      ∧ SpokenLead
        (FiveWord.spoken_image
          (Clusters.rates (Clusters.set_aphasic_parameters (main_settings true false)
            NORMAL 99)))
        FiveWord.CAT FiveWord.DOG FiveWord.CAT FiveWord.MAT := by
  decide!

/-- In a spoken-word task of the group-studies program the control has, summed over the
recorded steps, more activation on the target concept than on the foil concept and more on
the target syllable than on the foil syllable. -/
theorem group_spoken_control_lead (task : Nat) (ht : task = COMPREHENSION ∨ task = REPETITION) :
    0 < ∑ k in Finset.range N_STEPs,
        (rd (GroupStudies.cell_net GroupStudies.scaled_con (main_settings true false)
            NORMAL task 99 (k + 1)).C_node_act GroupStudies.CAT
          - rd (GroupStudies.cell_net GroupStudies.scaled_con (main_settings true false)
            NORMAL task 99 (k + 1)).C_node_act GroupStudies.DOG)
      ∧ 0 < ∑ k in Finset.range N_STEPs,
        (rd (GroupStudies.cell_net GroupStudies.scaled_con (main_settings true false)
            NORMAL task 99 (k + 1)).S_node_act GroupStudies.sKAT
          - rd (GroupStudies.cell_net GroupStudies.scaled_con (main_settings true false)
            NORMAL task 99 (k + 1)).S_node_act GroupStudies.sMAT) := by
  have tr := group_traj EXTIN GroupStudies.scaled_con (main_settings true false) NORMAL task 99
  obtain ⟨hw, hc, hs⟩ := group_spoken_control_image
  have hm := fun n => group_spoken_match ht tr hw n
  simp only [group_cell_net_with]
  refine ⟨series_lead imageD (by decide) _ _ _ _ N_STEPs (fun k _ => ?_) (fun k _ => ?_) hc,
    series_lead imageD (by decide) _ _ _ _ N_STEPs (fun k _ => ?_) (fun k _ => ?_) hs⟩
  · exact (hm (k + 1)).1 GroupStudies.CAT (by decide)
  · exact (hm (k + 1)).1 GroupStudies.DOG (by decide)
  · exact (hm (k + 1)).2.2.2.2.1 GroupStudies.sKAT (by decide)
  · exact (hm (k + 1)).2.2.2.2.1 GroupStudies.sMAT (by decide)

/-- The same for the control of the cluster program. -/
theorem cluster_spoken_control_lead (task : Nat)
    (ht : task = COMPREHENSION ∨ task = REPETITION) :
    0 < ∑ k in Finset.range N_STEPs,
        (rd (Clusters.cell_net FiveWord.scaled_con (main_settings true false)
            NORMAL task 99 (k + 1)).C_node_act FiveWord.CAT
          - rd (Clusters.cell_net FiveWord.scaled_con (main_settings true false)
            NORMAL task 99 (k + 1)).C_node_act FiveWord.DOG)
      ∧ 0 < ∑ k in Finset.range N_STEPs,
        (rd (Clusters.cell_net FiveWord.scaled_con (main_settings true false)
            NORMAL task 99 (k + 1)).S_node_act FiveWord.CAT
          - rd (Clusters.cell_net FiveWord.scaled_con (main_settings true false)
            NORMAL task 99 (k + 1)).S_node_act FiveWord.MAT) := by
  have tr := cluster_traj EXTIN FiveWord.scaled_con (main_settings true false) NORMAL task 99
  obtain ⟨hw, hc, hs⟩ := cluster_spoken_control_image
  have hm := fun n => five_word_spoken_match ht tr hw n
  simp only [cluster_cell_net_with]
  refine ⟨series_lead imageD (by decide) _ _ _ _ N_STEPs (fun k _ => ?_) (fun k _ => ?_) hc,
    series_lead imageD (by decide) _ _ _ _ N_STEPs (fun k _ => ?_) (fun k _ => ?_) hs⟩
  · exact (hm (k + 1)).1 FiveWord.CAT (by decide)
  · exact (hm (k + 1)).1 FiveWord.DOG (by decide)
  · exact (hm (k + 1)).2.2.2.2.1 FiveWord.CAT (by decide)
  · exact (hm (k + 1)).2.2.2.2.1 FiveWord.MAT (by decide)

/-- The same for the control of the single-case program. -/
theorem case_spoken_control_lead (task : Nat) (ht : task = COMPREHENSION ∨ task = REPETITION) :
    0 < ∑ k in Finset.range N_STEPs,
        (rd (Cases.cell_net FiveWord.scaled_con (main_settings true false)
            NORMAL task 99 (k + 1)).C_node_act FiveWord.CAT
          - rd (Cases.cell_net FiveWord.scaled_con (main_settings true false)
            NORMAL task 99 (k + 1)).C_node_act FiveWord.DOG)
      ∧ 0 < ∑ k in Finset.range N_STEPs,
        (rd (Cases.cell_net FiveWord.scaled_con (main_settings true false)
            NORMAL task 99 (k + 1)).S_node_act FiveWord.CAT
          - rd (Cases.cell_net FiveWord.scaled_con (main_settings true false)
            NORMAL task 99 (k + 1)).S_node_act FiveWord.MAT) := by
  have hs := fun n => cluster_case_control FiveWord.scaled_con (main_settings true false)
    task 99 n
  obtain ⟨l1, l2⟩ := cluster_spoken_control_lead task ht
  have e1 : ∀ k i, i < FiveWord.N_CONCEPTs →
      rd (Cases.cell_net FiveWord.scaled_con (main_settings true false)
          NORMAL task 99 k).C_node_act i
        = rd (Clusters.cell_net FiveWord.scaled_con (main_settings true false)
          NORMAL task 99 k).C_node_act i := by
    intro k i hi
    rw [(hs k).1 i hi, one_mul]
  have e2 : ∀ k i, i < FiveWord.N_SYLLABLEs →
      rd (Cases.cell_net FiveWord.scaled_con (main_settings true false)
          NORMAL task 99 k).S_node_act i
        = rd (Clusters.cell_net FiveWord.scaled_con (main_settings true false)
          NORMAL task 99 k).S_node_act i := by
    intro k i hi
    rw [(hs k).2.2.2.2.1 i hi, one_mul]
  constructor
  · simp only [e1 _ FiveWord.CAT (by decide), e1 _ FiveWord.DOG (by decide)]
    exact l1
  · simp only [e2 _ FiveWord.CAT (by decide), e2 _ FiveWord.MAT (by decide)]
    exact l2

theorem sum_pos_of_eq {n : Nat} {f g : Nat → ℚ} (h : ∀ k, k < n → f k = g k)
    (hg : 0 < ∑ k in Finset.range n, g k) : 0 < ∑ k in Finset.range n, f k := by
  rw [Finset.sum_congr rfl fun k hk => h k (Finset.mem_range.mp hk)]
  exact hg

/-- In the group-studies program, whatever the lesion switches and grids, the control
contrast that the fit stage divides by is positive for each task at every severity index. -/
theorem group_control_contrasts_pos (cfg : Settings) (m : Machine GroupStudies.Lesion)
    (lv task : Nat) (hlv : lv < N_lesion_values)
    (ht : task = NAMING ∨ task = COMPREHENSION ∨ task = REPETITION) :
    0 < task_contrast (compute_activation_results
      (GroupStudies.sweep GroupStudies.scaled_con cfg m).acts) NORMAL lv task := by
  have hN : (0 : ℚ) < (N_STEPs : ℚ) := by norm_num [N_STEPs]
  rcases ht with e | e | e <;> subst e
  · rw [task_contrast, if_pos rfl]
    apply contrast_pos
    · intro i hi
      obtain ⟨_, _, _, _, _, _, h7, h8⟩ := group_sweep_values GroupStudies.scaled_con
        cfg m lv NORMAL NAMING i hlv (by decide) (by decide) hi
      rw [h7, h8, group_control_cell_net_any _ cfg (main_settings true false) _ lv 99]
      exact (group_syllable_lead NORMAL (by decide)).1 i hi
    · obtain ⟨_, _, _, _, _, _, h7, h8⟩ := group_sweep_values GroupStudies.scaled_con
        cfg m lv NORMAL NAMING (N_STEPs - 1) hlv (by decide) (by decide) (by decide)
      rw [h7, h8, group_control_cell_net_any _ cfg (main_settings true false) _ lv 99]
      exact (group_syllable_lead NORMAL (by decide)).2
  · rw [task_contrast, if_neg (by decide), if_pos rfl, mean_concepts]
    refine div_pos (sum_pos_of_eq (fun k hk => ?_)
      (group_spoken_control_lead COMPREHENSION (Or.inl rfl)).1) hN
    obtain ⟨_, _, h3, h4, _⟩ := group_sweep_values GroupStudies.scaled_con
      cfg m lv NORMAL COMPREHENSION k hlv (by decide) (by decide) hk
    rw [h3, h4, group_control_cell_net_any _ cfg (main_settings true false) _ lv 99]
  · rw [task_contrast, if_neg (by decide), if_neg (by decide), mean_syllables]
    refine div_pos (sum_pos_of_eq (fun k hk => ?_)
      (group_spoken_control_lead REPETITION (Or.inr rfl)).2) hN
    obtain ⟨_, _, _, _, _, _, h7, h8⟩ := group_sweep_values GroupStudies.scaled_con
      cfg m lv NORMAL REPETITION k hlv (by decide) (by decide) hk
    rw [h7, h8, group_control_cell_net_any _ cfg (main_settings true false) _ lv 99]

/-- The same in the cluster program. -/
theorem cluster_control_contrasts_pos (cfg : Settings) (m : Machine Clusters.Lesion)
    (lv task : Nat) (hlv : lv < N_lesion_values)
    (ht : task = NAMING ∨ task = COMPREHENSION ∨ task = REPETITION) :
    0 < task_contrast (compute_activation_results
      (Clusters.sweep FiveWord.scaled_con cfg m).acts) NORMAL lv task := by
  have hN : (0 : ℚ) < (N_STEPs : ℚ) := by norm_num [N_STEPs]
  rcases ht with e | e | e <;> subst e
  · rw [task_contrast, if_pos rfl]
    apply contrast_pos
    · intro i hi
      obtain ⟨_, _, _, _, _, _, h7, h8⟩ := cluster_sweep_values FiveWord.scaled_con
        cfg m lv NORMAL NAMING i hlv (by decide) (by decide) hi
      rw [h7, h8, cluster_control_cell_net_any _ cfg (main_settings true false) _ lv 99]
      exact (cluster_syllable_lead NORMAL (by decide)).1 i hi
    · obtain ⟨_, _, _, _, _, _, h7, h8⟩ := cluster_sweep_values FiveWord.scaled_con
        cfg m lv NORMAL NAMING (N_STEPs - 1) hlv (by decide) (by decide) (by decide)
      rw [h7, h8, cluster_control_cell_net_any _ cfg (main_settings true false) _ lv 99]
      exact (cluster_syllable_lead NORMAL (by decide)).2
  · rw [task_contrast, if_neg (by decide), if_pos rfl, mean_concepts]
    refine div_pos (sum_pos_of_eq (fun k hk => ?_)
      (cluster_spoken_control_lead COMPREHENSION (Or.inl rfl)).1) hN
    obtain ⟨_, _, h3, h4, _⟩ := cluster_sweep_values FiveWord.scaled_con
      cfg m lv NORMAL COMPREHENSION k hlv (by decide) (by decide) hk
    rw [h3, h4, cluster_control_cell_net_any _ cfg (main_settings true false) _ lv 99]
  · rw [task_contrast, if_neg (by decide), if_neg (by decide), mean_syllables]
    refine div_pos (sum_pos_of_eq (fun k hk => ?_)
      (cluster_spoken_control_lead REPETITION (Or.inr rfl)).2) hN
    obtain ⟨_, _, _, _, _, _, h7, h8⟩ := cluster_sweep_values FiveWord.scaled_con
      cfg m lv NORMAL REPETITION k hlv (by decide) (by decide) hk
    rw [h7, h8, cluster_control_cell_net_any _ cfg (main_settings true false) _ lv 99]

/-- The same in the single-case program. -/
theorem case_control_contrasts_pos (cfg : Settings) (m : Machine Cases.Lesion)
    (lv task : Nat) (hlv : lv < N_lesion_values)
    (ht : task = NAMING ∨ task = COMPREHENSION ∨ task = REPETITION) :
    0 < task_contrast (compute_activation_results
      (Cases.sweep FiveWord.scaled_con cfg m).acts) NORMAL lv task := by
  have hN : (0 : ℚ) < (N_STEPs : ℚ) := by norm_num [N_STEPs]
  rcases ht with e | e | e <;> subst e
  · rw [task_contrast, if_pos rfl]
    apply contrast_pos
    · intro i hi
      obtain ⟨_, _, _, _, _, _, h7, h8⟩ := case_sweep_values FiveWord.scaled_con
        cfg m lv NORMAL NAMING i hlv (by decide) (by decide) hi
      rw [h7, h8, case_control_cell_net_cfg _ cfg (main_settings true false) _ lv 99]
      exact (case_syllable_lead NORMAL).1 i hi
    · obtain ⟨_, _, _, _, _, _, h7, h8⟩ := case_sweep_values FiveWord.scaled_con
        cfg m lv NORMAL NAMING (N_STEPs - 1) hlv (by decide) (by decide) (by decide)
      rw [h7, h8, case_control_cell_net_cfg _ cfg (main_settings true false) _ lv 99]
      exact (case_syllable_lead NORMAL).2
  · rw [task_contrast, if_neg (by decide), if_pos rfl, mean_concepts]
    refine div_pos (sum_pos_of_eq (fun k hk => ?_)
      (case_spoken_control_lead COMPREHENSION (Or.inl rfl)).1) hN
    obtain ⟨_, _, h3, h4, _⟩ := case_sweep_values FiveWord.scaled_con
      cfg m lv NORMAL COMPREHENSION k hlv (by decide) (by decide) hk
    rw [h3, h4, case_control_cell_net_cfg _ cfg (main_settings true false) _ lv 99]
  · rw [task_contrast, if_neg (by decide), if_neg (by decide), mean_syllables]
    refine div_pos (sum_pos_of_eq (fun k hk => ?_)
      (case_spoken_control_lead REPETITION (Or.inr rfl)).2) hN
    obtain ⟨_, _, _, _, _, _, h7, h8⟩ := case_sweep_values FiveWord.scaled_con
      cfg m lv NORMAL REPETITION k hlv (by decide) (by decide) hk
    rw [h7, h8, case_control_cell_net_cfg _ cfg (main_settings true false) _ lv 99]

/-! ## No detection of a zero control contrast (C15) -/

theorem zero_contrast_first_score :
    (fit_body_double (main_settings true false) zero_contrast_means floor_reference 1 0
        initial_fit_double).SIM_DATA 1 NAMING = Dbl.nan := by
  rw [(fit_body_double_sim _ _ _ _ _ _).1]
  decide!

theorem zero_contrast_first_error :
    rd_double (fit_loop_double (main_settings true false) zero_contrast_means floor_reference 1
        initial_fit_double).GOODNESS_OF_FIT 0 = Dbl.nan := by
  rw [fit_loop_double_gof _ _ _ _ _ 0 (by decide)]
  decide!

theorem zero_contrast_later_error :
    rd_double (fit_loop_double (main_settings true false) zero_contrast_means floor_reference 1
        initial_fit_double).GOODNESS_OF_FIT 1 = Dbl.fin 100 := by
  rw [fit_loop_double_gof _ _ _ _ _ 1 (by decide)]
  decide!

/-- C15, counterexample.  With means in which the control group's target-minus-foil contrast
is zero at severity index `0` (for all three tasks; it is `1` at every other index), and a
patient group at floor, nothing in the fit stage detects the zero contrast: the loop body at
index `0` assigns `SIM_DATA[1][NAMING]` the quotient `0 / 0 * 100.0`, a NaN, and
`GOODNESS_OF_FIT[0]` becomes a NaN; the index takes part in the scan, where
`GOODNESS_OF_FIT[0] > GOODNESS_OF_FIT[i]` is false for every `i`, so that the scan returns
index `0` although index `1` has the finite error `100`, and the lines printed report the
weight value `WEIGHT_value[0] = 0.00` as best fit with a NaN as its error. -/
theorem zero_contrast_counterexample :
    task_contrast zero_contrast_means NORMAL 0 NAMING = 0
      ∧ task_contrast zero_contrast_means NORMAL 0 COMPREHENSION = 0
      ∧ task_contrast zero_contrast_means NORMAL 0 REPETITION = 0
      ∧ (fit_body_double (main_settings true false) zero_contrast_means floor_reference 1 0
          initial_fit_double).SIM_DATA 1 NAMING = Dbl.nan
      ∧ rd_double (fit_loop_double (main_settings true false) zero_contrast_means
          floor_reference 1 initial_fit_double).GOODNESS_OF_FIT 0 = Dbl.nan
      ∧ rd_double (fit_loop_double (main_settings true false) zero_contrast_means
          floor_reference 1 initial_fit_double).GOODNESS_OF_FIT 1 = Dbl.fin 100
      ∧ best_fit_scan_double (fit_loop_double (main_settings true false) zero_contrast_means
          floor_reference 1 initial_fit_double).GOODNESS_OF_FIT = 0
      ∧ (fit_group_double (main_settings true false) zero_contrast_means floor_reference 1
          initial_fit_double).2.best_fit_weight_value = some 0
      ∧ (fit_group_double (main_settings true false) zero_contrast_means floor_reference 1
          initial_fit_double).2.MAE = Dbl.nan := by
  have hs := scan_double_first_nan _ zero_contrast_first_error
  refine ⟨by decide!, by decide!, by decide!, zero_contrast_first_score,
    zero_contrast_first_error, zero_contrast_later_error, hs, ?_, ?_⟩
  · show (report_double _ _ _ _ _).best_fit_weight_value = some 0
    rw [hs]
    show some (rd (main_settings true false).WEIGHT_value 0) = some 0
    rw [rd_weight_grid false 0 (by decide)]
    norm_num
  · exact (fit_group_double_error _ _ _ _ _).trans ((congrArg (rd_double (fit_loop_double
      (main_settings true false) zero_contrast_means floor_reference 1
      initial_fit_double).GOODNESS_OF_FIT) hs).trans zero_contrast_first_error)

/-- C15, as the code has it.  The fit stage has no detection of a zero control contrast; on
C doubles, for every means, reference scores, group and severity index `lv`:
the loop body assigns `SIM_DATA[group][task]`, for each of the three tasks, the quotient of
the group's contrast by the control contrast times `100.0`, which at a zero control contrast
is `+inf`, `-inf` or a NaN as the group's contrast is positive, negative or zero;
`GOODNESS_OF_FIT[lv]` is assigned the mean absolute error of these scores, which is `+inf`
or a NaN if the control contrast of one of the tasks is zero at `lv`;
the scan runs over all indices with the plain comparison `>`: an index `lv > 0` with a zero
control contrast is never returned, and a NaN in `GOODNESS_OF_FIT[0]` (as from a quotient
`0 / 0` at index `0`) makes it return index `0`, reported with a NaN as its error;
where no control contrast is zero the scores and the error are the finite values of exact
arithmetic, and if none is zero at any index the scan returns the index of `best_fit_scan`.
The case does not arise in a run: in each of the three programs, whatever the lesion switches
and grids, the control contrast of each task is positive at every severity index, so that on
the means of a sweep the fit stage on C doubles is the fit stage of exact arithmetic. -/
theorem no_zero_contrast_detection (cfg : Settings) (mn : Means) (REAL_DATA : List (List ℚ))
    (group : Nat) (f : FitDouble) (lv : Nat) (hlv : lv < N_lesion_values) :
    (∀ task, task = NAMING ∨ task = COMPREHENSION ∨ task = REPETITION →
        (fit_body_double cfg mn REAL_DATA group lv f).SIM_DATA group task
            = Dbl.fin (task_contrast mn group lv task)
              / Dbl.fin (task_contrast mn NORMAL lv task) * Dbl.fin 100
          ∧ (task_contrast mn NORMAL lv task = 0 →
            (fit_body_double cfg mn REAL_DATA group lv f).SIM_DATA group task
              = if 0 < task_contrast mn group lv task then Dbl.pinf
                else if task_contrast mn group lv task < 0 then Dbl.ninf else Dbl.nan))
      ∧ rd_double (fit_loop_double cfg mn REAL_DATA group f).GOODNESS_OF_FIT lv
        = (Dbl.fabs (Dbl.fin (rd2 REAL_DATA group NAMING)
              - (fit_body_double cfg mn REAL_DATA group lv f).SIM_DATA group NAMING)
            + Dbl.fabs (Dbl.fin (rd2 REAL_DATA group COMPREHENSION)
              - (fit_body_double cfg mn REAL_DATA group lv f).SIM_DATA group COMPREHENSION)
            + Dbl.fabs (Dbl.fin (rd2 REAL_DATA group REPETITION)
              - (fit_body_double cfg mn REAL_DATA group lv f).SIM_DATA group REPETITION))
          / Dbl.fin 3
      ∧ (∀ task, task = NAMING ∨ task = COMPREHENSION ∨ task = REPETITION →
          task_contrast mn NORMAL lv task = 0 →
          (rd_double (fit_loop_double cfg mn REAL_DATA group f).GOODNESS_OF_FIT lv = Dbl.pinf
              ∨ rd_double (fit_loop_double cfg mn REAL_DATA group f).GOODNESS_OF_FIT lv
                = Dbl.nan)
            ∧ (0 < lv →
              best_fit_scan_double (fit_loop_double cfg mn REAL_DATA group f).GOODNESS_OF_FIT
                ≠ lv))
      ∧ (∀ task, task = NAMING ∨ task = COMPREHENSION ∨ task = REPETITION →
          task_contrast mn NORMAL 0 task = 0 → task_contrast mn group 0 task = 0 →
          rd_double (fit_loop_double cfg mn REAL_DATA group f).GOODNESS_OF_FIT 0 = Dbl.nan
            ∧ best_fit_scan_double (fit_loop_double cfg mn REAL_DATA group f).GOODNESS_OF_FIT
              = 0
            ∧ (fit_group_double cfg mn REAL_DATA group f).2.MAE = Dbl.nan)
      ∧ ((∀ task, task = NAMING ∨ task = COMPREHENSION ∨ task = REPETITION →
            task_contrast mn NORMAL lv task ≠ 0) →
          ∀ f0 : FitState,
            (∀ task, task = NAMING ∨ task = COMPREHENSION ∨ task = REPETITION →
              (fit_body_double cfg mn REAL_DATA group lv f).SIM_DATA group task
                = Dbl.fin ((fit_body cfg mn REAL_DATA group lv f0).SIM_DATA group task))
            ∧ rd_double (fit_loop_double cfg mn REAL_DATA group f).GOODNESS_OF_FIT lv
              = Dbl.fin (rd (fit_loop cfg mn REAL_DATA group f0).GOODNESS_OF_FIT lv))
      ∧ ((∀ i task, i < N_lesion_values →
            task = NAMING ∨ task = COMPREHENSION ∨ task = REPETITION →
            task_contrast mn NORMAL i task ≠ 0) →
          ∀ f0 : FitState,
            best_fit_scan_double (fit_loop_double cfg mn REAL_DATA group f).GOODNESS_OF_FIT
              = best_fit_scan (fit_loop cfg mn REAL_DATA group f0).GOODNESS_OF_FIT)
      ∧ (∀ (m : Machine GroupStudies.Lesion) (f0 : FitState),
          (∀ task, task = NAMING ∨ task = COMPREHENSION ∨ task = REPETITION →
            0 < task_contrast (compute_activation_results
              (GroupStudies.sweep GroupStudies.scaled_con cfg m).acts) NORMAL lv task)
          ∧ rd_double (fit_loop_double cfg (compute_activation_results
                (GroupStudies.sweep GroupStudies.scaled_con cfg m).acts)
                REAL_DATA group f).GOODNESS_OF_FIT lv
            = Dbl.fin (rd (fit_loop cfg (compute_activation_results
                (GroupStudies.sweep GroupStudies.scaled_con cfg m).acts)
                REAL_DATA group f0).GOODNESS_OF_FIT lv)
          ∧ best_fit_scan_double (fit_loop_double cfg (compute_activation_results
                (GroupStudies.sweep GroupStudies.scaled_con cfg m).acts)
                REAL_DATA group f).GOODNESS_OF_FIT
            = best_fit_scan (fit_loop cfg (compute_activation_results
                (GroupStudies.sweep GroupStudies.scaled_con cfg m).acts)
                REAL_DATA group f0).GOODNESS_OF_FIT)
      ∧ (∀ (m : Machine Clusters.Lesion) (f0 : FitState),
          (∀ task, task = NAMING ∨ task = COMPREHENSION ∨ task = REPETITION →
            0 < task_contrast (compute_activation_results
              (Clusters.sweep FiveWord.scaled_con cfg m).acts) NORMAL lv task)
          ∧ rd_double (fit_loop_double cfg (compute_activation_results
                (Clusters.sweep FiveWord.scaled_con cfg m).acts)
                REAL_DATA group f).GOODNESS_OF_FIT lv
            = Dbl.fin (rd (fit_loop cfg (compute_activation_results
                (Clusters.sweep FiveWord.scaled_con cfg m).acts)
                REAL_DATA group f0).GOODNESS_OF_FIT lv)
          ∧ best_fit_scan_double (fit_loop_double cfg (compute_activation_results
                (Clusters.sweep FiveWord.scaled_con cfg m).acts)
                REAL_DATA group f).GOODNESS_OF_FIT
            = best_fit_scan (fit_loop cfg (compute_activation_results
                (Clusters.sweep FiveWord.scaled_con cfg m).acts)
                REAL_DATA group f0).GOODNESS_OF_FIT)
      ∧ (∀ (m : Machine Cases.Lesion) (f0 : FitState),
          (∀ task, task = NAMING ∨ task = COMPREHENSION ∨ task = REPETITION →
            0 < task_contrast (compute_activation_results
              (Cases.sweep FiveWord.scaled_con cfg m).acts) NORMAL lv task)
          ∧ rd_double (fit_loop_double cfg (compute_activation_results
                (Cases.sweep FiveWord.scaled_con cfg m).acts)
                REAL_DATA group f).GOODNESS_OF_FIT lv
            = Dbl.fin (rd (fit_loop cfg (compute_activation_results
                (Cases.sweep FiveWord.scaled_con cfg m).acts)
                REAL_DATA group f0).GOODNESS_OF_FIT lv)
          ∧ best_fit_scan_double (fit_loop_double cfg (compute_activation_results
                (Cases.sweep FiveWord.scaled_con cfg m).acts)
                REAL_DATA group f).GOODNESS_OF_FIT
            = best_fit_scan (fit_loop cfg (compute_activation_results
                (Cases.sweep FiveWord.scaled_con cfg m).acts)
                REAL_DATA group f0).GOODNESS_OF_FIT) := by
  obtain ⟨s1, s2, s3⟩ := fit_body_double_sim cfg mn REAL_DATA group lv f
  have hsim : ∀ task, task = NAMING ∨ task = COMPREHENSION ∨ task = REPETITION →
      (fit_body_double cfg mn REAL_DATA group lv f).SIM_DATA group task
        = sim_score_double mn group lv task := by
    intro task ht
    rcases ht with e | e | e <;> subst e <;> assumption
  have hq : ∀ n d : ℚ, Dbl.fin n / Dbl.fin d * Dbl.fin 100
      = if d ≠ 0 then Dbl.fin (n / d * 100)
        else if 0 < n then Dbl.pinf else if n < 0 then Dbl.ninf else Dbl.nan :=
    double_quotient
  refine ⟨fun task ht => ⟨?_, fun h0 => ?_⟩, ?_, fun task ht h0 => ⟨?_, fun hpos => ?_⟩,
    fun task ht h0 hg => ?_, fun hne f0 => ⟨fun task ht => ?_, ?_⟩, fun hne f0 => ?_,
    fun m f0 => ⟨fun task ht => ?_, ?_, ?_⟩, fun m f0 => ⟨fun task ht => ?_, ?_, ?_⟩,
    fun m f0 => ⟨fun task ht => ?_, ?_, ?_⟩⟩
  · rw [hsim task ht, sim_score_double_eq, hq]
  · rw [hsim task ht, sim_score_double_eq, if_neg (not_not.mpr h0)]
  · rw [fit_loop_double_gof cfg mn REAL_DATA group f lv hlv, s1, s2, s3, mean_abs_error_double]
  · rw [fit_loop_double_gof cfg mn REAL_DATA group f lv hlv]
    exact mean_abs_error_double_not_finite mn REAL_DATA group lv task ht h0
  · apply scan_double_not_selected _ lv hpos
    rw [fit_loop_double_gof cfg mn REAL_DATA group f lv hlv]
    exact mean_abs_error_double_not_finite mn REAL_DATA group lv task ht h0
  · have e0 : rd_double (fit_loop_double cfg mn REAL_DATA group f).GOODNESS_OF_FIT 0
        = Dbl.nan := by
      rw [fit_loop_double_gof cfg mn REAL_DATA group f 0 (by decide)]
      exact mean_abs_error_double_nan mn REAL_DATA group 0 task ht h0 hg
    have es := scan_double_first_nan _ e0
    exact ⟨e0, es, (fit_group_double_error _ _ _ _ _).trans ((congrArg
      (rd_double (fit_loop_double cfg mn REAL_DATA group f).GOODNESS_OF_FIT) es).trans e0)⟩
  · obtain ⟨t1, t2, t3⟩ := fit_body_sim cfg mn REAL_DATA group lv f0
    have ht0 : (fit_body cfg mn REAL_DATA group lv f0).SIM_DATA group task
        = sim_score mn group lv task := by
      rcases ht with e | e | e <;> subst e <;> assumption
    rw [hsim task ht, ht0, sim_score_double_finite mn group lv task (hne task ht)]
  · rw [fit_loop_double_gof cfg mn REAL_DATA group f lv hlv,
      fit_loop_gof cfg mn REAL_DATA group f0 lv hlv,
      mean_abs_error_double_finite mn REAL_DATA group lv hne]
  · exact (fit_double_finite cfg mn REAL_DATA group f f0 hne).2
  · exact group_control_contrasts_pos cfg m lv task hlv ht
  · exact (fit_double_finite cfg _ REAL_DATA group f f0 fun i task hi ht =>
      (group_control_contrasts_pos cfg m i task hi ht).ne').1 lv hlv
  · exact (fit_double_finite cfg _ REAL_DATA group f f0 fun i task hi ht =>
      (group_control_contrasts_pos cfg m i task hi ht).ne').2
  · exact cluster_control_contrasts_pos cfg m lv task hlv ht
  · exact (fit_double_finite cfg _ REAL_DATA group f f0 fun i task hi ht =>
      (cluster_control_contrasts_pos cfg m i task hi ht).ne').1 lv hlv
  · exact (fit_double_finite cfg _ REAL_DATA group f f0 fun i task hi ht =>
      (cluster_control_contrasts_pos cfg m i task hi ht).ne').2
  · exact case_control_contrasts_pos cfg m lv task hlv ht
  · exact (fit_double_finite cfg _ REAL_DATA group f f0 fun i task hi ht =>
      (case_control_contrasts_pos cfg m i task hi ht).ne').1 lv hlv
  · exact (fit_double_finite cfg _ REAL_DATA group f f0 fun i task hi ht =>
      (case_control_contrasts_pos cfg m i task hi ht).ne').2

/-- C15 as the code has it, at the means with a zero control contrast at index `0`, for the
naming task of group `1`: the score assigned at index `0` is a NaN, `GOODNESS_OF_FIT[0]` is
a NaN, and the scan returns index `0`. -/
theorem no_zero_contrast_detection_witness :
    (task_contrast zero_contrast_means NORMAL 0 NAMING = 0 →
        (fit_body_double (main_settings true false) zero_contrast_means floor_reference 1 0
            initial_fit_double).SIM_DATA 1 NAMING
          = if 0 < task_contrast zero_contrast_means 1 0 NAMING then Dbl.pinf
            else if task_contrast zero_contrast_means 1 0 NAMING < 0 then Dbl.ninf
            else Dbl.nan)
      ∧ rd_double (fit_loop_double (main_settings true false) zero_contrast_means
          floor_reference 1 initial_fit_double).GOODNESS_OF_FIT 0 = Dbl.nan
      ∧ best_fit_scan_double (fit_loop_double (main_settings true false) zero_contrast_means
          floor_reference 1 initial_fit_double).GOODNESS_OF_FIT = 0 :=
  ⟨((no_zero_contrast_detection (main_settings true false) zero_contrast_means floor_reference
      1 initial_fit_double 0 (by decide)).1 NAMING (Or.inl rfl)).2,
    ((no_zero_contrast_detection (main_settings true false) zero_contrast_means floor_reference
      1 initial_fit_double 0 (by decide)).2.2.2.1 NAMING (Or.inl rfl) (by decide!)
      (by decide!)).1,
    ((no_zero_contrast_detection (main_settings true false) zero_contrast_means floor_reference
      1 initial_fit_double 0 (by decide)).2.2.2.1 NAMING (Or.inl rfl) (by decide!)
      (by decide!)).2.1⟩

end Roelofs
